import Mathlib

/-!
# pcsx4all SDL port (`src/port/sdl/port.cpp`): configuration store and start-up

A shallow embedding of `config_load`, `config_save` and of the command-line
stage of `SDL_main`, followed by the properties proved about them.

Conventions of the embedding.

* A C string or file content is a list of byte values (`Bytes`); `cs "Xa"`
  is the byte list of a literal.
* The body of every `#ifdef` is kept and guarded by a field of `Build`.
* Constants and array sizes that come from headers outside this file
  (`CONFIG_VERSION`, `SPU_UPDATE_FREQ_MIN`, `MAXPATHLEN`,
  `sizeof(Config.LastDir)`, ...) are fields of `Consts`.
* Library calls (`fgets`, `strchr`, `sscanf`, `atoi`, `fprintf`) are modelled
  after the C standard; a conversion whose result does not fit `int` is
  reduced modulo `2^32` (`toInt32`).
-/

namespace Pcsx4all

/-! ## Bytes and C library routines -/

/-- A C string or the content of a file: a list of byte values. -/
abbrev Bytes := List Nat

/-- The bytes of a string literal. -/
def cs (s : String) : Bytes := s.toList.map Char.toNat

/-- The content of a character buffer read as a C string: everything before
the first NUL byte. -/
def cstr : Bytes → Bytes
  | [] => []
  | c :: r => if c = 0 then [] else c :: cstr r

/-- The chunks returned by successive calls `fgets(line, size, f)` until it
returns `NULL`: every chunk ends after a newline, after `size - 1` bytes, or at
the end of the file, whichever comes first. `cur` holds the bytes already read
for the current chunk, last one first. -/
def fgetsAux (size : Nat) : Bytes → Bytes → List Bytes
  | [], cur => if cur = [] then [] else [cur.reverse]
  | c :: rest, cur =>
    if c = 10 ∨ cur.length + 1 = size - 1 then
      (c :: cur).reverse :: fgetsAux size rest []
    else fgetsAux size rest (c :: cur)

/-- All chunks `fgets(line, size, f)` yields on a file with the given content. -/
def fgetsLines (size : Nat) (text : Bytes) : List Bytes := fgetsAux size text []

/-- The effect of `arg = strchr(line, ' '); *arg = '\0'; arg++` on a line
buffer: `none` when the C string in the buffer has no space, otherwise the C
strings `line` (before the first space) and `arg` (after it). -/
def splitLine : Bytes → Option (Bytes × Bytes)
  | [] => none
  | c :: r =>
    if c = 0 then none
    else if c = 32 then some ([], cstr r)
    else match splitLine r with
      | none => none
      | some (k, a) => some (c :: k, a)

/-- The predicate `isspace` of the C locale. -/
def isspace (c : Nat) : Bool := c == 32 || (9 ≤ c && c ≤ 13)

/-- The predicate `isdigit`. -/
def isdigit (c : Nat) : Bool := 48 ≤ c && c ≤ 57

/-- Drops leading white space, as every numeric conversion does. -/
def skipSpace : Bytes → Bytes
  | [] => []
  | c :: r => if isspace c then skipSpace r else c :: r

/-- The value of the longest prefix of decimal digits, continuing from `acc`. -/
def digitsVal : Nat → Bytes → Nat
  | acc, [] => acc
  | acc, c :: r => if isdigit c then digitsVal (acc * 10 + (c - 48)) r else acc

/-- An unsigned decimal number at the start of a string: at least one digit. -/
def scanUnsigned (s : Bytes) : Option Nat :=
  match s with
  | [] => none
  | d :: _ => if isdigit d then some (digitsVal 0 s) else none

/-- The decimal integer at the start of a string (white space, an optional
sign, at least one digit); `none` when there is none. -/
def scanDec (s : Bytes) : Option Int :=
  match skipSpace s with
  | [] => none
  | c :: r =>
    if c = 45 then (scanUnsigned r).map (fun (n : Nat) => -(n : Int))
    else if c = 43 then (scanUnsigned r).map (fun (n : Nat) => (n : Int))
    else (scanUnsigned (c :: r)).map (fun (n : Nat) => (n : Int))

/-- Reduction of an integer to the range of a 32-bit `int`. -/
def toInt32 (v : Int) : Int := (v + 2147483648) % 4294967296 - 2147483648

/-- The call `sscanf(arg, "%d", &value)`: the new content of `value`, which
keeps its previous content when the conversion fails. -/
def sscanf_d (arg : Bytes) (value : Int) : Int :=
  match scanDec arg with
  | some v => toInt32 v
  | none => value

/-- The call `atoi(s)`. -/
def atoi (s : Bytes) : Int :=
  match scanDec s with
  | some v => toInt32 v
  | none => 0

/-- The value of a hexadecimal digit. -/
def hexVal (c : Nat) : Option Nat :=
  if 48 ≤ c ∧ c ≤ 57 then some (c - 48)
  else if 97 ≤ c ∧ c ≤ 102 then some (c - 87)
  else if 65 ≤ c ∧ c ≤ 70 then some (c - 55)
  else none

/-- The value of the longest prefix of hexadecimal digits, continuing from
`acc`. -/
def hexDigitsVal : Nat → Bytes → Nat
  | acc, [] => acc
  | acc, c :: r =>
    match hexVal c with
    | some d => hexDigitsVal (acc * 16 + d) r
    | none => acc

/-- Whether a field starts with the prefix `0x` or `0X`. -/
def hasHexPrefix (s : Bytes) : Bool :=
  match s with
  | a :: x :: _ => a == 48 && (x == 120 || x == 88)
  | _ => false

/-- The hexadecimal number at the start of a field (after the optional sign):
an optional `0x` prefix and at least one digit. -/
def scanHexBody (s : Bytes) : Option Nat :=
  let t := if hasHexPrefix s then s.drop 2 else s
  match t with
  | [] => none
  | d :: _ => if (hexVal d).isSome then some (hexDigitsVal 0 t) else none

/-- The conversion `%03x`: white space is skipped, then at most three bytes
are read as a hexadecimal number with an optional sign. -/
def scanHex3 (s : Bytes) : Option Int :=
  match (skipSpace s).take 3 with
  | [] => none
  | c :: r =>
    if c = 45 then (scanHexBody r).map (fun (n : Nat) => -(n : Int))
    else if c = 43 then (scanHexBody r).map (fun (n : Nat) => (n : Int))
    else (scanHexBody (c :: r)).map (fun (n : Nat) => (n : Int))

/-- The call `sscanf(arg, "%03x", &value)`. -/
def sscanf_03x (arg : Bytes) (value : Int) : Int :=
  match scanHex3 arg with
  | some v => toInt32 v
  | none => value

/-- Decimal digits of a number, most significant first, in front of `acc`. -/
def fmtNatAux : Nat → Nat → Bytes → Bytes
  | 0, _, acc => acc
  | fuel + 1, n, acc =>
    if n < 10 then (48 + n) :: acc
    else fmtNatAux fuel (n / 10) ((48 + n % 10) :: acc)

/-- The output of `%u`. -/
def fmtNat (n : Nat) : Bytes := fmtNatAux (n + 1) n []

/-- The output of `%d`. -/
def fmtD (v : Int) : Bytes :=
  if v < 0 then 45 :: fmtNat v.natAbs else fmtNat v.natAbs

/-- A lower-case hexadecimal digit. -/
def hexDigit (d : Nat) : Nat := if d < 10 then 48 + d else 87 + d

/-- Hexadecimal digits of a number, most significant first, in front of `acc`. -/
def fmtHexAux : Nat → Nat → Bytes → Bytes
  | 0, _, acc => acc
  | fuel + 1, n, acc =>
    if n < 16 then hexDigit n :: acc
    else fmtHexAux fuel (n / 16) (hexDigit (n % 16) :: acc)

/-- The output of `%03x`: at least three digits, padded with zeros. -/
def fmtX03 (n : Nat) : Bytes :=
  let ds := fmtHexAux (n + 1) n []
  List.replicate (3 - ds.length) 48 ++ ds

/-! ## Data model -/

/-- Compile-time switches tested with `#ifdef` in `port.cpp`. -/
structure Build where
  SPU_PCSXREARMED : Bool
  PSXREC : Bool
  GPU_UNAI : Bool
  USE_GPULIB : Bool
  SPU_NULL : Bool
  GCW_ZERO : Bool
  SDL_TRIPLEBUF : Bool

/-- Constants and array sizes that `port.cpp` takes from headers of the
emulator core. -/
structure Consts where
  CONFIG_VERSION : Int
  SPU_UPDATE_FREQ_MIN : Int
  SPU_UPDATE_FREQ_MAX : Int
  SPU_UPDATE_FREQ_DEFAULT : Int
  FORCED_XA_UPDATES_MIN : Int
  FORCED_XA_UPDATES_MAX : Int
  FORCED_XA_UPDATES_DEFAULT : Int
  FRAMESKIP_MIN : Int
  FRAMESKIP_MAX : Int
  FRAMESKIP_OFF : Int
  MAXPATHLEN : Nat
  sizeofLastDir : Nat
  sizeofBiosDir : Nat
  sizeofBios : Nat

/-- Modelled from the spec: the record `Config` of the emulator core, whose
declaration (`psxcommon.h`) is outside this file. The spec describes it as a
flat record of settings with booleans and enums encoded as integers, small
bounded integers and fixed-capacity path strings; a string field holds the C
string stored in its buffer. -/
structure PcsxConfig where
  Mcd1 : Bytes
  Mcd2 : Bytes
  PatchesDir : Bytes
  BiosDir : Bytes
  Bios : Bytes
  LastDir : Bytes
  Xa : Int
  Mdec : Int
  PsxAuto : Int
  PsxType : Int
  Cdda : Int
  HLE : Int
  Cpu : Int
  SlowBoot : Int
  RCntFix : Int
  VSyncWA : Int
  SpuIrq : Int
  SyncAudio : Int
  SpuUpdateFreq : Int
  ForcedXAUpdates : Int
  ShowFps : Int
  FrameLimit : Int
  FrameSkip : Int
  PerfmonConsoleOutput : Int
  PerfmonDetailedStats : Int

/-- The fields of `spu_config` (SPU plugin of PCSX ReARMed) that `port.cpp`
reads or writes. -/
structure SpuConfig where
  iHaveConfiguration : Int
  iUseReverb : Int
  iUseInterpolation : Int
  iXAPitch : Int
  iVolume : Int
  iUseThread : Int
  iUseFixedUpdates : Int
  iTempo : Int
  iDisabled : Int

/-- The fields of `gpu_unai_config_ext` that `port.cpp` reads or writes. -/
structure GpuUnaiConfig where
  ilace_force : Int
  pixel_skip : Int
  lighting : Int
  fast_lighting : Int
  blending : Int
  dithering : Int
  prog_ilace : Int

/-- The global settings that `config_load`, `config_save` and the command line
read and write. `cycle_multiplier` is a `u32`. -/
structure Globals where
  Config : PcsxConfig
  spu_config : SpuConfig
  cycle_multiplier : Nat
  gpu_unai_config_ext : GpuUnaiConfig

/-- The state of the loop of `config_load`: the globals and the local
`int value`, which is declared without an initialiser and keeps its content
when a conversion fails. -/
structure LoadState where
  g : Globals
  value : Int

/-- `sizeof(line)` in `config_load`: `strlen("LastDir ") + MAXPATHLEN + 1`. -/
def lineSize (c : Consts) : Nat := 8 + c.MAXPATHLEN + 1

/-- Conversion of an `int` to the `u32` variable `cycle_multiplier`. -/
def toU32 (v : Int) : Nat := (v % 4294967296).toNat

/-- Removes the last byte of `arg` when it is a newline
(`if (arg[len-1] == '\n') arg[len-1] = '\0'`). -/
def stripNewline (arg : Bytes) : Bytes :=
  if arg.getLast? = some 10 then arg.dropLast else arg

/-! ## `config_load` -/

/-- The chain of `strcmp` tests in the loop body of `config_load`, for a line
that is not the first one: `line` is the key, `arg` the text after the first
space. -/
def config_key (c : Consts) (b : Build) (line arg : Bytes) (s : LoadState) : LoadState :=
  if line = cs "Xa" then
    let value := sscanf_d arg s.value
    { s with g.Config.Xa := value, value := value }
  else if line = cs "Mdec" then
    let value := sscanf_d arg s.value
    { s with g.Config.Mdec := value, value := value }
  else if line = cs "PsxAuto" then
    let value := sscanf_d arg s.value
    { s with g.Config.PsxAuto := value, value := value }
  else if line = cs "Cdda" then
    let value := sscanf_d arg s.value
    { s with g.Config.Cdda := value, value := value }
  else if line = cs "HLE" then
    let value := sscanf_d arg s.value
    { s with g.Config.HLE := value, value := value }
  else if line = cs "SlowBoot" then
    let value := sscanf_d arg s.value
    { s with g.Config.SlowBoot := value, value := value }
  else if line = cs "RCntFix" then
    let value := sscanf_d arg s.value
    { s with g.Config.RCntFix := value, value := value }
  else if line = cs "VSyncWA" then
    let value := sscanf_d arg s.value
    { s with g.Config.VSyncWA := value, value := value }
  else if line = cs "Cpu" then
    let value := sscanf_d arg s.value
    { s with g.Config.Cpu := value, value := value }
  else if line = cs "PsxType" then
    let value := sscanf_d arg s.value
    { s with g.Config.PsxType := value, value := value }
  else if line = cs "SpuIrq" then
    let value := sscanf_d arg s.value
    { s with g.Config.SpuIrq := value, value := value }
  else if line = cs "SyncAudio" then
    let value := sscanf_d arg s.value
    { s with g.Config.SyncAudio := value, value := value }
  else if line = cs "SpuUpdateFreq" then
    let value := sscanf_d arg s.value
    let value :=
      if value < c.SPU_UPDATE_FREQ_MIN ∨ value > c.SPU_UPDATE_FREQ_MAX then
        c.SPU_UPDATE_FREQ_DEFAULT
      else value
    { s with g.Config.SpuUpdateFreq := value, value := value }
  else if line = cs "ForcedXAUpdates" then
    let value := sscanf_d arg s.value
    let value :=
      if value < c.FORCED_XA_UPDATES_MIN ∨ value > c.FORCED_XA_UPDATES_MAX then
        c.FORCED_XA_UPDATES_DEFAULT
      else value
    { s with g.Config.ForcedXAUpdates := value, value := value }
  else if line = cs "ShowFps" then
    let value := sscanf_d arg s.value
    { s with g.Config.ShowFps := value, value := value }
  else if line = cs "FrameLimit" then
    let value := sscanf_d arg s.value
    { s with g.Config.FrameLimit := value, value := value }
  else if line = cs "FrameSkip" then
    let value := sscanf_d arg s.value
    let value :=
      if value < c.FRAMESKIP_MIN ∨ value > c.FRAMESKIP_MAX then c.FRAMESKIP_OFF
      else value
    { s with g.Config.FrameSkip := value, value := value }
  else if line = cs "SpuUseInterpolation" ∧ b.SPU_PCSXREARMED = true then
    let value := sscanf_d arg s.value
    { s with g.spu_config.iUseInterpolation := value, value := value }
  else if line = cs "SpuUseReverb" ∧ b.SPU_PCSXREARMED = true then
    let value := sscanf_d arg s.value
    { s with g.spu_config.iUseReverb := value, value := value }
  else if line = cs "SpuVolume" ∧ b.SPU_PCSXREARMED = true then
    let value := sscanf_d arg s.value
    let value := if value > 1024 then 1024 else value
    let value := if value < 0 then 0 else value
    { s with g.spu_config.iVolume := value, value := value }
  else if line = cs "LastDir" then
    let len := arg.length
    if len = 0 ∨ len > c.sizeofLastDir - 1 then s
    else { s with g.Config.LastDir := stripNewline arg }
  else if line = cs "BiosDir" then
    let len := arg.length
    if len = 0 ∨ len > c.sizeofBiosDir - 1 then s
    else { s with g.Config.BiosDir := stripNewline arg }
  else if line = cs "Bios" then
    let len := arg.length
    if len = 0 ∨ len > c.sizeofBios - 1 then s
    else { s with g.Config.Bios := stripNewline arg }
  else if line = cs "CycleMultiplier" ∧ b.PSXREC = true then
    let value := sscanf_03x arg s.value
    { s with g.cycle_multiplier := toU32 value, value := value }
  else if line = cs "pixel_skip" ∧ b.GPU_UNAI = true then
    let value := sscanf_d arg s.value
    { s with g.gpu_unai_config_ext.pixel_skip := value, value := value }
  else if line = cs "lighting" ∧ b.GPU_UNAI = true then
    let value := sscanf_d arg s.value
    { s with g.gpu_unai_config_ext.lighting := value, value := value }
  else if line = cs "fast_lighting" ∧ b.GPU_UNAI = true then
    let value := sscanf_d arg s.value
    { s with g.gpu_unai_config_ext.fast_lighting := value, value := value }
  else if line = cs "blending" ∧ b.GPU_UNAI = true then
    let value := sscanf_d arg s.value
    { s with g.gpu_unai_config_ext.blending := value, value := value }
  else if line = cs "dithering" ∧ b.GPU_UNAI = true then
    let value := sscanf_d arg s.value
    { s with g.gpu_unai_config_ext.dithering := value, value := value }
  else if line = cs "interlace" ∧ b.GPU_UNAI = true then
    let value := sscanf_d arg s.value
    { s with g.gpu_unai_config_ext.ilace_force := value, value := value }
  else s

/-- The loop `while (fgets(line, sizeof(line), f))` of `config_load` over the
chunks still to be read; `lineNum` is the number of chunks read so far. A
chunk without a space is skipped (`continue`); the first chunk must be
`CONFIG_VERSION <n>` with the compiled version, otherwise the loop is left
(`break`). -/
def config_loop (c : Consts) (b : Build) : List Bytes → Nat → LoadState → LoadState
  | [], _, s => s
  | line :: rest, lineNum, s =>
    match splitLine line with
    | none => config_loop c b rest (lineNum + 1) s
    | some (key, arg) =>
      if lineNum + 1 = 1 then
        if key = cs "CONFIG_VERSION" then
          let value := sscanf_d arg s.value
          if value = c.CONFIG_VERSION then
            config_loop c b rest (lineNum + 1) { s with value := value }
          else { s with value := value }
        else s
      else config_loop c b rest (lineNum + 1) (config_key c b key arg s)

/-- The function `config_load`: `file` is the content of
`<homedir>/pcsx4all.cfg`, or `none` when it cannot be opened; `value0` is the
initial content of the uninitialised local `value`. -/
def config_load (c : Consts) (b : Build) (file : Option Bytes) (value0 : Int)
    (g : Globals) : Globals :=
  match file with
  | none => g
  | some text => (config_loop c b (fgetsLines (lineSize c) text) 0 ⟨g, value0⟩).g

/-! ## `config_save` -/

/-- One line `<key> %d\n` of the configuration file. -/
def numLine (key : String) (v : Int) : Bytes := cs key ++ 32 :: (fmtD v ++ [10])

/-- One line `<key> %s\n`, written only when the string is not empty
(`if (Config.LastDir[0])`). -/
def strLine (key : String) (v : Bytes) : Bytes :=
  if cstr v = [] then [] else cs key ++ 32 :: (cstr v ++ [10])

/-- One line `<key> %03x\n`. -/
def hexLine (key : String) (n : Nat) : Bytes := cs key ++ 32 :: (fmtX03 n ++ [10])

/-- The text that `config_save` writes to `<homedir>/pcsx4all.cfg`. -/
def config_save (c : Consts) (b : Build) (g : Globals) : Bytes :=
  numLine "CONFIG_VERSION" c.CONFIG_VERSION
  ++ numLine "Xa" g.Config.Xa
  ++ numLine "Mdec" g.Config.Mdec
  ++ numLine "PsxAuto" g.Config.PsxAuto
  ++ numLine "Cdda" g.Config.Cdda
  ++ numLine "HLE" g.Config.HLE
  ++ numLine "SlowBoot" g.Config.SlowBoot
  ++ numLine "RCntFix" g.Config.RCntFix
  ++ numLine "VSyncWA" g.Config.VSyncWA
  ++ numLine "Cpu" g.Config.Cpu
  ++ numLine "PsxType" g.Config.PsxType
  ++ numLine "SpuIrq" g.Config.SpuIrq
  ++ numLine "SyncAudio" g.Config.SyncAudio
  ++ numLine "SpuUpdateFreq" g.Config.SpuUpdateFreq
  ++ numLine "ForcedXAUpdates" g.Config.ForcedXAUpdates
  ++ numLine "ShowFps" g.Config.ShowFps
  ++ numLine "FrameLimit" g.Config.FrameLimit
  ++ numLine "FrameSkip" g.Config.FrameSkip
  ++ (if b.SPU_PCSXREARMED then
        numLine "SpuUseInterpolation" g.spu_config.iUseInterpolation
        ++ numLine "SpuUseReverb" g.spu_config.iUseReverb
        ++ numLine "SpuVolume" g.spu_config.iVolume
      else [])
  ++ (if b.PSXREC then
        hexLine "CycleMultiplier" g.cycle_multiplier
      else [])
  ++ (if b.GPU_UNAI then
        numLine "interlace" g.gpu_unai_config_ext.ilace_force
        ++ numLine "pixel_skip" g.gpu_unai_config_ext.pixel_skip
        ++ numLine "lighting" g.gpu_unai_config_ext.lighting
        ++ numLine "fast_lighting" g.gpu_unai_config_ext.fast_lighting
        ++ numLine "blending" g.gpu_unai_config_ext.blending
        ++ numLine "dithering" g.gpu_unai_config_ext.dithering
      else [])
  ++ strLine "LastDir" g.Config.LastDir
  ++ strLine "BiosDir" g.Config.BiosDir
  ++ strLine "Bios" g.Config.Bios

/-! ## Compiled defaults (`setup_paths` and the head of `SDL_main`) -/

/-- The directory `homedir` after `setup_paths`: `$HOME/.pcsx4all`, or the
static initialiser `./.pcsx4all` when `HOME` is not set. -/
def homedir (home : Option Bytes) : Bytes :=
  match home with
  | some h => cstr h ++ cs "/.pcsx4all"
  | none => cs "./.pcsx4all"

/-- The call `strncpy(dst, src, n); dst[n-1] = 0` as a C string. -/
def strncpyz (src : Bytes) (n : Nat) : Bytes := (cstr src).take (n - 1)

/-- The assignments of `SDL_main` that precede `config_load` (lines 619-741):
the compiled defaults, written over the globals `g` as they are at program
start. `home` is the value of `HOME`. -/
def defaults (c : Consts) (b : Build) (home : Bytes) (g : Globals) : Globals :=
  let hd := homedir (some home)
  let cfg : PcsxConfig :=
    { g.Config with
      Mcd1 := hd ++ cs "/memcards" ++ cs "/" ++ cs "mcd001.mcr"
      Mcd2 := hd ++ cs "/memcards" ++ cs "/" ++ cs "mcd002.mcr"
      PatchesDir := hd ++ cs "/patches"
      BiosDir := hd ++ cs "/bios"
      Bios := cs "scph1001.bin"
      Xa := 0
      Mdec := 0
      PsxAuto := 1
      PsxType := 0
      Cdda := 0
      HLE := 1
      Cpu := if b.PSXREC then 0 else 1
      SlowBoot := 0
      RCntFix := 0
      VSyncWA := 0
      SpuIrq := 0
      SyncAudio := 0
      SpuUpdateFreq := c.SPU_UPDATE_FREQ_DEFAULT
      ForcedXAUpdates := c.FORCED_XA_UPDATES_DEFAULT
      ShowFps := 0
      FrameLimit := 1
      FrameSkip := c.FRAMESKIP_OFF
      LastDir := strncpyz home c.MAXPATHLEN }
  let spu : SpuConfig :=
    if b.SPU_PCSXREARMED then
      { g.spu_config with
        iHaveConfiguration := 1
        iUseReverb := 0
        iUseInterpolation := 0
        iXAPitch := 0
        iVolume := 1024
        iUseThread := 0
        iUseFixedUpdates := 1
        iTempo := 1 }
    else g.spu_config
  let gpu : GpuUnaiConfig :=
    if b.GPU_UNAI then
      { g.gpu_unai_config_ext with
        ilace_force := 0
        pixel_skip := 1
        lighting := 1
        fast_lighting := 1
        blending := 1
        dithering := 0 }
    else g.gpu_unai_config_ext
  { g with Config := cfg, spu_config := spu, gpu_unai_config_ext := gpu }

/-! ## Values for worked examples -/

/-- Constants used in the worked examples: the frame-skip range `-1..3` and
the SPU update range `0..5` are those printed by the messages of `SDL_main`;
paths have 4096 bytes. -/
def exampleConsts : Consts where
  CONFIG_VERSION := 1
  SPU_UPDATE_FREQ_MIN := 0
  SPU_UPDATE_FREQ_MAX := 5
  SPU_UPDATE_FREQ_DEFAULT := 2
  FORCED_XA_UPDATES_MIN := 0
  FORCED_XA_UPDATES_MAX := 7
  FORCED_XA_UPDATES_DEFAULT := 2
  FRAMESKIP_MIN := -1
  FRAMESKIP_MAX := 3
  FRAMESKIP_OFF := 0
  MAXPATHLEN := 4096
  sizeofLastDir := 4096
  sizeofBiosDir := 4096
  sizeofBios := 4096

/-- The build with no optional component selected. -/
def plainBuild : Build where
  SPU_PCSXREARMED := false
  PSXREC := false
  GPU_UNAI := false
  USE_GPULIB := false
  SPU_NULL := false
  GCW_ZERO := false
  SDL_TRIPLEBUF := false

/-- Globals with every number zero and every string empty. -/
def zeroGlobals : Globals where
  Config :=
    { Mcd1 := [], Mcd2 := [], PatchesDir := [], BiosDir := [], Bios := [], LastDir := []
      Xa := 0, Mdec := 0, PsxAuto := 0, PsxType := 0, Cdda := 0, HLE := 0, Cpu := 0
      SlowBoot := 0, RCntFix := 0, VSyncWA := 0, SpuIrq := 0, SyncAudio := 0
      SpuUpdateFreq := 0, ForcedXAUpdates := 0, ShowFps := 0, FrameLimit := 0
      FrameSkip := 0, PerfmonConsoleOutput := 0, PerfmonDetailedStats := 0 }
  spu_config :=
    { iHaveConfiguration := 0, iUseReverb := 0, iUseInterpolation := 0, iXAPitch := 0
      iVolume := 0, iUseThread := 0, iUseFixedUpdates := 0, iTempo := 0, iDisabled := 0 }
  cycle_multiplier := 512
  gpu_unai_config_ext :=
    { ilace_force := 0, pixel_skip := 0, lighting := 0, fast_lighting := 0
      blending := 0, dithering := 0, prog_ilace := 0 }

/-- The compiled defaults of the worked examples, with `HOME=/home/user`. -/
def exampleDefaults : Globals :=
  defaults exampleConsts plainBuild (cs "/home/user") zeroGlobals

/-! ## Auxiliary notions used in the statements -/

/-- A value that fits the 32-bit type `int`. -/
def IsInt (v : Int) : Prop := -2147483648 ≤ v ∧ v ≤ 2147483647

instance (v : Int) : Decidable (IsInt v) := by unfold IsInt; infer_instance

/-- The loop body of `config_load` for a chunk that is not the first one. -/
def config_step (c : Consts) (b : Build) (s : LoadState) (line : Bytes) : LoadState :=
  match splitLine line with
  | none => s
  | some (key, arg) => config_key c b key arg s

/-- The keys of the chunks that `fgets` yields on a text: for every chunk with
a space, the C string before the first space. -/
def keysOf (size : Nat) (text : Bytes) : List Bytes :=
  (fgetsLines size text).filterMap (fun l => (splitLine l).map Prod.fst)

/-- The keys that `config_load` compares with in a given build. -/
def recognisedKeys (b : Build) : List Bytes :=
  [cs "Xa", cs "Mdec", cs "PsxAuto", cs "Cdda", cs "HLE", cs "SlowBoot", cs "RCntFix",
   cs "VSyncWA", cs "Cpu", cs "PsxType", cs "SpuIrq", cs "SyncAudio", cs "SpuUpdateFreq",
   cs "ForcedXAUpdates", cs "ShowFps", cs "FrameLimit", cs "FrameSkip",
   cs "LastDir", cs "BiosDir", cs "Bios"]
  ++ (if b.SPU_PCSXREARMED then [cs "SpuUseInterpolation", cs "SpuUseReverb", cs "SpuVolume"]
      else [])
  ++ (if b.PSXREC then [cs "CycleMultiplier"] else [])
  ++ (if b.GPU_UNAI then
        [cs "pixel_skip", cs "lighting", cs "fast_lighting", cs "blending", cs "dithering",
         cs "interlace"]
      else [])

/-- The three bounded settings lie inside their ranges. -/
def BoundedInRange (c : Consts) (g : Globals) : Prop :=
  (c.SPU_UPDATE_FREQ_MIN ≤ g.Config.SpuUpdateFreq ∧
    g.Config.SpuUpdateFreq ≤ c.SPU_UPDATE_FREQ_MAX) ∧
  (c.FORCED_XA_UPDATES_MIN ≤ g.Config.ForcedXAUpdates ∧
    g.Config.ForcedXAUpdates ≤ c.FORCED_XA_UPDATES_MAX) ∧
  (c.FRAMESKIP_MIN ≤ g.Config.FrameSkip ∧ g.Config.FrameSkip ≤ c.FRAMESKIP_MAX)

/-- The defaults of the three bounded settings lie inside their ranges. -/
def DefaultsInRange (c : Consts) : Prop :=
  (c.SPU_UPDATE_FREQ_MIN ≤ c.SPU_UPDATE_FREQ_DEFAULT ∧
    c.SPU_UPDATE_FREQ_DEFAULT ≤ c.SPU_UPDATE_FREQ_MAX) ∧
  (c.FORCED_XA_UPDATES_MIN ≤ c.FORCED_XA_UPDATES_DEFAULT ∧
    c.FORCED_XA_UPDATES_DEFAULT ≤ c.FORCED_XA_UPDATES_MAX) ∧
  (c.FRAMESKIP_MIN ≤ c.FRAMESKIP_OFF ∧ c.FRAMESKIP_OFF ≤ c.FRAMESKIP_MAX)

instance (c : Consts) (g : Globals) : Decidable (BoundedInRange c g) := by
  unfold BoundedInRange; infer_instance

instance (c : Consts) : Decidable (DefaultsInRange c) := by
  unfold DefaultsInRange; infer_instance

/-- The loop body of `config_load` run over all chunks of a text that follows
an accepted header line. -/
def config_run (c : Consts) (b : Build) (s : LoadState) (text : Bytes) : LoadState :=
  (fgetsLines (lineSize c) text).foldl (config_step c b) s

/-- A path setting that can be stored in a buffer of `size` bytes: a non-empty
C string of at most `size - 1` bytes. -/
def ValidPath (size : Nat) (p : Bytes) : Prop :=
  p ≠ [] ∧ (∀ x ∈ p, x ≠ 0) ∧ p.length ≤ size - 1

/-- A valid configuration in the sense of the spec: the bounded settings are
inside their ranges and `LastDir`, `BiosDir` and `Bios` are non-empty and fit
their buffers. -/
def ValidConfig (c : Consts) (g : Globals) : Prop :=
  BoundedInRange c g ∧ ValidPath c.sizeofLastDir g.Config.LastDir ∧
  ValidPath c.sizeofBiosDir g.Config.BiosDir ∧ ValidPath c.sizeofBios g.Config.Bios

/-- A path setting that a line of the configuration file can carry: a
non-empty C string without newline, of at most `size - 2` bytes. -/
def LinePath (size : Nat) (p : Bytes) : Prop :=
  p ≠ [] ∧ (∀ x ∈ p, x ≠ 0 ∧ x ≠ 10) ∧ p.length + 2 ≤ size

/-- The configurations for which the text of `config_save` is read back
unchanged: every number written is an `int`, the bounded settings are inside
their ranges (the SPU volume inside `0..1024`, the cycle multiplier below
`0x1000`, where the build has them), and the three paths can be carried by a
line. -/
structure SavableConfig (c : Consts) (b : Build) (g : Globals) : Prop where
  Xa : IsInt g.Config.Xa
  Mdec : IsInt g.Config.Mdec
  PsxAuto : IsInt g.Config.PsxAuto
  Cdda : IsInt g.Config.Cdda
  HLE : IsInt g.Config.HLE
  SlowBoot : IsInt g.Config.SlowBoot
  RCntFix : IsInt g.Config.RCntFix
  VSyncWA : IsInt g.Config.VSyncWA
  Cpu : IsInt g.Config.Cpu
  PsxType : IsInt g.Config.PsxType
  SpuIrq : IsInt g.Config.SpuIrq
  SyncAudio : IsInt g.Config.SyncAudio
  SpuUpdateFreq : IsInt g.Config.SpuUpdateFreq
  ForcedXAUpdates : IsInt g.Config.ForcedXAUpdates
  ShowFps : IsInt g.Config.ShowFps
  FrameLimit : IsInt g.Config.FrameLimit
  FrameSkip : IsInt g.Config.FrameSkip
  bounded : BoundedInRange c g
  iUseInterpolation : b.SPU_PCSXREARMED = true → IsInt g.spu_config.iUseInterpolation
  iUseReverb : b.SPU_PCSXREARMED = true → IsInt g.spu_config.iUseReverb
  iVolume : b.SPU_PCSXREARMED = true → 0 ≤ g.spu_config.iVolume ∧ g.spu_config.iVolume ≤ 1024
  cycle_multiplier : b.PSXREC = true → g.cycle_multiplier < 4096
  ilace_force : b.GPU_UNAI = true → IsInt g.gpu_unai_config_ext.ilace_force
  pixel_skip : b.GPU_UNAI = true → IsInt g.gpu_unai_config_ext.pixel_skip
  lighting : b.GPU_UNAI = true → IsInt g.gpu_unai_config_ext.lighting
  fast_lighting : b.GPU_UNAI = true → IsInt g.gpu_unai_config_ext.fast_lighting
  blending : b.GPU_UNAI = true → IsInt g.gpu_unai_config_ext.blending
  dithering : b.GPU_UNAI = true → IsInt g.gpu_unai_config_ext.dithering
  LastDir : LinePath c.sizeofLastDir g.Config.LastDir
  BiosDir : LinePath c.sizeofBiosDir g.Config.BiosDir
  Bios : LinePath c.sizeofBios g.Config.Bios

/-- The sizes of the three path buffers do not exceed `MAXPATHLEN + 1`, so
that a line carrying a path fits the line buffer of `config_load`, and the line
buffer holds the longest numeric line. -/
def BufferSizesFit (c : Consts) : Prop :=
  24 ≤ c.MAXPATHLEN ∧ c.sizeofLastDir ≤ c.MAXPATHLEN + 1 ∧
  c.sizeofBiosDir ≤ c.MAXPATHLEN + 1 ∧ c.sizeofBios ≤ c.MAXPATHLEN + 1

instance (c : Consts) : Decidable (BufferSizesFit c) := by
  unfold BufferSizesFit; infer_instance

/-- The globals `g0` with every setting that `config_save` writes replaced by
its value in `g`. -/
def savedOver (b : Build) (g g0 : Globals) : Globals where
  Config :=
    { g0.Config with
      Xa := g.Config.Xa
      Mdec := g.Config.Mdec
      PsxAuto := g.Config.PsxAuto
      Cdda := g.Config.Cdda
      HLE := g.Config.HLE
      SlowBoot := g.Config.SlowBoot
      RCntFix := g.Config.RCntFix
      VSyncWA := g.Config.VSyncWA
      Cpu := g.Config.Cpu
      PsxType := g.Config.PsxType
      SpuIrq := g.Config.SpuIrq
      SyncAudio := g.Config.SyncAudio
      SpuUpdateFreq := g.Config.SpuUpdateFreq
      ForcedXAUpdates := g.Config.ForcedXAUpdates
      ShowFps := g.Config.ShowFps
      FrameLimit := g.Config.FrameLimit
      FrameSkip := g.Config.FrameSkip
      LastDir := g.Config.LastDir
      BiosDir := g.Config.BiosDir
      Bios := g.Config.Bios }
  spu_config :=
    if b.SPU_PCSXREARMED then
      { g0.spu_config with
        iUseInterpolation := g.spu_config.iUseInterpolation
        iUseReverb := g.spu_config.iUseReverb
        iVolume := g.spu_config.iVolume }
    else g0.spu_config
  cycle_multiplier := if b.PSXREC then g.cycle_multiplier else g0.cycle_multiplier
  gpu_unai_config_ext :=
    if b.GPU_UNAI then
      { g0.gpu_unai_config_ext with
        ilace_force := g.gpu_unai_config_ext.ilace_force
        pixel_skip := g.gpu_unai_config_ext.pixel_skip
        lighting := g.gpu_unai_config_ext.lighting
        fast_lighting := g.gpu_unai_config_ext.fast_lighting
        blending := g.gpu_unai_config_ext.blending
        dithering := g.gpu_unai_config_ext.dithering }
    else g0.gpu_unai_config_ext

instance (size : Nat) (p : Bytes) : Decidable (ValidPath size p) := by
  unfold ValidPath; infer_instance

instance (size : Nat) (p : Bytes) : Decidable (LinePath size p) := by
  unfold LinePath; infer_instance

instance (c : Consts) (g : Globals) : Decidable (ValidConfig c g) := by
  unfold ValidConfig; infer_instance

/-- The build with the PCSX ReARMed SPU, the recompiler and the UNAI GPU. -/
def fullBuild : Build where
  SPU_PCSXREARMED := true
  PSXREC := true
  GPU_UNAI := true
  USE_GPULIB := false
  SPU_NULL := false
  GCW_ZERO := false
  SDL_TRIPLEBUF := false

/-- The compiled defaults of `fullBuild`, with `HOME=/home/user`. -/
def exampleDefaultsFull : Globals :=
  defaults exampleConsts fullBuild (cs "/home/user") zeroGlobals

/-- The compiled defaults with the last directory `/a`, newline, `b`. -/
def newlineDirConfig : Globals :=
  { exampleDefaults with Config := { exampleDefaults.Config with LastDir := cs "/a\nb" } }

/-! ## Command line (`SDL_main`, lines 749-1046) -/

/-- The variables that the command-line loop writes besides the globals:
the buffer behind `GetIsoFile()` and the local `filename`. -/
structure CliState where
  g : Globals
  isoFile : Bytes
  filename : Bytes

/-- The position of the loop inside one iteration: `arg` is `argv[i]`, `rest`
holds `argv[i+1]`, ..., `argv[argc-1]`, and `skipped` counts the `++i` executed
in this iteration. -/
structure Cursor where
  arg : Bytes
  rest : List Bytes
  skipped : Nat
  s : CliState

/-- The ways an iteration leaves the loop: `break` after
`param_parse_error = true`, or undefined behaviour (`strcpy` from a null
pointer or beyond the 256 bytes of `filename`). -/
inductive CliBreak where
  | parseError (s : CliState)
  | undefined

/-- The flags `-noxa` to `-spuirq` (lines 754-799); `arg` is `argv[i]`. -/
def cli_pcsx_flags (arg : Bytes) (s : CliState) : CliState :=
  let s := if arg = cs "-noxa" then { s with g.Config.Xa := 1 } else s
  let s := if arg = cs "-bwmdec" then { s with g.Config.Mdec := 1 } else s
  let s := if arg = cs "-pal" then { s with g.Config.PsxAuto := 0, g.Config.PsxType := 1 }
    else s
  let s := if arg = cs "-ntsc" then { s with g.Config.PsxAuto := 0, g.Config.PsxType := 0 }
    else s
  let s := if arg = cs "-nocdda" then { s with g.Config.Cdda := 1 } else s
  let s := if arg = cs "-bios" then { s with g.Config.HLE := 0 } else s
  let s := if arg = cs "-interpreter" then { s with g.Config.Cpu := 1 } else s
  let s := if arg = cs "-slowboot" then { s with g.Config.SlowBoot := 1 } else s
  let s := if arg = cs "-rcntfix" then { s with g.Config.RCntFix := 1 } else s
  let s := if arg = cs "-vsyncwa" then { s with g.Config.VSyncWA := 1 } else s
  let s := if arg = cs "-spuirq" then { s with g.Config.SpuIrq := 1 } else s
  s

/-- The flag `-iso`: `SetIsoFile(argv[i + 1])`, where `argv[argc]` is the null
pointer, for which `SetIsoFile` clears the name. -/
def cli_iso (arg : Bytes) (rest : List Bytes) (s : CliState) : CliState :=
  if arg = cs "-iso" then
    match rest with
    | [] => { s with isoFile := [] }
    | p :: _ => { s with isoFile := cstr p }
  else s

/-- The flag `-file`: `strcpy(filename, argv[i + 1])` into `char filename[256]`. -/
def cli_file (x : Cursor) : Except CliBreak Cursor :=
  if x.arg = cs "-file" then
    match x.rest with
    | [] => .error .undefined
    | p :: _ =>
      if (cstr p).length < 256 then .ok { x with s.filename := cstr p }
      else .error .undefined
  else .ok x

/-- The flag `-syncaudio`. -/
def cli_syncaudio (arg : Bytes) (s : CliState) : CliState :=
  if arg = cs "-syncaudio" then { s with g.Config.SyncAudio := 0 } else s

/-- The flag `-spuupdatefreq <n>` (lines 817-835). -/
def cli_spuupdatefreq (c : Consts) (x : Cursor) : Except CliBreak Cursor :=
  if x.arg = cs "-spuupdatefreq" then
    match x.rest with
    | [] => .error (.parseError x.s)
    | v :: rest =>
      let val := atoi v
      if val ≥ c.SPU_UPDATE_FREQ_MIN ∧ val ≤ c.SPU_UPDATE_FREQ_MAX then
        let x : Cursor :=
          { arg := v, rest := rest, skipped := x.skipped + 1,
            s := { x.s with g.Config.SpuUpdateFreq := val } }
        if val = -1 then .error (.parseError x.s) else .ok x
      else .error (.parseError x.s)
  else .ok x

/-- The flag `-forcedxaupdates <n>` (lines 840-857). -/
def cli_forcedxaupdates (c : Consts) (x : Cursor) : Except CliBreak Cursor :=
  if x.arg = cs "-forcedxaupdates" then
    match x.rest with
    | [] => .error (.parseError x.s)
    | v :: rest =>
      let val := atoi v
      if val ≥ c.FORCED_XA_UPDATES_MIN ∧ val ≤ c.FORCED_XA_UPDATES_MAX then
        let x : Cursor :=
          { arg := v, rest := rest, skipped := x.skipped + 1,
            s := { x.s with g.Config.ForcedXAUpdates := val } }
        if val = -1 then .error (.parseError x.s) else .ok x
      else .error (.parseError x.s)
  else .ok x

/-- The flags `-perfmon`, `-showfps` and `-noframelimit` (lines 860-875). -/
def cli_display_flags (arg : Bytes) (s : CliState) : CliState :=
  let s := if arg = cs "-perfmon" then
      { s with g.Config.PerfmonConsoleOutput := 1, g.Config.PerfmonDetailedStats := 1 }
    else s
  let s := if arg = cs "-showfps" then { s with g.Config.ShowFps := 1 } else s
  let s := if arg = cs "-noframelimit" then { s with g.Config.FrameLimit := 0 } else s
  s

/-- The flag `-frameskip <n>` (lines 878-894): a value outside `-1..3` is not
stored, and only the value `-1000` or a missing value is an error. -/
def cli_frameskip (x : Cursor) : Except CliBreak Cursor :=
  if x.arg = cs "-frameskip" then
    match x.rest with
    | [] => .error (.parseError x.s)
    | v :: rest =>
      let val := atoi v
      let s := if val ≥ -1 ∧ val ≤ 3 then { x.s with g.Config.FrameSkip := val } else x.s
      if val = -1000 then .error (.parseError s)
      else .ok { arg := v, rest := rest, skipped := x.skipped + 1, s := s }
  else .ok x

/-- The flags of the UNAI GPU (lines 896-937). -/
def cli_gpu_unai (b : Build) (arg : Bytes) (s : CliState) : CliState :=
  if b.GPU_UNAI then
    let s := if arg = cs "-interlace" then { s with g.gpu_unai_config_ext.ilace_force := 1 }
      else s
    let s := if arg = cs "-dither" then { s with g.gpu_unai_config_ext.dithering := 1 } else s
    let s := if arg = cs "-nolight" then { s with g.gpu_unai_config_ext.lighting := 0 } else s
    let s := if arg = cs "-noblend" then { s with g.gpu_unai_config_ext.blending := 0 } else s
    let s := if arg = cs "-nofastlight" then
        { s with g.gpu_unai_config_ext.fast_lighting := 0 } else s
    let s := if arg = cs "-nopixelskip" then { s with g.gpu_unai_config_ext.pixel_skip := 0 }
      else s
    let s := if arg = cs "-progressive" ∧ b.USE_GPULIB = false then
        { s with g.gpu_unai_config_ext.prog_ilace := 1 } else s
    s
  else s

/-- The flags `-silent` to `-nofixedupdates` of the SPU (lines 946-974). -/
def cli_spu_flags (arg : Bytes) (s : CliState) : CliState :=
  let s := if arg = cs "-silent" then { s with g.spu_config.iDisabled := 1 } else s
  let s := if arg = cs "-reverb" then { s with g.spu_config.iUseReverb := 1 } else s
  let s := if arg = cs "-xapitch" then { s with g.spu_config.iXAPitch := 1 } else s
  let s := if arg = cs "-threaded_spu" then { s with g.spu_config.iUseThread := 1 } else s
  let s := if arg = cs "-nofixedupdates" then { s with g.spu_config.iUseFixedUpdates := 0 }
    else s
  s

/-- The flag `-interpolation {none|simple|gaussian|cubic}` (lines 977-994). -/
def cli_interpolation (x : Cursor) : Except CliBreak Cursor :=
  if x.arg = cs "-interpolation" then
    match x.rest with
    | [] => .error (.parseError x.s)
    | v :: rest =>
      let val : Int := -1
      let val := if v = cs "none" then 0 else val
      let val := if v = cs "simple" then 1 else val
      let val := if v = cs "gaussian" then 2 else val
      let val := if v = cs "cubic" then 3 else val
      if val = -1 then .error (.parseError x.s)
      else .ok { arg := v, rest := rest, skipped := x.skipped + 1,
                 s := { x.s with g.spu_config.iUseInterpolation := val } }
  else .ok x

/-- The flag `-volume <0..1024>` (lines 998-1013). -/
def cli_volume (x : Cursor) : Except CliBreak Cursor :=
  if x.arg = cs "-volume" then
    match x.rest with
    | [] => .error (.parseError x.s)
    | v :: rest =>
      let val := atoi v
      if val < 0 ∨ val > 1024 then .error (.parseError x.s)
      else .ok { arg := v, rest := rest, skipped := x.skipped + 1,
                 s := { x.s with g.spu_config.iVolume := val } }
  else .ok x

/-- The flag `-notempo`. -/
def cli_notempo (arg : Bytes) (s : CliState) : CliState :=
  if arg = cs "-notempo" then { s with g.spu_config.iTempo := 0 } else s

/-- The SPU section of the loop body, compiled unless `SPU_NULL` is defined and
only with `SPU_PCSXREARMED` (lines 941-1040). -/
def cli_spu (b : Build) (x : Cursor) : Except CliBreak Cursor :=
  if b.SPU_NULL = false ∧ b.SPU_PCSXREARMED = true then
    match cli_interpolation { x with s := cli_spu_flags x.arg x.s } with
    | .error e => .error e
    | .ok x =>
      match cli_volume x with
      | .error e => .error e
      | .ok x => .ok { x with s := cli_notempo x.arg x.s }
  else .ok x

/-- The body of the loop `for (int i = 1; i < argc; i++)`: the tests are
executed one after the other, each on the current `argv[i]`. -/
def cli_body (c : Consts) (b : Build) (x : Cursor) : Except CliBreak Cursor :=
  match cli_file { x with s := cli_iso x.arg x.rest (cli_pcsx_flags x.arg x.s) } with
  | .error e => .error e
  | .ok x =>
    match cli_spuupdatefreq c { x with s := cli_syncaudio x.arg x.s } with
    | .error e => .error e
    | .ok x =>
      match cli_forcedxaupdates c x with
      | .error e => .error e
      | .ok x =>
        match cli_frameskip { x with s := cli_display_flags x.arg x.s } with
        | .error e => .error e
        | .ok x => cli_spu b { x with s := cli_gpu_unai b x.arg x.s }

/-- The result of the command-line loop. -/
inductive CliResult where
  | done (s : CliState)
  | parseError (s : CliState)
  | undefined

/-- The loop `for (int i = 1; i < argc; i++)` over the arguments from
`argv[i]` on; `skip` is the number of arguments that the previous iteration
consumed with `++i` and that the loop steps over. -/
def cli_loop (c : Consts) (b : Build) : List Bytes → Nat → CliState → CliResult
  | [], _, s => .done s
  | _ :: rest, skip + 1, s => cli_loop c b rest skip s
  | a :: rest, 0, s =>
    match cli_body c b { arg := a, rest := rest, skipped := 0, s := s } with
    | .ok x => cli_loop c b rest x.skipped x.s
    | .error (.parseError s) => .parseError s
    | .error .undefined => .undefined

/-- The command-line stage of `SDL_main`: the loop over `argv[1]`, ...,
`argv[argc-1]`. -/
def cli_parse (c : Consts) (b : Build) (argv : List Bytes) (s : CliState) : CliResult :=
  cli_loop c b argv.tail 0 s

/-! ## Start-up (`SDL_main`) -/

/-- The calls of `SDL_main` and of the exit hook `pcsx4all_exit` to other
functions and to collaborators, in the order of execution. -/
inductive Event where
  | setup_paths
  | config_load
  | probe_lastdir
  | SDL_Init
  | atexit
  | SDL_SetVideoMode
  | SelectGame
  | psxInit
  | LoadPlugins
  | pl_init
  | psxReset
  | CheckCdrom
  | LoadCdrom
  | Load
  | Execute
  | SDL_Quit
  | ReleasePlugins
  | psxShutdown
  | config_save
  deriving DecidableEq, Repr

/-- What the environment and the collaborators answer during one start-up. -/
structure Env where
  /-- The value of `getenv("HOME")`. -/
  home : Option Bytes
  /-- The content of `<homedir>/pcsx4all.cfg`, when it can be opened. -/
  configFile : Option Bytes
  /-- The initial content of the local `value` of `config_load`. -/
  value0 : Int
  /-- Whether `opendir` succeeds on a path. -/
  dirOpens : Bytes → Bool
  /-- The content of the buffer behind `GetIsoFile()` at program start. -/
  isoFile0 : Bytes
  /-- Whether `SDL_SetVideoMode` returns a surface. -/
  videoMode : Bool
  /-- The answer of `SelectGame()`: `none` for a null result, otherwise the
  name it leaves in the buffer behind `GetIsoFile()`. -/
  selectGame : Option Bytes
  psxInit : Int
  loadPlugins : Int
  checkCdrom : Int
  loadCdrom : Int
  load : Int

/-- How the process ends: with an exit status, or with undefined behaviour. -/
inductive Outcome where
  | exit (status : Int)
  | undefined
  deriving DecidableEq, Repr

/-- One start-up: the calls made, how the process ends, and the globals when
`SDL_main` is left. -/
structure Run where
  trace : List Event
  outcome : Outcome
  g : Globals

/-- The function `probe_lastdir`: when `Config.LastDir` cannot be opened as a
directory it is replaced by the home directory. -/
def probe_lastdir (c : Consts) (dirOpens : Bytes → Bool) (home : Bytes) (g : Globals) :
    Globals :=
  if dirOpens g.Config.LastDir then g
  else { g with Config := { g.Config with LastDir := strncpyz home c.MAXPATHLEN } }

/-- The exit hook `pcsx4all_exit`, registered with `atexit`: `none` when
`screen` is the null pointer, which `SDL_MUSTLOCK(screen)` dereferences. -/
def pcsx4all_exit (screen : Bool) (pcsx4all_initted : Bool) : Option (List Event) :=
  if screen then
    some ([Event.SDL_Quit]
      ++ (if pcsx4all_initted then [Event.ReleasePlugins, Event.psxShutdown] else [])
      ++ [Event.config_save])
  else none

/-- The end of the process by `exit(status)` or by a return from `main` once the
exit hook is registered. -/
def finish (trace : List Event) (status : Int) (screen initted : Bool) (g : Globals) : Run :=
  match pcsx4all_exit screen initted with
  | some hook => { trace := trace ++ hook, outcome := .exit status, g := g }
  | none => { trace := trace, outcome := .undefined, g := g }

/-- The part of `SDL_main` after the plugins are loaded (lines 1091-1131). -/
def run_content (env : Env) (trace : List Event) (isoFile filename : Bytes) (g : Globals) :
    Run :=
  let trace := trace ++ [Event.pl_init, Event.psxReset]
  let (trace, isoFile) :=
    if isoFile ≠ [] then
      if env.checkCdrom = -1 then (trace ++ [Event.CheckCdrom], [])
      else if env.loadCdrom = -1 then (trace ++ [Event.CheckCdrom, Event.LoadCdrom], [])
      else (trace ++ [Event.CheckCdrom, Event.LoadCdrom], isoFile)
    else (trace, isoFile)
  let (trace, filename) :=
    if filename ≠ [] then
      if env.load = -1 then (trace ++ [Event.Load], []) else (trace ++ [Event.Load], filename)
    else (trace, filename)
  let trace :=
    if isoFile ≠ [] ∨ filename ≠ [] ∨ g.Config.HLE = 0 then trace ++ [Event.Execute]
    else trace
  finish trace 0 true true g

/-- The part of `SDL_main` after the command line is parsed without error
(lines 1048-1131). -/
def run_init (env : Env) (argc : Nat) (trace : List Event) (s : CliState) : Run :=
  let trace := trace ++ [Event.SDL_Init, Event.atexit, Event.SDL_SetVideoMode]
  if env.videoMode = false then finish trace 0 false false s.g
  else
    let enter := decide (argc < 2) || decide (s.isoFile = [])
    let trace := if enter then trace ++ [Event.SelectGame] else trace
    if enter ∧ env.selectGame = none then finish trace 1 true false s.g
    else
      let isoFile :=
        if enter then (match env.selectGame with | some p => p | none => s.isoFile)
        else s.isoFile
      let trace := trace ++ [Event.psxInit]
      if env.psxInit = -1 then finish trace 1 true false s.g
      else
        let trace := trace ++ [Event.LoadPlugins]
        if env.loadPlugins = -1 then finish trace 1 true false s.g
        else run_content env trace isoFile s.filename s.g

/-- The settings and local variables when the command-line loop starts:
compiled defaults, then `config_load`, then `probe_lastdir`. -/
def cli_start (c : Consts) (b : Build) (env : Env) (home : Bytes) (g0 : Globals) : CliState :=
  { g := probe_lastdir c env.dirOpens home
      (config_load c b env.configFile env.value0 (defaults c b home g0))
    isoFile := cstr env.isoFile0
    filename := [] }

/-- The function `SDL_main` on the arguments `argv`, started with the globals
`g0`. Without `HOME` the copy of `home` into `Config.LastDir` reads a null
pointer. -/
def SDL_main (c : Consts) (b : Build) (env : Env) (argv : List Bytes) (g0 : Globals) : Run :=
  match env.home with
  | none => { trace := [Event.setup_paths], outcome := .undefined, g := g0 }
  | some home =>
    let trace := [Event.setup_paths, Event.config_load, Event.probe_lastdir]
    match cli_parse c b argv (cli_start c b env home g0) with
    | .parseError s => { trace := trace, outcome := .exit 1, g := s.g }
    | .undefined => { trace := trace, outcome := .undefined, g := g0 }
    | .done s => run_init env argv.length trace s

/-- The start-up stages that follow the command line: display, content
selection, core and plugin initialisation, content load and execution. -/
def laterInit : List Event :=
  [Event.SDL_Init, Event.atexit, Event.SDL_SetVideoMode, Event.SelectGame, Event.psxInit,
   Event.LoadPlugins, Event.pl_init, Event.psxReset, Event.CheckCdrom, Event.LoadCdrom,
   Event.Load, Event.Execute]

/-- An example environment: `HOME=/home/user`, the given configuration file,
every collaborator succeeding. -/
def exampleEnv (file : Option Bytes) : Env where
  home := some (cs "/home/user")
  configFile := file
  value0 := 0
  dirOpens := fun _ => true
  isoFile0 := []
  videoMode := true
  selectGame := some (cs "game.bin")
  psxInit := 0
  loadPlugins := 0
  checkCdrom := 0
  loadCdrom := 0
  load := 0

/-! ## Auxiliary notions for the command line -/

/-- The flags that take the next argument as their value with `++i`. -/
def valueFlags : List Bytes :=
  [cs "-spuupdatefreq", cs "-forcedxaupdates", cs "-frameskip", cs "-interpolation",
   cs "-volume"]

/-- The argument `a`, followed by the arguments `rest`, is not a `-file` whose
path is missing or does not fit the 256 bytes of `filename`. -/
def fileArgOk (a : Bytes) (rest : List Bytes) : Bool :=
  a != cs "-file" ||
    (match rest with
     | [] => false
     | p :: _ => decide ((cstr p).length < 256))

/-- Every argument that the loop body compares `argv[i]` with. -/
def knownFlags : List Bytes :=
  [cs "-noxa", cs "-bwmdec", cs "-pal", cs "-ntsc", cs "-nocdda", cs "-bios",
   cs "-interpreter", cs "-slowboot", cs "-rcntfix", cs "-vsyncwa", cs "-spuirq",
   cs "-iso", cs "-file", cs "-syncaudio", cs "-spuupdatefreq", cs "-forcedxaupdates",
   cs "-perfmon", cs "-showfps", cs "-noframelimit", cs "-frameskip",
   cs "-interlace", cs "-dither", cs "-nolight", cs "-noblend", cs "-nofastlight",
   cs "-nopixelskip", cs "-progressive",
   cs "-silent", cs "-reverb", cs "-xapitch", cs "-threaded_spu", cs "-nofixedupdates",
   cs "-interpolation", cs "-volume", cs "-notempo"]

/-- The value-taking flags. -/
inductive ValueFlag where
  | spuupdatefreq
  | forcedxaupdates
  | frameskip
  | interpolation
  | volume
  deriving DecidableEq, Repr

/-- The text of a value-taking flag. -/
def ValueFlag.arg : ValueFlag → Bytes
  | .spuupdatefreq => cs "-spuupdatefreq"
  | .forcedxaupdates => cs "-forcedxaupdates"
  | .frameskip => cs "-frameskip"
  | .interpolation => cs "-interpolation"
  | .volume => cs "-volume"

/-- The value-taking flag that an argument is, if any. -/
def ValueFlag.ofArg (a : Bytes) : Option ValueFlag :=
  if a = cs "-spuupdatefreq" then some .spuupdatefreq
  else if a = cs "-forcedxaupdates" then some .forcedxaupdates
  else if a = cs "-frameskip" then some .frameskip
  else if a = cs "-interpolation" then some .interpolation
  else if a = cs "-volume" then some .volume
  else none

/-- The values that a value-taking flag accepts without a parse error
(`-frameskip` accepts every number but `-1000`) and that are not themselves
compared with as flags. -/
def ValueFlag.accepts (c : Consts) (k : ValueFlag) (v : Bytes) : Bool :=
  !(knownFlags.contains v) &&
  (match k with
   | .spuupdatefreq =>
     decide (c.SPU_UPDATE_FREQ_MIN ≤ atoi v ∧ atoi v ≤ c.SPU_UPDATE_FREQ_MAX ∧ atoi v ≠ -1)
   | .forcedxaupdates =>
     decide (c.FORCED_XA_UPDATES_MIN ≤ atoi v ∧ atoi v ≤ c.FORCED_XA_UPDATES_MAX ∧
       atoi v ≠ -1)
   | .frameskip => decide (atoi v ≠ -1000)
   | .interpolation => [cs "none", cs "simple", cs "gaussian", cs "cubic"].contains v
   | .volume => decide (0 ≤ atoi v ∧ atoi v ≤ 1024))

/-- A well-formed stretch of the command line: every value-taking flag is
followed by a value it accepts, and every `-file` by a path that fits
`filename`. `pending` is the value-taking flag whose value comes next. -/
def argsOk (c : Consts) : List Bytes → Option ValueFlag → Bool
  | [], none => true
  | [], some _ => false
  | v :: rest, some k => k.accepts c v && argsOk c rest none
  | a :: rest, none =>
    match ValueFlag.ofArg a with
    | some k => argsOk c rest (some k)
    | none => fileArgOk a rest && argsOk c rest none

/-- The settings that both the configuration file and the command line can
set. -/
inductive CliField where
  | Xa | Mdec | PsxAuto | PsxType | Cdda | HLE | Cpu | SlowBoot | RCntFix | VSyncWA | SpuIrq
  | SyncAudio | SpuUpdateFreq | ForcedXAUpdates | ShowFps | FrameLimit | FrameSkip
  | iUseReverb | iUseInterpolation | iVolume
  | ilace_force | dithering | lighting | blending | fast_lighting | pixel_skip
  deriving DecidableEq, Repr

/-- The value of a setting. -/
def CliField.get : CliField → Globals → Int
  | .Xa, g => g.Config.Xa
  | .Mdec, g => g.Config.Mdec
  | .PsxAuto, g => g.Config.PsxAuto
  | .PsxType, g => g.Config.PsxType
  | .Cdda, g => g.Config.Cdda
  | .HLE, g => g.Config.HLE
  | .Cpu, g => g.Config.Cpu
  | .SlowBoot, g => g.Config.SlowBoot
  | .RCntFix, g => g.Config.RCntFix
  | .VSyncWA, g => g.Config.VSyncWA
  | .SpuIrq, g => g.Config.SpuIrq
  | .SyncAudio, g => g.Config.SyncAudio
  | .SpuUpdateFreq, g => g.Config.SpuUpdateFreq
  | .ForcedXAUpdates, g => g.Config.ForcedXAUpdates
  | .ShowFps, g => g.Config.ShowFps
  | .FrameLimit, g => g.Config.FrameLimit
  | .FrameSkip, g => g.Config.FrameSkip
  | .iUseReverb, g => g.spu_config.iUseReverb
  | .iUseInterpolation, g => g.spu_config.iUseInterpolation
  | .iVolume, g => g.spu_config.iVolume
  | .ilace_force, g => g.gpu_unai_config_ext.ilace_force
  | .dithering, g => g.gpu_unai_config_ext.dithering
  | .lighting, g => g.gpu_unai_config_ext.lighting
  | .blending, g => g.gpu_unai_config_ext.blending
  | .fast_lighting, g => g.gpu_unai_config_ext.fast_lighting
  | .pixel_skip, g => g.gpu_unai_config_ext.pixel_skip

/-- The flags of the command line that write a setting. -/
def CliField.flags : CliField → List Bytes
  | .Xa => [cs "-noxa"]
  | .Mdec => [cs "-bwmdec"]
  | .PsxAuto => [cs "-pal", cs "-ntsc"]
  | .PsxType => [cs "-pal", cs "-ntsc"]
  | .Cdda => [cs "-nocdda"]
  | .HLE => [cs "-bios"]
  | .Cpu => [cs "-interpreter"]
  | .SlowBoot => [cs "-slowboot"]
  | .RCntFix => [cs "-rcntfix"]
  | .VSyncWA => [cs "-vsyncwa"]
  | .SpuIrq => [cs "-spuirq"]
  | .SyncAudio => [cs "-syncaudio"]
  | .SpuUpdateFreq => [cs "-spuupdatefreq"]
  | .ForcedXAUpdates => [cs "-forcedxaupdates"]
  | .ShowFps => [cs "-showfps"]
  | .FrameLimit => [cs "-noframelimit"]
  | .FrameSkip => [cs "-frameskip"]
  | .iUseReverb => [cs "-reverb"]
  | .iUseInterpolation => [cs "-interpolation"]
  | .iVolume => [cs "-volume"]
  | .ilace_force => [cs "-interlace"]
  | .dithering => [cs "-dither"]
  | .lighting => [cs "-nolight"]
  | .blending => [cs "-noblend"]
  | .fast_lighting => [cs "-nofastlight"]
  | .pixel_skip => [cs "-nopixelskip"]

/-- What follows a flag that needs a number in `lo..hi` when its value is
missing or outside the range: nothing, or the decimal text of an `int` outside
`lo..hi`. -/
def badValue (lo hi : Int) (tail : List Bytes) : Prop :=
  tail = [] ∨ ∃ n post, tail = fmtD n :: post ∧ IsInt n ∧ (n < lo ∨ hi < n)

/-! ## Start-up order -/

/-- The steps of start-up in the order in which `SDL_main` reaches them. -/
def startupOrder : List Event :=
  [Event.setup_paths, Event.config_load, Event.probe_lastdir, Event.SDL_Init, Event.atexit,
   Event.SDL_SetVideoMode, Event.SelectGame, Event.psxInit, Event.LoadPlugins, Event.pl_init,
   Event.psxReset, Event.CheckCdrom, Event.LoadCdrom, Event.Load, Event.Execute]

/-- The calls of the exit hook `pcsx4all_exit` in their order. -/
def hookOrder : List Event :=
  [Event.SDL_Quit, Event.ReleasePlugins, Event.psxShutdown, Event.config_save]

/-- The steps of `startupOrder` that come after a given step. -/
def stepsAfter (e : Event) : List Event :=
  (startupOrder.dropWhile (fun x => x != e)).tail

/-! ## Save states (`state_load`, `state_save`) -/

/-- The calls of `state_load` and `state_save` to the emulator core. -/
inductive StateCall where
  | FileExists (path : Bytes)
  | LoadState (path : Bytes)
  | SaveState (path : Bytes)
  deriving DecidableEq, Repr

/-- What `state_load` and `state_save` read: the globals `sstatesdir` and
`CdromId`, and the answers of the core to `FileExists`, `LoadState` and
`SaveState`. -/
structure StateEnv where
  sstatesdir : Bytes
  CdromId : Bytes
  fileExists : Bytes → Bool
  loadState : Bytes → Int
  saveState : Bytes → Int

/-- The text of `sprintf(savename, "%s/%s.%d.sav", sstatesdir, CdromId, slot)`
in `char savename[512]`: `none` when the text and its terminator do not fit the
buffer. -/
def savename (env : StateEnv) (slot : Int) : Option Bytes :=
  let s := cstr env.sstatesdir ++ cs "/" ++ cstr env.CdromId ++ cs "." ++ fmtD slot ++ cs ".sav"
  if s.length < 512 then some s else none

/-- The calls made by `state_load` or `state_save` and the value returned. -/
structure StateRun where
  calls : List StateCall
  result : Int
  deriving DecidableEq, Repr

/-- The function `state_load`; `none` when `sprintf` overruns `savename`. -/
def state_load (env : StateEnv) (slot : Int) : Option StateRun :=
  match savename env slot with
  | none => none
  | some p =>
    if env.fileExists p then
      some { calls := [StateCall.FileExists p, StateCall.LoadState p], result := env.loadState p }
    else some { calls := [StateCall.FileExists p], result := -1 }

/-- The function `state_save`; `none` when `sprintf` overruns `savename`. -/
def state_save (env : StateEnv) (slot : Int) : Option StateRun :=
  match savename env slot with
  | none => none
  | some p => some { calls := [StateCall.SaveState p], result := env.saveState p }

/-- The decimal numeral of a natural number, most significant digit first, from
the digits of `Nat.digits`. -/
def decimalNat (n : Nat) : Bytes :=
  if n = 0 then [48] else (Nat.digits 10 n).reverse.map (fun d => 48 + d)

/-- The decimal numeral of an integer, with a minus sign when it is negative. -/
def decimal (n : Int) : Bytes :=
  if n < 0 then 45 :: decimalNat n.natAbs else decimalNat n.natAbs

/-- The path of the spec for a save state:
`<save-states-dir>/<content-id>.<slot>.sav`. -/
def statePath (d c : Bytes) (n : Int) : Bytes :=
  d ++ cs "/" ++ c ++ cs "." ++ decimal n ++ cs ".sav"

/-- The path that a call carries. -/
def StateCall.path : StateCall → Bytes
  | .FileExists p => p
  | .LoadState p => p
  | .SaveState p => p

/-- An example: the directory `/home/user/.pcsx4all/sstates`, the disc
`SLUS00594`, of whose slot files only `SLUS00594.0.sav` exists, and a core that
answers `load` to `LoadState` and `save` to `SaveState`. -/
def exampleStateEnv (load save : Int) : StateEnv where
  sstatesdir := cs "/home/user/.pcsx4all/sstates"
  CdromId := cs "SLUS00594"
  fileExists := fun p => p == cs "/home/user/.pcsx4all/sstates/SLUS00594.0.sav"
  loadState := fun _ => load
  saveState := fun _ => save

/-! ## The pad (`keymap`, `pad_update`, `pad_read`) -/

/-- Enumerator `DKEY_SELECT`. -/
def DKEY_SELECT : Nat := 0
/-- Enumerator `DKEY_L3`. -/
def DKEY_L3 : Nat := 1
/-- Enumerator `DKEY_R3`. -/
def DKEY_R3 : Nat := 2
/-- Enumerator `DKEY_START`. -/
def DKEY_START : Nat := 3
/-- Enumerator `DKEY_UP`. -/
def DKEY_UP : Nat := 4
/-- Enumerator `DKEY_RIGHT`. -/
def DKEY_RIGHT : Nat := 5
/-- Enumerator `DKEY_DOWN`. -/
def DKEY_DOWN : Nat := 6
/-- Enumerator `DKEY_LEFT`. -/
def DKEY_LEFT : Nat := 7
/-- Enumerator `DKEY_L2`. -/
def DKEY_L2 : Nat := 8
/-- Enumerator `DKEY_R2`. -/
def DKEY_R2 : Nat := 9
/-- Enumerator `DKEY_L1`. -/
def DKEY_L1 : Nat := 10
/-- Enumerator `DKEY_R1`. -/
def DKEY_R1 : Nat := 11
/-- Enumerator `DKEY_TRIANGLE`. -/
def DKEY_TRIANGLE : Nat := 12
/-- Enumerator `DKEY_CIRCLE`. -/
def DKEY_CIRCLE : Nat := 13
/-- Enumerator `DKEY_CROSS`. -/
def DKEY_CROSS : Nat := 14
/-- Enumerator `DKEY_SQUARE`. -/
def DKEY_SQUARE : Nat := 15

/-- The key codes of `SDL_keysym.h` that `port.cpp` names. -/
structure Keysyms where
  SDLK_UP : Nat
  SDLK_DOWN : Nat
  SDLK_LEFT : Nat
  SDLK_RIGHT : Nat
  SDLK_LSHIFT : Nat
  SDLK_LCTRL : Nat
  SDLK_SPACE : Nat
  SDLK_LALT : Nat
  SDLK_TAB : Nat
  SDLK_BACKSPACE : Nat
  SDLK_a : Nat
  SDLK_x : Nat
  SDLK_s : Nat
  SDLK_z : Nat
  SDLK_q : Nat
  SDLK_w : Nat
  SDLK_e : Nat
  SDLK_r : Nat
  SDLK_RETURN : Nat
  SDLK_ESCAPE : Nat
  SDLK_v : Nat

/-- The key codes of SDL 1.2. -/
def sdl12 : Keysyms where
  SDLK_UP := 273
  SDLK_DOWN := 274
  SDLK_LEFT := 276
  SDLK_RIGHT := 275
  SDLK_LSHIFT := 304
  SDLK_LCTRL := 306
  SDLK_SPACE := 32
  SDLK_LALT := 308
  SDLK_TAB := 9
  SDLK_BACKSPACE := 8
  SDLK_a := 97
  SDLK_x := 120
  SDLK_s := 115
  SDLK_z := 122
  SDLK_q := 113
  SDLK_w := 119
  SDLK_e := 101
  SDLK_r := 114
  SDLK_RETURN := 13
  SDLK_ESCAPE := 27
  SDLK_v := 118

/-- The table `keymap` with its terminating entry `{ 0, 0 }`. -/
def keymap (k : Keysyms) (b : Build) : List (Nat × Nat) :=
  [(k.SDLK_UP, DKEY_UP), (k.SDLK_DOWN, DKEY_DOWN), (k.SDLK_LEFT, DKEY_LEFT),
   (k.SDLK_RIGHT, DKEY_RIGHT)] ++
  (if b.GCW_ZERO then
    [(k.SDLK_LSHIFT, DKEY_SQUARE), (k.SDLK_LCTRL, DKEY_CIRCLE), (k.SDLK_SPACE, DKEY_TRIANGLE),
     (k.SDLK_LALT, DKEY_CROSS), (k.SDLK_TAB, DKEY_L1), (k.SDLK_BACKSPACE, DKEY_R1)]
   else
    [(k.SDLK_a, DKEY_SQUARE), (k.SDLK_x, DKEY_CIRCLE), (k.SDLK_s, DKEY_TRIANGLE),
     (k.SDLK_z, DKEY_CROSS), (k.SDLK_q, DKEY_L1), (k.SDLK_w, DKEY_R1), (k.SDLK_e, DKEY_L2),
     (k.SDLK_r, DKEY_R2), (k.SDLK_BACKSPACE, DKEY_SELECT)]) ++
  [(k.SDLK_RETURN, DKEY_START), (0, 0)]

/-- The state of `port.cpp` that `pad_update` reads and writes: the settings,
the `unsigned short` variables `pad1` and `pad2`, and `emu_running`. -/
structure Port where
  g : Globals
  pad1 : Nat
  pad2 : Nat
  emu_running : Bool

/-- The state at program start: `pad1 = pad2 = 0xffff`, `emu_running = false`. -/
def initialPort (g : Globals) : Port :=
  { g := g, pad1 := 0xffff, pad2 := 0xffff, emu_running := false }

/-- The assignment `pad1 &= ~(1 << bit)`: the operands are promoted to `int`
and the result is converted back to `unsigned short`. -/
def clearBit (pad bit : Nat) : Nat := (pad &&& (0xFFFFFFFF ^^^ (1 <<< bit))) % 65536

/-- The assignment `pad1 |= (1 << bit)`. -/
def setBit (pad bit : Nat) : Nat := (pad ||| (1 <<< bit)) % 65536

/-- The events that `SDL_PollEvent` delivers, as far as `pad_update` tells them
apart. -/
inductive SdlEvent where
  | quit
  | keydown (sym : Nat)
  | other
  deriving DecidableEq, Repr

/-- The calls and assignments of the menu branch of `pad_update`, of
`video_clear` and of `video_flip`, in the order of execution. -/
inductive PadCall where
  | sioSyncMcds
  | set_emu_running (v : Bool)
  | pl_pause
  | GameMenu
  | set_pad1_bit (bit : Nat)
  | memset_pixels
  | port_printf
  | SDL_UnlockSurface
  | SDL_Flip
  | SDL_LockSurface
  | pl_resume
  deriving DecidableEq, Repr

/-- What the environment answers during one call of `pad_update`. -/
structure PadEnv where
  /-- The array of `SDL_GetKeyState`, as the key loop reads it after the events
  are polled: whether the key with a code is down. -/
  keys : Nat → Bool
  /-- The events in the queue, in the order `SDL_PollEvent` delivers them. -/
  events : List SdlEvent
  /-- The settings when `GameMenu()` returns; `none` when the menu ends the
  process. -/
  gameMenu : Globals → Option Globals
  /-- The value of `SDL_MUSTLOCK(screen)`. -/
  mustLock : Bool

/-- How a call of `pad_update` ends. -/
inductive PadOutcome where
  | returned
  | exit (status : Int)
  | ended_in_menu
  deriving DecidableEq, Repr

/-- One call of `pad_update`: the calls made, how it ends, and the state
then. -/
structure PadRun where
  calls : List PadCall
  outcome : PadOutcome
  s : Port

/-- The result of the loop `while (SDL_PollEvent(&event))`: the value of
`Config.ShowFps` and whether `exit(0)` was reached. -/
structure Polled where
  ShowFps : Int
  quit : Bool
  deriving DecidableEq, Repr

/-- The loop `while (SDL_PollEvent(&event))`. `SDL_QUIT` ends the process;
outside the GCW build a key-down of `SDLK_ESCAPE` pushes an `SDL_QUIT` event,
which the loop meets after the events already queued (`pushed`); a key-down of
`SDLK_v` negates `Config.ShowFps`. -/
def poll_events (k : Keysyms) (b : Build) : List SdlEvent → Bool → Int → Polled
  | [], pushed, fps => { ShowFps := fps, quit := pushed }
  | SdlEvent.quit :: _, _, fps => { ShowFps := fps, quit := true }
  | SdlEvent.keydown sym :: rest, pushed, fps =>
    if b.GCW_ZERO = false ∧ sym = k.SDLK_ESCAPE then poll_events k b rest true fps
    else if sym = k.SDLK_v then poll_events k b rest pushed (if fps = 0 then 1 else 0)
    else poll_events k b rest pushed fps
  | SdlEvent.other :: rest, pushed, fps => poll_events k b rest pushed fps

/-- The loop `while (keymap[k].key)` over the table from entry `k` on. -/
def pad_keys (keys : Nat → Bool) : List (Nat × Nat) → Nat → Nat
  | [], pad1 => pad1
  | (key, bit) :: rest, pad1 =>
    if key = 0 then pad1
    else pad_keys keys rest (if keys key then clearBit pad1 bit else setBit pad1 bit)

/-- The three key combinations of the GCW build for SELECT, L2 and R2
(lines 508-530). -/
def pad_combos (k : Keysyms) (keys : Nat → Bool) (pad1 : Nat) : Nat :=
  let pad1 :=
    if keys k.SDLK_ESCAPE ∧ keys k.SDLK_LALT then setBit (clearBit pad1 DKEY_SELECT) DKEY_CROSS
    else setBit pad1 DKEY_SELECT
  let pad1 :=
    if keys k.SDLK_ESCAPE ∧ keys k.SDLK_TAB then setBit (clearBit pad1 DKEY_L2) DKEY_L1
    else setBit pad1 DKEY_L2
  let pad1 :=
    if keys k.SDLK_ESCAPE ∧ keys k.SDLK_BACKSPACE then setBit (clearBit pad1 DKEY_R2) DKEY_R1
    else setBit pad1 DKEY_R2
  pad1

/-- The function `video_clear`: one `memset` of the pixels of `screen`. -/
def video_clear : List PadCall := [PadCall.memset_pixels]

/-- The function `video_flip` with a non-null `screen`. -/
def video_flip (mustLock : Bool) (s : Port) : List PadCall :=
  (if s.emu_running ∧ s.g.Config.ShowFps ≠ 0 then [PadCall.port_printf] else []) ++
  (if mustLock then [PadCall.SDL_UnlockSurface] else []) ++ [PadCall.SDL_Flip] ++
  (if mustLock then [PadCall.SDL_LockSurface] else [])

/-- Whether the key combination for the menu is held (line 533). -/
def menuCombo (k : Keysyms) (keys : Nat → Bool) : Bool :=
  keys k.SDLK_ESCAPE && keys k.SDLK_RETURN && !keys k.SDLK_LALT

/-- The menu branch of `pad_update` in the GCW build (lines 533-553). -/
def pad_menu (b : Build) (env : PadEnv) (s : Port) : PadRun :=
  let calls := [PadCall.sioSyncMcds, PadCall.set_emu_running false, PadCall.pl_pause,
    PadCall.GameMenu]
  let s := { s with emu_running := false }
  match env.gameMenu s.g with
  | none => { calls := calls, outcome := PadOutcome.ended_in_menu, s := s }
  | some g =>
    let s := { s with g := g, emu_running := true }
    let s := { s with pad1 := setBit s.pad1 DKEY_START }
    let s := { s with pad1 := setBit s.pad1 DKEY_CROSS }
    let calls := calls ++ [PadCall.set_emu_running true, PadCall.set_pad1_bit DKEY_START,
      PadCall.set_pad1_bit DKEY_CROSS] ++ video_clear ++ video_flip env.mustLock s ++ video_clear
    let calls := if b.SDL_TRIPLEBUF then calls ++ video_flip env.mustLock s ++ video_clear
      else calls
    { calls := calls ++ [PadCall.pl_resume], outcome := PadOutcome.returned, s := s }

/-- The function `pad_update`. -/
def pad_update (k : Keysyms) (b : Build) (env : PadEnv) (s : Port) : PadRun :=
  let polled := poll_events k b env.events false s.g.Config.ShowFps
  let s := { s with g.Config.ShowFps := polled.ShowFps }
  if polled.quit then { calls := [], outcome := PadOutcome.exit 0, s := s }
  else
    let s := { s with pad1 := pad_keys env.keys (keymap k b) s.pad1 }
    if b.GCW_ZERO then
      let s := { s with pad1 := pad_combos k env.keys s.pad1 }
      if menuCombo k env.keys then pad_menu b env s
      else { calls := [], outcome := PadOutcome.returned, s := s }
    else { calls := [], outcome := PadOutcome.returned, s := s }

/-- The function `pad_read`. -/
def pad_read (s : Port) (num : Int) : Nat := if num = 0 then s.pad1 else s.pad2

/-- No code of a key of the tables is 0, the code that ends the table. -/
def Keysyms.NonZero (k : Keysyms) : Prop :=
  ∀ e ∈ [k.SDLK_UP, k.SDLK_DOWN, k.SDLK_LEFT, k.SDLK_RIGHT, k.SDLK_LSHIFT, k.SDLK_LCTRL,
    k.SDLK_SPACE, k.SDLK_LALT, k.SDLK_TAB, k.SDLK_BACKSPACE, k.SDLK_a, k.SDLK_x, k.SDLK_s,
    k.SDLK_z, k.SDLK_q, k.SDLK_w, k.SDLK_e, k.SDLK_r, k.SDLK_RETURN], e ≠ 0

/-- The entries of `keymap` in front of the terminating entry. -/
def keymapEntries (k : Keysyms) (b : Build) : List (Nat × Nat) := (keymap k b).dropLast

/-- No event in the queue makes `pad_update` end the process. -/
def noQuit (k : Keysyms) (b : Build) (events : List SdlEvent) : Prop :=
  ∀ e ∈ events, e ≠ SdlEvent.quit ∧ (b.GCW_ZERO = false → e ≠ SdlEvent.keydown k.SDLK_ESCAPE)

/-- An example environment of `pad_update`: the keys with the given codes are
down, the queue holds a key-down of `SDLK_v`, the menu changes nothing. -/
def examplePadEnv (down : List Nat) : PadEnv where
  keys := fun key => down.contains key
  events := [SdlEvent.keydown 118]
  gameMenu := fun g => some g
  mustLock := false

/-! ## The overlay text (`port_printf`) -/

/-- The table `fontdata8x8`: 64 source lines of 16 bytes. -/
def fontdata8x8 : List Nat :=
  [
   0x00, 0x00, 0x00, 0x00, 0x00, 0x00, 0x00, 0x00, 0x00, 0x00, 0x00, 0x00, 0x00, 0x00, 0x00, 0x00,
   0x00, 0x00, 0x00, 0x00, 0x00, 0x00, 0x00, 0x00, 0x00, 0x00, 0x00, 0x00, 0x00, 0x00, 0x00, 0x00,
   0x00, 0x00, 0x00, 0x00, 0x00, 0x00, 0x00, 0x00, 0x00, 0x00, 0x00, 0x00, 0x00, 0x00, 0x00, 0x00,
   0x00, 0x00, 0x00, 0x00, 0x00, 0x00, 0x00, 0x00, 0x00, 0x00, 0x00, 0x00, 0x00, 0x00, 0x00, 0x00,
   0x00, 0x00, 0x00, 0x00, 0x00, 0x00, 0x00, 0x00, 0x00, 0x00, 0x00, 0x00, 0x00, 0x00, 0x00, 0x00,
   0x3C, 0x42, 0x99, 0xBD, 0xBD, 0x99, 0x42, 0x3C, 0x3C, 0x42, 0x81, 0x81, 0x81, 0x81, 0x42, 0x3C,
   0xFE, 0x82, 0x8A, 0xD2, 0xA2, 0x82, 0xFE, 0x00, 0xFE, 0x82, 0x82, 0x82, 0x82, 0x82, 0xFE, 0x00,
   0x00, 0x00, 0x00, 0x00, 0x00, 0x00, 0x00, 0x00, 0x00, 0x38, 0x64, 0x74, 0x7C, 0x38, 0x00, 0x00,
   0x80, 0xC0, 0xF0, 0xFC, 0xF0, 0xC0, 0x80, 0x00, 0x01, 0x03, 0x0F, 0x3F, 0x0F, 0x03, 0x01, 0x00,
   0x18, 0x3C, 0x7E, 0x18, 0x7E, 0x3C, 0x18, 0x00, 0xEE, 0xEE, 0xEE, 0xCC, 0x00, 0xCC, 0xCC, 0x00,
   0x00, 0x00, 0x30, 0x68, 0x78, 0x30, 0x00, 0x00, 0x00, 0x38, 0x64, 0x74, 0x7C, 0x38, 0x00, 0x00,
   0x3C, 0x66, 0x7A, 0x7A, 0x7E, 0x7E, 0x3C, 0x00, 0x0E, 0x3E, 0x3A, 0x22, 0x26, 0x6E, 0xE4, 0x40,
   0x18, 0x3C, 0x7E, 0x3C, 0x3C, 0x3C, 0x3C, 0x00, 0x3C, 0x3C, 0x3C, 0x3C, 0x7E, 0x3C, 0x18, 0x00,
   0x08, 0x7C, 0x7E, 0x7E, 0x7C, 0x08, 0x00, 0x00, 0x10, 0x3E, 0x7E, 0x7E, 0x3E, 0x10, 0x00, 0x00,
   0x58, 0x2A, 0xDC, 0xC8, 0xDC, 0x2A, 0x58, 0x00, 0x24, 0x66, 0xFF, 0xFF, 0x66, 0x24, 0x00, 0x00,
   0x00, 0x10, 0x10, 0x38, 0x38, 0x7C, 0xFE, 0x00, 0xFE, 0x7C, 0x38, 0x38, 0x10, 0x10, 0x00, 0x00,
   0x00, 0x00, 0x00, 0x00, 0x00, 0x00, 0x00, 0x00, 0x1C, 0x1C, 0x1C, 0x18, 0x00, 0x18, 0x18, 0x00,
   0x6C, 0x6C, 0x24, 0x00, 0x00, 0x00, 0x00, 0x00, 0x00, 0x28, 0x7C, 0x28, 0x7C, 0x28, 0x00, 0x00,
   0x10, 0x38, 0x60, 0x38, 0x0C, 0x78, 0x10, 0x00, 0x40, 0xA4, 0x48, 0x10, 0x24, 0x4A, 0x04, 0x00,
   0x18, 0x34, 0x18, 0x3A, 0x6C, 0x66, 0x3A, 0x00, 0x18, 0x18, 0x20, 0x00, 0x00, 0x00, 0x00, 0x00,
   0x30, 0x60, 0x60, 0x60, 0x60, 0x60, 0x30, 0x00, 0x0C, 0x06, 0x06, 0x06, 0x06, 0x06, 0x0C, 0x00,
   0x10, 0x54, 0x38, 0x7C, 0x38, 0x54, 0x10, 0x00, 0x00, 0x18, 0x18, 0x7E, 0x18, 0x18, 0x00, 0x00,
   0x00, 0x00, 0x00, 0x00, 0x18, 0x18, 0x30, 0x00, 0x00, 0x00, 0x00, 0x00, 0x3E, 0x00, 0x00, 0x00,
   0x00, 0x00, 0x00, 0x00, 0x18, 0x18, 0x00, 0x00, 0x00, 0x04, 0x08, 0x10, 0x20, 0x40, 0x00, 0x00,
   0x38, 0x4C, 0xC6, 0xC6, 0xC6, 0x64, 0x38, 0x00, 0x18, 0x38, 0x18, 0x18, 0x18, 0x18, 0x7E, 0x00,
   0x7C, 0xC6, 0x0E, 0x3C, 0x78, 0xE0, 0xFE, 0x00, 0x7E, 0x0C, 0x18, 0x3C, 0x06, 0xC6, 0x7C, 0x00,
   0x1C, 0x3C, 0x6C, 0xCC, 0xFE, 0x0C, 0x0C, 0x00, 0xFC, 0xC0, 0xFC, 0x06, 0x06, 0xC6, 0x7C, 0x00,
   0x3C, 0x60, 0xC0, 0xFC, 0xC6, 0xC6, 0x7C, 0x00, 0xFE, 0xC6, 0x0C, 0x18, 0x30, 0x30, 0x30, 0x00,
   0x78, 0xC4, 0xE4, 0x78, 0x86, 0x86, 0x7C, 0x00, 0x7C, 0xC6, 0xC6, 0x7E, 0x06, 0x0C, 0x78, 0x00,
   0x00, 0x00, 0x18, 0x00, 0x00, 0x18, 0x00, 0x00, 0x00, 0x00, 0x18, 0x00, 0x00, 0x18, 0x18, 0x30,
   0x1C, 0x38, 0x70, 0xE0, 0x70, 0x38, 0x1C, 0x00, 0x00, 0x7C, 0x00, 0x00, 0x7C, 0x00, 0x00, 0x00,
   0x70, 0x38, 0x1C, 0x0E, 0x1C, 0x38, 0x70, 0x00, 0x7C, 0xC6, 0xC6, 0x1C, 0x18, 0x00, 0x18, 0x00,
   0x3C, 0x42, 0x99, 0xA1, 0xA5, 0x99, 0x42, 0x3C, 0x38, 0x6C, 0xC6, 0xC6, 0xFE, 0xC6, 0xC6, 0x00,
   0xFC, 0xC6, 0xC6, 0xFC, 0xC6, 0xC6, 0xFC, 0x00, 0x3C, 0x66, 0xC0, 0xC0, 0xC0, 0x66, 0x3C, 0x00,
   0xF8, 0xCC, 0xC6, 0xC6, 0xC6, 0xCC, 0xF8, 0x00, 0xFE, 0xC0, 0xC0, 0xFC, 0xC0, 0xC0, 0xFE, 0x00,
   0xFE, 0xC0, 0xC0, 0xFC, 0xC0, 0xC0, 0xC0, 0x00, 0x3E, 0x60, 0xC0, 0xCE, 0xC6, 0x66, 0x3E, 0x00,
   0xC6, 0xC6, 0xC6, 0xFE, 0xC6, 0xC6, 0xC6, 0x00, 0x7E, 0x18, 0x18, 0x18, 0x18, 0x18, 0x7E, 0x00,
   0x06, 0x06, 0x06, 0x06, 0xC6, 0xC6, 0x7C, 0x00, 0xC6, 0xCC, 0xD8, 0xF0, 0xF8, 0xDC, 0xCE, 0x00,
   0x60, 0x60, 0x60, 0x60, 0x60, 0x60, 0x7E, 0x00, 0xC6, 0xEE, 0xFE, 0xFE, 0xD6, 0xC6, 0xC6, 0x00,
   0xC6, 0xE6, 0xF6, 0xFE, 0xDE, 0xCE, 0xC6, 0x00, 0x7C, 0xC6, 0xC6, 0xC6, 0xC6, 0xC6, 0x7C, 0x00,
   0xFC, 0xC6, 0xC6, 0xC6, 0xFC, 0xC0, 0xC0, 0x00, 0x7C, 0xC6, 0xC6, 0xC6, 0xDE, 0xCC, 0x7A, 0x00,
   0xFC, 0xC6, 0xC6, 0xCE, 0xF8, 0xDC, 0xCE, 0x00, 0x78, 0xCC, 0xC0, 0x7C, 0x06, 0xC6, 0x7C, 0x00,
   0x7E, 0x18, 0x18, 0x18, 0x18, 0x18, 0x18, 0x00, 0xC6, 0xC6, 0xC6, 0xC6, 0xC6, 0xC6, 0x7C, 0x00,
   0xC6, 0xC6, 0xC6, 0xEE, 0x7C, 0x38, 0x10, 0x00, 0xC6, 0xC6, 0xD6, 0xFE, 0xFE, 0xEE, 0xC6, 0x00,
   0xC6, 0xEE, 0x3C, 0x38, 0x7C, 0xEE, 0xC6, 0x00, 0x66, 0x66, 0x66, 0x3C, 0x18, 0x18, 0x18, 0x00,
   0xFE, 0x0E, 0x1C, 0x38, 0x70, 0xE0, 0xFE, 0x00, 0x3C, 0x30, 0x30, 0x30, 0x30, 0x30, 0x3C, 0x00,
   0x60, 0x60, 0x30, 0x18, 0x0C, 0x06, 0x06, 0x00, 0x3C, 0x0C, 0x0C, 0x0C, 0x0C, 0x0C, 0x3C, 0x00,
   0x18, 0x3C, 0x66, 0x00, 0x00, 0x00, 0x00, 0x00, 0x00, 0x00, 0x00, 0x00, 0x00, 0x00, 0x00, 0xFF,
   0x30, 0x30, 0x18, 0x00, 0x00, 0x00, 0x00, 0x00, 0x00, 0x3C, 0x06, 0x3E, 0x66, 0x66, 0x3C, 0x00,
   0x60, 0x7C, 0x66, 0x66, 0x66, 0x66, 0x7C, 0x00, 0x00, 0x3C, 0x66, 0x60, 0x60, 0x66, 0x3C, 0x00,
   0x06, 0x3E, 0x66, 0x66, 0x66, 0x66, 0x3E, 0x00, 0x00, 0x3C, 0x66, 0x66, 0x7E, 0x60, 0x3C, 0x00,
   0x1C, 0x30, 0x78, 0x30, 0x30, 0x30, 0x30, 0x00, 0x00, 0x3E, 0x66, 0x66, 0x66, 0x3E, 0x06, 0x3C,
   0x60, 0x7C, 0x76, 0x66, 0x66, 0x66, 0x66, 0x00, 0x18, 0x00, 0x38, 0x18, 0x18, 0x18, 0x18, 0x00,
   0x0C, 0x00, 0x1C, 0x0C, 0x0C, 0x0C, 0x0C, 0x38, 0x60, 0x60, 0x66, 0x6C, 0x78, 0x6C, 0x66, 0x00,
   0x38, 0x18, 0x18, 0x18, 0x18, 0x18, 0x18, 0x00, 0x00, 0xEC, 0xFE, 0xFE, 0xFE, 0xD6, 0xC6, 0x00,
   0x00, 0x7C, 0x76, 0x66, 0x66, 0x66, 0x66, 0x00, 0x00, 0x3C, 0x66, 0x66, 0x66, 0x66, 0x3C, 0x00,
   0x00, 0x7C, 0x66, 0x66, 0x66, 0x7C, 0x60, 0x60, 0x00, 0x3E, 0x66, 0x66, 0x66, 0x3E, 0x06, 0x06,
   0x00, 0x7E, 0x70, 0x60, 0x60, 0x60, 0x60, 0x00, 0x00, 0x3C, 0x60, 0x3C, 0x06, 0x66, 0x3C, 0x00,
   0x30, 0x78, 0x30, 0x30, 0x30, 0x30, 0x1C, 0x00, 0x00, 0x66, 0x66, 0x66, 0x66, 0x6E, 0x3E, 0x00,
   0x00, 0x66, 0x66, 0x66, 0x66, 0x3C, 0x18, 0x00, 0x00, 0xC6, 0xD6, 0xFE, 0xFE, 0x7C, 0x6C, 0x00,
   0x00, 0x66, 0x3C, 0x18, 0x3C, 0x66, 0x66, 0x00, 0x00, 0x66, 0x66, 0x66, 0x66, 0x3E, 0x06, 0x3C,
   0x00, 0x7E, 0x0C, 0x18, 0x30, 0x60, 0x7E, 0x00, 0x0E, 0x18, 0x0C, 0x38, 0x0C, 0x18, 0x0E, 0x00,
   0x18, 0x18, 0x18, 0x00, 0x18, 0x18, 0x18, 0x00, 0x70, 0x18, 0x30, 0x1C, 0x30, 0x18, 0x70, 0x00,
   0x00, 0x00, 0x76, 0xDC, 0x00, 0x00, 0x00, 0x00, 0x10, 0x28, 0x10, 0x54, 0xAA, 0x44, 0x00, 0x00]

/-- The character `text[i]` as the `int` operand of `text[i] * 8`: whether plain
`char` is signed depends on the platform. -/
def charValue (signedChar : Bool) (ch : Nat) : Int :=
  if signedChar ∧ 128 ≤ ch then (ch : Int) - 256 else ch

/-- The read `fontdata8x8[text[i] * 8 + l]`: `none` when the index is outside
the table. -/
def fontByte (signedChar : Bool) (ch l : Nat) : Option Nat :=
  let idx := charValue signedChar ch * 8 + l
  if 0 ≤ idx ∧ idx < fontdata8x8.length then fontdata8x8.get? idx.toNat else none

/-- The 320x240 pixels of 16 bits that `SCREEN` points to, row by row. -/
abbrev Frame := Nat → Nat

/-- The write `screen[off] = v`: `none` outside the 320x240 pixels. -/
def writePixel (f : Frame) (p : Int) (v : Nat) : Option Frame :=
  if 0 ≤ p ∧ p < 320 * 240 then some (fun q => if q = p.toNat then v else f q) else none

/-- The value written for one bit of a glyph byte. -/
def pixelOf (byte mask : Nat) : Nat := if byte &&& mask ≠ 0 then 0xffff else 0x0000

/-- The eight statements of the inner loop body for row `l` of the character
`ch`, with `screen` at pixel `p`. -/
def putGlyphRow (signedChar : Bool) (f : Frame) (p : Int) (ch l : Nat) : Option Frame := do
  let f ← writePixel f (p + l * 320 + 0) (pixelOf (← fontByte signedChar ch l) 0x80)
  let f ← writePixel f (p + l * 320 + 1) (pixelOf (← fontByte signedChar ch l) 0x40)
  let f ← writePixel f (p + l * 320 + 2) (pixelOf (← fontByte signedChar ch l) 0x20)
  let f ← writePixel f (p + l * 320 + 3) (pixelOf (← fontByte signedChar ch l) 0x10)
  let f ← writePixel f (p + l * 320 + 4) (pixelOf (← fontByte signedChar ch l) 0x08)
  let f ← writePixel f (p + l * 320 + 5) (pixelOf (← fontByte signedChar ch l) 0x04)
  let f ← writePixel f (p + l * 320 + 6) (pixelOf (← fontByte signedChar ch l) 0x02)
  writePixel f (p + l * 320 + 7) (pixelOf (← fontByte signedChar ch l) 0x01)

/-- The loop `for (int l = 0; l < 8; l++)` from row `l` on; `n` rows are
left. -/
def putGlyph (signedChar : Bool) (p : Int) (ch : Nat) : Nat → Nat → Frame → Option Frame
  | 0, _, f => some f
  | n + 1, l, f =>
    match putGlyphRow signedChar f p ch l with
    | none => none
    | some f => putGlyph signedChar p ch n (l + 1) f

/-- The loop over the characters of `text` with `screen` at pixel `p`. -/
def port_printf_loop (signedChar : Bool) : Bytes → Int → Frame → Option Frame
  | [], _, f => some f
  | ch :: rest, p, f =>
    match putGlyph signedChar p ch 8 0 f with
    | none => none
    | some f => port_printf_loop signedChar rest (p + 8) f

/-- The function `port_printf(x, y, text)` on the pixels behind `SCREEN`:
`none` when a read leaves `fontdata8x8` or a write leaves the pixels. -/
def port_printf (signedChar : Bool) (x y : Int) (text : Bytes) (SCREEN : Frame) :
    Option Frame :=
  port_printf_loop signedChar (cstr text) (x + y * 320) SCREEN

/-! ## Notions used in the statements on the menu, the overlay and the command line -/

/-- The calls of `pad_update` that come after the call of `GameMenu`. -/
def afterMenu (calls : List PadCall) : List PadCall :=
  (calls.dropWhile (fun x => x != PadCall.GameMenu)).tail

/-- The number of buffers that the flags of `SDL_SetVideoMode` ask for:
`SDL_TRIPLEBUF` or `SDL_DOUBLEBUF`. -/
def swapChainSize (b : Build) : Nat := if b.SDL_TRIPLEBUF then 3 else 2

/-- Modelled from the spec: the swap chain behind `SDL_Flip`, which is part of
SDL and not of `port.cpp`. `cur` is the buffer that `screen->pixels` points to,
and `menuFrame` tells for each buffer whether it still holds a frame drawn
before the calls that are run. -/
structure SwapChain where
  cur : Nat
  menuFrame : List Bool
  deriving DecidableEq, Repr

/-- Modelled from the spec: `memset` of the pixels clears the current buffer
and `SDL_Flip` is a rotation over the buffers; no other call touches them. -/
def SwapChain.step (sc : SwapChain) : PadCall → SwapChain
  | PadCall.memset_pixels => { sc with menuFrame := sc.menuFrame.set sc.cur false }
  | PadCall.SDL_Flip => { sc with cur := (sc.cur + 1) % sc.menuFrame.length }
  | _ => sc

/-- The swap chain after a sequence of calls. -/
def SwapChain.run (sc : SwapChain) (calls : List PadCall) : SwapChain :=
  calls.foldl SwapChain.step sc

/-- The swap chain when the menu returns: every buffer may hold a menu
frame. -/
def SwapChain.afterGameMenu (n cur : Nat) : SwapChain :=
  { cur := cur, menuFrame := List.replicate n true }

/-- The states of `port.cpp` that can be reached from the state at program
start by calls of `pad_update` that return, with any change of the settings
between the calls. -/
inductive Reachable (k : Keysyms) (b : Build) : Port → Prop where
  | initial (g : Globals) : Reachable k b (initialPort g)
  | settings (s : Port) (g : Globals) : Reachable k b s → Reachable k b { s with g := g }
  | step (env : PadEnv) (s : Port) : Reachable k b s →
      (pad_update k b env s).outcome = PadOutcome.returned →
      Reachable k b (pad_update k b env s).s

/-- The pixel that a glyph gives in column `c` of row `l`: `0xFFFF` when bit
`7 - c` of the byte `fontdata8x8[ch * 8 + l]` is set, `0x0000` otherwise. -/
def glyphPixel (ch l c : Nat) : Nat :=
  if (fontdata8x8.getD (ch * 8 + l) 0).testBit (7 - c) then 0xFFFF else 0x0000

/-- An example frame: every pixel holds `0x1234`. -/
def exampleFrame : Frame := fun _ => 0x1234

/-- Whether an iteration of the command-line loop starts with `argv[i]` equal
to `flag`; the iterations are those of `cli_loop`. -/
def parsedAsFlag (c : Consts) (b : Build) (flag : Bytes) : List Bytes → Nat → CliState → Bool
  | [], _, _ => false
  | _ :: rest, skip + 1, s => parsedAsFlag c b flag rest skip s
  | a :: rest, 0, s =>
    match cli_body c b { arg := a, rest := rest, skipped := 0, s := s } with
    | .ok x => a == flag || parsedAsFlag c b flag rest x.skipped x.s
    | .error _ => a == flag

end Pcsx4all

/-! # Properties -/

namespace Pcsx4all

/-! ## The C library routines -/

theorem cstr_eq_self (l : Bytes) (h : ∀ x ∈ l, x ≠ 0) : cstr l = l := by
  induction l with
  | nil => rfl
  | cons x xs ih =>
    have hx : x ≠ 0 := h x (by simp)
    simp only [cstr, hx, if_false]
    rw [ih (fun y hy => h y (by simp [hy]))]

theorem cstr_no_nul (l : Bytes) : ∀ x ∈ cstr l, x ≠ 0 := by
  induction l with
  | nil => simp [cstr]
  | cons x xs ih =>
    by_cases hx : x = 0
    · simp [cstr, hx]
    · simp only [cstr, hx, if_false, List.mem_cons]
      rintro y (rfl | hy)
      · exact hx
      · exact ih y hy

theorem fgetsAux_line (size : Nat) (body : Bytes) : ∀ (cur rest : Bytes),
    (∀ x ∈ body, x ≠ 10) → cur.length + body.length + 1 ≤ size - 1 →
    fgetsAux size (body ++ 10 :: rest) cur
      = (cur.reverse ++ body ++ [10]) :: fgetsAux size rest [] := by
  induction body with
  | nil => intro cur rest _ _; simp [fgetsAux]
  | cons x xs ih =>
    intro cur rest hx hlen
    have hx10 : x ≠ 10 := hx x (by simp)
    have hne : ¬ (cur.length + 1 = size - 1) := by
      simp only [List.length_cons] at hlen; omega
    have hstep : fgetsAux size (x :: xs ++ 10 :: rest) cur
        = fgetsAux size (xs ++ 10 :: rest) (x :: cur) := by
      simp [fgetsAux, hx10, hne]
    rw [hstep, ih (x :: cur) rest (fun y hy => hx y (by simp [hy]))
      (by simp only [List.length_cons] at hlen ⊢; omega)]
    simp

theorem fgetsAux_full (size : Nat) (body : Bytes) : ∀ (cur rest : Bytes),
    (∀ x ∈ body, x ≠ 10) → body ≠ [] → cur.length + body.length = size - 1 →
    fgetsAux size (body ++ rest) cur = (cur.reverse ++ body) :: fgetsAux size rest [] := by
  induction body with
  | nil => intro cur rest _ h _; exact absurd rfl h
  | cons x xs ih =>
    intro cur rest hx _ hlen
    have hx10 : x ≠ 10 := hx x (by simp)
    cases xs with
    | nil =>
      have he : cur.length + 1 = size - 1 := by simpa using hlen
      simp [fgetsAux, he]
    | cons y ys =>
      have hne : ¬ (cur.length + 1 = size - 1) := by
        simp only [List.length_cons] at hlen; omega
      have hstep : fgetsAux size (x :: y :: ys ++ rest) cur
          = fgetsAux size (y :: ys ++ rest) (x :: cur) := by
        simp [fgetsAux, hx10, hne]
      rw [hstep, ih (x :: cur) rest (fun z hz => hx z (by simp [hz])) (by simp)
        (by simp only [List.length_cons] at hlen ⊢; omega)]
      simp

theorem fgetsAux_append (size : Nat) (pre : Bytes) : ∀ (cur post : Bytes),
    pre.getLast? = some 10 →
    fgetsAux size (pre ++ post) cur = fgetsAux size pre cur ++ fgetsAux size post [] := by
  induction pre with
  | nil => intro cur post h; simp at h
  | cons x xs ih =>
    intro cur post h
    cases xs with
    | nil =>
      have hx : x = 10 := by simpa using h
      simp [fgetsAux, hx]
    | cons y ys =>
      have h2 : (y :: ys).getLast? = some 10 := by
        simpa [List.getLast?_cons_cons] using h
      by_cases hc : x = 10 ∨ cur.length + 1 = size - 1
      · have e1 : fgetsAux size (x :: y :: ys ++ post) cur
            = (x :: cur).reverse :: fgetsAux size (y :: ys ++ post) [] := by
          simp only [List.cons_append, fgetsAux, if_pos hc]
        have e2 : fgetsAux size (x :: y :: ys) cur
            = (x :: cur).reverse :: fgetsAux size (y :: ys) [] := by
          simp only [fgetsAux, if_pos hc]
        rw [e1, e2, ih [] post h2]; rfl
      · have e1 : fgetsAux size (x :: y :: ys ++ post) cur
            = fgetsAux size (y :: ys ++ post) (x :: cur) := by
          simp only [List.cons_append, fgetsAux, if_neg hc]
        have e2 : fgetsAux size (x :: y :: ys) cur = fgetsAux size (y :: ys) (x :: cur) := by
          simp only [fgetsAux, if_neg hc]
        rw [e1, e2, ih (x :: cur) post h2]

theorem fgetsLines_line (size : Nat) (body rest : Bytes)
    (hb : ∀ x ∈ body, x ≠ 10) (hlen : body.length + 1 ≤ size - 1) :
    fgetsLines size (body ++ 10 :: rest) = (body ++ [10]) :: fgetsLines size rest := by
  unfold fgetsLines
  rw [fgetsAux_line size body [] rest hb (by simpa using hlen)]
  simp

theorem fgetsLines_append (size : Nat) (pre post : Bytes)
    (h : pre = [] ∨ pre.getLast? = some 10) :
    fgetsLines size (pre ++ post) = fgetsLines size pre ++ fgetsLines size post := by
  rcases h with rfl | h
  · simp [fgetsLines, fgetsAux]
  · exact fgetsAux_append size pre [] post h

theorem splitLine_key (key arg : Bytes) (hk : ∀ x ∈ key, x ≠ 0 ∧ x ≠ 32) :
    splitLine (key ++ 32 :: arg) = some (key, cstr arg) := by
  induction key with
  | nil => simp [splitLine]
  | cons x xs ih =>
    have hx := hk x (by simp)
    have := ih (fun y hy => hk y (by simp [hy]))
    simp [splitLine, hx.1, hx.2, this]

theorem splitLine_none (l : Bytes) (h : ∀ x ∈ l, x ≠ 32) : splitLine l = none := by
  induction l with
  | nil => rfl
  | cons x xs ih =>
    have hx : x ≠ 32 := h x (by simp)
    have := ih (fun y hy => h y (by simp [hy]))
    by_cases h0 : x = 0
    · simp [splitLine, h0]
    · simp [splitLine, h0, hx, this]

theorem toInt32_of_isInt (v : Int) (h : IsInt v) : toInt32 v = v := by
  unfold IsInt at h
  unfold toInt32
  omega

theorem fmtNatAux_eq : ∀ (fuel n : Nat) (acc : Bytes), n < fuel →
    fmtNatAux fuel n acc = fmtNatAux (n + 1) n [] ++ acc := by
  intro fuel
  induction fuel using Nat.strong_induction_on with
  | _ fuel ih =>
    intro n acc hn
    cases fuel with
    | zero => omega
    | succ f =>
      by_cases h10 : n < 10
      · simp [fmtNatAux, h10]
      · have hq : n / 10 < n := Nat.div_lt_self (by omega) (by omega)
        have e1 : fmtNatAux (f + 1) n acc = fmtNatAux f (n / 10) ((48 + n % 10) :: acc) := by
          simp [fmtNatAux, h10]
        have e2 : fmtNatAux (n + 1) n [] = fmtNatAux n (n / 10) [48 + n % 10] := by
          simp [fmtNatAux, h10]
        rw [e1, e2, ih f (by omega) (n / 10) _ (by omega),
          ih n (by omega) (n / 10) [48 + n % 10] hq]
        simp

theorem fmtNat_lt (n : Nat) (h : n < 10) : fmtNat n = [48 + n] := by
  simp [fmtNat, fmtNatAux, h]

theorem fmtNat_ge (n : Nat) (h : 10 ≤ n) : fmtNat n = fmtNat (n / 10) ++ [48 + n % 10] := by
  have h10 : ¬ n < 10 := by omega
  have hq : n / 10 < n := Nat.div_lt_self (by omega) (by omega)
  unfold fmtNat
  have e2 : fmtNatAux (n + 1) n [] = fmtNatAux n (n / 10) [48 + n % 10] := by
    simp [fmtNatAux, h10]
  rw [e2, fmtNatAux_eq n (n / 10) [48 + n % 10] hq]

theorem fmtNat_digits (n : Nat) : ∀ x ∈ fmtNat n, 48 ≤ x ∧ x ≤ 57 := by
  induction n using Nat.strong_induction_on with
  | _ n ih =>
    by_cases h : n < 10
    · rw [fmtNat_lt n h]; intro x hx; simp at hx; omega
    · rw [fmtNat_ge n (by omega)]
      intro x hx
      rcases List.mem_append.1 hx with hx | hx
      · exact ih (n / 10) (Nat.div_lt_self (by omega) (by omega)) x hx
      · simp at hx; omega

theorem fmtNat_ne_nil (n : Nat) : fmtNat n ≠ [] := by
  by_cases h : n < 10
  · rw [fmtNat_lt n h]; simp
  · rw [fmtNat_ge n (by omega)]; simp

theorem fmtNat_length_le (k : Nat) : ∀ n, n < 10 ^ (k + 1) → (fmtNat n).length ≤ k + 1 := by
  induction k with
  | zero => intro n hn; rw [fmtNat_lt n (by simpa using hn)]; simp
  | succ k ih =>
    intro n hn
    by_cases h : n < 10
    · rw [fmtNat_lt n h]; simp
    · rw [fmtNat_ge n (by omega)]
      have : n / 10 < 10 ^ (k + 1) := by
        rw [Nat.div_lt_iff_lt_mul (by omega)]
        calc n < 10 ^ (k + 1 + 1) := hn
          _ = 10 ^ (k + 1) * 10 := by ring
      have := ih (n / 10) this
      simp; omega

theorem digitsVal_fmtNat (n : Nat) : ∀ (acc : Nat) (r : Bytes),
    digitsVal acc (fmtNat n ++ r) = digitsVal (acc * 10 ^ (fmtNat n).length + n) r := by
  induction n using Nat.strong_induction_on with
  | _ n ih =>
    intro acc r
    by_cases h : n < 10
    · rw [fmtNat_lt n h]
      simp [digitsVal, isdigit]
      have : 48 + n ≤ 57 := by omega
      simp [this]
    · rw [fmtNat_ge n (by omega)]
      rw [List.append_assoc, ih (n / 10) (Nat.div_lt_self (by omega) (by omega))]
      have hm : n % 10 < 10 := Nat.mod_lt _ (by omega)
      have h57 : 48 + n % 10 ≤ 57 := by omega
      simp only [List.singleton_append, digitsVal, isdigit, List.length_append,
        List.length_singleton]
      simp only [Nat.le_add_right, h57, decide_True, Bool.and_self, if_true,
        Nat.add_sub_cancel_left]
      congr 1
      have := Nat.div_add_mod n 10
      rw [pow_succ]
      nlinarith [this]

theorem digitsVal_stop (acc : Nat) (r : Bytes) (h : ∀ d, r.head? = some d → isdigit d = false) :
    digitsVal acc r = acc := by
  cases r with
  | nil => rfl
  | cons d t => simp [digitsVal, h d rfl]

theorem scanUnsigned_fmtNat (n : Nat) (r : Bytes)
    (h : ∀ d, r.head? = some d → isdigit d = false) :
    scanUnsigned (fmtNat n ++ r) = some n := by
  have hne := fmtNat_ne_nil n
  have hd := fmtNat_digits n
  cases hf : fmtNat n with
  | nil => exact absurd hf hne
  | cons d t =>
    have hdd := hd d (by rw [hf]; simp)
    have e : isdigit d = true := by simp [isdigit, hdd.1, hdd.2]
    have := digitsVal_fmtNat n 0 r
    rw [hf] at this
    simp only [List.cons_append, scanUnsigned, e, if_true]
    rw [List.cons_append] at this
    rw [this, digitsVal_stop _ r h]
    simp

theorem scanDec_fmtD (v : Int) (r : Bytes)
    (h : ∀ d, r.head? = some d → isdigit d = false) :
    scanDec (fmtD v ++ r) = some v := by
  unfold fmtD
  by_cases hv : v < 0
  · simp only [hv, if_true, List.cons_append]
    have : skipSpace (45 :: (fmtNat v.natAbs ++ r)) = 45 :: (fmtNat v.natAbs ++ r) := by
      simp [skipSpace, isspace]
    simp only [scanDec, this, if_true, scanUnsigned_fmtNat _ r h, Option.map_some']
    rw [Int.ofNat_natAbs_of_nonpos (le_of_lt hv), neg_neg]
  · simp only [hv, if_false]
    have hne := fmtNat_ne_nil v.natAbs
    have hd := fmtNat_digits v.natAbs
    have hs := scanUnsigned_fmtNat v.natAbs r h
    cases hf : fmtNat v.natAbs with
    | nil => exact absurd hf hne
    | cons d t =>
      have hdd := hd d (by rw [hf]; simp)
      rw [hf] at hs
      have hsp : isspace d = false := by
        simp [isspace]; omega
      have h45 : d ≠ 45 := by omega
      have h43 : d ≠ 43 := by omega
      simp only [List.cons_append] at hs ⊢
      simp only [scanDec, skipSpace, hsp, h45, h43, if_false, hs, Option.map_some',
        Bool.false_eq_true]
      rw [Int.natAbs_of_nonneg (not_lt.1 hv)]

theorem fmtD_no_special (v : Int) : ∀ x ∈ fmtD v, x ≠ 0 ∧ x ≠ 10 ∧ x ≠ 32 := by
  intro x hx
  unfold fmtD at hx
  split at hx
  · rcases List.mem_cons.1 hx with rfl | hx
    · decide
    · have := fmtNat_digits _ x hx; omega
  · have := fmtNat_digits _ x hx; omega

theorem fmtD_length_le (v : Int) (h : IsInt v) : (fmtD v).length ≤ 11 := by
  unfold IsInt at h
  have : (fmtNat v.natAbs).length ≤ 10 :=
    fmtNat_length_le 9 v.natAbs (by norm_num; omega)
  unfold fmtD
  split <;> simp <;> omega

theorem sscanf_d_fmtD (v : Int) (h : IsInt v) (r : Bytes) (old : Int)
    (hr : ∀ d, r.head? = some d → isdigit d = false) :
    sscanf_d (fmtD v ++ r) old = v := by
  simp [sscanf_d, scanDec_fmtD v r hr, toInt32_of_isInt v h]

end Pcsx4all

namespace Pcsx4all

/-! ## The loop of `config_load` -/

theorem config_loop_running (c : Consts) (b : Build) (ls : List Bytes) :
    ∀ (n : Nat) (s : LoadState), 1 ≤ n →
      config_loop c b ls n s = ls.foldl (config_step c b) s := by
  induction ls with
  | nil => intro n s _; rfl
  | cons l ls ih =>
    intro n s hn
    have h1 : ¬ (n + 1 = 1) := by omega
    simp only [config_loop, List.foldl_cons, config_step]
    cases hsp : splitLine l with
    | none => simp only [ih (n + 1) s (by omega)]
    | some p =>
      obtain ⟨k, a⟩ := p
      simp only [h1, if_false, ih (n + 1) _ (by omega)]

theorem numLine_eq (key : String) (v : Int) :
    numLine key v = (cs key ++ 32 :: fmtD v) ++ [10] := by
  simp [numLine]

theorem numLine_body_no_newline (key : String) (v : Int)
    (hk : ∀ x ∈ cs key, x ≠ 0 ∧ x ≠ 10 ∧ x ≠ 32) :
    ∀ x ∈ cs key ++ 32 :: fmtD v, x ≠ 10 := by
  intro x hx
  rcases List.mem_append.1 hx with hx | hx
  · exact (hk x hx).2.1
  · rcases List.mem_cons.1 hx with rfl | hx
    · decide
    · exact (fmtD_no_special v x hx).2.1

theorem fgetsLines_numLine (size : Nat) (key : String) (v : Int) (rest : Bytes)
    (hk : ∀ x ∈ cs key, x ≠ 0 ∧ x ≠ 10 ∧ x ≠ 32) (hv : IsInt v)
    (hlen : (cs key).length + 13 ≤ size - 1) :
    fgetsLines size (numLine key v ++ rest) = numLine key v :: fgetsLines size rest := by
  rw [numLine_eq, List.append_assoc, List.singleton_append]
  rw [fgetsLines_line size _ rest (numLine_body_no_newline key v hk)]
  have := fmtD_length_le v hv
  simp only [List.length_append, List.length_cons]
  omega

theorem isdigit_newline_head (r : Bytes) :
    ∀ d, (10 :: r).head? = some d → isdigit d = false := by
  intro d hd
  simp at hd
  subst hd
  decide

theorem splitLine_numLine (key : String) (v : Int)
    (hk : ∀ x ∈ cs key, x ≠ 0 ∧ x ≠ 10 ∧ x ≠ 32) :
    splitLine (numLine key v) = some (cs key, fmtD v ++ [10]) := by
  unfold numLine
  rw [splitLine_key (cs key) _ (fun x hx => ⟨(hk x hx).1, (hk x hx).2.2⟩)]
  rw [cstr_eq_self]
  intro x hx
  rcases List.mem_append.1 hx with hx | hx
  · exact (fmtD_no_special v x hx).1
  · simp at hx; omega

theorem config_step_numLine (c : Consts) (b : Build) (s : LoadState) (key : String) (v : Int)
    (hk : ∀ x ∈ cs key, x ≠ 0 ∧ x ≠ 10 ∧ x ≠ 32) :
    config_step c b s (numLine key v) = config_key c b (cs key) (fmtD v ++ [10]) s := by
  simp only [config_step, splitLine_numLine key v hk]

theorem sscanf_d_line (v : Int) (h : IsInt v) (old : Int) :
    sscanf_d (fmtD v ++ [10]) old = v :=
  sscanf_d_fmtD v h [10] old (isdigit_newline_head [])

theorem key_CONFIG_VERSION : ∀ x ∈ cs "CONFIG_VERSION", x ≠ 0 ∧ x ≠ 10 ∧ x ≠ 32 := by decide

/-- A file that starts with the header line of the compiled version is read
by running the loop body over the chunks that follow the header. -/
theorem config_load_header (c : Consts) (b : Build) (rest : Bytes) (v0 : Int) (g : Globals)
    (hcv : IsInt c.CONFIG_VERSION) (hm : 19 ≤ c.MAXPATHLEN) :
    config_load c b (some (numLine "CONFIG_VERSION" c.CONFIG_VERSION ++ rest)) v0 g
      = ((fgetsLines (lineSize c) rest).foldl (config_step c b) ⟨g, c.CONFIG_VERSION⟩).g := by
  have hlen : (cs "CONFIG_VERSION").length + 13 ≤ lineSize c - 1 := by
    have : (cs "CONFIG_VERSION").length = 14 := by decide
    simp only [this, lineSize]; omega
  simp only [config_load]
  rw [fgetsLines_numLine _ _ _ rest key_CONFIG_VERSION hcv hlen]
  simp only [config_loop, splitLine_numLine _ _ key_CONFIG_VERSION, sscanf_d_line _ hcv,
    if_true]
  rw [config_loop_running c b _ 1 _ (le_refl 1)]

theorem fgetsAux_eof (size : Nat) (body : Bytes) : ∀ (cur : Bytes),
    (∀ x ∈ body, x ≠ 10) → body ≠ [] → cur.length + body.length < size - 1 →
    fgetsAux size body cur = [cur.reverse ++ body] := by
  induction body with
  | nil => intro cur _ h _; exact absurd rfl h
  | cons x xs ih =>
    intro cur hx _ hlen
    have hx10 : x ≠ 10 := hx x (by simp)
    have hne : ¬ (cur.length + 1 = size - 1) := by
      simp only [List.length_cons] at hlen; omega
    cases xs with
    | nil => simp [fgetsAux, hx10, hne]
    | cons y ys =>
      have hstep : fgetsAux size (x :: y :: ys) cur = fgetsAux size (y :: ys) (x :: cur) := by
        simp [fgetsAux, hx10, hne]
      rw [hstep, ih (x :: cur) (fun z hz => hx z (by simp [hz])) (by simp)
        (by simp only [List.length_cons] at hlen ⊢; omega)]
      simp

theorem splitLine_unterminated (key : String) (v : Int)
    (hk : ∀ x ∈ cs key, x ≠ 0 ∧ x ≠ 10 ∧ x ≠ 32) :
    splitLine (cs key ++ 32 :: fmtD v) = some (cs key, fmtD v) := by
  rw [splitLine_key (cs key) _ (fun x hx => ⟨(hk x hx).1, (hk x hx).2.2⟩)]
  rw [cstr_eq_self]
  intro x hx
  exact (fmtD_no_special v x hx).1

/-- C2 (amended): a file whose first line is `CONFIG_VERSION n` with `n` in
the range of `int` and different from the compiled `CONFIG_VERSION` leaves
every global as it was before `config_load`, whatever follows the first line,
and also when the file ends behind the number without a newline. -/
theorem config_load_version_mismatch (c : Consts) (b : Build) (n : Int) (rest : Bytes)
    (v0 : Int) (g : Globals) (hn : IsInt n) (hne : n ≠ c.CONFIG_VERSION)
    (hm : 19 ≤ c.MAXPATHLEN) :
    config_load c b (some (numLine "CONFIG_VERSION" n ++ rest)) v0 g = g ∧
    config_load c b (some (cs "CONFIG_VERSION" ++ 32 :: fmtD n)) v0 g = g := by
  have hlen : (cs "CONFIG_VERSION").length + 13 ≤ lineSize c - 1 := by
    have : (cs "CONFIG_VERSION").length = 14 := by decide
    simp only [this, lineSize]; omega
  refine ⟨?_, ?_⟩
  · simp only [config_load]
    rw [fgetsLines_numLine _ _ _ rest key_CONFIG_VERSION hn hlen]
    simp only [config_loop, splitLine_numLine _ _ key_CONFIG_VERSION, sscanf_d_line _ hn,
      if_true, hne, if_false]
  · have hsc : sscanf_d (fmtD n) v0 = n := by
      have := sscanf_d_fmtD n hn [] v0 (by simp)
      rwa [List.append_nil] at this
    have hl : fgetsLines (lineSize c) (cs "CONFIG_VERSION" ++ 32 :: fmtD n)
        = [cs "CONFIG_VERSION" ++ 32 :: fmtD n] := by
      unfold fgetsLines
      rw [fgetsAux_eof _ _ [] (numLine_body_no_newline "CONFIG_VERSION" n key_CONFIG_VERSION)
        (by simp)]
      · rfl
      · have := fmtD_length_le n hn
        simp only [List.length_append, List.length_cons, List.length_nil] at hlen ⊢
        omega
    simp only [config_load, hl, config_loop, splitLine_unterminated _ _ key_CONFIG_VERSION,
      hsc, if_true, hne, if_false]

/-- Witness of C2 at the example of the spec: the compiled version is 1 and the
file starts with `CONFIG_VERSION 2`. -/
theorem config_load_version_mismatch_witness :
    IsInt 2 ∧ (2 : Int) ≠ exampleConsts.CONFIG_VERSION ∧ 19 ≤ exampleConsts.MAXPATHLEN ∧
    config_load exampleConsts plainBuild
      (some (numLine "CONFIG_VERSION" 2 ++ cs "Xa 1\nFrameSkip 2\n")) 0 exampleDefaults
      = exampleDefaults ∧
    config_load exampleConsts plainBuild (some (cs "CONFIG_VERSION" ++ 32 :: fmtD 2)) 0
      exampleDefaults = exampleDefaults :=
  ⟨by decide, by decide, by decide,
   config_load_version_mismatch exampleConsts plainBuild 2 (cs "Xa 1\nFrameSkip 2\n") 0
     exampleDefaults (by decide) (by decide) (by decide)⟩

/-- C2 (counterexample): the compiled version is 1 and the file starts with
`CONFIG_VERSION 4294967297`, a number different from 1 that is outside the
range of `int`: the conversion `%d` stores 1, the header is accepted and the
following line `Xa 1` is applied. -/
theorem config_load_version_wraps :
    (4294967297 : Int) ≠ exampleConsts.CONFIG_VERSION ∧ ¬ IsInt 4294967297 ∧
    exampleDefaults.Config.Xa = 0 ∧
    (config_load exampleConsts plainBuild (some (cs "CONFIG_VERSION 4294967297\nXa 1\n")) 0
      exampleDefaults).Config.Xa = 1 ∧
    config_load exampleConsts plainBuild (some (cs "CONFIG_VERSION 4294967297\nXa 1\n")) 0
      exampleDefaults ≠ exampleDefaults := by
  refine ⟨by decide, by decide, by decide, by decide, ?_⟩
  intro h
  have h2 : (config_load exampleConsts plainBuild
      (some (cs "CONFIG_VERSION 4294967297\nXa 1\n")) 0 exampleDefaults).Config.Xa
      = exampleDefaults.Config.Xa := by rw [h]
  revert h2
  decide

/-- C3 (evaluation at the failing input): when the first line of the file is
empty, the version check is skipped and the following line `Xa 5` is applied:
`Xa` goes from its default `0` to `5`. -/
theorem config_load_first_line_without_space :
    exampleDefaults.Config.Xa = 0 ∧
    (config_load exampleConsts plainBuild (some (cs "\nXa 5\n")) 0 exampleDefaults).Config.Xa
      = 5 := by
  decide

end Pcsx4all

namespace Pcsx4all

set_option maxHeartbeats 1000000 in
theorem config_key_unknown (c : Consts) (b : Build) (line arg : Bytes) (s : LoadState)
    (h : line ∉ recognisedKeys b) : config_key c b line arg s = s := by
  obtain ⟨spu, psxrec, unai, x1, x2, x3, x4⟩ := b
  cases spu <;> cases psxrec <;> cases unai <;>
    simp only [recognisedKeys, List.mem_append, List.mem_cons, List.mem_singleton,
      List.not_mem_nil, or_false, not_or, if_true, if_false, Bool.false_eq_true,
      List.append_nil, false_or] at h <;>
    simp only [config_key, h, if_false, false_and, and_false, Bool.false_eq_true]

end Pcsx4all

namespace Pcsx4all

theorem config_key_LastDir (c : Consts) (b : Build) (arg : Bytes) (s : LoadState) :
    config_key c b (cs "LastDir") arg s =
      if arg.length = 0 ∨ arg.length > c.sizeofLastDir - 1 then s
      else { s with g.Config.LastDir := stripNewline arg } := by
  rfl

theorem config_key_BiosDir (c : Consts) (b : Build) (arg : Bytes) (s : LoadState) :
    config_key c b (cs "BiosDir") arg s =
      if arg.length = 0 ∨ arg.length > c.sizeofBiosDir - 1 then s
      else { s with g.Config.BiosDir := stripNewline arg } := by
  rfl

theorem config_key_Bios (c : Consts) (b : Build) (arg : Bytes) (s : LoadState) :
    config_key c b (cs "Bios") arg s =
      if arg.length = 0 ∨ arg.length > c.sizeofBios - 1 then s
      else { s with g.Config.Bios := stripNewline arg } := by
  rfl

/-- The value stored by a bounded key: the scanned number, or the default when
it is outside the range. -/
theorem clamp_in_range (lo hi dflt v : Int) (h : lo ≤ dflt ∧ dflt ≤ hi) :
    lo ≤ (if v < lo ∨ v > hi then dflt else v) ∧ (if v < lo ∨ v > hi then dflt else v) ≤ hi := by
  split
  · exact h
  · omega

theorem bounded_keys_recognised (b : Build) :
    cs "SpuUpdateFreq" ∈ recognisedKeys b ∧ cs "ForcedXAUpdates" ∈ recognisedKeys b ∧
    cs "FrameSkip" ∈ recognisedKeys b := by
  simp [recognisedKeys]

set_option maxHeartbeats 4000000 in
/-- What one key line does to the three bounded fields: each is left as it was,
unless the line has its key, and then it receives the scanned number or the
default. -/
theorem config_key_bounded (c : Consts) (b : Build) (line arg : Bytes) (s : LoadState) :
    (config_key c b line arg s).g.Config.SpuUpdateFreq =
      (if line = cs "SpuUpdateFreq" then
        (if sscanf_d arg s.value < c.SPU_UPDATE_FREQ_MIN ∨
            sscanf_d arg s.value > c.SPU_UPDATE_FREQ_MAX
          then c.SPU_UPDATE_FREQ_DEFAULT else sscanf_d arg s.value)
       else s.g.Config.SpuUpdateFreq) ∧
    (config_key c b line arg s).g.Config.ForcedXAUpdates =
      (if line = cs "ForcedXAUpdates" then
        (if sscanf_d arg s.value < c.FORCED_XA_UPDATES_MIN ∨
            sscanf_d arg s.value > c.FORCED_XA_UPDATES_MAX
          then c.FORCED_XA_UPDATES_DEFAULT else sscanf_d arg s.value)
       else s.g.Config.ForcedXAUpdates) ∧
    (config_key c b line arg s).g.Config.FrameSkip =
      (if line = cs "FrameSkip" then
        (if sscanf_d arg s.value < c.FRAMESKIP_MIN ∨ sscanf_d arg s.value > c.FRAMESKIP_MAX
          then c.FRAMESKIP_OFF else sscanf_d arg s.value)
       else s.g.Config.FrameSkip) := by
  by_cases hmem : line ∈ recognisedKeys b
  · obtain ⟨spu, psxrec, unai, x1, x2, x3, x4⟩ := b
    cases spu <;> cases psxrec <;> cases unai <;>
      simp only [recognisedKeys, List.mem_append, List.mem_cons, List.mem_singleton,
        List.not_mem_nil, or_false, if_true, if_false, Bool.false_eq_true,
        List.append_nil, false_or] at hmem <;>
      casesm* _ ∨ _ <;> subst_vars <;>
      first
        | exact ⟨rfl, rfl, rfl⟩
        | (rw [config_key_LastDir]; split <;> exact ⟨rfl, rfl, rfl⟩)
        | (rw [config_key_BiosDir]; split <;> exact ⟨rfl, rfl, rfl⟩)
        | (rw [config_key_Bios]; split <;> exact ⟨rfl, rfl, rfl⟩)
  · rw [config_key_unknown c b line arg s hmem]
    have hk := bounded_keys_recognised b
    have h1 : line ≠ cs "SpuUpdateFreq" := fun h => hmem (h ▸ hk.1)
    have h2 : line ≠ cs "ForcedXAUpdates" := fun h => hmem (h ▸ hk.2.1)
    have h3 : line ≠ cs "FrameSkip" := fun h => hmem (h ▸ hk.2.2)
    simp only [h1, h2, h3, if_false, and_self]

end Pcsx4all

namespace Pcsx4all

theorem foldl_config_step_frame {α : Type} (c : Consts) (b : Build) (f : LoadState → α)
    (K : Bytes) (hf : ∀ line arg s, line ≠ K → f (config_key c b line arg s) = f s)
    (ls : List Bytes) :
    ∀ s, K ∉ ls.filterMap (fun l => (splitLine l).map Prod.fst) →
      f (ls.foldl (config_step c b) s) = f s := by
  induction ls with
  | nil => intro s _; rfl
  | cons l ls ih =>
    intro s hK
    simp only [List.foldl_cons]
    cases hsp : splitLine l with
    | none =>
      have e : config_step c b s l = s := by simp [config_step, hsp]
      rw [e]
      apply ih
      simpa [List.filterMap_cons, hsp] using hK
    | some p =>
      obtain ⟨k, a⟩ := p
      have e : config_step c b s l = config_key c b k a s := by simp [config_step, hsp]
      have hK' : K ≠ k ∧ K ∉ ls.filterMap (fun l => (splitLine l).map Prod.fst) := by
        simpa [List.filterMap_cons, hsp] using hK
      rw [e, ih _ hK'.2]
      exact hf k a s (fun h => hK'.1 h.symm)

theorem fgetsLines_pre_line_post (size : Nat) (pre post : Bytes) (key : String) (v : Int)
    (hk : ∀ x ∈ cs key, x ≠ 0 ∧ x ≠ 10 ∧ x ≠ 32) (hv : IsInt v)
    (hlen : (cs key).length + 13 ≤ size - 1) (hpre : pre = [] ∨ pre.getLast? = some 10) :
    fgetsLines size (pre ++ numLine key v ++ post)
      = fgetsLines size pre ++ numLine key v :: fgetsLines size post := by
  rw [List.append_assoc, fgetsLines_append size pre _ hpre,
    fgetsLines_numLine size key v post hk hv hlen]

theorem key_SpuUpdateFreq : ∀ x ∈ cs "SpuUpdateFreq", x ≠ 0 ∧ x ≠ 10 ∧ x ≠ 32 := by decide
theorem key_ForcedXAUpdates : ∀ x ∈ cs "ForcedXAUpdates", x ≠ 0 ∧ x ≠ 10 ∧ x ≠ 32 := by decide
theorem key_FrameSkip : ∀ x ∈ cs "FrameSkip", x ≠ 0 ∧ x ≠ 10 ∧ x ≠ 32 := by decide

theorem clamp_eq (lo hi dflt v : Int) :
    (if v < lo ∨ v > hi then dflt else v) = (if lo ≤ v ∧ v ≤ hi then v else dflt) := by
  by_cases h : lo ≤ v ∧ v ≤ hi
  · have : ¬ (v < lo ∨ v > hi) := by omega
    simp [h, this]
  · have : v < lo ∨ v > hi := by omega
    simp [h, this]

/-- C4 (amended): in a file with the header of the compiled version, a line
`<key> v` with `v` in the range of `int`, for a bounded key (`SpuUpdateFreq`,
`ForcedXAUpdates`, `FrameSkip`), that is not followed by another line with the
same key sets the field to `v` when `v` is inside the range of the key and to
the default of the key otherwise. -/
theorem config_load_bounded_key (c : Consts) (b : Build) (pre post : Bytes) (v v0 : Int)
    (g : Globals) (hcv : IsInt c.CONFIG_VERSION) (hm : 24 ≤ c.MAXPATHLEN) (hv : IsInt v)
    (hpre : pre = [] ∨ pre.getLast? = some 10) :
    (cs "SpuUpdateFreq" ∉ keysOf (lineSize c) post →
      (config_load c b (some (numLine "CONFIG_VERSION" c.CONFIG_VERSION ++
          (pre ++ numLine "SpuUpdateFreq" v ++ post))) v0 g).Config.SpuUpdateFreq
        = if c.SPU_UPDATE_FREQ_MIN ≤ v ∧ v ≤ c.SPU_UPDATE_FREQ_MAX then v
          else c.SPU_UPDATE_FREQ_DEFAULT) ∧
    (cs "ForcedXAUpdates" ∉ keysOf (lineSize c) post →
      (config_load c b (some (numLine "CONFIG_VERSION" c.CONFIG_VERSION ++
          (pre ++ numLine "ForcedXAUpdates" v ++ post))) v0 g).Config.ForcedXAUpdates
        = if c.FORCED_XA_UPDATES_MIN ≤ v ∧ v ≤ c.FORCED_XA_UPDATES_MAX then v
          else c.FORCED_XA_UPDATES_DEFAULT) ∧
    (cs "FrameSkip" ∉ keysOf (lineSize c) post →
      (config_load c b (some (numLine "CONFIG_VERSION" c.CONFIG_VERSION ++
          (pre ++ numLine "FrameSkip" v ++ post))) v0 g).Config.FrameSkip
        = if c.FRAMESKIP_MIN ≤ v ∧ v ≤ c.FRAMESKIP_MAX then v else c.FRAMESKIP_OFF) := by
  have hm' : 19 ≤ c.MAXPATHLEN := by omega
  have l1 : (cs "SpuUpdateFreq").length + 13 ≤ lineSize c - 1 := by
    have : (cs "SpuUpdateFreq").length = 13 := by decide
    simp only [this, lineSize]; omega
  have l2 : (cs "ForcedXAUpdates").length + 13 ≤ lineSize c - 1 := by
    have : (cs "ForcedXAUpdates").length = 15 := by decide
    simp only [this, lineSize]; omega
  have l3 : (cs "FrameSkip").length + 13 ≤ lineSize c - 1 := by
    have : (cs "FrameSkip").length = 9 := by decide
    simp only [this, lineSize]; omega
  refine ⟨?_, ?_, ?_⟩
  · intro hpost
    rw [config_load_header c b _ v0 g hcv hm',
      fgetsLines_pre_line_post _ pre post _ v key_SpuUpdateFreq hv l1 hpre,
      List.foldl_append, List.foldl_cons,
      foldl_config_step_frame c b (fun s => s.g.Config.SpuUpdateFreq) (cs "SpuUpdateFreq")
        (fun line arg s hne => by
          have h := (config_key_bounded c b line arg s).1
          rw [if_neg hne] at h
          exact h) _ _ hpost,
      config_step_numLine c b _ _ v key_SpuUpdateFreq,
      (config_key_bounded c b _ _ _).1, if_pos rfl, sscanf_d_line v hv, clamp_eq]
  · intro hpost
    rw [config_load_header c b _ v0 g hcv hm',
      fgetsLines_pre_line_post _ pre post _ v key_ForcedXAUpdates hv l2 hpre,
      List.foldl_append, List.foldl_cons,
      foldl_config_step_frame c b (fun s => s.g.Config.ForcedXAUpdates)
        (cs "ForcedXAUpdates")
        (fun line arg s hne => by
          have h := (config_key_bounded c b line arg s).2.1
          rw [if_neg hne] at h
          exact h) _ _ hpost,
      config_step_numLine c b _ _ v key_ForcedXAUpdates,
      (config_key_bounded c b _ _ _).2.1, if_pos rfl, sscanf_d_line v hv, clamp_eq]
  · intro hpost
    rw [config_load_header c b _ v0 g hcv hm',
      fgetsLines_pre_line_post _ pre post _ v key_FrameSkip hv l3 hpre,
      List.foldl_append, List.foldl_cons,
      foldl_config_step_frame c b (fun s => s.g.Config.FrameSkip) (cs "FrameSkip")
        (fun line arg s hne => by
          have h := (config_key_bounded c b line arg s).2.2
          rw [if_neg hne] at h
          exact h) _ _ hpost,
      config_step_numLine c b _ _ v key_FrameSkip,
      (config_key_bounded c b _ _ _).2.2, if_pos rfl, sscanf_d_line v hv, clamp_eq]

/-- Witness of C4 at the example of the spec: `FrameSkip 99` gives
`FRAMESKIP_OFF`. -/
theorem config_load_bounded_key_witness :
    IsInt exampleConsts.CONFIG_VERSION ∧ 24 ≤ exampleConsts.MAXPATHLEN ∧ IsInt 99 ∧
    (config_load exampleConsts plainBuild
        (some (numLine "CONFIG_VERSION" exampleConsts.CONFIG_VERSION ++
          ([] ++ numLine "FrameSkip" 99 ++ []))) 0 exampleDefaults).Config.FrameSkip
      = exampleConsts.FRAMESKIP_OFF :=
  ⟨by decide, by decide, by decide,
   ((config_load_bounded_key exampleConsts plainBuild [] [] 99 0 exampleDefaults (by decide)
      (by decide) (by decide) (Or.inl rfl)).2.2 (by decide)).trans (by decide)⟩

/-- C4 (counterexample): the line `FrameSkip 4294967297` carries an integer
outside the range `-1..3` of the key, and outside the range of `int`: the
conversion `%d` stores 1, which is inside the range, so the field is 1 and not
`FRAMESKIP_OFF`. -/
theorem config_load_bounded_key_wraps :
    ¬ (exampleConsts.FRAMESKIP_MIN ≤ (4294967297 : Int) ∧
      (4294967297 : Int) ≤ exampleConsts.FRAMESKIP_MAX) ∧
    ¬ IsInt 4294967297 ∧ exampleConsts.FRAMESKIP_OFF = 0 ∧
    (config_load exampleConsts plainBuild
      (some (numLine "CONFIG_VERSION" exampleConsts.CONFIG_VERSION ++
        ([] ++ numLine "FrameSkip" 4294967297 ++ []))) 0 exampleDefaults).Config.FrameSkip
      = 1 := by
  decide

end Pcsx4all

namespace Pcsx4all

theorem config_key_bounded_in_range (c : Consts) (b : Build) (line arg : Bytes)
    (s : LoadState) (hd : DefaultsInRange c) (hs : BoundedInRange c s.g) :
    BoundedInRange c (config_key c b line arg s).g := by
  obtain ⟨e1, e2, e3⟩ := config_key_bounded c b line arg s
  unfold BoundedInRange
  rw [e1, e2, e3]
  refine ⟨?_, ?_, ?_⟩
  · split
    · exact clamp_in_range _ _ _ _ hd.1
    · exact hs.1
  · split
    · exact clamp_in_range _ _ _ _ hd.2.1
    · exact hs.2.1
  · split
    · exact clamp_in_range _ _ _ _ hd.2.2
    · exact hs.2.2

theorem config_loop_bounded_in_range (c : Consts) (b : Build) (hd : DefaultsInRange c)
    (ls : List Bytes) :
    ∀ (n : Nat) (s : LoadState), BoundedInRange c s.g →
      BoundedInRange c (config_loop c b ls n s).g := by
  induction ls with
  | nil => intro n s hs; exact hs
  | cons l ls ih =>
    intro n s hs
    simp only [config_loop]
    cases hsp : splitLine l with
    | none => exact ih _ _ hs
    | some p =>
      obtain ⟨k, a⟩ := p
      simp only []
      split
      · split
        · split
          · exact ih _ _ hs
          · exact hs
        · exact hs
      · exact ih _ _ (config_key_bounded_in_range c b k a s hd hs)

theorem defaults_bounded_in_range (c : Consts) (b : Build) (home : Bytes) (g0 : Globals)
    (hd : DefaultsInRange c) : BoundedInRange c (defaults c b home g0) := hd

/-- C5 (amended): whatever the configuration file contains (or when it is
missing), after `config_load` has run on top of the compiled defaults the three
bounded settings `SpuUpdateFreq`, `ForcedXAUpdates` and `FrameSkip` lie inside
their ranges, provided their defaults do. -/
theorem config_load_bounded_in_range (c : Consts) (b : Build) (file : Option Bytes)
    (v0 : Int) (home : Bytes) (g0 : Globals) (hd : DefaultsInRange c) :
    BoundedInRange c (config_load c b file v0 (defaults c b home g0)) := by
  cases file with
  | none => exact defaults_bounded_in_range c b home g0 hd
  | some text =>
    exact config_loop_bounded_in_range c b hd _ 0 _ (defaults_bounded_in_range c b home g0 hd)

theorem config_load_bounded_in_range_witness :
    DefaultsInRange exampleConsts ∧
    BoundedInRange exampleConsts
      (config_load exampleConsts plainBuild
        (some (cs "CONFIG_VERSION 1\nFrameSkip 99\nSpuUpdateFreq -4\nForcedXAUpdates x\n")) 0
        (defaults exampleConsts plainBuild (cs "/home/user") zeroGlobals)) :=
  ⟨by decide,
   config_load_bounded_in_range exampleConsts plainBuild _ 0 (cs "/home/user") zeroGlobals
     (by decide)⟩

/-- C5 (counterexample): after loading `PsxType 7` and `Xa 5` the field
`PsxType` is neither 0 nor 1 and the boolean-typed field `Xa` is neither 0
nor 1. -/
theorem config_load_unchecked_fields :
    ((config_load exampleConsts plainBuild (some (cs "CONFIG_VERSION 1\nPsxType 7\nXa 5\n")) 0
        exampleDefaults).Config.PsxType ≠ 0 ∧
     (config_load exampleConsts plainBuild (some (cs "CONFIG_VERSION 1\nPsxType 7\nXa 5\n")) 0
        exampleDefaults).Config.PsxType ≠ 1) ∧
    ((config_load exampleConsts plainBuild (some (cs "CONFIG_VERSION 1\nPsxType 7\nXa 5\n")) 0
        exampleDefaults).Config.Xa ≠ 0 ∧
     (config_load exampleConsts plainBuild (some (cs "CONFIG_VERSION 1\nPsxType 7\nXa 5\n")) 0
        exampleDefaults).Config.Xa ≠ 1) := by
  decide

/-- C6 (amended): in a file with the header of the compiled version, inserting
at a line boundary after the first line a newline-terminated line that fits the
line buffer (at most `8 + MAXPATHLEN` bytes with its newline) and whose key is
not a recognised key does not change the result of `config_load`. -/
theorem config_load_unrecognised_line (c : Consts) (b : Build) (pre body post : Bytes)
    (v0 : Int) (g : Globals) (hcv : IsInt c.CONFIG_VERSION) (hm : 19 ≤ c.MAXPATHLEN)
    (hpre : pre = [] ∨ pre.getLast? = some 10) (hbody : ∀ x ∈ body, x ≠ 10)
    (hlen : body.length + 1 ≤ 8 + c.MAXPATHLEN)
    (hkey : ∀ k a, splitLine (body ++ [10]) = some (k, a) → k ∉ recognisedKeys b) :
    config_load c b (some (numLine "CONFIG_VERSION" c.CONFIG_VERSION ++
        (pre ++ (body ++ [10]) ++ post))) v0 g
      = config_load c b (some (numLine "CONFIG_VERSION" c.CONFIG_VERSION ++ (pre ++ post)))
          v0 g := by
  have hstep : ∀ s, config_step c b s (body ++ [10]) = s := by
    intro s
    unfold config_step
    cases hsp : splitLine (body ++ [10]) with
    | none => rfl
    | some p =>
      obtain ⟨k, a⟩ := p
      exact config_key_unknown c b k a s (hkey k a hsp)
  have hl : body.length + 1 ≤ lineSize c - 1 := by simp only [lineSize]; omega
  rw [config_load_header c b _ v0 g hcv hm, config_load_header c b _ v0 g hcv hm,
    List.append_assoc, fgetsLines_append _ pre _ hpre, fgetsLines_append _ pre _ hpre,
    List.append_assoc, List.singleton_append, fgetsLines_line _ body post hbody hl,
    List.foldl_append, List.foldl_append, List.foldl_cons, hstep]

theorem config_load_unrecognised_line_witness :
    IsInt exampleConsts.CONFIG_VERSION ∧ 19 ≤ exampleConsts.MAXPATHLEN ∧
    (cs "Xa 1\n" = [] ∨ (cs "Xa 1\n").getLast? = some 10) ∧
    (∀ x ∈ cs "Volume 3", x ≠ 10) ∧
    (cs "Volume 3").length + 1 ≤ 8 + exampleConsts.MAXPATHLEN ∧
    (∀ k a, splitLine (cs "Volume 3" ++ [10]) = some (k, a) → k ∉ recognisedKeys plainBuild) ∧
    config_load exampleConsts plainBuild (some (numLine "CONFIG_VERSION"
        exampleConsts.CONFIG_VERSION ++ (cs "Xa 1\n" ++ (cs "Volume 3" ++ [10]) ++
          cs "FrameSkip 2\n"))) 0 exampleDefaults
      = config_load exampleConsts plainBuild (some (numLine "CONFIG_VERSION"
          exampleConsts.CONFIG_VERSION ++ (cs "Xa 1\n" ++ cs "FrameSkip 2\n"))) 0
          exampleDefaults :=
  have hk : ∀ k a, splitLine (cs "Volume 3" ++ [10]) = some (k, a) →
      k ∉ recognisedKeys plainBuild := by
    intro k a h
    have e : splitLine (cs "Volume 3" ++ [10]) = some (cs "Volume", cs "3\n") := by decide
    rw [e] at h
    simp only [Option.some.injEq, Prod.mk.injEq] at h
    rw [← h.1]
    decide
  ⟨by decide, by decide, by decide, by decide, by decide, hk,
   config_load_unrecognised_line exampleConsts plainBuild (cs "Xa 1\n") (cs "Volume 3")
     (cs "FrameSkip 2\n") 0 exampleDefaults (by decide) (by decide) (by decide) (by decide)
     (by decide) hk⟩

end Pcsx4all

namespace Pcsx4all

theorem recognisedKeys_length (b : Build) : ∀ k ∈ recognisedKeys b, k.length ≤ 19 := by
  obtain ⟨spu, psxrec, unai, x1, x2, x3, x4⟩ := b
  cases spu <;> cases psxrec <;> cases unai <;>
    simp only [recognisedKeys, if_true, if_false, Bool.false_eq_true] <;> decide

theorem mem_replicate_ne (n a x y : Nat) (h : a ≠ y) (hx : x ∈ List.replicate n a) : x ≠ y := by
  rw [List.mem_replicate] at hx
  rw [hx.2]; exact h

/-- A line of `8 + MAXPATHLEN` bytes `z` followed by `Xa 1`: its key is not
recognised, and `fgets` cuts it so that the rest is read as the line `Xa 1`. -/
theorem config_load_overlong_general (c : Consts) (b : Build) (v0 : Int) (g : Globals)
    (hcv : IsInt c.CONFIG_VERSION) (hm : 19 ≤ c.MAXPATHLEN) :
    (∀ k a, splitLine (List.replicate (8 + c.MAXPATHLEN) 122 ++ cs "Xa 1\n") = some (k, a) →
      k ∉ recognisedKeys b) ∧
    (config_load c b (some (numLine "CONFIG_VERSION" c.CONFIG_VERSION ++
      (List.replicate (8 + c.MAXPATHLEN) 122 ++ cs "Xa 1\n"))) v0 g).Config.Xa = 1 := by
  refine ⟨?_, ?_⟩
  · intro k a h
    have e : List.replicate (8 + c.MAXPATHLEN) 122 ++ cs "Xa 1\n"
        = (List.replicate (8 + c.MAXPATHLEN) 122 ++ cs "Xa") ++ 32 :: cs "1\n" := by
      have : cs "Xa 1\n" = cs "Xa" ++ 32 :: cs "1\n" := by decide
      rw [this, List.append_assoc]
    rw [e, splitLine_key] at h
    · simp only [Option.some.injEq, Prod.mk.injEq] at h
      intro hmem
      have := recognisedKeys_length b k hmem
      rw [← h.1] at this
      simp only [List.length_append, List.length_replicate] at this
      omega
    · intro x hx
      rcases List.mem_append.1 hx with hx | hx
      · exact ⟨mem_replicate_ne (8 + c.MAXPATHLEN) 122 x 0 (by decide) hx,
          mem_replicate_ne (8 + c.MAXPATHLEN) 122 x 32 (by decide) hx⟩
      · have hk : ∀ x ∈ cs "Xa", x ≠ 0 ∧ x ≠ 32 := by decide
        exact hk x hx
  · have hrest : fgetsAux (lineSize c) (cs "Xa 1\n") [] = [cs "Xa 1\n"] := by
      have := fgetsAux_line (lineSize c) (cs "Xa 1") [] [] (by decide)
        (by simp only [lineSize]; simp [cs]; omega)
      have e : cs "Xa 1\n" = cs "Xa 1" ++ [10] := by decide
      rw [e, this]
      simp [fgetsAux]
    have hfull : fgetsLines (lineSize c) (List.replicate (8 + c.MAXPATHLEN) 122 ++ cs "Xa 1\n")
        = [List.replicate (8 + c.MAXPATHLEN) 122, cs "Xa 1\n"] := by
      unfold fgetsLines
      rw [fgetsAux_full _ (List.replicate (8 + c.MAXPATHLEN) 122) [] (cs "Xa 1\n")
        (fun x hx => mem_replicate_ne (8 + c.MAXPATHLEN) 122 x 10 (by decide) hx)
        (by
          intro h
          have := congrArg List.length h
          simp only [List.length_replicate, List.length_nil] at this
          omega)
        (by simp only [List.length_nil, List.length_replicate, lineSize]; omega), hrest]
      rfl
    have hskip : ∀ s, config_step c b s (List.replicate (8 + c.MAXPATHLEN) 122) = s := by
      intro s
      unfold config_step
      rw [splitLine_none _ (fun x hx => mem_replicate_ne (8 + c.MAXPATHLEN) 122 x 32
        (by decide) hx)]
    rw [config_load_header c b _ v0 g hcv hm, hfull, List.foldl_cons, List.foldl_cons, hskip,
      List.foldl_nil]
    have hs : splitLine (cs "Xa 1\n") = some (cs "Xa", cs "1\n") := by decide
    have hv : sscanf_d (cs "1\n") c.CONFIG_VERSION = 1 := by
      have : scanDec (cs "1\n") = some 1 := by decide
      simp [sscanf_d, this, toInt32]
    simp only [config_step, hs]
    have hkey : config_key c b (cs "Xa") (cs "1\n") ⟨g, c.CONFIG_VERSION⟩
        = { g := { g with Config := { g.Config with Xa := sscanf_d (cs "1\n") c.CONFIG_VERSION } },
            value := sscanf_d (cs "1\n") c.CONFIG_VERSION } := rfl
    rw [hkey, hv]

/-- C6 (counterexample): a line of 4104 bytes `z` followed by `Xa 1` has the
unrecognised key `zzz...zXa`, yet inserting it after the header changes `Xa`
from 0 to 1: `fgets` cuts the line after 4104 bytes and the rest is read as the
line `Xa 1`. -/
theorem config_load_overlong_line :
    (∀ k a, splitLine (List.replicate 4104 122 ++ cs "Xa 1\n") = some (k, a) →
      k ∉ recognisedKeys plainBuild) ∧
    (config_load exampleConsts plainBuild
      (some (numLine "CONFIG_VERSION" 1 ++ (List.replicate 4104 122 ++ cs "Xa 1\n"))) 0
      exampleDefaults).Config.Xa = 1 ∧
    (config_load exampleConsts plainBuild (some (numLine "CONFIG_VERSION" 1)) 0
      exampleDefaults).Config.Xa = 0 := by
  have h := config_load_overlong_general exampleConsts plainBuild 0 exampleDefaults
    (by decide) (by decide)
  have e : 8 + exampleConsts.MAXPATHLEN = 4104 := rfl
  have hcv : exampleConsts.CONFIG_VERSION = 1 := rfl
  rw [e, hcv] at h
  exact ⟨h.1, h.2, by decide⟩

/-- C7 (evaluation at the failing input): the lines `LastDir `, `BiosDir ` and
`Bios ` with an empty value and a newline overwrite the three fields, which
hold their non-empty defaults before, with the empty string. -/
theorem config_load_empty_string_value :
    (exampleDefaults.Config.LastDir = cs "/home/user" ∧
     exampleDefaults.Config.BiosDir = cs "/home/user/.pcsx4all/bios" ∧
     exampleDefaults.Config.Bios = cs "scph1001.bin") ∧
    (config_load exampleConsts plainBuild
        (some (cs "CONFIG_VERSION 1\nLastDir \nBiosDir \nBios \n")) 0
        exampleDefaults).Config.LastDir = [] ∧
    (config_load exampleConsts plainBuild
        (some (cs "CONFIG_VERSION 1\nLastDir \nBiosDir \nBios \n")) 0
        exampleDefaults).Config.BiosDir = [] ∧
    (config_load exampleConsts plainBuild
        (some (cs "CONFIG_VERSION 1\nLastDir \nBiosDir \nBios \n")) 0
        exampleDefaults).Config.Bios = [] := by
  decide

/-- A newline-terminated `LastDir` line whose value has exactly
`sizeof(Config.LastDir) - 1` bytes is rejected: the length test counts the
newline. -/
theorem config_load_LastDir_max_general (c : Consts) (b : Build) (v : Bytes) (v0 : Int)
    (g : Globals) (hcv : IsInt c.CONFIG_VERSION) (hm : 19 ≤ c.MAXPATHLEN)
    (hv : ∀ x ∈ v, x ≠ 0 ∧ x ≠ 10) (hlen : v.length = c.sizeofLastDir - 1)
    (hfit : v.length ≤ c.MAXPATHLEN - 1) :
    (config_load c b (some (numLine "CONFIG_VERSION" c.CONFIG_VERSION ++
      ((cs "LastDir" ++ 32 :: v) ++ [10]))) v0 g).Config.LastDir = g.Config.LastDir := by
  have hbody : ∀ x ∈ cs "LastDir" ++ 32 :: v, x ≠ 10 := by
    intro x hx
    rcases List.mem_append.1 hx with hx | hx
    · have hk : ∀ x ∈ cs "LastDir", x ≠ 10 := by decide
      exact hk x hx
    · rcases List.mem_cons.1 hx with rfl | hx
      · decide
      · exact (hv x hx).2
  have h7 : (cs "LastDir").length = 7 := by decide
  have hlines : fgetsLines (lineSize c) ((cs "LastDir" ++ 32 :: v) ++ [10])
      = [(cs "LastDir" ++ 32 :: v) ++ [10]] := by
    have := fgetsLines_line (lineSize c) _ [] hbody
      (by simp only [List.length_append, List.length_cons, h7, lineSize]; omega)
    rw [this]; rfl
  have hsplit : splitLine ((cs "LastDir" ++ 32 :: v) ++ [10])
      = some (cs "LastDir", v ++ [10]) := by
    rw [List.append_assoc, List.cons_append, splitLine_key _ _ (by decide), cstr_eq_self]
    intro x hx
    rcases List.mem_append.1 hx with hx | hx
    · exact (hv x hx).1
    · simp at hx; omega
  rw [config_load_header c b _ v0 g hcv hm, hlines, List.foldl_cons, List.foldl_nil]
  unfold config_step
  rw [hsplit]
  simp only [config_key_LastDir]
  have hl : (v ++ [10]).length > c.sizeofLastDir - 1 := by
    simp only [List.length_append, List.length_singleton]; omega
  rw [if_pos (Or.inr hl)]

/-- C8 (evaluation at the failing input): with a buffer of 4096 bytes, the
line `LastDir ` followed by a value of 4095 bytes `a` and a newline leaves
`LastDir` at its previous content, although the value fits the buffer. -/
theorem config_load_max_length_value :
    (List.replicate 4095 97).length = exampleConsts.sizeofLastDir - 1 ∧
    (config_load exampleConsts plainBuild
        (some (numLine "CONFIG_VERSION" 1 ++
          ((cs "LastDir" ++ 32 :: List.replicate 4095 97) ++ [10]))) 0
        exampleDefaults).Config.LastDir = cs "/home/user" := by
  have hl : (List.replicate 4095 97).length = 4095 := List.length_replicate 4095 97
  have h := config_load_LastDir_max_general exampleConsts plainBuild (List.replicate 4095 97) 0
    exampleDefaults (by decide) (by decide)
    (fun x hx => ⟨mem_replicate_ne 4095 97 x 0 (by decide) hx,
      mem_replicate_ne 4095 97 x 10 (by decide) hx⟩)
    (by rw [hl]; rfl) (by rw [hl]; decide)
  have hcv : exampleConsts.CONFIG_VERSION = 1 := rfl
  have hd : exampleDefaults.Config.LastDir = cs "/home/user" := by decide
  rw [hcv, hd] at h
  exact ⟨by rw [hl]; rfl, h⟩

end Pcsx4all

namespace Pcsx4all

/-! ## Round trip through the text of `config_save` -/

theorem config_run_nil (c : Consts) (b : Build) (s : LoadState) : config_run c b s [] = s := by
  simp [config_run, fgetsLines, fgetsAux]

theorem config_run_line (c : Consts) (b : Build) (s : LoadState) (body rest : Bytes)
    (hb : ∀ x ∈ body, x ≠ 10) (hlen : body.length + 1 ≤ 8 + c.MAXPATHLEN) :
    config_run c b s (body ++ 10 :: rest)
      = config_run c b (config_step c b s (body ++ [10])) rest := by
  unfold config_run
  rw [fgetsLines_line _ body rest hb (by simp only [lineSize]; omega), List.foldl_cons]

theorem config_run_numLine (c : Consts) (b : Build) (s : LoadState) (key : String) (v : Int)
    (rest : Bytes) (hk : ∀ x ∈ cs key, x ≠ 0 ∧ x ≠ 10 ∧ x ≠ 32) (hkl : (cs key).length ≤ 19)
    (hm : 24 ≤ c.MAXPATHLEN) (hv : IsInt v) :
    config_run c b s (numLine key v ++ rest)
      = config_run c b (config_key c b (cs key) (fmtD v ++ [10]) s) rest := by
  unfold config_run
  rw [fgetsLines_numLine _ key v rest hk hv (by simp only [lineSize]; omega), List.foldl_cons,
    config_step_numLine c b s key v hk]

theorem config_load_eq_run (c : Consts) (b : Build) (rest : Bytes) (v0 : Int) (g : Globals)
    (hcv : IsInt c.CONFIG_VERSION) (hm : 19 ≤ c.MAXPATHLEN) :
    config_load c b (some (numLine "CONFIG_VERSION" c.CONFIG_VERSION ++ rest)) v0 g
      = (config_run c b ⟨g, c.CONFIG_VERSION⟩ rest).g :=
  config_load_header c b rest v0 g hcv hm

theorem stripNewline_append (p : Bytes) : stripNewline (p ++ [10]) = p := by
  simp [stripNewline]

theorem strLine_linePath (key : String) (size : Nat) (p : Bytes) (hp : LinePath size p) :
    strLine key p = (cs key ++ 32 :: p) ++ [10] := by
  have hc : cstr p = p := cstr_eq_self p (fun x hx => (hp.2.1 x hx).1)
  simp [strLine, hc, hp.1]

theorem config_run_strLine (c : Consts) (b : Build) (s : LoadState) (key : String)
    (size : Nat) (p rest : Bytes) (hk : ∀ x ∈ cs key, x ≠ 0 ∧ x ≠ 10 ∧ x ≠ 32)
    (hkl : (cs key).length ≤ 7) (hsz : size ≤ c.MAXPATHLEN + 1) (hp : LinePath size p) :
    config_run c b s (strLine key p ++ rest)
      = config_run c b (config_key c b (cs key) (p ++ [10]) s) rest := by
  have hbody : ∀ x ∈ cs key ++ 32 :: p, x ≠ 10 := by
    intro x hx
    rcases List.mem_append.1 hx with hx | hx
    · exact (hk x hx).2.1
    · rcases List.mem_cons.1 hx with rfl | hx
      · decide
      · exact (hp.2.1 x hx).2
  have hlen : (cs key ++ 32 :: p).length + 1 ≤ 8 + c.MAXPATHLEN := by
    have := hp.2.2
    simp only [List.length_append, List.length_cons]; omega
  rw [strLine_linePath key size p hp, List.append_assoc, List.singleton_append,
    config_run_line c b s _ rest hbody hlen]
  congr 1
  unfold config_step
  rw [List.append_assoc, List.cons_append,
    splitLine_key _ _ (fun x hx => ⟨(hk x hx).1, (hk x hx).2.2⟩), cstr_eq_self]
  intro x hx
  rcases List.mem_append.1 hx with hx | hx
  · exact (hp.2.1 x hx).1
  · simp at hx; omega

end Pcsx4all

namespace Pcsx4all

theorem hexDigit_facts : ∀ d < 16, hexVal (hexDigit d) = some d ∧ isspace (hexDigit d) = false ∧
    hexDigit d ≠ 45 ∧ hexDigit d ≠ 43 ∧ hexDigit d ≠ 120 ∧ hexDigit d ≠ 88 ∧
    hexDigit d ≠ 0 ∧ hexDigit d ≠ 10 ∧ hexDigit d ≠ 32 := by
  decide

theorem fmtX03_eq (n : Nat) (h : n < 4096) :
    fmtX03 n = [hexDigit (n / 256), hexDigit (n / 16 % 16), hexDigit (n % 16)] := by
  by_cases h16 : n < 16
  · have e1 : n / 256 = 0 := by omega
    have e2 : n / 16 % 16 = 0 := by omega
    have e3 : n % 16 = n := by omega
    rw [e1, e2, e3]
    simp [fmtX03, fmtHexAux, h16, hexDigit]
  · by_cases h256 : n < 256
    · have e1 : n / 256 = 0 := by omega
      have e2 : n / 16 % 16 = n / 16 := by omega
      have e4 : n / 16 < 16 := by omega
      rw [e1, e2]
      have : fmtHexAux (n + 1) n [] = [hexDigit (n / 16), hexDigit (n % 16)] := by
        have hn : n + 1 = (n - 1) + 1 + 1 := by omega
        rw [hn]
        simp [fmtHexAux, h16, e4]
      simp [fmtX03, this, hexDigit]
    · have e4 : ¬ n / 16 < 16 := by omega
      have e5 : n / 16 / 16 < 16 := by omega
      have e6 : n / 16 / 16 = n / 256 := by omega
      have e7 : ¬ 16 ≤ n / 256 := by omega
      have : fmtHexAux (n + 1) n []
          = [hexDigit (n / 256), hexDigit (n / 16 % 16), hexDigit (n % 16)] := by
        have hn : n + 1 = (n - 2) + 1 + 1 + 1 := by omega
        rw [hn]
        simp [fmtHexAux, h16, e4, e5, e6, e7]
      simp [fmtX03, this]

theorem fmtX03_no_special (n : Nat) (h : n < 4096) :
    ∀ x ∈ fmtX03 n, x ≠ 0 ∧ x ≠ 10 ∧ x ≠ 32 := by
  rw [fmtX03_eq n h]
  have f1 := hexDigit_facts (n / 256) (by omega)
  have f2 := hexDigit_facts (n / 16 % 16) (by omega)
  have f3 := hexDigit_facts (n % 16) (by omega)
  intro x hx
  simp only [List.mem_cons, List.mem_singleton, List.not_mem_nil, or_false] at hx
  rcases hx with rfl | rfl | rfl
  · exact ⟨f1.2.2.2.2.2.2.1, f1.2.2.2.2.2.2.2.1, f1.2.2.2.2.2.2.2.2⟩
  · exact ⟨f2.2.2.2.2.2.2.1, f2.2.2.2.2.2.2.2.1, f2.2.2.2.2.2.2.2.2⟩
  · exact ⟨f3.2.2.2.2.2.2.1, f3.2.2.2.2.2.2.2.1, f3.2.2.2.2.2.2.2.2⟩

theorem scanHex3_fmtX03 (n : Nat) (h : n < 4096) :
    scanHex3 (fmtX03 n ++ [10]) = some (n : Int) := by
  rw [fmtX03_eq n h]
  obtain ⟨a1, a2, a3, a4, _, _, _, _, _⟩ := hexDigit_facts (n / 256) (by omega)
  obtain ⟨b1, _, _, _, b5, b6, _, _, _⟩ := hexDigit_facts (n / 16 % 16) (by omega)
  obtain ⟨c1, _, _, _, _, _, _, _, _⟩ := hexDigit_facts (n % 16) (by omega)
  have hp : hasHexPrefix [hexDigit (n / 256), hexDigit (n / 16 % 16), hexDigit (n % 16)]
      = false := by
    simp [hasHexPrefix, b5, b6]
  have hv : hexDigitsVal 0 [hexDigit (n / 256), hexDigit (n / 16 % 16), hexDigit (n % 16)]
      = n := by
    simp only [hexDigitsVal, a1, b1, c1]
    omega
  have hb : scanHexBody [hexDigit (n / 256), hexDigit (n / 16 % 16), hexDigit (n % 16)]
      = some n := by
    simp only [scanHexBody, hp, Bool.false_eq_true, if_false, a1, Option.isSome_some, if_true,
      hv]
  have hs : skipSpace ([hexDigit (n / 256), hexDigit (n / 16 % 16), hexDigit (n % 16)] ++ [10])
      = [hexDigit (n / 256), hexDigit (n / 16 % 16), hexDigit (n % 16), 10] := by
    simp [skipSpace, a2]
  have ht : [hexDigit (n / 256), hexDigit (n / 16 % 16), hexDigit (n % 16), 10].take 3
      = [hexDigit (n / 256), hexDigit (n / 16 % 16), hexDigit (n % 16)] := rfl
  unfold scanHex3
  rw [hs, ht]
  simp only [a3, a4, if_false, hb, Option.map_some']

theorem sscanf_03x_line (n : Nat) (h : n < 4096) (old : Int) :
    toU32 (sscanf_03x (fmtX03 n ++ [10]) old) = n := by
  have hi : IsInt (n : Int) := by unfold IsInt; omega
  simp only [sscanf_03x, scanHex3_fmtX03 n h, toInt32_of_isInt _ hi, toU32]
  omega

theorem config_run_hexLine (c : Consts) (b : Build) (s : LoadState) (n : Nat) (rest : Bytes)
    (hm : 24 ≤ c.MAXPATHLEN) (hn : n < 4096) :
    config_run c b s (hexLine "CycleMultiplier" n ++ rest)
      = config_run c b (config_key c b (cs "CycleMultiplier") (fmtX03 n ++ [10]) s) rest := by
  have hk : ∀ x ∈ cs "CycleMultiplier", x ≠ 0 ∧ x ≠ 10 ∧ x ≠ 32 := by decide
  have hkl : (cs "CycleMultiplier").length = 15 := by decide
  have hbody : ∀ x ∈ cs "CycleMultiplier" ++ 32 :: fmtX03 n, x ≠ 10 := by
    intro x hx
    rcases List.mem_append.1 hx with hx | hx
    · exact (hk x hx).2.1
    · rcases List.mem_cons.1 hx with rfl | hx
      · decide
      · exact (fmtX03_no_special n hn x hx).2.1
  have hlen : (cs "CycleMultiplier" ++ 32 :: fmtX03 n).length + 1 ≤ 8 + c.MAXPATHLEN := by
    rw [fmtX03_eq n hn]
    simp only [List.length_append, List.length_cons, hkl, List.length_nil]; omega
  have e : hexLine "CycleMultiplier" n ++ rest
      = (cs "CycleMultiplier" ++ 32 :: fmtX03 n) ++ 10 :: rest := by simp [hexLine]
  rw [e, config_run_line c b s _ rest hbody hlen]
  congr 1
  unfold config_step
  rw [List.append_assoc, List.cons_append,
    splitLine_key _ _ (fun x hx => ⟨(hk x hx).1, (hk x hx).2.2⟩), cstr_eq_self]
  intro x hx
  rcases List.mem_append.1 hx with hx | hx
  · exact (fmtX03_no_special n hn x hx).1
  · simp at hx; omega

end Pcsx4all

namespace Pcsx4all

/-! ### One lemma for every line that `config_save` writes -/

theorem config_run_Xa (c : Consts) (b : Build) (s : LoadState) (v : Int) (rest : Bytes)
    (hm : 24 ≤ c.MAXPATHLEN) (hv : IsInt v) :
    config_run c b s (numLine "Xa" v ++ rest)
      = config_run c b { s with g.Config.Xa := v, value := v } rest := by
  have hk : config_key c b (cs "Xa") (fmtD v ++ [10]) s
      = { s with g.Config.Xa := sscanf_d (fmtD v ++ [10]) s.value,
                 value := sscanf_d (fmtD v ++ [10]) s.value } := rfl
  rw [config_run_numLine c b s "Xa" v rest (by decide) (by decide) hm hv, hk,
    sscanf_d_line v hv]

theorem config_run_Mdec (c : Consts) (b : Build) (s : LoadState) (v : Int) (rest : Bytes)
    (hm : 24 ≤ c.MAXPATHLEN) (hv : IsInt v) :
    config_run c b s (numLine "Mdec" v ++ rest)
      = config_run c b { s with g.Config.Mdec := v, value := v } rest := by
  have hk : config_key c b (cs "Mdec") (fmtD v ++ [10]) s
      = { s with g.Config.Mdec := sscanf_d (fmtD v ++ [10]) s.value,
                 value := sscanf_d (fmtD v ++ [10]) s.value } := rfl
  rw [config_run_numLine c b s "Mdec" v rest (by decide) (by decide) hm hv, hk,
    sscanf_d_line v hv]

theorem config_run_PsxAuto (c : Consts) (b : Build) (s : LoadState) (v : Int) (rest : Bytes)
    (hm : 24 ≤ c.MAXPATHLEN) (hv : IsInt v) :
    config_run c b s (numLine "PsxAuto" v ++ rest)
      = config_run c b { s with g.Config.PsxAuto := v, value := v } rest := by
  have hk : config_key c b (cs "PsxAuto") (fmtD v ++ [10]) s
      = { s with g.Config.PsxAuto := sscanf_d (fmtD v ++ [10]) s.value,
                 value := sscanf_d (fmtD v ++ [10]) s.value } := rfl
  rw [config_run_numLine c b s "PsxAuto" v rest (by decide) (by decide) hm hv, hk,
    sscanf_d_line v hv]

theorem config_run_Cdda (c : Consts) (b : Build) (s : LoadState) (v : Int) (rest : Bytes)
    (hm : 24 ≤ c.MAXPATHLEN) (hv : IsInt v) :
    config_run c b s (numLine "Cdda" v ++ rest)
      = config_run c b { s with g.Config.Cdda := v, value := v } rest := by
  have hk : config_key c b (cs "Cdda") (fmtD v ++ [10]) s
      = { s with g.Config.Cdda := sscanf_d (fmtD v ++ [10]) s.value,
                 value := sscanf_d (fmtD v ++ [10]) s.value } := rfl
  rw [config_run_numLine c b s "Cdda" v rest (by decide) (by decide) hm hv, hk,
    sscanf_d_line v hv]

theorem config_run_HLE (c : Consts) (b : Build) (s : LoadState) (v : Int) (rest : Bytes)
    (hm : 24 ≤ c.MAXPATHLEN) (hv : IsInt v) :
    config_run c b s (numLine "HLE" v ++ rest)
      = config_run c b { s with g.Config.HLE := v, value := v } rest := by
  have hk : config_key c b (cs "HLE") (fmtD v ++ [10]) s
      = { s with g.Config.HLE := sscanf_d (fmtD v ++ [10]) s.value,
                 value := sscanf_d (fmtD v ++ [10]) s.value } := rfl
  rw [config_run_numLine c b s "HLE" v rest (by decide) (by decide) hm hv, hk,
    sscanf_d_line v hv]

theorem config_run_SlowBoot (c : Consts) (b : Build) (s : LoadState) (v : Int) (rest : Bytes)
    (hm : 24 ≤ c.MAXPATHLEN) (hv : IsInt v) :
    config_run c b s (numLine "SlowBoot" v ++ rest)
      = config_run c b { s with g.Config.SlowBoot := v, value := v } rest := by
  have hk : config_key c b (cs "SlowBoot") (fmtD v ++ [10]) s
      = { s with g.Config.SlowBoot := sscanf_d (fmtD v ++ [10]) s.value,
                 value := sscanf_d (fmtD v ++ [10]) s.value } := rfl
  rw [config_run_numLine c b s "SlowBoot" v rest (by decide) (by decide) hm hv, hk,
    sscanf_d_line v hv]

theorem config_run_RCntFix (c : Consts) (b : Build) (s : LoadState) (v : Int) (rest : Bytes)
    (hm : 24 ≤ c.MAXPATHLEN) (hv : IsInt v) :
    config_run c b s (numLine "RCntFix" v ++ rest)
      = config_run c b { s with g.Config.RCntFix := v, value := v } rest := by
  have hk : config_key c b (cs "RCntFix") (fmtD v ++ [10]) s
      = { s with g.Config.RCntFix := sscanf_d (fmtD v ++ [10]) s.value,
                 value := sscanf_d (fmtD v ++ [10]) s.value } := rfl
  rw [config_run_numLine c b s "RCntFix" v rest (by decide) (by decide) hm hv, hk,
    sscanf_d_line v hv]

theorem config_run_VSyncWA (c : Consts) (b : Build) (s : LoadState) (v : Int) (rest : Bytes)
    (hm : 24 ≤ c.MAXPATHLEN) (hv : IsInt v) :
    config_run c b s (numLine "VSyncWA" v ++ rest)
      = config_run c b { s with g.Config.VSyncWA := v, value := v } rest := by
  have hk : config_key c b (cs "VSyncWA") (fmtD v ++ [10]) s
      = { s with g.Config.VSyncWA := sscanf_d (fmtD v ++ [10]) s.value,
                 value := sscanf_d (fmtD v ++ [10]) s.value } := rfl
  rw [config_run_numLine c b s "VSyncWA" v rest (by decide) (by decide) hm hv, hk,
    sscanf_d_line v hv]

theorem config_run_Cpu (c : Consts) (b : Build) (s : LoadState) (v : Int) (rest : Bytes)
    (hm : 24 ≤ c.MAXPATHLEN) (hv : IsInt v) :
    config_run c b s (numLine "Cpu" v ++ rest)
      = config_run c b { s with g.Config.Cpu := v, value := v } rest := by
  have hk : config_key c b (cs "Cpu") (fmtD v ++ [10]) s
      = { s with g.Config.Cpu := sscanf_d (fmtD v ++ [10]) s.value,
                 value := sscanf_d (fmtD v ++ [10]) s.value } := rfl
  rw [config_run_numLine c b s "Cpu" v rest (by decide) (by decide) hm hv, hk,
    sscanf_d_line v hv]

theorem config_run_PsxType (c : Consts) (b : Build) (s : LoadState) (v : Int) (rest : Bytes)
    (hm : 24 ≤ c.MAXPATHLEN) (hv : IsInt v) :
    config_run c b s (numLine "PsxType" v ++ rest)
      = config_run c b { s with g.Config.PsxType := v, value := v } rest := by
  have hk : config_key c b (cs "PsxType") (fmtD v ++ [10]) s
      = { s with g.Config.PsxType := sscanf_d (fmtD v ++ [10]) s.value,
                 value := sscanf_d (fmtD v ++ [10]) s.value } := rfl
  rw [config_run_numLine c b s "PsxType" v rest (by decide) (by decide) hm hv, hk,
    sscanf_d_line v hv]

theorem config_run_SpuIrq (c : Consts) (b : Build) (s : LoadState) (v : Int) (rest : Bytes)
    (hm : 24 ≤ c.MAXPATHLEN) (hv : IsInt v) :
    config_run c b s (numLine "SpuIrq" v ++ rest)
      = config_run c b { s with g.Config.SpuIrq := v, value := v } rest := by
  have hk : config_key c b (cs "SpuIrq") (fmtD v ++ [10]) s
      = { s with g.Config.SpuIrq := sscanf_d (fmtD v ++ [10]) s.value,
                 value := sscanf_d (fmtD v ++ [10]) s.value } := rfl
  rw [config_run_numLine c b s "SpuIrq" v rest (by decide) (by decide) hm hv, hk,
    sscanf_d_line v hv]

theorem config_run_SyncAudio (c : Consts) (b : Build) (s : LoadState) (v : Int) (rest : Bytes)
    (hm : 24 ≤ c.MAXPATHLEN) (hv : IsInt v) :
    config_run c b s (numLine "SyncAudio" v ++ rest)
      = config_run c b { s with g.Config.SyncAudio := v, value := v } rest := by
  have hk : config_key c b (cs "SyncAudio") (fmtD v ++ [10]) s
      = { s with g.Config.SyncAudio := sscanf_d (fmtD v ++ [10]) s.value,
                 value := sscanf_d (fmtD v ++ [10]) s.value } := rfl
  rw [config_run_numLine c b s "SyncAudio" v rest (by decide) (by decide) hm hv, hk,
    sscanf_d_line v hv]

theorem config_run_ShowFps (c : Consts) (b : Build) (s : LoadState) (v : Int) (rest : Bytes)
    (hm : 24 ≤ c.MAXPATHLEN) (hv : IsInt v) :
    config_run c b s (numLine "ShowFps" v ++ rest)
      = config_run c b { s with g.Config.ShowFps := v, value := v } rest := by
  have hk : config_key c b (cs "ShowFps") (fmtD v ++ [10]) s
      = { s with g.Config.ShowFps := sscanf_d (fmtD v ++ [10]) s.value,
                 value := sscanf_d (fmtD v ++ [10]) s.value } := rfl
  rw [config_run_numLine c b s "ShowFps" v rest (by decide) (by decide) hm hv, hk,
    sscanf_d_line v hv]

theorem config_run_FrameLimit (c : Consts) (b : Build) (s : LoadState) (v : Int) (rest : Bytes)
    (hm : 24 ≤ c.MAXPATHLEN) (hv : IsInt v) :
    config_run c b s (numLine "FrameLimit" v ++ rest)
      = config_run c b { s with g.Config.FrameLimit := v, value := v } rest := by
  have hk : config_key c b (cs "FrameLimit") (fmtD v ++ [10]) s
      = { s with g.Config.FrameLimit := sscanf_d (fmtD v ++ [10]) s.value,
                 value := sscanf_d (fmtD v ++ [10]) s.value } := rfl
  rw [config_run_numLine c b s "FrameLimit" v rest (by decide) (by decide) hm hv, hk,
    sscanf_d_line v hv]

theorem config_run_SpuUpdateFreq (c : Consts) (b : Build) (s : LoadState) (v : Int) (rest : Bytes)
    (hm : 24 ≤ c.MAXPATHLEN) (hv : IsInt v) (hr : c.SPU_UPDATE_FREQ_MIN ≤ v ∧ v ≤ c.SPU_UPDATE_FREQ_MAX) :
    config_run c b s (numLine "SpuUpdateFreq" v ++ rest)
      = config_run c b { s with g.Config.SpuUpdateFreq := v, value := v } rest := by
  have hk : config_key c b (cs "SpuUpdateFreq") (fmtD v ++ [10]) s
      = { s with
          g.Config.SpuUpdateFreq :=
            if sscanf_d (fmtD v ++ [10]) s.value < c.SPU_UPDATE_FREQ_MIN ∨
                sscanf_d (fmtD v ++ [10]) s.value > c.SPU_UPDATE_FREQ_MAX
            then c.SPU_UPDATE_FREQ_DEFAULT else sscanf_d (fmtD v ++ [10]) s.value,
          value :=
            if sscanf_d (fmtD v ++ [10]) s.value < c.SPU_UPDATE_FREQ_MIN ∨
                sscanf_d (fmtD v ++ [10]) s.value > c.SPU_UPDATE_FREQ_MAX
            then c.SPU_UPDATE_FREQ_DEFAULT else sscanf_d (fmtD v ++ [10]) s.value } := rfl
  have hn : ¬ (v < c.SPU_UPDATE_FREQ_MIN ∨ v > c.SPU_UPDATE_FREQ_MAX) := by omega
  rw [config_run_numLine c b s "SpuUpdateFreq" v rest (by decide) (by decide) hm hv, hk,
    sscanf_d_line v hv, if_neg hn]

theorem config_run_ForcedXAUpdates (c : Consts) (b : Build) (s : LoadState) (v : Int) (rest : Bytes)
    (hm : 24 ≤ c.MAXPATHLEN) (hv : IsInt v) (hr : c.FORCED_XA_UPDATES_MIN ≤ v ∧ v ≤ c.FORCED_XA_UPDATES_MAX) :
    config_run c b s (numLine "ForcedXAUpdates" v ++ rest)
      = config_run c b { s with g.Config.ForcedXAUpdates := v, value := v } rest := by
  have hk : config_key c b (cs "ForcedXAUpdates") (fmtD v ++ [10]) s
      = { s with
          g.Config.ForcedXAUpdates :=
            if sscanf_d (fmtD v ++ [10]) s.value < c.FORCED_XA_UPDATES_MIN ∨
                sscanf_d (fmtD v ++ [10]) s.value > c.FORCED_XA_UPDATES_MAX
            then c.FORCED_XA_UPDATES_DEFAULT else sscanf_d (fmtD v ++ [10]) s.value,
          value :=
            if sscanf_d (fmtD v ++ [10]) s.value < c.FORCED_XA_UPDATES_MIN ∨
                sscanf_d (fmtD v ++ [10]) s.value > c.FORCED_XA_UPDATES_MAX
            then c.FORCED_XA_UPDATES_DEFAULT else sscanf_d (fmtD v ++ [10]) s.value } := rfl
  have hn : ¬ (v < c.FORCED_XA_UPDATES_MIN ∨ v > c.FORCED_XA_UPDATES_MAX) := by omega
  rw [config_run_numLine c b s "ForcedXAUpdates" v rest (by decide) (by decide) hm hv, hk,
    sscanf_d_line v hv, if_neg hn]

theorem config_run_FrameSkip (c : Consts) (b : Build) (s : LoadState) (v : Int) (rest : Bytes)
    (hm : 24 ≤ c.MAXPATHLEN) (hv : IsInt v) (hr : c.FRAMESKIP_MIN ≤ v ∧ v ≤ c.FRAMESKIP_MAX) :
    config_run c b s (numLine "FrameSkip" v ++ rest)
      = config_run c b { s with g.Config.FrameSkip := v, value := v } rest := by
  have hk : config_key c b (cs "FrameSkip") (fmtD v ++ [10]) s
      = { s with
          g.Config.FrameSkip :=
            if sscanf_d (fmtD v ++ [10]) s.value < c.FRAMESKIP_MIN ∨
                sscanf_d (fmtD v ++ [10]) s.value > c.FRAMESKIP_MAX
            then c.FRAMESKIP_OFF else sscanf_d (fmtD v ++ [10]) s.value,
          value :=
            if sscanf_d (fmtD v ++ [10]) s.value < c.FRAMESKIP_MIN ∨
                sscanf_d (fmtD v ++ [10]) s.value > c.FRAMESKIP_MAX
            then c.FRAMESKIP_OFF else sscanf_d (fmtD v ++ [10]) s.value } := rfl
  have hn : ¬ (v < c.FRAMESKIP_MIN ∨ v > c.FRAMESKIP_MAX) := by omega
  rw [config_run_numLine c b s "FrameSkip" v rest (by decide) (by decide) hm hv, hk,
    sscanf_d_line v hv, if_neg hn]

theorem config_run_SpuUseInterpolation (c : Consts) (b : Build) (s : LoadState) (v : Int) (rest : Bytes)
    (hb : b.SPU_PCSXREARMED = true) (hm : 24 ≤ c.MAXPATHLEN) (hv : IsInt v) :
    config_run c b s (numLine "SpuUseInterpolation" v ++ rest)
      = config_run c b { s with g.spu_config.iUseInterpolation := v, value := v } rest := by
  have hk : config_key c b (cs "SpuUseInterpolation") (fmtD v ++ [10]) s
      = { s with g.spu_config.iUseInterpolation := sscanf_d (fmtD v ++ [10]) s.value,
                 value := sscanf_d (fmtD v ++ [10]) s.value } := by
    obtain ⟨spu, psxrec, unai, x1, x2, x3, x4⟩ := b
    simp only at hb
    subst hb
    rfl
  rw [config_run_numLine c b s "SpuUseInterpolation" v rest (by decide) (by decide) hm hv, hk,
    sscanf_d_line v hv]

theorem config_run_SpuUseReverb (c : Consts) (b : Build) (s : LoadState) (v : Int) (rest : Bytes)
    (hb : b.SPU_PCSXREARMED = true) (hm : 24 ≤ c.MAXPATHLEN) (hv : IsInt v) :
    config_run c b s (numLine "SpuUseReverb" v ++ rest)
      = config_run c b { s with g.spu_config.iUseReverb := v, value := v } rest := by
  have hk : config_key c b (cs "SpuUseReverb") (fmtD v ++ [10]) s
      = { s with g.spu_config.iUseReverb := sscanf_d (fmtD v ++ [10]) s.value,
                 value := sscanf_d (fmtD v ++ [10]) s.value } := by
    obtain ⟨spu, psxrec, unai, x1, x2, x3, x4⟩ := b
    simp only at hb
    subst hb
    rfl
  rw [config_run_numLine c b s "SpuUseReverb" v rest (by decide) (by decide) hm hv, hk,
    sscanf_d_line v hv]

theorem config_run_interlace (c : Consts) (b : Build) (s : LoadState) (v : Int) (rest : Bytes)
    (hb : b.GPU_UNAI = true) (hm : 24 ≤ c.MAXPATHLEN) (hv : IsInt v) :
    config_run c b s (numLine "interlace" v ++ rest)
      = config_run c b { s with g.gpu_unai_config_ext.ilace_force := v, value := v } rest := by
  have hk : config_key c b (cs "interlace") (fmtD v ++ [10]) s
      = { s with g.gpu_unai_config_ext.ilace_force := sscanf_d (fmtD v ++ [10]) s.value,
                 value := sscanf_d (fmtD v ++ [10]) s.value } := by
    obtain ⟨spu, psxrec, unai, x1, x2, x3, x4⟩ := b
    simp only at hb
    subst hb
    rfl
  rw [config_run_numLine c b s "interlace" v rest (by decide) (by decide) hm hv, hk,
    sscanf_d_line v hv]

theorem config_run_pixel_skip (c : Consts) (b : Build) (s : LoadState) (v : Int) (rest : Bytes)
    (hb : b.GPU_UNAI = true) (hm : 24 ≤ c.MAXPATHLEN) (hv : IsInt v) :
    config_run c b s (numLine "pixel_skip" v ++ rest)
      = config_run c b { s with g.gpu_unai_config_ext.pixel_skip := v, value := v } rest := by
  have hk : config_key c b (cs "pixel_skip") (fmtD v ++ [10]) s
      = { s with g.gpu_unai_config_ext.pixel_skip := sscanf_d (fmtD v ++ [10]) s.value,
                 value := sscanf_d (fmtD v ++ [10]) s.value } := by
    obtain ⟨spu, psxrec, unai, x1, x2, x3, x4⟩ := b
    simp only at hb
    subst hb
    rfl
  rw [config_run_numLine c b s "pixel_skip" v rest (by decide) (by decide) hm hv, hk,
    sscanf_d_line v hv]

theorem config_run_lighting (c : Consts) (b : Build) (s : LoadState) (v : Int) (rest : Bytes)
    (hb : b.GPU_UNAI = true) (hm : 24 ≤ c.MAXPATHLEN) (hv : IsInt v) :
    config_run c b s (numLine "lighting" v ++ rest)
      = config_run c b { s with g.gpu_unai_config_ext.lighting := v, value := v } rest := by
  have hk : config_key c b (cs "lighting") (fmtD v ++ [10]) s
      = { s with g.gpu_unai_config_ext.lighting := sscanf_d (fmtD v ++ [10]) s.value,
                 value := sscanf_d (fmtD v ++ [10]) s.value } := by
    obtain ⟨spu, psxrec, unai, x1, x2, x3, x4⟩ := b
    simp only at hb
    subst hb
    rfl
  rw [config_run_numLine c b s "lighting" v rest (by decide) (by decide) hm hv, hk,
    sscanf_d_line v hv]

theorem config_run_fast_lighting (c : Consts) (b : Build) (s : LoadState) (v : Int) (rest : Bytes)
    (hb : b.GPU_UNAI = true) (hm : 24 ≤ c.MAXPATHLEN) (hv : IsInt v) :
    config_run c b s (numLine "fast_lighting" v ++ rest)
      = config_run c b { s with g.gpu_unai_config_ext.fast_lighting := v, value := v } rest := by
  have hk : config_key c b (cs "fast_lighting") (fmtD v ++ [10]) s
      = { s with g.gpu_unai_config_ext.fast_lighting := sscanf_d (fmtD v ++ [10]) s.value,
                 value := sscanf_d (fmtD v ++ [10]) s.value } := by
    obtain ⟨spu, psxrec, unai, x1, x2, x3, x4⟩ := b
    simp only at hb
    subst hb
    rfl
  rw [config_run_numLine c b s "fast_lighting" v rest (by decide) (by decide) hm hv, hk,
    sscanf_d_line v hv]

theorem config_run_blending (c : Consts) (b : Build) (s : LoadState) (v : Int) (rest : Bytes)
    (hb : b.GPU_UNAI = true) (hm : 24 ≤ c.MAXPATHLEN) (hv : IsInt v) :
    config_run c b s (numLine "blending" v ++ rest)
      = config_run c b { s with g.gpu_unai_config_ext.blending := v, value := v } rest := by
  have hk : config_key c b (cs "blending") (fmtD v ++ [10]) s
      = { s with g.gpu_unai_config_ext.blending := sscanf_d (fmtD v ++ [10]) s.value,
                 value := sscanf_d (fmtD v ++ [10]) s.value } := by
    obtain ⟨spu, psxrec, unai, x1, x2, x3, x4⟩ := b
    simp only at hb
    subst hb
    rfl
  rw [config_run_numLine c b s "blending" v rest (by decide) (by decide) hm hv, hk,
    sscanf_d_line v hv]

theorem config_run_dithering (c : Consts) (b : Build) (s : LoadState) (v : Int) (rest : Bytes)
    (hb : b.GPU_UNAI = true) (hm : 24 ≤ c.MAXPATHLEN) (hv : IsInt v) :
    config_run c b s (numLine "dithering" v ++ rest)
      = config_run c b { s with g.gpu_unai_config_ext.dithering := v, value := v } rest := by
  have hk : config_key c b (cs "dithering") (fmtD v ++ [10]) s
      = { s with g.gpu_unai_config_ext.dithering := sscanf_d (fmtD v ++ [10]) s.value,
                 value := sscanf_d (fmtD v ++ [10]) s.value } := by
    obtain ⟨spu, psxrec, unai, x1, x2, x3, x4⟩ := b
    simp only at hb
    subst hb
    rfl
  rw [config_run_numLine c b s "dithering" v rest (by decide) (by decide) hm hv, hk,
    sscanf_d_line v hv]

theorem config_run_SpuVolume (c : Consts) (b : Build) (s : LoadState) (v : Int) (rest : Bytes)
    (hb : b.SPU_PCSXREARMED = true) (hm : 24 ≤ c.MAXPATHLEN) (hr : 0 ≤ v ∧ v ≤ 1024) :
    config_run c b s (numLine "SpuVolume" v ++ rest)
      = config_run c b { s with g.spu_config.iVolume := v, value := v } rest := by
  have hv : IsInt v := by unfold IsInt; omega
  have hk : config_key c b (cs "SpuVolume") (fmtD v ++ [10]) s
      = { s with
          g.spu_config.iVolume :=
            if (if sscanf_d (fmtD v ++ [10]) s.value > 1024 then 1024
                else sscanf_d (fmtD v ++ [10]) s.value) < 0 then 0
            else (if sscanf_d (fmtD v ++ [10]) s.value > 1024 then 1024
                else sscanf_d (fmtD v ++ [10]) s.value),
          value :=
            if (if sscanf_d (fmtD v ++ [10]) s.value > 1024 then 1024
                else sscanf_d (fmtD v ++ [10]) s.value) < 0 then 0
            else (if sscanf_d (fmtD v ++ [10]) s.value > 1024 then 1024
                else sscanf_d (fmtD v ++ [10]) s.value) } := by
    obtain ⟨spu, psxrec, unai, x1, x2, x3, x4⟩ := b
    simp only at hb
    subst hb
    rfl
  have h1 : ¬ v > 1024 := by omega
  have h2 : ¬ v < 0 := by omega
  rw [config_run_numLine c b s "SpuVolume" v rest (by decide) (by decide) hm hv, hk,
    sscanf_d_line v hv, if_neg h1, if_neg h2]

theorem config_run_CycleMultiplier (c : Consts) (b : Build) (s : LoadState) (n : Nat)
    (rest : Bytes) (hb : b.PSXREC = true) (hm : 24 ≤ c.MAXPATHLEN) (hn : n < 4096) :
    config_run c b s (hexLine "CycleMultiplier" n ++ rest)
      = config_run c b
          { s with g.cycle_multiplier := n, value := sscanf_03x (fmtX03 n ++ [10]) s.value }
          rest := by
  have hk : config_key c b (cs "CycleMultiplier") (fmtX03 n ++ [10]) s
      = { s with g.cycle_multiplier := toU32 (sscanf_03x (fmtX03 n ++ [10]) s.value),
                 value := sscanf_03x (fmtX03 n ++ [10]) s.value } := by
    obtain ⟨spu, psxrec, unai, x1, x2, x3, x4⟩ := b
    simp only at hb
    subst hb
    rfl
  rw [config_run_hexLine c b s n rest hm hn, hk, sscanf_03x_line n hn]

theorem config_run_LastDir (c : Consts) (b : Build) (s : LoadState) (p rest : Bytes)
    (hsz : c.sizeofLastDir ≤ c.MAXPATHLEN + 1) (hp : LinePath c.sizeofLastDir p) :
    config_run c b s (strLine "LastDir" p ++ rest)
      = config_run c b { s with g.Config.LastDir := p } rest := by
  have hn : ¬ ((p ++ [10]).length = 0 ∨ (p ++ [10]).length > c.sizeofLastDir - 1) := by
    have := hp.2.2
    simp only [List.length_append, List.length_singleton]; omega
  rw [config_run_strLine c b s "LastDir" _ p rest (by decide) (by decide) hsz hp,
    config_key_LastDir, if_neg hn, stripNewline_append]

theorem config_run_BiosDir (c : Consts) (b : Build) (s : LoadState) (p rest : Bytes)
    (hsz : c.sizeofBiosDir ≤ c.MAXPATHLEN + 1) (hp : LinePath c.sizeofBiosDir p) :
    config_run c b s (strLine "BiosDir" p ++ rest)
      = config_run c b { s with g.Config.BiosDir := p } rest := by
  have hn : ¬ ((p ++ [10]).length = 0 ∨ (p ++ [10]).length > c.sizeofBiosDir - 1) := by
    have := hp.2.2
    simp only [List.length_append, List.length_singleton]; omega
  rw [config_run_strLine c b s "BiosDir" _ p rest (by decide) (by decide) hsz hp,
    config_key_BiosDir, if_neg hn, stripNewline_append]

theorem config_run_Bios (c : Consts) (b : Build) (s : LoadState) (p rest : Bytes)
    (hsz : c.sizeofBios ≤ c.MAXPATHLEN + 1) (hp : LinePath c.sizeofBios p) :
    config_run c b s (strLine "Bios" p ++ rest)
      = config_run c b { s with g.Config.Bios := p } rest := by
  have hn : ¬ ((p ++ [10]).length = 0 ∨ (p ++ [10]).length > c.sizeofBios - 1) := by
    have := hp.2.2
    simp only [List.length_append, List.length_singleton]; omega
  rw [config_run_strLine c b s "Bios" _ p rest (by decide) (by decide) hsz hp,
    config_key_Bios, if_neg hn, stripNewline_append]

end Pcsx4all

namespace Pcsx4all

set_option maxHeartbeats 4000000 in
/-- Loading the text that `config_save` wrote for `g` gives the previous
globals with every saved setting replaced by its value in `g`. -/
theorem config_load_config_save (c : Consts) (b : Build) (g g0 : Globals) (v0 : Int)
    (hcv : IsInt c.CONFIG_VERSION) (hfit : BufferSizesFit c) (hg : SavableConfig c b g) :
    config_load c b (some (config_save c b g)) v0 g0 = savedOver b g g0 := by
  obtain ⟨hm, hs1, hs2, hs3⟩ := hfit
  have hm' : 19 ≤ c.MAXPATHLEN := by omega
  have hB := hg.bounded
  have e : strLine "Bios" g.Config.Bios = strLine "Bios" g.Config.Bios ++ [] := by
    rw [List.append_nil]
  obtain ⟨spu, psxrec, unai, x1, x2, x3, x4⟩ := b
  cases spu <;> cases psxrec <;> cases unai
  · simp only [config_save, List.append_assoc, Bool.false_eq_true, if_false, if_true,
      List.nil_append]
    rw [e, config_load_eq_run c _ _ v0 g0 hcv hm',
      config_run_Xa _ _ _ _ _ hm hg.Xa, config_run_Mdec _ _ _ _ _ hm hg.Mdec,
      config_run_PsxAuto _ _ _ _ _ hm hg.PsxAuto, config_run_Cdda _ _ _ _ _ hm hg.Cdda,
      config_run_HLE _ _ _ _ _ hm hg.HLE, config_run_SlowBoot _ _ _ _ _ hm hg.SlowBoot,
      config_run_RCntFix _ _ _ _ _ hm hg.RCntFix, config_run_VSyncWA _ _ _ _ _ hm hg.VSyncWA,
      config_run_Cpu _ _ _ _ _ hm hg.Cpu, config_run_PsxType _ _ _ _ _ hm hg.PsxType,
      config_run_SpuIrq _ _ _ _ _ hm hg.SpuIrq, config_run_SyncAudio _ _ _ _ _ hm hg.SyncAudio,
      config_run_SpuUpdateFreq _ _ _ _ _ hm hg.SpuUpdateFreq hB.1,
      config_run_ForcedXAUpdates _ _ _ _ _ hm hg.ForcedXAUpdates hB.2.1,
      config_run_ShowFps _ _ _ _ _ hm hg.ShowFps,
      config_run_FrameLimit _ _ _ _ _ hm hg.FrameLimit,
      config_run_FrameSkip _ _ _ _ _ hm hg.FrameSkip hB.2.2,
      config_run_LastDir _ _ _ _ _ hs1 hg.LastDir, config_run_BiosDir _ _ _ _ _ hs2 hg.BiosDir,
      config_run_Bios _ _ _ _ _ hs3 hg.Bios, config_run_nil]
    rfl
  · simp only [config_save, List.append_assoc, Bool.false_eq_true, if_false, if_true,
      List.nil_append]
    rw [e, config_load_eq_run c _ _ v0 g0 hcv hm',
      config_run_Xa _ _ _ _ _ hm hg.Xa, config_run_Mdec _ _ _ _ _ hm hg.Mdec,
      config_run_PsxAuto _ _ _ _ _ hm hg.PsxAuto, config_run_Cdda _ _ _ _ _ hm hg.Cdda,
      config_run_HLE _ _ _ _ _ hm hg.HLE, config_run_SlowBoot _ _ _ _ _ hm hg.SlowBoot,
      config_run_RCntFix _ _ _ _ _ hm hg.RCntFix, config_run_VSyncWA _ _ _ _ _ hm hg.VSyncWA,
      config_run_Cpu _ _ _ _ _ hm hg.Cpu, config_run_PsxType _ _ _ _ _ hm hg.PsxType,
      config_run_SpuIrq _ _ _ _ _ hm hg.SpuIrq, config_run_SyncAudio _ _ _ _ _ hm hg.SyncAudio,
      config_run_SpuUpdateFreq _ _ _ _ _ hm hg.SpuUpdateFreq hB.1,
      config_run_ForcedXAUpdates _ _ _ _ _ hm hg.ForcedXAUpdates hB.2.1,
      config_run_ShowFps _ _ _ _ _ hm hg.ShowFps,
      config_run_FrameLimit _ _ _ _ _ hm hg.FrameLimit,
      config_run_FrameSkip _ _ _ _ _ hm hg.FrameSkip hB.2.2,
      config_run_interlace _ _ _ _ _ rfl hm (hg.ilace_force rfl),
      config_run_pixel_skip _ _ _ _ _ rfl hm (hg.pixel_skip rfl),
      config_run_lighting _ _ _ _ _ rfl hm (hg.lighting rfl),
      config_run_fast_lighting _ _ _ _ _ rfl hm (hg.fast_lighting rfl),
      config_run_blending _ _ _ _ _ rfl hm (hg.blending rfl),
      config_run_dithering _ _ _ _ _ rfl hm (hg.dithering rfl),
      config_run_LastDir _ _ _ _ _ hs1 hg.LastDir, config_run_BiosDir _ _ _ _ _ hs2 hg.BiosDir,
      config_run_Bios _ _ _ _ _ hs3 hg.Bios, config_run_nil]
    rfl
  · simp only [config_save, List.append_assoc, Bool.false_eq_true, if_false, if_true,
      List.nil_append]
    rw [e, config_load_eq_run c _ _ v0 g0 hcv hm',
      config_run_Xa _ _ _ _ _ hm hg.Xa, config_run_Mdec _ _ _ _ _ hm hg.Mdec,
      config_run_PsxAuto _ _ _ _ _ hm hg.PsxAuto, config_run_Cdda _ _ _ _ _ hm hg.Cdda,
      config_run_HLE _ _ _ _ _ hm hg.HLE, config_run_SlowBoot _ _ _ _ _ hm hg.SlowBoot,
      config_run_RCntFix _ _ _ _ _ hm hg.RCntFix, config_run_VSyncWA _ _ _ _ _ hm hg.VSyncWA,
      config_run_Cpu _ _ _ _ _ hm hg.Cpu, config_run_PsxType _ _ _ _ _ hm hg.PsxType,
      config_run_SpuIrq _ _ _ _ _ hm hg.SpuIrq, config_run_SyncAudio _ _ _ _ _ hm hg.SyncAudio,
      config_run_SpuUpdateFreq _ _ _ _ _ hm hg.SpuUpdateFreq hB.1,
      config_run_ForcedXAUpdates _ _ _ _ _ hm hg.ForcedXAUpdates hB.2.1,
      config_run_ShowFps _ _ _ _ _ hm hg.ShowFps,
      config_run_FrameLimit _ _ _ _ _ hm hg.FrameLimit,
      config_run_FrameSkip _ _ _ _ _ hm hg.FrameSkip hB.2.2,
      config_run_CycleMultiplier _ _ _ _ _ rfl hm (hg.cycle_multiplier rfl),
      config_run_LastDir _ _ _ _ _ hs1 hg.LastDir, config_run_BiosDir _ _ _ _ _ hs2 hg.BiosDir,
      config_run_Bios _ _ _ _ _ hs3 hg.Bios, config_run_nil]
    rfl
  · simp only [config_save, List.append_assoc, Bool.false_eq_true, if_false, if_true,
      List.nil_append]
    rw [e, config_load_eq_run c _ _ v0 g0 hcv hm',
      config_run_Xa _ _ _ _ _ hm hg.Xa, config_run_Mdec _ _ _ _ _ hm hg.Mdec,
      config_run_PsxAuto _ _ _ _ _ hm hg.PsxAuto, config_run_Cdda _ _ _ _ _ hm hg.Cdda,
      config_run_HLE _ _ _ _ _ hm hg.HLE, config_run_SlowBoot _ _ _ _ _ hm hg.SlowBoot,
      config_run_RCntFix _ _ _ _ _ hm hg.RCntFix, config_run_VSyncWA _ _ _ _ _ hm hg.VSyncWA,
      config_run_Cpu _ _ _ _ _ hm hg.Cpu, config_run_PsxType _ _ _ _ _ hm hg.PsxType,
      config_run_SpuIrq _ _ _ _ _ hm hg.SpuIrq, config_run_SyncAudio _ _ _ _ _ hm hg.SyncAudio,
      config_run_SpuUpdateFreq _ _ _ _ _ hm hg.SpuUpdateFreq hB.1,
      config_run_ForcedXAUpdates _ _ _ _ _ hm hg.ForcedXAUpdates hB.2.1,
      config_run_ShowFps _ _ _ _ _ hm hg.ShowFps,
      config_run_FrameLimit _ _ _ _ _ hm hg.FrameLimit,
      config_run_FrameSkip _ _ _ _ _ hm hg.FrameSkip hB.2.2,
      config_run_CycleMultiplier _ _ _ _ _ rfl hm (hg.cycle_multiplier rfl),
      config_run_interlace _ _ _ _ _ rfl hm (hg.ilace_force rfl),
      config_run_pixel_skip _ _ _ _ _ rfl hm (hg.pixel_skip rfl),
      config_run_lighting _ _ _ _ _ rfl hm (hg.lighting rfl),
      config_run_fast_lighting _ _ _ _ _ rfl hm (hg.fast_lighting rfl),
      config_run_blending _ _ _ _ _ rfl hm (hg.blending rfl),
      config_run_dithering _ _ _ _ _ rfl hm (hg.dithering rfl),
      config_run_LastDir _ _ _ _ _ hs1 hg.LastDir, config_run_BiosDir _ _ _ _ _ hs2 hg.BiosDir,
      config_run_Bios _ _ _ _ _ hs3 hg.Bios, config_run_nil]
    rfl
  · simp only [config_save, List.append_assoc, Bool.false_eq_true, if_false, if_true,
      List.nil_append]
    rw [e, config_load_eq_run c _ _ v0 g0 hcv hm',
      config_run_Xa _ _ _ _ _ hm hg.Xa, config_run_Mdec _ _ _ _ _ hm hg.Mdec,
      config_run_PsxAuto _ _ _ _ _ hm hg.PsxAuto, config_run_Cdda _ _ _ _ _ hm hg.Cdda,
      config_run_HLE _ _ _ _ _ hm hg.HLE, config_run_SlowBoot _ _ _ _ _ hm hg.SlowBoot,
      config_run_RCntFix _ _ _ _ _ hm hg.RCntFix, config_run_VSyncWA _ _ _ _ _ hm hg.VSyncWA,
      config_run_Cpu _ _ _ _ _ hm hg.Cpu, config_run_PsxType _ _ _ _ _ hm hg.PsxType,
      config_run_SpuIrq _ _ _ _ _ hm hg.SpuIrq, config_run_SyncAudio _ _ _ _ _ hm hg.SyncAudio,
      config_run_SpuUpdateFreq _ _ _ _ _ hm hg.SpuUpdateFreq hB.1,
      config_run_ForcedXAUpdates _ _ _ _ _ hm hg.ForcedXAUpdates hB.2.1,
      config_run_ShowFps _ _ _ _ _ hm hg.ShowFps,
      config_run_FrameLimit _ _ _ _ _ hm hg.FrameLimit,
      config_run_FrameSkip _ _ _ _ _ hm hg.FrameSkip hB.2.2,
      config_run_SpuUseInterpolation _ _ _ _ _ rfl hm (hg.iUseInterpolation rfl),
      config_run_SpuUseReverb _ _ _ _ _ rfl hm (hg.iUseReverb rfl),
      config_run_SpuVolume _ _ _ _ _ rfl hm (hg.iVolume rfl),
      config_run_LastDir _ _ _ _ _ hs1 hg.LastDir, config_run_BiosDir _ _ _ _ _ hs2 hg.BiosDir,
      config_run_Bios _ _ _ _ _ hs3 hg.Bios, config_run_nil]
    rfl
  · simp only [config_save, List.append_assoc, Bool.false_eq_true, if_false, if_true,
      List.nil_append]
    rw [e, config_load_eq_run c _ _ v0 g0 hcv hm',
      config_run_Xa _ _ _ _ _ hm hg.Xa, config_run_Mdec _ _ _ _ _ hm hg.Mdec,
      config_run_PsxAuto _ _ _ _ _ hm hg.PsxAuto, config_run_Cdda _ _ _ _ _ hm hg.Cdda,
      config_run_HLE _ _ _ _ _ hm hg.HLE, config_run_SlowBoot _ _ _ _ _ hm hg.SlowBoot,
      config_run_RCntFix _ _ _ _ _ hm hg.RCntFix, config_run_VSyncWA _ _ _ _ _ hm hg.VSyncWA,
      config_run_Cpu _ _ _ _ _ hm hg.Cpu, config_run_PsxType _ _ _ _ _ hm hg.PsxType,
      config_run_SpuIrq _ _ _ _ _ hm hg.SpuIrq, config_run_SyncAudio _ _ _ _ _ hm hg.SyncAudio,
      config_run_SpuUpdateFreq _ _ _ _ _ hm hg.SpuUpdateFreq hB.1,
      config_run_ForcedXAUpdates _ _ _ _ _ hm hg.ForcedXAUpdates hB.2.1,
      config_run_ShowFps _ _ _ _ _ hm hg.ShowFps,
      config_run_FrameLimit _ _ _ _ _ hm hg.FrameLimit,
      config_run_FrameSkip _ _ _ _ _ hm hg.FrameSkip hB.2.2,
      config_run_SpuUseInterpolation _ _ _ _ _ rfl hm (hg.iUseInterpolation rfl),
      config_run_SpuUseReverb _ _ _ _ _ rfl hm (hg.iUseReverb rfl),
      config_run_SpuVolume _ _ _ _ _ rfl hm (hg.iVolume rfl),
      config_run_interlace _ _ _ _ _ rfl hm (hg.ilace_force rfl),
      config_run_pixel_skip _ _ _ _ _ rfl hm (hg.pixel_skip rfl),
      config_run_lighting _ _ _ _ _ rfl hm (hg.lighting rfl),
      config_run_fast_lighting _ _ _ _ _ rfl hm (hg.fast_lighting rfl),
      config_run_blending _ _ _ _ _ rfl hm (hg.blending rfl),
      config_run_dithering _ _ _ _ _ rfl hm (hg.dithering rfl),
      config_run_LastDir _ _ _ _ _ hs1 hg.LastDir, config_run_BiosDir _ _ _ _ _ hs2 hg.BiosDir,
      config_run_Bios _ _ _ _ _ hs3 hg.Bios, config_run_nil]
    rfl
  · simp only [config_save, List.append_assoc, Bool.false_eq_true, if_false, if_true,
      List.nil_append]
    rw [e, config_load_eq_run c _ _ v0 g0 hcv hm',
      config_run_Xa _ _ _ _ _ hm hg.Xa, config_run_Mdec _ _ _ _ _ hm hg.Mdec,
      config_run_PsxAuto _ _ _ _ _ hm hg.PsxAuto, config_run_Cdda _ _ _ _ _ hm hg.Cdda,
      config_run_HLE _ _ _ _ _ hm hg.HLE, config_run_SlowBoot _ _ _ _ _ hm hg.SlowBoot,
      config_run_RCntFix _ _ _ _ _ hm hg.RCntFix, config_run_VSyncWA _ _ _ _ _ hm hg.VSyncWA,
      config_run_Cpu _ _ _ _ _ hm hg.Cpu, config_run_PsxType _ _ _ _ _ hm hg.PsxType,
      config_run_SpuIrq _ _ _ _ _ hm hg.SpuIrq, config_run_SyncAudio _ _ _ _ _ hm hg.SyncAudio,
      config_run_SpuUpdateFreq _ _ _ _ _ hm hg.SpuUpdateFreq hB.1,
      config_run_ForcedXAUpdates _ _ _ _ _ hm hg.ForcedXAUpdates hB.2.1,
      config_run_ShowFps _ _ _ _ _ hm hg.ShowFps,
      config_run_FrameLimit _ _ _ _ _ hm hg.FrameLimit,
      config_run_FrameSkip _ _ _ _ _ hm hg.FrameSkip hB.2.2,
      config_run_SpuUseInterpolation _ _ _ _ _ rfl hm (hg.iUseInterpolation rfl),
      config_run_SpuUseReverb _ _ _ _ _ rfl hm (hg.iUseReverb rfl),
      config_run_SpuVolume _ _ _ _ _ rfl hm (hg.iVolume rfl),
      config_run_CycleMultiplier _ _ _ _ _ rfl hm (hg.cycle_multiplier rfl),
      config_run_LastDir _ _ _ _ _ hs1 hg.LastDir, config_run_BiosDir _ _ _ _ _ hs2 hg.BiosDir,
      config_run_Bios _ _ _ _ _ hs3 hg.Bios, config_run_nil]
    rfl
  · simp only [config_save, List.append_assoc, Bool.false_eq_true, if_false, if_true,
      List.nil_append]
    rw [e, config_load_eq_run c _ _ v0 g0 hcv hm',
      config_run_Xa _ _ _ _ _ hm hg.Xa, config_run_Mdec _ _ _ _ _ hm hg.Mdec,
      config_run_PsxAuto _ _ _ _ _ hm hg.PsxAuto, config_run_Cdda _ _ _ _ _ hm hg.Cdda,
      config_run_HLE _ _ _ _ _ hm hg.HLE, config_run_SlowBoot _ _ _ _ _ hm hg.SlowBoot,
      config_run_RCntFix _ _ _ _ _ hm hg.RCntFix, config_run_VSyncWA _ _ _ _ _ hm hg.VSyncWA,
      config_run_Cpu _ _ _ _ _ hm hg.Cpu, config_run_PsxType _ _ _ _ _ hm hg.PsxType,
      config_run_SpuIrq _ _ _ _ _ hm hg.SpuIrq, config_run_SyncAudio _ _ _ _ _ hm hg.SyncAudio,
      config_run_SpuUpdateFreq _ _ _ _ _ hm hg.SpuUpdateFreq hB.1,
      config_run_ForcedXAUpdates _ _ _ _ _ hm hg.ForcedXAUpdates hB.2.1,
      config_run_ShowFps _ _ _ _ _ hm hg.ShowFps,
      config_run_FrameLimit _ _ _ _ _ hm hg.FrameLimit,
      config_run_FrameSkip _ _ _ _ _ hm hg.FrameSkip hB.2.2,
      config_run_SpuUseInterpolation _ _ _ _ _ rfl hm (hg.iUseInterpolation rfl),
      config_run_SpuUseReverb _ _ _ _ _ rfl hm (hg.iUseReverb rfl),
      config_run_SpuVolume _ _ _ _ _ rfl hm (hg.iVolume rfl),
      config_run_CycleMultiplier _ _ _ _ _ rfl hm (hg.cycle_multiplier rfl),
      config_run_interlace _ _ _ _ _ rfl hm (hg.ilace_force rfl),
      config_run_pixel_skip _ _ _ _ _ rfl hm (hg.pixel_skip rfl),
      config_run_lighting _ _ _ _ _ rfl hm (hg.lighting rfl),
      config_run_fast_lighting _ _ _ _ _ rfl hm (hg.fast_lighting rfl),
      config_run_blending _ _ _ _ _ rfl hm (hg.blending rfl),
      config_run_dithering _ _ _ _ _ rfl hm (hg.dithering rfl),
      config_run_LastDir _ _ _ _ _ hs1 hg.LastDir, config_run_BiosDir _ _ _ _ _ hs2 hg.BiosDir,
      config_run_Bios _ _ _ _ _ hs3 hg.Bios, config_run_nil]
    rfl

/-- The text of `config_save` depends only on the settings it writes. -/
theorem config_save_savedOver (c : Consts) (b : Build) (g g0 : Globals) :
    config_save c b (savedOver b g g0) = config_save c b g := by
  obtain ⟨spu, psxrec, unai, x1, x2, x3, x4⟩ := b
  cases spu <;> cases psxrec <;> cases unai <;> rfl

/-- C1 (amended): for every configuration whose numbers are `int`s inside
their ranges and whose three paths are non-empty, contain no newline and have
at most `capacity - 2` bytes, the text written by `config_save`, loaded by
`config_load` over any previous globals (in particular the compiled defaults)
and written again, is the first text. -/
theorem config_save_load_save (c : Consts) (b : Build) (g g0 : Globals) (v0 : Int)
    (hcv : IsInt c.CONFIG_VERSION) (hfit : BufferSizesFit c) (hg : SavableConfig c b g) :
    config_save c b (config_load c b (some (config_save c b g)) v0 g0) = config_save c b g := by
  rw [config_load_config_save c b g g0 v0 hcv hfit hg, config_save_savedOver]

end Pcsx4all

namespace Pcsx4all

theorem exampleDefaultsFull_savable :
    SavableConfig exampleConsts fullBuild exampleDefaultsFull where
  Xa := by decide
  Mdec := by decide
  PsxAuto := by decide
  Cdda := by decide
  HLE := by decide
  SlowBoot := by decide
  RCntFix := by decide
  VSyncWA := by decide
  Cpu := by decide
  PsxType := by decide
  SpuIrq := by decide
  SyncAudio := by decide
  SpuUpdateFreq := by decide
  ForcedXAUpdates := by decide
  ShowFps := by decide
  FrameLimit := by decide
  FrameSkip := by decide
  bounded := by decide
  iUseInterpolation := by decide
  iUseReverb := by decide
  iVolume := by decide
  cycle_multiplier := by decide
  ilace_force := by decide
  pixel_skip := by decide
  lighting := by decide
  fast_lighting := by decide
  blending := by decide
  dithering := by decide
  LastDir := by decide
  BiosDir := by decide
  Bios := by decide

theorem config_save_load_save_witness :
    IsInt exampleConsts.CONFIG_VERSION ∧ BufferSizesFit exampleConsts ∧
    SavableConfig exampleConsts fullBuild exampleDefaultsFull ∧
    config_save exampleConsts fullBuild
        (config_load exampleConsts fullBuild
          (some (config_save exampleConsts fullBuild exampleDefaultsFull)) 0 zeroGlobals)
      = config_save exampleConsts fullBuild exampleDefaultsFull :=
  ⟨by decide, by decide, exampleDefaultsFull_savable,
   config_save_load_save exampleConsts fullBuild exampleDefaultsFull zeroGlobals 0 (by decide)
     (by decide) exampleDefaultsFull_savable⟩

set_option maxRecDepth 100000 in
/-- C1 (counterexample): the configuration with the compiled defaults and the
last directory `/a`, newline, `b` is valid in the sense of the spec, but the
text saved after loading its saved text over the compiled defaults differs
from its saved text: the line `LastDir /a` is read, the line `b` is skipped. -/
theorem config_save_load_save_newline :
    ValidConfig exampleConsts newlineDirConfig ∧
    config_save exampleConsts plainBuild
        (config_load exampleConsts plainBuild
          (some (config_save exampleConsts plainBuild newlineDirConfig)) 0 exampleDefaults)
      ≠ config_save exampleConsts plainBuild newlineDirConfig := by
  decide

end Pcsx4all

namespace Pcsx4all

/-! ## The command-line loop -/

theorem cli_pcsx_flags_id (a : Bytes) (s : CliState)
    (h : a ∉ [cs "-noxa", cs "-bwmdec", cs "-pal", cs "-ntsc", cs "-nocdda", cs "-bios",
      cs "-interpreter", cs "-slowboot", cs "-rcntfix", cs "-vsyncwa", cs "-spuirq"]) :
    cli_pcsx_flags a s = s := by
  simp only [List.mem_cons, List.mem_singleton, List.not_mem_nil, or_false, not_or] at h
  simp only [cli_pcsx_flags, h, if_false]

theorem cli_iso_id (a : Bytes) (rest : List Bytes) (s : CliState)
    (h : a ≠ cs "-iso") : cli_iso a rest s = s := by
  simp only [cli_iso, h, if_false]

theorem cli_file_id (a : Bytes) (rest : List Bytes) (k : Nat) (s : CliState)
    (h : a ≠ cs "-file") : cli_file ⟨a, rest, k, s⟩ = .ok ⟨a, rest, k, s⟩ := by
  simp only [cli_file, h, if_false]

theorem cli_syncaudio_id (a : Bytes) (s : CliState)
    (h : a ≠ cs "-syncaudio") : cli_syncaudio a s = s := by
  simp only [cli_syncaudio, h, if_false]

theorem cli_spuupdatefreq_id (c : Consts) (a : Bytes) (rest : List Bytes) (k : Nat)
    (s : CliState) (h : a ≠ cs "-spuupdatefreq") :
    cli_spuupdatefreq c ⟨a, rest, k, s⟩ = .ok ⟨a, rest, k, s⟩ := by
  simp only [cli_spuupdatefreq, h, if_false]

theorem cli_forcedxaupdates_id (c : Consts) (a : Bytes) (rest : List Bytes) (k : Nat)
    (s : CliState) (h : a ≠ cs "-forcedxaupdates") :
    cli_forcedxaupdates c ⟨a, rest, k, s⟩ = .ok ⟨a, rest, k, s⟩ := by
  simp only [cli_forcedxaupdates, h, if_false]

theorem cli_display_flags_id (a : Bytes) (s : CliState)
    (h : a ∉ [cs "-perfmon", cs "-showfps", cs "-noframelimit"]) :
    cli_display_flags a s = s := by
  simp only [List.mem_cons, List.mem_singleton, List.not_mem_nil, or_false, not_or] at h
  simp only [cli_display_flags, h, if_false]

theorem cli_frameskip_id (a : Bytes) (rest : List Bytes) (k : Nat) (s : CliState)
    (h : a ≠ cs "-frameskip") : cli_frameskip ⟨a, rest, k, s⟩ = .ok ⟨a, rest, k, s⟩ := by
  simp only [cli_frameskip, h, if_false]

theorem cli_gpu_unai_id (b : Build) (a : Bytes) (s : CliState)
    (h : a ∉ [cs "-interlace", cs "-dither", cs "-nolight", cs "-noblend", cs "-nofastlight",
      cs "-nopixelskip", cs "-progressive"]) :
    cli_gpu_unai b a s = s := by
  simp only [List.mem_cons, List.mem_singleton, List.not_mem_nil, or_false, not_or] at h
  simp only [cli_gpu_unai, h, if_false, false_and, ite_self]

theorem cli_spu_id (b : Build) (a : Bytes) (rest : List Bytes) (k : Nat) (s : CliState)
    (h : a ∉ [cs "-silent", cs "-reverb", cs "-xapitch", cs "-threaded_spu",
      cs "-nofixedupdates", cs "-interpolation", cs "-volume", cs "-notempo"]) :
    cli_spu b ⟨a, rest, k, s⟩ = .ok ⟨a, rest, k, s⟩ := by
  simp only [List.mem_cons, List.mem_singleton, List.not_mem_nil, or_false, not_or] at h
  simp only [cli_spu, cli_spu_flags, cli_interpolation, cli_volume, cli_notempo, h, if_false,
    ite_self]

end Pcsx4all

namespace Pcsx4all

/-! ### The loop body on every flag without a value -/

theorem cli_body_noxa (c : Consts) (b : Build) (rest : List Bytes) (s : CliState) :
    cli_body c b ⟨cs "-noxa", rest, 0, s⟩
      = .ok ⟨cs "-noxa", rest, 0, { s with g.Config.Xa := 1 }⟩ := by
  have e : cli_pcsx_flags (cs "-noxa") s = { s with g.Config.Xa := 1 } := rfl
  simp only [cli_body, e,
    cli_iso_id (cs "-noxa") _ _ (by decide), cli_file_id (cs "-noxa") _ _ _ (by decide),
    cli_syncaudio_id (cs "-noxa") _ (by decide),
    cli_spuupdatefreq_id c (cs "-noxa") _ _ _ (by decide),
    cli_forcedxaupdates_id c (cs "-noxa") _ _ _ (by decide),
    cli_display_flags_id (cs "-noxa") _ (by decide),
    cli_frameskip_id (cs "-noxa") _ _ _ (by decide),
    cli_gpu_unai_id b (cs "-noxa") _ (by decide), cli_spu_id b (cs "-noxa") _ _ _ (by decide)]

theorem cli_body_bwmdec (c : Consts) (b : Build) (rest : List Bytes) (s : CliState) :
    cli_body c b ⟨cs "-bwmdec", rest, 0, s⟩
      = .ok ⟨cs "-bwmdec", rest, 0, { s with g.Config.Mdec := 1 }⟩ := by
  have e : cli_pcsx_flags (cs "-bwmdec") s = { s with g.Config.Mdec := 1 } := rfl
  simp only [cli_body, e,
    cli_iso_id (cs "-bwmdec") _ _ (by decide), cli_file_id (cs "-bwmdec") _ _ _ (by decide),
    cli_syncaudio_id (cs "-bwmdec") _ (by decide),
    cli_spuupdatefreq_id c (cs "-bwmdec") _ _ _ (by decide),
    cli_forcedxaupdates_id c (cs "-bwmdec") _ _ _ (by decide),
    cli_display_flags_id (cs "-bwmdec") _ (by decide),
    cli_frameskip_id (cs "-bwmdec") _ _ _ (by decide),
    cli_gpu_unai_id b (cs "-bwmdec") _ (by decide),
    cli_spu_id b (cs "-bwmdec") _ _ _ (by decide)]

theorem cli_body_pal (c : Consts) (b : Build) (rest : List Bytes) (s : CliState) :
    cli_body c b ⟨cs "-pal", rest, 0, s⟩
      = .ok ⟨cs "-pal", rest, 0, { s with g.Config.PsxAuto := 0, g.Config.PsxType := 1 }⟩ := by
  have e : cli_pcsx_flags (cs "-pal") s = { s with g.Config.PsxAuto := 0, g.Config.PsxType := 1 } := rfl
  simp only [cli_body, e,
    cli_iso_id (cs "-pal") _ _ (by decide), cli_file_id (cs "-pal") _ _ _ (by decide),
    cli_syncaudio_id (cs "-pal") _ (by decide),
    cli_spuupdatefreq_id c (cs "-pal") _ _ _ (by decide),
    cli_forcedxaupdates_id c (cs "-pal") _ _ _ (by decide),
    cli_display_flags_id (cs "-pal") _ (by decide),
    cli_frameskip_id (cs "-pal") _ _ _ (by decide), cli_gpu_unai_id b (cs "-pal") _ (by decide),
    cli_spu_id b (cs "-pal") _ _ _ (by decide)]

theorem cli_body_ntsc (c : Consts) (b : Build) (rest : List Bytes) (s : CliState) :
    cli_body c b ⟨cs "-ntsc", rest, 0, s⟩
      = .ok ⟨cs "-ntsc", rest, 0, { s with g.Config.PsxAuto := 0, g.Config.PsxType := 0 }⟩ := by
  have e : cli_pcsx_flags (cs "-ntsc") s = { s with g.Config.PsxAuto := 0, g.Config.PsxType := 0 } := rfl
  simp only [cli_body, e,
    cli_iso_id (cs "-ntsc") _ _ (by decide), cli_file_id (cs "-ntsc") _ _ _ (by decide),
    cli_syncaudio_id (cs "-ntsc") _ (by decide),
    cli_spuupdatefreq_id c (cs "-ntsc") _ _ _ (by decide),
    cli_forcedxaupdates_id c (cs "-ntsc") _ _ _ (by decide),
    cli_display_flags_id (cs "-ntsc") _ (by decide),
    cli_frameskip_id (cs "-ntsc") _ _ _ (by decide),
    cli_gpu_unai_id b (cs "-ntsc") _ (by decide), cli_spu_id b (cs "-ntsc") _ _ _ (by decide)]

theorem cli_body_nocdda (c : Consts) (b : Build) (rest : List Bytes) (s : CliState) :
    cli_body c b ⟨cs "-nocdda", rest, 0, s⟩
      = .ok ⟨cs "-nocdda", rest, 0, { s with g.Config.Cdda := 1 }⟩ := by
  have e : cli_pcsx_flags (cs "-nocdda") s = { s with g.Config.Cdda := 1 } := rfl
  simp only [cli_body, e,
    cli_iso_id (cs "-nocdda") _ _ (by decide), cli_file_id (cs "-nocdda") _ _ _ (by decide),
    cli_syncaudio_id (cs "-nocdda") _ (by decide),
    cli_spuupdatefreq_id c (cs "-nocdda") _ _ _ (by decide),
    cli_forcedxaupdates_id c (cs "-nocdda") _ _ _ (by decide),
    cli_display_flags_id (cs "-nocdda") _ (by decide),
    cli_frameskip_id (cs "-nocdda") _ _ _ (by decide),
    cli_gpu_unai_id b (cs "-nocdda") _ (by decide),
    cli_spu_id b (cs "-nocdda") _ _ _ (by decide)]

theorem cli_body_bios (c : Consts) (b : Build) (rest : List Bytes) (s : CliState) :
    cli_body c b ⟨cs "-bios", rest, 0, s⟩
      = .ok ⟨cs "-bios", rest, 0, { s with g.Config.HLE := 0 }⟩ := by
  have e : cli_pcsx_flags (cs "-bios") s = { s with g.Config.HLE := 0 } := rfl
  simp only [cli_body, e,
    cli_iso_id (cs "-bios") _ _ (by decide), cli_file_id (cs "-bios") _ _ _ (by decide),
    cli_syncaudio_id (cs "-bios") _ (by decide),
    cli_spuupdatefreq_id c (cs "-bios") _ _ _ (by decide),
    cli_forcedxaupdates_id c (cs "-bios") _ _ _ (by decide),
    cli_display_flags_id (cs "-bios") _ (by decide),
    cli_frameskip_id (cs "-bios") _ _ _ (by decide),
    cli_gpu_unai_id b (cs "-bios") _ (by decide), cli_spu_id b (cs "-bios") _ _ _ (by decide)]

theorem cli_body_interpreter (c : Consts) (b : Build) (rest : List Bytes) (s : CliState) :
    cli_body c b ⟨cs "-interpreter", rest, 0, s⟩
      = .ok ⟨cs "-interpreter", rest, 0, { s with g.Config.Cpu := 1 }⟩ := by
  have e : cli_pcsx_flags (cs "-interpreter") s = { s with g.Config.Cpu := 1 } := rfl
  simp only [cli_body, e,
    cli_iso_id (cs "-interpreter") _ _ (by decide),
    cli_file_id (cs "-interpreter") _ _ _ (by decide),
    cli_syncaudio_id (cs "-interpreter") _ (by decide),
    cli_spuupdatefreq_id c (cs "-interpreter") _ _ _ (by decide),
    cli_forcedxaupdates_id c (cs "-interpreter") _ _ _ (by decide),
    cli_display_flags_id (cs "-interpreter") _ (by decide),
    cli_frameskip_id (cs "-interpreter") _ _ _ (by decide),
    cli_gpu_unai_id b (cs "-interpreter") _ (by decide),
    cli_spu_id b (cs "-interpreter") _ _ _ (by decide)]

theorem cli_body_slowboot (c : Consts) (b : Build) (rest : List Bytes) (s : CliState) :
    cli_body c b ⟨cs "-slowboot", rest, 0, s⟩
      = .ok ⟨cs "-slowboot", rest, 0, { s with g.Config.SlowBoot := 1 }⟩ := by
  have e : cli_pcsx_flags (cs "-slowboot") s = { s with g.Config.SlowBoot := 1 } := rfl
  simp only [cli_body, e,
    cli_iso_id (cs "-slowboot") _ _ (by decide), cli_file_id (cs "-slowboot") _ _ _ (by decide),
    cli_syncaudio_id (cs "-slowboot") _ (by decide),
    cli_spuupdatefreq_id c (cs "-slowboot") _ _ _ (by decide),
    cli_forcedxaupdates_id c (cs "-slowboot") _ _ _ (by decide),
    cli_display_flags_id (cs "-slowboot") _ (by decide),
    cli_frameskip_id (cs "-slowboot") _ _ _ (by decide),
    cli_gpu_unai_id b (cs "-slowboot") _ (by decide),
    cli_spu_id b (cs "-slowboot") _ _ _ (by decide)]

theorem cli_body_rcntfix (c : Consts) (b : Build) (rest : List Bytes) (s : CliState) :
    cli_body c b ⟨cs "-rcntfix", rest, 0, s⟩
      = .ok ⟨cs "-rcntfix", rest, 0, { s with g.Config.RCntFix := 1 }⟩ := by
  have e : cli_pcsx_flags (cs "-rcntfix") s = { s with g.Config.RCntFix := 1 } := rfl
  simp only [cli_body, e,
    cli_iso_id (cs "-rcntfix") _ _ (by decide), cli_file_id (cs "-rcntfix") _ _ _ (by decide),
    cli_syncaudio_id (cs "-rcntfix") _ (by decide),
    cli_spuupdatefreq_id c (cs "-rcntfix") _ _ _ (by decide),
    cli_forcedxaupdates_id c (cs "-rcntfix") _ _ _ (by decide),
    cli_display_flags_id (cs "-rcntfix") _ (by decide),
    cli_frameskip_id (cs "-rcntfix") _ _ _ (by decide),
    cli_gpu_unai_id b (cs "-rcntfix") _ (by decide),
    cli_spu_id b (cs "-rcntfix") _ _ _ (by decide)]

theorem cli_body_vsyncwa (c : Consts) (b : Build) (rest : List Bytes) (s : CliState) :
    cli_body c b ⟨cs "-vsyncwa", rest, 0, s⟩
      = .ok ⟨cs "-vsyncwa", rest, 0, { s with g.Config.VSyncWA := 1 }⟩ := by
  have e : cli_pcsx_flags (cs "-vsyncwa") s = { s with g.Config.VSyncWA := 1 } := rfl
  simp only [cli_body, e,
    cli_iso_id (cs "-vsyncwa") _ _ (by decide), cli_file_id (cs "-vsyncwa") _ _ _ (by decide),
    cli_syncaudio_id (cs "-vsyncwa") _ (by decide),
    cli_spuupdatefreq_id c (cs "-vsyncwa") _ _ _ (by decide),
    cli_forcedxaupdates_id c (cs "-vsyncwa") _ _ _ (by decide),
    cli_display_flags_id (cs "-vsyncwa") _ (by decide),
    cli_frameskip_id (cs "-vsyncwa") _ _ _ (by decide),
    cli_gpu_unai_id b (cs "-vsyncwa") _ (by decide),
    cli_spu_id b (cs "-vsyncwa") _ _ _ (by decide)]

theorem cli_body_spuirq (c : Consts) (b : Build) (rest : List Bytes) (s : CliState) :
    cli_body c b ⟨cs "-spuirq", rest, 0, s⟩
      = .ok ⟨cs "-spuirq", rest, 0, { s with g.Config.SpuIrq := 1 }⟩ := by
  have e : cli_pcsx_flags (cs "-spuirq") s = { s with g.Config.SpuIrq := 1 } := rfl
  simp only [cli_body, e,
    cli_iso_id (cs "-spuirq") _ _ (by decide), cli_file_id (cs "-spuirq") _ _ _ (by decide),
    cli_syncaudio_id (cs "-spuirq") _ (by decide),
    cli_spuupdatefreq_id c (cs "-spuirq") _ _ _ (by decide),
    cli_forcedxaupdates_id c (cs "-spuirq") _ _ _ (by decide),
    cli_display_flags_id (cs "-spuirq") _ (by decide),
    cli_frameskip_id (cs "-spuirq") _ _ _ (by decide),
    cli_gpu_unai_id b (cs "-spuirq") _ (by decide),
    cli_spu_id b (cs "-spuirq") _ _ _ (by decide)]

theorem cli_body_syncaudio (c : Consts) (b : Build) (rest : List Bytes) (s : CliState) :
    cli_body c b ⟨cs "-syncaudio", rest, 0, s⟩
      = .ok ⟨cs "-syncaudio", rest, 0, { s with g.Config.SyncAudio := 0 }⟩ := by
  have e : cli_syncaudio (cs "-syncaudio") s = { s with g.Config.SyncAudio := 0 } := rfl
  simp only [cli_body, e,
    cli_pcsx_flags_id (cs "-syncaudio") _ (by decide),
    cli_iso_id (cs "-syncaudio") _ _ (by decide),
    cli_file_id (cs "-syncaudio") _ _ _ (by decide),
    cli_spuupdatefreq_id c (cs "-syncaudio") _ _ _ (by decide),
    cli_forcedxaupdates_id c (cs "-syncaudio") _ _ _ (by decide),
    cli_display_flags_id (cs "-syncaudio") _ (by decide),
    cli_frameskip_id (cs "-syncaudio") _ _ _ (by decide),
    cli_gpu_unai_id b (cs "-syncaudio") _ (by decide),
    cli_spu_id b (cs "-syncaudio") _ _ _ (by decide)]

theorem cli_body_perfmon (c : Consts) (b : Build) (rest : List Bytes) (s : CliState) :
    cli_body c b ⟨cs "-perfmon", rest, 0, s⟩
      = .ok ⟨cs "-perfmon", rest, 0, { s with g.Config.PerfmonConsoleOutput := 1, g.Config.PerfmonDetailedStats := 1 }⟩ := by
  have e : cli_display_flags (cs "-perfmon") s = { s with g.Config.PerfmonConsoleOutput := 1, g.Config.PerfmonDetailedStats := 1 } := rfl
  simp only [cli_body, e,
    cli_pcsx_flags_id (cs "-perfmon") _ (by decide), cli_iso_id (cs "-perfmon") _ _ (by decide),
    cli_file_id (cs "-perfmon") _ _ _ (by decide),
    cli_syncaudio_id (cs "-perfmon") _ (by decide),
    cli_spuupdatefreq_id c (cs "-perfmon") _ _ _ (by decide),
    cli_forcedxaupdates_id c (cs "-perfmon") _ _ _ (by decide),
    cli_frameskip_id (cs "-perfmon") _ _ _ (by decide),
    cli_gpu_unai_id b (cs "-perfmon") _ (by decide),
    cli_spu_id b (cs "-perfmon") _ _ _ (by decide)]

theorem cli_body_showfps (c : Consts) (b : Build) (rest : List Bytes) (s : CliState) :
    cli_body c b ⟨cs "-showfps", rest, 0, s⟩
      = .ok ⟨cs "-showfps", rest, 0, { s with g.Config.ShowFps := 1 }⟩ := by
  have e : cli_display_flags (cs "-showfps") s = { s with g.Config.ShowFps := 1 } := rfl
  simp only [cli_body, e,
    cli_pcsx_flags_id (cs "-showfps") _ (by decide), cli_iso_id (cs "-showfps") _ _ (by decide),
    cli_file_id (cs "-showfps") _ _ _ (by decide),
    cli_syncaudio_id (cs "-showfps") _ (by decide),
    cli_spuupdatefreq_id c (cs "-showfps") _ _ _ (by decide),
    cli_forcedxaupdates_id c (cs "-showfps") _ _ _ (by decide),
    cli_frameskip_id (cs "-showfps") _ _ _ (by decide),
    cli_gpu_unai_id b (cs "-showfps") _ (by decide),
    cli_spu_id b (cs "-showfps") _ _ _ (by decide)]

theorem cli_body_noframelimit (c : Consts) (b : Build) (rest : List Bytes) (s : CliState) :
    cli_body c b ⟨cs "-noframelimit", rest, 0, s⟩
      = .ok ⟨cs "-noframelimit", rest, 0, { s with g.Config.FrameLimit := 0 }⟩ := by
  have e : cli_display_flags (cs "-noframelimit") s = { s with g.Config.FrameLimit := 0 } := rfl
  simp only [cli_body, e,
    cli_pcsx_flags_id (cs "-noframelimit") _ (by decide),
    cli_iso_id (cs "-noframelimit") _ _ (by decide),
    cli_file_id (cs "-noframelimit") _ _ _ (by decide),
    cli_syncaudio_id (cs "-noframelimit") _ (by decide),
    cli_spuupdatefreq_id c (cs "-noframelimit") _ _ _ (by decide),
    cli_forcedxaupdates_id c (cs "-noframelimit") _ _ _ (by decide),
    cli_frameskip_id (cs "-noframelimit") _ _ _ (by decide),
    cli_gpu_unai_id b (cs "-noframelimit") _ (by decide),
    cli_spu_id b (cs "-noframelimit") _ _ _ (by decide)]

theorem cli_body_interlace (c : Consts) (b : Build) (rest : List Bytes) (s : CliState) :
    cli_body c b ⟨cs "-interlace", rest, 0, s⟩
      = .ok ⟨cs "-interlace", rest, 0, if b.GPU_UNAI then { s with g.gpu_unai_config_ext.ilace_force := 1 } else s⟩ := by
  have e : cli_gpu_unai b (cs "-interlace") s = if b.GPU_UNAI then { s with g.gpu_unai_config_ext.ilace_force := 1 } else s := by
    cases hb : b.GPU_UNAI
    · simp only [cli_gpu_unai, hb, Bool.false_eq_true, if_false]
    · have e' : cli_gpu_unai b (cs "-interlace") s
          = cli_gpu_unai { b with GPU_UNAI := true } (cs "-interlace") s := by
        simp only [cli_gpu_unai, hb]
      rw [e']; rfl
  simp only [cli_body, e,
    cli_pcsx_flags_id (cs "-interlace") _ (by decide),
    cli_iso_id (cs "-interlace") _ _ (by decide),
    cli_file_id (cs "-interlace") _ _ _ (by decide),
    cli_syncaudio_id (cs "-interlace") _ (by decide),
    cli_spuupdatefreq_id c (cs "-interlace") _ _ _ (by decide),
    cli_forcedxaupdates_id c (cs "-interlace") _ _ _ (by decide),
    cli_display_flags_id (cs "-interlace") _ (by decide),
    cli_frameskip_id (cs "-interlace") _ _ _ (by decide),
    cli_spu_id b (cs "-interlace") _ _ _ (by decide)]

theorem cli_body_dither (c : Consts) (b : Build) (rest : List Bytes) (s : CliState) :
    cli_body c b ⟨cs "-dither", rest, 0, s⟩
      = .ok ⟨cs "-dither", rest, 0, if b.GPU_UNAI then { s with g.gpu_unai_config_ext.dithering := 1 } else s⟩ := by
  have e : cli_gpu_unai b (cs "-dither") s = if b.GPU_UNAI then { s with g.gpu_unai_config_ext.dithering := 1 } else s := by
    cases hb : b.GPU_UNAI
    · simp only [cli_gpu_unai, hb, Bool.false_eq_true, if_false]
    · have e' : cli_gpu_unai b (cs "-dither") s
          = cli_gpu_unai { b with GPU_UNAI := true } (cs "-dither") s := by
        simp only [cli_gpu_unai, hb]
      rw [e']; rfl
  simp only [cli_body, e,
    cli_pcsx_flags_id (cs "-dither") _ (by decide), cli_iso_id (cs "-dither") _ _ (by decide),
    cli_file_id (cs "-dither") _ _ _ (by decide), cli_syncaudio_id (cs "-dither") _ (by decide),
    cli_spuupdatefreq_id c (cs "-dither") _ _ _ (by decide),
    cli_forcedxaupdates_id c (cs "-dither") _ _ _ (by decide),
    cli_display_flags_id (cs "-dither") _ (by decide),
    cli_frameskip_id (cs "-dither") _ _ _ (by decide),
    cli_spu_id b (cs "-dither") _ _ _ (by decide)]

theorem cli_body_nolight (c : Consts) (b : Build) (rest : List Bytes) (s : CliState) :
    cli_body c b ⟨cs "-nolight", rest, 0, s⟩
      = .ok ⟨cs "-nolight", rest, 0, if b.GPU_UNAI then { s with g.gpu_unai_config_ext.lighting := 0 } else s⟩ := by
  have e : cli_gpu_unai b (cs "-nolight") s = if b.GPU_UNAI then { s with g.gpu_unai_config_ext.lighting := 0 } else s := by
    cases hb : b.GPU_UNAI
    · simp only [cli_gpu_unai, hb, Bool.false_eq_true, if_false]
    · have e' : cli_gpu_unai b (cs "-nolight") s
          = cli_gpu_unai { b with GPU_UNAI := true } (cs "-nolight") s := by
        simp only [cli_gpu_unai, hb]
      rw [e']; rfl
  simp only [cli_body, e,
    cli_pcsx_flags_id (cs "-nolight") _ (by decide), cli_iso_id (cs "-nolight") _ _ (by decide),
    cli_file_id (cs "-nolight") _ _ _ (by decide),
    cli_syncaudio_id (cs "-nolight") _ (by decide),
    cli_spuupdatefreq_id c (cs "-nolight") _ _ _ (by decide),
    cli_forcedxaupdates_id c (cs "-nolight") _ _ _ (by decide),
    cli_display_flags_id (cs "-nolight") _ (by decide),
    cli_frameskip_id (cs "-nolight") _ _ _ (by decide),
    cli_spu_id b (cs "-nolight") _ _ _ (by decide)]

theorem cli_body_noblend (c : Consts) (b : Build) (rest : List Bytes) (s : CliState) :
    cli_body c b ⟨cs "-noblend", rest, 0, s⟩
      = .ok ⟨cs "-noblend", rest, 0, if b.GPU_UNAI then { s with g.gpu_unai_config_ext.blending := 0 } else s⟩ := by
  have e : cli_gpu_unai b (cs "-noblend") s = if b.GPU_UNAI then { s with g.gpu_unai_config_ext.blending := 0 } else s := by
    cases hb : b.GPU_UNAI
    · simp only [cli_gpu_unai, hb, Bool.false_eq_true, if_false]
    · have e' : cli_gpu_unai b (cs "-noblend") s
          = cli_gpu_unai { b with GPU_UNAI := true } (cs "-noblend") s := by
        simp only [cli_gpu_unai, hb]
      rw [e']; rfl
  simp only [cli_body, e,
    cli_pcsx_flags_id (cs "-noblend") _ (by decide), cli_iso_id (cs "-noblend") _ _ (by decide),
    cli_file_id (cs "-noblend") _ _ _ (by decide),
    cli_syncaudio_id (cs "-noblend") _ (by decide),
    cli_spuupdatefreq_id c (cs "-noblend") _ _ _ (by decide),
    cli_forcedxaupdates_id c (cs "-noblend") _ _ _ (by decide),
    cli_display_flags_id (cs "-noblend") _ (by decide),
    cli_frameskip_id (cs "-noblend") _ _ _ (by decide),
    cli_spu_id b (cs "-noblend") _ _ _ (by decide)]

theorem cli_body_nofastlight (c : Consts) (b : Build) (rest : List Bytes) (s : CliState) :
    cli_body c b ⟨cs "-nofastlight", rest, 0, s⟩
      = .ok ⟨cs "-nofastlight", rest, 0, if b.GPU_UNAI then { s with g.gpu_unai_config_ext.fast_lighting := 0 } else s⟩ := by
  have e : cli_gpu_unai b (cs "-nofastlight") s = if b.GPU_UNAI then { s with g.gpu_unai_config_ext.fast_lighting := 0 } else s := by
    cases hb : b.GPU_UNAI
    · simp only [cli_gpu_unai, hb, Bool.false_eq_true, if_false]
    · have e' : cli_gpu_unai b (cs "-nofastlight") s
          = cli_gpu_unai { b with GPU_UNAI := true } (cs "-nofastlight") s := by
        simp only [cli_gpu_unai, hb]
      rw [e']; rfl
  simp only [cli_body, e,
    cli_pcsx_flags_id (cs "-nofastlight") _ (by decide),
    cli_iso_id (cs "-nofastlight") _ _ (by decide),
    cli_file_id (cs "-nofastlight") _ _ _ (by decide),
    cli_syncaudio_id (cs "-nofastlight") _ (by decide),
    cli_spuupdatefreq_id c (cs "-nofastlight") _ _ _ (by decide),
    cli_forcedxaupdates_id c (cs "-nofastlight") _ _ _ (by decide),
    cli_display_flags_id (cs "-nofastlight") _ (by decide),
    cli_frameskip_id (cs "-nofastlight") _ _ _ (by decide),
    cli_spu_id b (cs "-nofastlight") _ _ _ (by decide)]

theorem cli_body_nopixelskip (c : Consts) (b : Build) (rest : List Bytes) (s : CliState) :
    cli_body c b ⟨cs "-nopixelskip", rest, 0, s⟩
      = .ok ⟨cs "-nopixelskip", rest, 0, if b.GPU_UNAI then { s with g.gpu_unai_config_ext.pixel_skip := 0 } else s⟩ := by
  have e : cli_gpu_unai b (cs "-nopixelskip") s = if b.GPU_UNAI then { s with g.gpu_unai_config_ext.pixel_skip := 0 } else s := by
    cases hb : b.GPU_UNAI
    · simp only [cli_gpu_unai, hb, Bool.false_eq_true, if_false]
    · have e' : cli_gpu_unai b (cs "-nopixelskip") s
          = cli_gpu_unai { b with GPU_UNAI := true } (cs "-nopixelskip") s := by
        simp only [cli_gpu_unai, hb]
      rw [e']; rfl
  simp only [cli_body, e,
    cli_pcsx_flags_id (cs "-nopixelskip") _ (by decide),
    cli_iso_id (cs "-nopixelskip") _ _ (by decide),
    cli_file_id (cs "-nopixelskip") _ _ _ (by decide),
    cli_syncaudio_id (cs "-nopixelskip") _ (by decide),
    cli_spuupdatefreq_id c (cs "-nopixelskip") _ _ _ (by decide),
    cli_forcedxaupdates_id c (cs "-nopixelskip") _ _ _ (by decide),
    cli_display_flags_id (cs "-nopixelskip") _ (by decide),
    cli_frameskip_id (cs "-nopixelskip") _ _ _ (by decide),
    cli_spu_id b (cs "-nopixelskip") _ _ _ (by decide)]

theorem cli_body_silent (c : Consts) (b : Build) (rest : List Bytes) (s : CliState) :
    cli_body c b ⟨cs "-silent", rest, 0, s⟩
      = .ok ⟨cs "-silent", rest, 0,
          if b.SPU_NULL = false ∧ b.SPU_PCSXREARMED = true then { s with g.spu_config.iDisabled := 1 } else s⟩ := by
  have e : cli_spu b ⟨cs "-silent", rest, 0, s⟩
      = .ok ⟨cs "-silent", rest, 0,
          if b.SPU_NULL = false ∧ b.SPU_PCSXREARMED = true then { s with g.spu_config.iDisabled := 1 } else s⟩ := by
    by_cases hb : b.SPU_NULL = false ∧ b.SPU_PCSXREARMED = true
    · simp only [cli_spu, hb, and_self, if_true]; rfl
    · simp only [cli_spu, hb, if_false]
  simp only [cli_body,
    cli_pcsx_flags_id (cs "-silent") _ (by decide), cli_iso_id (cs "-silent") _ _ (by decide),
    cli_file_id (cs "-silent") _ _ _ (by decide), cli_syncaudio_id (cs "-silent") _ (by decide),
    cli_spuupdatefreq_id c (cs "-silent") _ _ _ (by decide),
    cli_forcedxaupdates_id c (cs "-silent") _ _ _ (by decide),
    cli_display_flags_id (cs "-silent") _ (by decide),
    cli_frameskip_id (cs "-silent") _ _ _ (by decide),
    cli_gpu_unai_id b (cs "-silent") _ (by decide), e]

theorem cli_body_reverb (c : Consts) (b : Build) (rest : List Bytes) (s : CliState) :
    cli_body c b ⟨cs "-reverb", rest, 0, s⟩
      = .ok ⟨cs "-reverb", rest, 0,
          if b.SPU_NULL = false ∧ b.SPU_PCSXREARMED = true then { s with g.spu_config.iUseReverb := 1 } else s⟩ := by
  have e : cli_spu b ⟨cs "-reverb", rest, 0, s⟩
      = .ok ⟨cs "-reverb", rest, 0,
          if b.SPU_NULL = false ∧ b.SPU_PCSXREARMED = true then { s with g.spu_config.iUseReverb := 1 } else s⟩ := by
    by_cases hb : b.SPU_NULL = false ∧ b.SPU_PCSXREARMED = true
    · simp only [cli_spu, hb, and_self, if_true]; rfl
    · simp only [cli_spu, hb, if_false]
  simp only [cli_body,
    cli_pcsx_flags_id (cs "-reverb") _ (by decide), cli_iso_id (cs "-reverb") _ _ (by decide),
    cli_file_id (cs "-reverb") _ _ _ (by decide), cli_syncaudio_id (cs "-reverb") _ (by decide),
    cli_spuupdatefreq_id c (cs "-reverb") _ _ _ (by decide),
    cli_forcedxaupdates_id c (cs "-reverb") _ _ _ (by decide),
    cli_display_flags_id (cs "-reverb") _ (by decide),
    cli_frameskip_id (cs "-reverb") _ _ _ (by decide),
    cli_gpu_unai_id b (cs "-reverb") _ (by decide), e]

theorem cli_body_xapitch (c : Consts) (b : Build) (rest : List Bytes) (s : CliState) :
    cli_body c b ⟨cs "-xapitch", rest, 0, s⟩
      = .ok ⟨cs "-xapitch", rest, 0,
          if b.SPU_NULL = false ∧ b.SPU_PCSXREARMED = true then { s with g.spu_config.iXAPitch := 1 } else s⟩ := by
  have e : cli_spu b ⟨cs "-xapitch", rest, 0, s⟩
      = .ok ⟨cs "-xapitch", rest, 0,
          if b.SPU_NULL = false ∧ b.SPU_PCSXREARMED = true then { s with g.spu_config.iXAPitch := 1 } else s⟩ := by
    by_cases hb : b.SPU_NULL = false ∧ b.SPU_PCSXREARMED = true
    · simp only [cli_spu, hb, and_self, if_true]; rfl
    · simp only [cli_spu, hb, if_false]
  simp only [cli_body,
    cli_pcsx_flags_id (cs "-xapitch") _ (by decide), cli_iso_id (cs "-xapitch") _ _ (by decide),
    cli_file_id (cs "-xapitch") _ _ _ (by decide),
    cli_syncaudio_id (cs "-xapitch") _ (by decide),
    cli_spuupdatefreq_id c (cs "-xapitch") _ _ _ (by decide),
    cli_forcedxaupdates_id c (cs "-xapitch") _ _ _ (by decide),
    cli_display_flags_id (cs "-xapitch") _ (by decide),
    cli_frameskip_id (cs "-xapitch") _ _ _ (by decide),
    cli_gpu_unai_id b (cs "-xapitch") _ (by decide), e]

theorem cli_body_threaded_spu (c : Consts) (b : Build) (rest : List Bytes) (s : CliState) :
    cli_body c b ⟨cs "-threaded_spu", rest, 0, s⟩
      = .ok ⟨cs "-threaded_spu", rest, 0,
          if b.SPU_NULL = false ∧ b.SPU_PCSXREARMED = true then { s with g.spu_config.iUseThread := 1 } else s⟩ := by
  have e : cli_spu b ⟨cs "-threaded_spu", rest, 0, s⟩
      = .ok ⟨cs "-threaded_spu", rest, 0,
          if b.SPU_NULL = false ∧ b.SPU_PCSXREARMED = true then { s with g.spu_config.iUseThread := 1 } else s⟩ := by
    by_cases hb : b.SPU_NULL = false ∧ b.SPU_PCSXREARMED = true
    · simp only [cli_spu, hb, and_self, if_true]; rfl
    · simp only [cli_spu, hb, if_false]
  simp only [cli_body,
    cli_pcsx_flags_id (cs "-threaded_spu") _ (by decide),
    cli_iso_id (cs "-threaded_spu") _ _ (by decide),
    cli_file_id (cs "-threaded_spu") _ _ _ (by decide),
    cli_syncaudio_id (cs "-threaded_spu") _ (by decide),
    cli_spuupdatefreq_id c (cs "-threaded_spu") _ _ _ (by decide),
    cli_forcedxaupdates_id c (cs "-threaded_spu") _ _ _ (by decide),
    cli_display_flags_id (cs "-threaded_spu") _ (by decide),
    cli_frameskip_id (cs "-threaded_spu") _ _ _ (by decide),
    cli_gpu_unai_id b (cs "-threaded_spu") _ (by decide), e]

theorem cli_body_nofixedupdates (c : Consts) (b : Build) (rest : List Bytes) (s : CliState) :
    cli_body c b ⟨cs "-nofixedupdates", rest, 0, s⟩
      = .ok ⟨cs "-nofixedupdates", rest, 0,
          if b.SPU_NULL = false ∧ b.SPU_PCSXREARMED = true then { s with g.spu_config.iUseFixedUpdates := 0 } else s⟩ := by
  have e : cli_spu b ⟨cs "-nofixedupdates", rest, 0, s⟩
      = .ok ⟨cs "-nofixedupdates", rest, 0,
          if b.SPU_NULL = false ∧ b.SPU_PCSXREARMED = true then { s with g.spu_config.iUseFixedUpdates := 0 } else s⟩ := by
    by_cases hb : b.SPU_NULL = false ∧ b.SPU_PCSXREARMED = true
    · simp only [cli_spu, hb, and_self, if_true]; rfl
    · simp only [cli_spu, hb, if_false]
  simp only [cli_body,
    cli_pcsx_flags_id (cs "-nofixedupdates") _ (by decide),
    cli_iso_id (cs "-nofixedupdates") _ _ (by decide),
    cli_file_id (cs "-nofixedupdates") _ _ _ (by decide),
    cli_syncaudio_id (cs "-nofixedupdates") _ (by decide),
    cli_spuupdatefreq_id c (cs "-nofixedupdates") _ _ _ (by decide),
    cli_forcedxaupdates_id c (cs "-nofixedupdates") _ _ _ (by decide),
    cli_display_flags_id (cs "-nofixedupdates") _ (by decide),
    cli_frameskip_id (cs "-nofixedupdates") _ _ _ (by decide),
    cli_gpu_unai_id b (cs "-nofixedupdates") _ (by decide), e]

theorem cli_body_notempo (c : Consts) (b : Build) (rest : List Bytes) (s : CliState) :
    cli_body c b ⟨cs "-notempo", rest, 0, s⟩
      = .ok ⟨cs "-notempo", rest, 0,
          if b.SPU_NULL = false ∧ b.SPU_PCSXREARMED = true then { s with g.spu_config.iTempo := 0 } else s⟩ := by
  have e : cli_spu b ⟨cs "-notempo", rest, 0, s⟩
      = .ok ⟨cs "-notempo", rest, 0,
          if b.SPU_NULL = false ∧ b.SPU_PCSXREARMED = true then { s with g.spu_config.iTempo := 0 } else s⟩ := by
    by_cases hb : b.SPU_NULL = false ∧ b.SPU_PCSXREARMED = true
    · simp only [cli_spu, hb, and_self, if_true]; rfl
    · simp only [cli_spu, hb, if_false]
  simp only [cli_body,
    cli_pcsx_flags_id (cs "-notempo") _ (by decide), cli_iso_id (cs "-notempo") _ _ (by decide),
    cli_file_id (cs "-notempo") _ _ _ (by decide),
    cli_syncaudio_id (cs "-notempo") _ (by decide),
    cli_spuupdatefreq_id c (cs "-notempo") _ _ _ (by decide),
    cli_forcedxaupdates_id c (cs "-notempo") _ _ _ (by decide),
    cli_display_flags_id (cs "-notempo") _ (by decide),
    cli_frameskip_id (cs "-notempo") _ _ _ (by decide),
    cli_gpu_unai_id b (cs "-notempo") _ (by decide), e]

theorem cli_body_iso (c : Consts) (b : Build) (rest : List Bytes) (s : CliState) :
    cli_body c b ⟨cs "-iso", rest, 0, s⟩
      = .ok ⟨cs "-iso", rest, 0, cli_iso (cs "-iso") rest s⟩ := by
  simp only [cli_body,
    cli_pcsx_flags_id (cs "-iso") _ (by decide), cli_file_id (cs "-iso") _ _ _ (by decide),
    cli_syncaudio_id (cs "-iso") _ (by decide),
    cli_spuupdatefreq_id c (cs "-iso") _ _ _ (by decide),
    cli_forcedxaupdates_id c (cs "-iso") _ _ _ (by decide),
    cli_display_flags_id (cs "-iso") _ (by decide),
    cli_frameskip_id (cs "-iso") _ _ _ (by decide), cli_gpu_unai_id b (cs "-iso") _ (by decide),
    cli_spu_id b (cs "-iso") _ _ _ (by decide)]

theorem cli_body_file (c : Consts) (b : Build) (p : Bytes) (rest : List Bytes) (s : CliState)
    (hp : (cstr p).length < 256) :
    cli_body c b ⟨cs "-file", p :: rest, 0, s⟩
      = .ok ⟨cs "-file", p :: rest, 0, { s with filename := cstr p }⟩ := by
  have e : cli_file ⟨cs "-file", p :: rest, 0, s⟩
      = .ok ⟨cs "-file", p :: rest, 0, { s with filename := cstr p }⟩ := by
    simp only [cli_file, if_true, hp]
  simp only [cli_body,
    cli_pcsx_flags_id (cs "-file") _ (by decide), cli_iso_id (cs "-file") _ _ (by decide), e,
    cli_syncaudio_id (cs "-file") _ (by decide),
    cli_spuupdatefreq_id c (cs "-file") _ _ _ (by decide),
    cli_forcedxaupdates_id c (cs "-file") _ _ _ (by decide),
    cli_display_flags_id (cs "-file") _ (by decide),
    cli_frameskip_id (cs "-file") _ _ _ (by decide),
    cli_gpu_unai_id b (cs "-file") _ (by decide), cli_spu_id b (cs "-file") _ _ _ (by decide)]

theorem cli_body_unknown (c : Consts) (b : Build) (a : Bytes) (rest : List Bytes)
    (s : CliState)
    (h : a ∉ knownFlags) :
    cli_body c b ⟨a, rest, 0, s⟩ = .ok ⟨a, rest, 0, s⟩ := by
  simp only [knownFlags, List.mem_cons, List.mem_singleton, List.not_mem_nil, or_false, not_or] at h
  simp only [cli_body, cli_pcsx_flags_id a _ (by simp [h]), cli_iso_id a _ _ (by simp [h]),
    cli_file_id a _ _ _ (by simp [h]), cli_syncaudio_id a _ (by simp [h]),
    cli_spuupdatefreq_id c a _ _ _ (by simp [h]), cli_forcedxaupdates_id c a _ _ _ (by simp [h]),
    cli_display_flags_id a _ (by simp [h]), cli_frameskip_id a _ _ _ (by simp [h]),
    cli_gpu_unai_id b a _ (by simp [h]), cli_spu_id b a _ _ _ (by simp [h])]

end Pcsx4all

namespace Pcsx4all

theorem cli_body_progressive (c : Consts) (b : Build) (rest : List Bytes) (s : CliState) :
    ∃ s', cli_body c b ⟨cs "-progressive", rest, 0, s⟩ = .ok ⟨cs "-progressive", rest, 0, s'⟩ ∧
      ∀ f : CliField, f.get s'.g = f.get s.g := by
  have e : ∃ s', cli_gpu_unai b (cs "-progressive") s = s' ∧
      ∀ f : CliField, f.get s'.g = f.get s.g := by
    refine ⟨_, rfl, ?_⟩
    intro f
    cases hb : b.GPU_UNAI <;> cases hg : b.USE_GPULIB <;>
      simp only [cli_gpu_unai, hb, hg, Bool.false_eq_true, if_false, if_true, and_false,
        and_true] <;> first | rfl | (cases f <;> rfl)
  obtain ⟨s', e1, e2⟩ := e
  refine ⟨s', ?_, e2⟩
  simp only [cli_body, e1,
    cli_pcsx_flags_id (cs "-progressive") _ (by decide),
    cli_iso_id (cs "-progressive") _ _ (by decide),
    cli_file_id (cs "-progressive") _ _ _ (by decide),
    cli_syncaudio_id (cs "-progressive") _ (by decide),
    cli_spuupdatefreq_id c (cs "-progressive") _ _ _ (by decide),
    cli_forcedxaupdates_id c (cs "-progressive") _ _ _ (by decide),
    cli_display_flags_id (cs "-progressive") _ (by decide),
    cli_frameskip_id (cs "-progressive") _ _ _ (by decide),
    cli_spu_id b (cs "-progressive") _ _ _ (by decide)]

set_option maxHeartbeats 4000000 in
/-- The loop body on an argument that is not a value-taking flag (and not a
`-file` without a fitting path): the iteration ends normally without `++i`, and
every setting that has no flag equal to the argument keeps its value. -/
theorem cli_body_plain (c : Consts) (b : Build) (a : Bytes) (rest : List Bytes) (s : CliState)
    (hv : a ∉ valueFlags) (hfile : fileArgOk a rest = true) :
    ∃ s', cli_body c b ⟨a, rest, 0, s⟩ = .ok ⟨a, rest, 0, s'⟩ ∧
      ∀ f : CliField, a ∉ f.flags → f.get s'.g = f.get s.g := by
  by_cases hmem : a ∈ knownFlags
  · simp only [knownFlags, List.mem_cons, List.mem_singleton, List.not_mem_nil, or_false] at hmem
    rcases hmem with rfl | rfl | rfl | rfl | rfl | rfl | rfl | rfl | rfl | rfl | rfl | rfl |
      rfl | rfl | rfl | rfl | rfl | rfl | rfl | rfl | rfl | rfl | rfl | rfl | rfl | rfl | rfl |
      rfl | rfl | rfl | rfl | rfl | rfl | rfl | rfl
    · refine ⟨_, cli_body_noxa c b rest s, ?_⟩
      intro f hf; cases f <;> first | rfl | exact absurd (by decide) hf
    · refine ⟨_, cli_body_bwmdec c b rest s, ?_⟩
      intro f hf; cases f <;> first | rfl | exact absurd (by decide) hf
    · refine ⟨_, cli_body_pal c b rest s, ?_⟩
      intro f hf; cases f <;> first | rfl | exact absurd (by decide) hf
    · refine ⟨_, cli_body_ntsc c b rest s, ?_⟩
      intro f hf; cases f <;> first | rfl | exact absurd (by decide) hf
    · refine ⟨_, cli_body_nocdda c b rest s, ?_⟩
      intro f hf; cases f <;> first | rfl | exact absurd (by decide) hf
    · refine ⟨_, cli_body_bios c b rest s, ?_⟩
      intro f hf; cases f <;> first | rfl | exact absurd (by decide) hf
    · refine ⟨_, cli_body_interpreter c b rest s, ?_⟩
      intro f hf; cases f <;> first | rfl | exact absurd (by decide) hf
    · refine ⟨_, cli_body_slowboot c b rest s, ?_⟩
      intro f hf; cases f <;> first | rfl | exact absurd (by decide) hf
    · refine ⟨_, cli_body_rcntfix c b rest s, ?_⟩
      intro f hf; cases f <;> first | rfl | exact absurd (by decide) hf
    · refine ⟨_, cli_body_vsyncwa c b rest s, ?_⟩
      intro f hf; cases f <;> first | rfl | exact absurd (by decide) hf
    · refine ⟨_, cli_body_spuirq c b rest s, ?_⟩
      intro f hf; cases f <;> first | rfl | exact absurd (by decide) hf
    · refine ⟨_, cli_body_iso c b rest s, ?_⟩
      intro f _
      have e : (cli_iso (cs "-iso") rest s).g = s.g := by
        cases rest <;> rfl
      rw [e]
    · cases rest with
      | nil => simp [fileArgOk] at hfile
      | cons p rest =>
        have hp : (cstr p).length < 256 := by simpa [fileArgOk] using hfile
        exact ⟨_, cli_body_file c b p rest s hp, fun f _ => rfl⟩
    · refine ⟨_, cli_body_syncaudio c b rest s, ?_⟩
      intro f hf; cases f <;> first | rfl | exact absurd (by decide) hf
    · exact absurd (by decide) hv
    · exact absurd (by decide) hv
    · refine ⟨_, cli_body_perfmon c b rest s, ?_⟩
      intro f _; cases f <;> rfl
    · refine ⟨_, cli_body_showfps c b rest s, ?_⟩
      intro f hf; cases f <;> first | rfl | exact absurd (by decide) hf
    · refine ⟨_, cli_body_noframelimit c b rest s, ?_⟩
      intro f hf; cases f <;> first | rfl | exact absurd (by decide) hf
    · exact absurd (by decide) hv
    · have hbody := cli_body_interlace c b rest s
      by_cases hb : b.GPU_UNAI = true
      · rw [if_pos hb] at hbody
        refine ⟨_, hbody, ?_⟩
        intro f hf; cases f <;> first | rfl | exact absurd (by decide) hf
      · rw [if_neg hb] at hbody
        exact ⟨_, hbody, fun f _ => rfl⟩
    · have hbody := cli_body_dither c b rest s
      by_cases hb : b.GPU_UNAI = true
      · rw [if_pos hb] at hbody
        refine ⟨_, hbody, ?_⟩
        intro f hf; cases f <;> first | rfl | exact absurd (by decide) hf
      · rw [if_neg hb] at hbody
        exact ⟨_, hbody, fun f _ => rfl⟩
    · have hbody := cli_body_nolight c b rest s
      by_cases hb : b.GPU_UNAI = true
      · rw [if_pos hb] at hbody
        refine ⟨_, hbody, ?_⟩
        intro f hf; cases f <;> first | rfl | exact absurd (by decide) hf
      · rw [if_neg hb] at hbody
        exact ⟨_, hbody, fun f _ => rfl⟩
    · have hbody := cli_body_noblend c b rest s
      by_cases hb : b.GPU_UNAI = true
      · rw [if_pos hb] at hbody
        refine ⟨_, hbody, ?_⟩
        intro f hf; cases f <;> first | rfl | exact absurd (by decide) hf
      · rw [if_neg hb] at hbody
        exact ⟨_, hbody, fun f _ => rfl⟩
    · have hbody := cli_body_nofastlight c b rest s
      by_cases hb : b.GPU_UNAI = true
      · rw [if_pos hb] at hbody
        refine ⟨_, hbody, ?_⟩
        intro f hf; cases f <;> first | rfl | exact absurd (by decide) hf
      · rw [if_neg hb] at hbody
        exact ⟨_, hbody, fun f _ => rfl⟩
    · have hbody := cli_body_nopixelskip c b rest s
      by_cases hb : b.GPU_UNAI = true
      · rw [if_pos hb] at hbody
        refine ⟨_, hbody, ?_⟩
        intro f hf; cases f <;> first | rfl | exact absurd (by decide) hf
      · rw [if_neg hb] at hbody
        exact ⟨_, hbody, fun f _ => rfl⟩
    · obtain ⟨s', h1, h2⟩ := cli_body_progressive c b rest s
      exact ⟨s', h1, fun f _ => h2 f⟩
    · have hbody := cli_body_silent c b rest s
      by_cases hb : b.SPU_NULL = false ∧ b.SPU_PCSXREARMED = true
      · rw [if_pos hb] at hbody
        refine ⟨_, hbody, ?_⟩
        intro f _; cases f <;> rfl
      · rw [if_neg hb] at hbody
        exact ⟨_, hbody, fun f _ => rfl⟩
    · have hbody := cli_body_reverb c b rest s
      by_cases hb : b.SPU_NULL = false ∧ b.SPU_PCSXREARMED = true
      · rw [if_pos hb] at hbody
        refine ⟨_, hbody, ?_⟩
        intro f hf; cases f <;> first | rfl | exact absurd (by decide) hf
      · rw [if_neg hb] at hbody
        exact ⟨_, hbody, fun f _ => rfl⟩
    · have hbody := cli_body_xapitch c b rest s
      by_cases hb : b.SPU_NULL = false ∧ b.SPU_PCSXREARMED = true
      · rw [if_pos hb] at hbody
        refine ⟨_, hbody, ?_⟩
        intro f _; cases f <;> rfl
      · rw [if_neg hb] at hbody
        exact ⟨_, hbody, fun f _ => rfl⟩
    · have hbody := cli_body_threaded_spu c b rest s
      by_cases hb : b.SPU_NULL = false ∧ b.SPU_PCSXREARMED = true
      · rw [if_pos hb] at hbody
        refine ⟨_, hbody, ?_⟩
        intro f _; cases f <;> rfl
      · rw [if_neg hb] at hbody
        exact ⟨_, hbody, fun f _ => rfl⟩
    · have hbody := cli_body_nofixedupdates c b rest s
      by_cases hb : b.SPU_NULL = false ∧ b.SPU_PCSXREARMED = true
      · rw [if_pos hb] at hbody
        refine ⟨_, hbody, ?_⟩
        intro f _; cases f <;> rfl
      · rw [if_neg hb] at hbody
        exact ⟨_, hbody, fun f _ => rfl⟩
    · exact absurd (by decide) hv
    · exact absurd (by decide) hv
    · have hbody := cli_body_notempo c b rest s
      by_cases hb : b.SPU_NULL = false ∧ b.SPU_PCSXREARMED = true
      · rw [if_pos hb] at hbody
        refine ⟨_, hbody, ?_⟩
        intro f _; cases f <;> rfl
      · rw [if_neg hb] at hbody
        exact ⟨_, hbody, fun f _ => rfl⟩
  · exact ⟨s, cli_body_unknown c b a rest s hmem, fun f _ => rfl⟩

end Pcsx4all

namespace Pcsx4all

theorem cli_loop_cons_ok (c : Consts) (b : Build) (a : Bytes) (rest : List Bytes)
    (s : CliState) (x : Cursor) (h : cli_body c b ⟨a, rest, 0, s⟩ = .ok x) :
    cli_loop c b (a :: rest) 0 s = cli_loop c b rest x.skipped x.s := by
  simp only [cli_loop, h]

theorem cli_loop_cons_parseError (c : Consts) (b : Build) (a : Bytes) (rest : List Bytes)
    (s s' : CliState) (h : cli_body c b ⟨a, rest, 0, s⟩ = .error (.parseError s')) :
    cli_loop c b (a :: rest) 0 s = .parseError s' := by
  simp only [cli_loop, h]

end Pcsx4all

namespace Pcsx4all

theorem atoi_fmtD (v : Int) (h : IsInt v) : atoi (fmtD v) = v := by
  have := scanDec_fmtD v [] (by simp)
  rw [List.append_nil] at this
  simp only [atoi, this, toInt32_of_isInt v h]

theorem not_known_mem (v : Bytes) (h : v ∉ knownFlags) (L : List Bytes)
    (hL : ∀ x ∈ L, x ∈ knownFlags) : v ∉ L :=
  fun hm => h (hL v hm)

theorem not_known_ne (v : Bytes) (h : v ∉ knownFlags) (k : Bytes) (hk : k ∈ knownFlags) :
    v ≠ k :=
  fun e => h (e ▸ hk)

theorem cli_body_spuupdatefreq_val (c : Consts) (b : Build) (v : Bytes) (rest : List Bytes)
    (s : CliState) (hk : v ∉ knownFlags)
    (hr : c.SPU_UPDATE_FREQ_MIN ≤ atoi v ∧ atoi v ≤ c.SPU_UPDATE_FREQ_MAX)
    (h1 : atoi v ≠ -1) :
    cli_body c b ⟨cs "-spuupdatefreq", v :: rest, 0, s⟩
      = .ok ⟨v, rest, 1, { s with g.Config.SpuUpdateFreq := atoi v }⟩ := by
  have hr' : atoi v ≥ c.SPU_UPDATE_FREQ_MIN ∧ atoi v ≤ c.SPU_UPDATE_FREQ_MAX := ⟨hr.1, hr.2⟩
  have e : cli_spuupdatefreq c ⟨cs "-spuupdatefreq", v :: rest, 0, s⟩
      = .ok ⟨v, rest, 1, { s with g.Config.SpuUpdateFreq := atoi v }⟩ := by
    simp only [cli_spuupdatefreq, if_true, hr', and_self, h1, if_false, Nat.zero_add]
  simp only [cli_body, cli_pcsx_flags_id (cs "-spuupdatefreq") _ (by decide),
    cli_iso_id (cs "-spuupdatefreq") _ _ (by decide),
    cli_file_id (cs "-spuupdatefreq") _ _ _ (by decide),
    cli_syncaudio_id (cs "-spuupdatefreq") _ (by decide), e,
    cli_forcedxaupdates_id c v _ _ _ (not_known_ne v hk _ (by decide)),
    cli_display_flags_id v _ (not_known_mem v hk _ (by decide)),
    cli_frameskip_id v _ _ _ (not_known_ne v hk _ (by decide)),
    cli_gpu_unai_id b v _ (not_known_mem v hk _ (by decide)),
    cli_spu_id b v _ _ _ (not_known_mem v hk _ (by decide))]

theorem cli_body_forcedxaupdates_val (c : Consts) (b : Build) (v : Bytes) (rest : List Bytes)
    (s : CliState) (hk : v ∉ knownFlags)
    (hr : c.FORCED_XA_UPDATES_MIN ≤ atoi v ∧ atoi v ≤ c.FORCED_XA_UPDATES_MAX)
    (h1 : atoi v ≠ -1) :
    cli_body c b ⟨cs "-forcedxaupdates", v :: rest, 0, s⟩
      = .ok ⟨v, rest, 1, { s with g.Config.ForcedXAUpdates := atoi v }⟩ := by
  have hr' : atoi v ≥ c.FORCED_XA_UPDATES_MIN ∧ atoi v ≤ c.FORCED_XA_UPDATES_MAX :=
    ⟨hr.1, hr.2⟩
  have e : cli_forcedxaupdates c ⟨cs "-forcedxaupdates", v :: rest, 0, s⟩
      = .ok ⟨v, rest, 1, { s with g.Config.ForcedXAUpdates := atoi v }⟩ := by
    simp only [cli_forcedxaupdates, if_true, hr', and_self, h1, if_false, Nat.zero_add]
  simp only [cli_body, cli_pcsx_flags_id (cs "-forcedxaupdates") _ (by decide),
    cli_iso_id (cs "-forcedxaupdates") _ _ (by decide),
    cli_file_id (cs "-forcedxaupdates") _ _ _ (by decide),
    cli_syncaudio_id (cs "-forcedxaupdates") _ (by decide),
    cli_spuupdatefreq_id c (cs "-forcedxaupdates") _ _ _ (by decide), e,
    cli_display_flags_id v _ (not_known_mem v hk _ (by decide)),
    cli_frameskip_id v _ _ _ (not_known_ne v hk _ (by decide)),
    cli_gpu_unai_id b v _ (not_known_mem v hk _ (by decide)),
    cli_spu_id b v _ _ _ (not_known_mem v hk _ (by decide))]

/-- The flag `-frameskip` with a value other than `-1000`: the value is stored
only when it lies in `-1..3`, and the iteration ends normally either way. -/
theorem cli_body_frameskip_val (c : Consts) (b : Build) (v : Bytes) (rest : List Bytes)
    (s : CliState) (hk : v ∉ knownFlags) (h1 : atoi v ≠ -1000) :
    cli_body c b ⟨cs "-frameskip", v :: rest, 0, s⟩
      = .ok ⟨v, rest, 1,
          if atoi v ≥ -1 ∧ atoi v ≤ 3 then { s with g.Config.FrameSkip := atoi v } else s⟩ := by
  have e : cli_frameskip ⟨cs "-frameskip", v :: rest, 0, s⟩
      = .ok ⟨v, rest, 1,
          if atoi v ≥ -1 ∧ atoi v ≤ 3 then { s with g.Config.FrameSkip := atoi v } else s⟩ := by
    simp only [cli_frameskip, if_true, h1, if_false, Nat.zero_add]
  simp only [cli_body, cli_pcsx_flags_id (cs "-frameskip") _ (by decide),
    cli_iso_id (cs "-frameskip") _ _ (by decide),
    cli_file_id (cs "-frameskip") _ _ _ (by decide),
    cli_syncaudio_id (cs "-frameskip") _ (by decide),
    cli_spuupdatefreq_id c (cs "-frameskip") _ _ _ (by decide),
    cli_forcedxaupdates_id c (cs "-frameskip") _ _ _ (by decide),
    cli_display_flags_id (cs "-frameskip") _ (by decide), e,
    cli_gpu_unai_id b v _ (not_known_mem v hk _ (by decide)),
    cli_spu_id b v _ _ _ (not_known_mem v hk _ (by decide))]

theorem cli_body_volume_val (c : Consts) (b : Build) (v : Bytes) (rest : List Bytes)
    (s : CliState) (hb : b.SPU_NULL = false ∧ b.SPU_PCSXREARMED = true)
    (hk : v ∉ knownFlags) (hr : 0 ≤ atoi v ∧ atoi v ≤ 1024) :
    cli_body c b ⟨cs "-volume", v :: rest, 0, s⟩
      = .ok ⟨v, rest, 1, { s with g.spu_config.iVolume := atoi v }⟩ := by
  have hno : ¬ (atoi v < 0 ∨ atoi v > 1024) := by omega
  have e1 : cli_spu_flags (cs "-volume") s = s := rfl
  have e2 : cli_interpolation ⟨cs "-volume", v :: rest, 0, s⟩
      = .ok ⟨cs "-volume", v :: rest, 0, s⟩ := rfl
  have e3 : cli_volume ⟨cs "-volume", v :: rest, 0, s⟩
      = .ok ⟨v, rest, 1, { s with g.spu_config.iVolume := atoi v }⟩ := by
    simp only [cli_volume, if_true, hno, if_false, Nat.zero_add]
  have e4 : ∀ s', cli_notempo v s' = s' := by
    intro s'
    have hne : v ≠ cs "-notempo" := not_known_ne v hk _ (by decide)
    simp only [cli_notempo, hne, if_false]
  have e : cli_spu b ⟨cs "-volume", v :: rest, 0, s⟩
      = .ok ⟨v, rest, 1, { s with g.spu_config.iVolume := atoi v }⟩ := by
    simp only [cli_spu, hb, and_self, if_true, e1, e2, e3, e4]
  simp only [cli_body, cli_pcsx_flags_id (cs "-volume") _ (by decide),
    cli_iso_id (cs "-volume") _ _ (by decide),
    cli_file_id (cs "-volume") _ _ _ (by decide),
    cli_syncaudio_id (cs "-volume") _ (by decide),
    cli_spuupdatefreq_id c (cs "-volume") _ _ _ (by decide),
    cli_forcedxaupdates_id c (cs "-volume") _ _ _ (by decide),
    cli_display_flags_id (cs "-volume") _ (by decide),
    cli_frameskip_id (cs "-volume") _ _ _ (by decide),
    cli_gpu_unai_id b (cs "-volume") _ (by decide), e]

/-- The names accepted by `-interpolation` and the values they stand for. -/
theorem cli_body_interpolation_ok (c : Consts) (b : Build) (name : Bytes) (v : Int)
    (rest : List Bytes) (s : CliState)
    (hb : b.SPU_NULL = false ∧ b.SPU_PCSXREARMED = true)
    (hn : (name, v) ∈ [(cs "none", (0 : Int)), (cs "simple", 1), (cs "gaussian", 2),
      (cs "cubic", 3)]) :
    cli_body c b ⟨cs "-interpolation", name :: rest, 0, s⟩
      = .ok ⟨name, rest, 1, { s with g.spu_config.iUseInterpolation := v }⟩ := by
  have e1 : cli_spu_flags (cs "-interpolation") s = s := rfl
  have e : cli_spu b ⟨cs "-interpolation", name :: rest, 0, s⟩
      = .ok ⟨name, rest, 1, { s with g.spu_config.iUseInterpolation := v }⟩ := by
    simp only [List.mem_cons, Prod.mk.injEq, List.not_mem_nil, or_false] at hn
    rcases hn with ⟨rfl, rfl⟩ | ⟨rfl, rfl⟩ | ⟨rfl, rfl⟩ | ⟨rfl, rfl⟩ <;>
      (simp only [cli_spu, hb, and_self, if_true, e1]; rfl)
  simp only [cli_body, cli_pcsx_flags_id (cs "-interpolation") _ (by decide),
    cli_iso_id (cs "-interpolation") _ _ (by decide),
    cli_file_id (cs "-interpolation") _ _ _ (by decide),
    cli_syncaudio_id (cs "-interpolation") _ (by decide),
    cli_spuupdatefreq_id c (cs "-interpolation") _ _ _ (by decide),
    cli_forcedxaupdates_id c (cs "-interpolation") _ _ _ (by decide),
    cli_display_flags_id (cs "-interpolation") _ (by decide),
    cli_frameskip_id (cs "-interpolation") _ _ _ (by decide),
    cli_gpu_unai_id b (cs "-interpolation") _ (by decide), e]

/-- In a build without the SPU section the loop body compares its argument with
no flag of the SPU. -/
theorem cli_body_spu_inactive (c : Consts) (b : Build) (a : Bytes) (rest : List Bytes)
    (s : CliState) (hb : ¬ (b.SPU_NULL = false ∧ b.SPU_PCSXREARMED = true))
    (ha : a = cs "-volume" ∨ a = cs "-interpolation") :
    cli_body c b ⟨a, rest, 0, s⟩ = .ok ⟨a, rest, 0, s⟩ := by
  have e : ∀ s', cli_spu b ⟨a, rest, 0, s'⟩ = .ok ⟨a, rest, 0, s'⟩ := by
    intro s'
    simp only [cli_spu, hb, if_false]
  rcases ha with rfl | rfl
  · simp only [cli_body, cli_pcsx_flags_id (cs "-volume") _ (by decide),
      cli_iso_id (cs "-volume") _ _ (by decide),
      cli_file_id (cs "-volume") _ _ _ (by decide),
      cli_syncaudio_id (cs "-volume") _ (by decide),
      cli_spuupdatefreq_id c (cs "-volume") _ _ _ (by decide),
      cli_forcedxaupdates_id c (cs "-volume") _ _ _ (by decide),
      cli_display_flags_id (cs "-volume") _ (by decide),
      cli_frameskip_id (cs "-volume") _ _ _ (by decide),
      cli_gpu_unai_id b (cs "-volume") _ (by decide), e]
  · simp only [cli_body, cli_pcsx_flags_id (cs "-interpolation") _ (by decide),
      cli_iso_id (cs "-interpolation") _ _ (by decide),
      cli_file_id (cs "-interpolation") _ _ _ (by decide),
      cli_syncaudio_id (cs "-interpolation") _ (by decide),
      cli_spuupdatefreq_id c (cs "-interpolation") _ _ _ (by decide),
      cli_forcedxaupdates_id c (cs "-interpolation") _ _ _ (by decide),
      cli_display_flags_id (cs "-interpolation") _ (by decide),
      cli_frameskip_id (cs "-interpolation") _ _ _ (by decide),
      cli_gpu_unai_id b (cs "-interpolation") _ (by decide), e]

/-- A value-taking flag whose iteration ends normally after one `++i`: the
loop goes on behind the value. -/
theorem cli_loop_value_flag (c : Consts) (b : Build) (flag val : Bytes) (post : List Bytes)
    (s1 s2 : CliState)
    (h : cli_body c b ⟨flag, val :: post, 0, s1⟩ = .ok ⟨val, post, 1, s2⟩) :
    cli_loop c b (flag :: val :: post) 0 s1 = cli_loop c b post 0 s2 := by
  have h1 := cli_loop_cons_ok c b flag (val :: post) s1 _ h
  have h2 : cli_loop c b (val :: post) 1 s2 = cli_loop c b post 0 s2 := by
    simp only [cli_loop]
  rw [h1]
  exact h2

/-- Two arguments that the loop body leaves without effect, one iteration
each. -/
theorem cli_loop_two_plain (c : Consts) (b : Build) (a v : Bytes) (post : List Bytes)
    (s : CliState)
    (h1 : cli_body c b ⟨a, v :: post, 0, s⟩ = .ok ⟨a, v :: post, 0, s⟩)
    (h2 : cli_body c b ⟨v, post, 0, s⟩ = .ok ⟨v, post, 0, s⟩) :
    cli_loop c b (a :: v :: post) 0 s = cli_loop c b post 0 s := by
  rw [cli_loop_cons_ok c b a (v :: post) s _ h1, cli_loop_cons_ok c b v post s _ h2]

end Pcsx4all

namespace Pcsx4all

theorem ValueFlag.ofArg_some (a : Bytes) (k : ValueFlag) (h : ValueFlag.ofArg a = some k) :
    a = k.arg := by
  unfold ValueFlag.ofArg at h
  split at h
  · cases h; assumption
  · split at h
    · cases h; assumption
    · split at h
      · cases h; assumption
      · split at h
        · cases h; assumption
        · split at h
          · cases h; assumption
          · cases h

theorem ValueFlag.ofArg_none (a : Bytes) (h : ValueFlag.ofArg a = none) : a ∉ valueFlags := by
  unfold ValueFlag.ofArg at h
  simp only [valueFlags, List.mem_cons, List.mem_singleton, List.not_mem_nil, or_false, not_or]
  split at h
  · cases h
  · split at h
    · cases h
    · split at h
      · cases h
      · split at h
        · cases h
        · split at h
          · cases h
          · exact ⟨by assumption, by assumption, by assumption, by assumption, by assumption⟩

/-- A value-taking flag followed by a value it accepts: the loop goes on behind
the value, and every setting that the flag does not write keeps its value. -/
theorem cli_loop_value_step (c : Consts) (b : Build) (k : ValueFlag) (v : Bytes)
    (rest : List Bytes) (s : CliState) (h : k.accepts c v = true) :
    ∃ s', cli_loop c b (k.arg :: v :: rest) 0 s = cli_loop c b rest 0 s' ∧
      ∀ f : CliField, k.arg ∉ f.flags → f.get s'.g = f.get s.g := by
  simp only [ValueFlag.accepts, Bool.and_eq_true, Bool.not_eq_true', List.contains_eq_any_beq,
    List.any_eq_false, beq_iff_eq] at h
  obtain ⟨hk0, hacc⟩ := h
  have hk : v ∉ knownFlags := fun hm => hk0 v hm rfl
  cases k with
  | spuupdatefreq =>
    simp only [decide_eq_true_eq] at hacc
    refine ⟨_, cli_loop_value_flag c b _ v rest s _
      (cli_body_spuupdatefreq_val c b v rest s hk ⟨hacc.1, hacc.2.1⟩ hacc.2.2), ?_⟩
    intro f hf; cases f <;> first | rfl | exact absurd (by decide) hf
  | forcedxaupdates =>
    simp only [decide_eq_true_eq] at hacc
    refine ⟨_, cli_loop_value_flag c b _ v rest s _
      (cli_body_forcedxaupdates_val c b v rest s hk ⟨hacc.1, hacc.2.1⟩ hacc.2.2), ?_⟩
    intro f hf; cases f <;> first | rfl | exact absurd (by decide) hf
  | frameskip =>
    simp only [decide_eq_true_eq] at hacc
    refine ⟨_, cli_loop_value_flag c b _ v rest s _
      (cli_body_frameskip_val c b v rest s hk hacc), ?_⟩
    intro f hf
    by_cases hr : atoi v ≥ -1 ∧ atoi v ≤ 3
    · rw [if_pos hr]; cases f <;> first | rfl | exact absurd (by decide) hf
    · rw [if_neg hr]
  | interpolation =>
    by_cases hb : b.SPU_NULL = false ∧ b.SPU_PCSXREARMED = true
    · have hn : ∃ n : Int, (v, n) ∈ [(cs "none", (0 : Int)), (cs "simple", 1),
          (cs "gaussian", 2), (cs "cubic", 3)] := by
        simp only [List.any_eq_true, beq_iff_eq, List.mem_cons, List.mem_singleton,
          List.not_mem_nil, or_false, exists_eq_or_imp, exists_eq_left] at hacc
        rcases hacc with e | e | e | e
        · exact ⟨0, by rw [← e]; simp⟩
        · exact ⟨1, by rw [← e]; simp⟩
        · exact ⟨2, by rw [← e]; simp⟩
        · exact ⟨3, by rw [← e]; simp⟩
      obtain ⟨n, hn⟩ := hn
      refine ⟨_, cli_loop_value_flag c b _ v rest s _
        (cli_body_interpolation_ok c b v n rest s hb hn), ?_⟩
      intro f hf; cases f <;> first | rfl | exact absurd (by decide) hf
    · exact ⟨s, cli_loop_two_plain c b _ v rest s
        (cli_body_spu_inactive c b _ _ s hb (Or.inr rfl)) (cli_body_unknown c b v rest s hk),
        fun _ _ => rfl⟩
  | volume =>
    by_cases hb : b.SPU_NULL = false ∧ b.SPU_PCSXREARMED = true
    · simp only [decide_eq_true_eq] at hacc
      refine ⟨_, cli_loop_value_flag c b _ v rest s _
        (cli_body_volume_val c b v rest s hb hk hacc), ?_⟩
      intro f hf; cases f <;> first | rfl | exact absurd (by decide) hf
    · exact ⟨s, cli_loop_two_plain c b _ v rest s
        (cli_body_spu_inactive c b _ _ s hb (Or.inl rfl)) (cli_body_unknown c b v rest s hk),
        fun _ _ => rfl⟩

theorem fileArgOk_append (a : Bytes) (rest tail : List Bytes) (h : fileArgOk a rest = true) :
    fileArgOk a (rest ++ tail) = true := by
  unfold fileArgOk at h ⊢
  cases rest with
  | nil =>
    simp only [Bool.or_false, bne_iff_ne, ne_eq] at h
    simp only [Bool.or_eq_true, bne_iff_ne, ne_eq]
    exact Or.inl h
  | cons p rest => exact h

/-- A well-formed stretch of the command line in front of further arguments:
the loop passes over it without an error, and every setting none of whose flags
is in the stretch keeps its value. The second part is the same for a stretch
that starts with the value of the value-taking flag `k`. -/
theorem cli_loop_argsOk (c : Consts) (b : Build) (tail : List Bytes) :
    ∀ (pre : List Bytes),
      (∀ s, argsOk c pre none = true →
        ∃ s', cli_loop c b (pre ++ tail) 0 s = cli_loop c b tail 0 s' ∧
          ∀ f : CliField, (∀ a ∈ pre, a ∉ f.flags) → f.get s'.g = f.get s.g) ∧
      (∀ s (k : ValueFlag), argsOk c pre (some k) = true →
        ∃ s', cli_loop c b (k.arg :: (pre ++ tail)) 0 s = cli_loop c b tail 0 s' ∧
          ∀ f : CliField, k.arg ∉ f.flags → (∀ a ∈ pre, a ∉ f.flags) →
            f.get s'.g = f.get s.g) := by
  intro pre
  induction pre with
  | nil =>
    refine ⟨fun s _ => ⟨s, rfl, fun f _ => rfl⟩, ?_⟩
    intro s k h
    simp only [argsOk] at h
    cases h
  | cons a pre ih =>
    refine ⟨?_, ?_⟩
    · intro s h
      cases hk : ValueFlag.ofArg a with
      | some k =>
        simp only [argsOk, hk] at h
        obtain ⟨s', h1, h2⟩ := ih.2 s k h
        have ha := ValueFlag.ofArg_some a k hk
        refine ⟨s', ?_, ?_⟩
        · rw [List.cons_append, ha]; exact h1
        · intro f hf
          exact h2 f (ha ▸ hf a (List.mem_cons_self a pre))
            (fun x hx => hf x (List.mem_cons_of_mem a hx))
      | none =>
        simp only [argsOk, hk, Bool.and_eq_true] at h
        obtain ⟨hfile, hrest⟩ := h
        obtain ⟨s1, hbody, hframe⟩ := cli_body_plain c b a (pre ++ tail) s
          (ValueFlag.ofArg_none a hk) (fileArgOk_append a pre tail hfile)
        obtain ⟨s2, hloop, hframe2⟩ := ih.1 s1 hrest
        refine ⟨s2, ?_, ?_⟩
        · rw [List.cons_append, cli_loop_cons_ok c b a _ s _ hbody]
          exact hloop
        · intro f hf
          rw [hframe2 f (fun x hx => hf x (List.mem_cons_of_mem a hx)),
            hframe f (hf a (List.mem_cons_self a pre))]
    · intro s k h
      simp only [argsOk, Bool.and_eq_true] at h
      obtain ⟨hacc, hrest⟩ := h
      obtain ⟨s1, hstep, hframe⟩ := cli_loop_value_step c b k a (pre ++ tail) s hacc
      obtain ⟨s2, hloop, hframe2⟩ := ih.1 s1 hrest
      refine ⟨s2, ?_, ?_⟩
      · rw [List.cons_append, hstep]; exact hloop
      · intro f hf hpre
        rw [hframe2 f (fun x hx => hpre x (List.mem_cons_of_mem a hx)), hframe f hf]

theorem cli_loop_wellformed_prefix (c : Consts) (b : Build) (pre tail : List Bytes)
    (s : CliState) (h : argsOk c pre none = true) :
    ∃ s', cli_loop c b (pre ++ tail) 0 s = cli_loop c b tail 0 s' ∧
      ∀ f : CliField, (∀ a ∈ pre, a ∉ f.flags) → f.get s'.g = f.get s.g :=
  (cli_loop_argsOk c b tail pre).1 s h

end Pcsx4all

namespace Pcsx4all

theorem run_init_g (env : Env) (argc : Nat) (trace : List Event) (s : CliState) :
    (run_init env argc trace s).g = s.g := by
  unfold run_init
  simp only []
  split
  · unfold finish; split <;> rfl
  · split
    · unfold finish; split <;> rfl
    · split
      · unfold finish; split <;> rfl
      · split
        · unfold finish; split <;> rfl
        · unfold run_content finish
          simp only []
          split <;> rfl

/-- When the command-line loop ends normally, the globals with which
`SDL_main` is left are those at the end of the loop. -/
theorem SDL_main_g_of_done (c : Consts) (b : Build) (env : Env) (home : Bytes)
    (argv0 : Bytes) (args : List Bytes) (g0 : Globals) (s : CliState)
    (hhome : env.home = some home)
    (h : cli_loop c b args 0 (cli_start c b env home g0) = .done s) :
    (SDL_main c b env (argv0 :: args) g0).g = s.g := by
  simp only [SDL_main, hhome, cli_parse, List.tail_cons, h, run_init_g]

theorem SDL_main_of_parseError (c : Consts) (b : Build) (env : Env) (home : Bytes)
    (argv0 : Bytes) (args : List Bytes) (g0 : Globals) (s : CliState)
    (hhome : env.home = some home)
    (h : cli_loop c b args 0 (cli_start c b env home g0) = .parseError s) :
    (SDL_main c b env (argv0 :: args) g0).outcome = .exit 1 ∧
    (SDL_main c b env (argv0 :: args) g0).trace
      = [Event.setup_paths, Event.config_load, Event.probe_lastdir] := by
  simp only [SDL_main, hhome, cli_parse, List.tail_cons, h, and_self]

theorem cli_body_spuupdatefreq_error (c : Consts) (b : Build) (tail : List Bytes)
    (s : CliState) (h : badValue c.SPU_UPDATE_FREQ_MIN c.SPU_UPDATE_FREQ_MAX tail) :
    cli_body c b ⟨cs "-spuupdatefreq", tail, 0, s⟩ = .error (.parseError s) := by
  have e : cli_spuupdatefreq c ⟨cs "-spuupdatefreq", tail, 0, s⟩ = .error (.parseError s) := by
    rcases h with rfl | ⟨n, post, rfl, hn, hr⟩
    · rfl
    · have hno : ¬ (n ≥ c.SPU_UPDATE_FREQ_MIN ∧ n ≤ c.SPU_UPDATE_FREQ_MAX) := by omega
      simp only [cli_spuupdatefreq, if_true, atoi_fmtD n hn, hno, if_false]
  simp only [cli_body, cli_pcsx_flags_id (cs "-spuupdatefreq") _ (by decide),
    cli_iso_id (cs "-spuupdatefreq") _ _ (by decide),
    cli_file_id (cs "-spuupdatefreq") _ _ _ (by decide),
    cli_syncaudio_id (cs "-spuupdatefreq") _ (by decide), e]

theorem cli_body_forcedxaupdates_error (c : Consts) (b : Build) (tail : List Bytes)
    (s : CliState) (h : badValue c.FORCED_XA_UPDATES_MIN c.FORCED_XA_UPDATES_MAX tail) :
    cli_body c b ⟨cs "-forcedxaupdates", tail, 0, s⟩ = .error (.parseError s) := by
  have e : cli_forcedxaupdates c ⟨cs "-forcedxaupdates", tail, 0, s⟩
      = .error (.parseError s) := by
    rcases h with rfl | ⟨n, post, rfl, hn, hr⟩
    · rfl
    · have hno : ¬ (n ≥ c.FORCED_XA_UPDATES_MIN ∧ n ≤ c.FORCED_XA_UPDATES_MAX) := by omega
      simp only [cli_forcedxaupdates, if_true, atoi_fmtD n hn, hno, if_false]
  simp only [cli_body, cli_pcsx_flags_id (cs "-forcedxaupdates") _ (by decide),
    cli_iso_id (cs "-forcedxaupdates") _ _ (by decide),
    cli_file_id (cs "-forcedxaupdates") _ _ _ (by decide),
    cli_syncaudio_id (cs "-forcedxaupdates") _ (by decide),
    cli_spuupdatefreq_id c (cs "-forcedxaupdates") _ _ _ (by decide), e]

theorem laterInit_not_mem :
    ∀ e ∈ laterInit, e ∉ [Event.setup_paths, Event.config_load, Event.probe_lastdir] := by
  decide

/-- C10 (amended): when the arguments before `-spuupdatefreq` (respectively
`-forcedxaupdates`) are well-formed (every value-taking flag among them has a
value it accepts, every `-file` a fitting path), so that the flag is not itself
read as the value of the argument before it, and the flag is the last argument
or is followed by an integer of the range of `int` outside its range
(`badValue`), start-up ends with exit status 1 and calls none of the later
initialisation steps. -/
theorem SDL_main_update_flag_error (c : Consts) (b : Build) (env : Env) (home argv0 : Bytes)
    (pre tail : List Bytes) (g0 : Globals) (hhome : env.home = some home)
    (hpre : argsOk c pre none = true) :
    (badValue c.SPU_UPDATE_FREQ_MIN c.SPU_UPDATE_FREQ_MAX tail →
      (SDL_main c b env (argv0 :: (pre ++ cs "-spuupdatefreq" :: tail)) g0).outcome = .exit 1 ∧
      ∀ e ∈ laterInit,
        e ∉ (SDL_main c b env (argv0 :: (pre ++ cs "-spuupdatefreq" :: tail)) g0).trace) ∧
    (badValue c.FORCED_XA_UPDATES_MIN c.FORCED_XA_UPDATES_MAX tail →
      (SDL_main c b env (argv0 :: (pre ++ cs "-forcedxaupdates" :: tail)) g0).outcome
        = .exit 1 ∧
      ∀ e ∈ laterInit,
        e ∉ (SDL_main c b env (argv0 :: (pre ++ cs "-forcedxaupdates" :: tail)) g0).trace) := by
  refine ⟨?_, ?_⟩
  · intro hbad
    obtain ⟨s1, h1, -⟩ := cli_loop_wellformed_prefix c b pre (cs "-spuupdatefreq" :: tail)
      (cli_start c b env home g0) hpre
    have h2 := cli_loop_cons_parseError c b _ tail s1 s1
      (cli_body_spuupdatefreq_error c b tail s1 hbad)
    obtain ⟨ho, ht⟩ := SDL_main_of_parseError c b env home argv0 _ g0 s1 hhome (h1.trans h2)
    rw [ho, ht]
    exact ⟨rfl, laterInit_not_mem⟩
  · intro hbad
    obtain ⟨s1, h1, -⟩ := cli_loop_wellformed_prefix c b pre (cs "-forcedxaupdates" :: tail)
      (cli_start c b env home g0) hpre
    have h2 := cli_loop_cons_parseError c b _ tail s1 s1
      (cli_body_forcedxaupdates_error c b tail s1 hbad)
    obtain ⟨ho, ht⟩ := SDL_main_of_parseError c b env home argv0 _ g0 s1 hhome (h1.trans h2)
    rw [ho, ht]
    exact ⟨rfl, laterInit_not_mem⟩

/-- Witness of C10 at the example of the spec: `-spuupdatefreq 7` with the range
`0..5`, after `-iso game.bin -frameskip 1`. -/
theorem SDL_main_update_flag_error_witness :
    (exampleEnv none).home = some (cs "/home/user") ∧
    argsOk exampleConsts [cs "-iso", cs "game.bin", cs "-frameskip", cs "1"] none = true ∧
    badValue exampleConsts.SPU_UPDATE_FREQ_MIN exampleConsts.SPU_UPDATE_FREQ_MAX [fmtD 7] ∧
    (SDL_main exampleConsts plainBuild (exampleEnv none)
        (cs "pcsx4all" :: ([cs "-iso", cs "game.bin", cs "-frameskip", cs "1"] ++
          cs "-spuupdatefreq" :: [fmtD 7]))
        zeroGlobals).outcome = .exit 1 ∧
    ∀ e ∈ laterInit,
      e ∉ (SDL_main exampleConsts plainBuild (exampleEnv none)
        (cs "pcsx4all" :: ([cs "-iso", cs "game.bin", cs "-frameskip", cs "1"] ++
          cs "-spuupdatefreq" :: [fmtD 7]))
        zeroGlobals).trace :=
  have hbad : badValue exampleConsts.SPU_UPDATE_FREQ_MIN exampleConsts.SPU_UPDATE_FREQ_MAX
      [fmtD 7] := Or.inr ⟨7, [], rfl, by decide, by decide⟩
  ⟨rfl, by decide, hbad,
   (SDL_main_update_flag_error exampleConsts plainBuild (exampleEnv none) (cs "/home/user")
      (cs "pcsx4all") [cs "-iso", cs "game.bin", cs "-frameskip", cs "1"] [fmtD 7] zeroGlobals
      rfl (by decide)).1 hbad⟩

/-- C10 (counterexample): in the argument list
`pcsx4all -frameskip -spuupdatefreq 7` the flag `-spuupdatefreq` is followed by
7, outside `0..5`, but the iteration of `-frameskip` reads it as its value
(`atoi` gives 0, which is not `-1000`) and steps over it with `++i`: no parse
error is raised, start-up goes on to `SDL_Init` and ends with status 0. And in
`pcsx4all -spuupdatefreq 4294967299` the flag is followed by an integer outside
`0..5` that is outside the range of `int`: `atoi` gives 3, no parse error is
raised, `SpuUpdateFreq` is 3 and start-up ends with status 0. -/
theorem SDL_main_flag_consumed_as_value :
    badValue exampleConsts.SPU_UPDATE_FREQ_MIN exampleConsts.SPU_UPDATE_FREQ_MAX [cs "7"] ∧
    (SDL_main exampleConsts plainBuild (exampleEnv none)
        (cs "pcsx4all" :: ([cs "-frameskip"] ++ cs "-spuupdatefreq" :: [cs "7"]))
        zeroGlobals).outcome = .exit 0 ∧
    Event.SDL_Init ∈ (SDL_main exampleConsts plainBuild (exampleEnv none)
        (cs "pcsx4all" :: ([cs "-frameskip"] ++ cs "-spuupdatefreq" :: [cs "7"]))
        zeroGlobals).trace ∧
    ¬ (exampleConsts.SPU_UPDATE_FREQ_MIN ≤ (4294967299 : Int) ∧
      (4294967299 : Int) ≤ exampleConsts.SPU_UPDATE_FREQ_MAX) ∧
    (SDL_main exampleConsts plainBuild (exampleEnv none)
        (cs "pcsx4all" :: ([] ++ cs "-spuupdatefreq" :: [fmtD 4294967299]))
        zeroGlobals).outcome = .exit 0 ∧
    (SDL_main exampleConsts plainBuild (exampleEnv none)
        (cs "pcsx4all" :: ([] ++ cs "-spuupdatefreq" :: [fmtD 4294967299]))
        zeroGlobals).g.Config.SpuUpdateFreq = 3 :=
  ⟨Or.inr ⟨7, [], by decide, by decide, by decide⟩, by decide, by decide, by decide,
   by decide, by decide⟩

end Pcsx4all

namespace Pcsx4all

end Pcsx4all

namespace Pcsx4all

/-- C11 (evaluation at the failing input): with the command line
`pcsx4all -iso game.bin -frameskip 7` the value 7 lies outside `-1..3`, yet no
parse error is raised: start-up goes through `SDL_Init` to `Execute` and ends
with status 0, and `FrameSkip` keeps its default. -/
theorem SDL_main_frameskip_out_of_range :
    ¬ ((-1 : Int) ≤ atoi (cs "7") ∧ atoi (cs "7") ≤ 3) ∧
    (SDL_main exampleConsts plainBuild (exampleEnv none)
        [cs "pcsx4all", cs "-iso", cs "game.bin", cs "-frameskip", cs "7"]
        zeroGlobals).outcome = .exit 0 ∧
    Event.SDL_Init ∈ (SDL_main exampleConsts plainBuild (exampleEnv none)
        [cs "pcsx4all", cs "-iso", cs "game.bin", cs "-frameskip", cs "7"]
        zeroGlobals).trace ∧
    Event.Execute ∈ (SDL_main exampleConsts plainBuild (exampleEnv none)
        [cs "pcsx4all", cs "-iso", cs "game.bin", cs "-frameskip", cs "7"]
        zeroGlobals).trace ∧
    (SDL_main exampleConsts plainBuild (exampleEnv none)
        [cs "pcsx4all", cs "-iso", cs "game.bin", cs "-frameskip", cs "7"]
        zeroGlobals).g.Config.FrameSkip = exampleConsts.FRAMESKIP_OFF := by
  decide

theorem cli_body_frameskip_missing (c : Consts) (b : Build) (s : CliState) :
    cli_body c b ⟨cs "-frameskip", [], 0, s⟩ = .error (.parseError s) := by
  have e : cli_frameskip ⟨cs "-frameskip", [], 0, s⟩ = .error (.parseError s) := rfl
  simp only [cli_body, cli_pcsx_flags_id (cs "-frameskip") _ (by decide),
    cli_iso_id (cs "-frameskip") _ _ (by decide),
    cli_file_id (cs "-frameskip") _ _ _ (by decide),
    cli_syncaudio_id (cs "-frameskip") _ (by decide),
    cli_spuupdatefreq_id c (cs "-frameskip") _ _ _ (by decide),
    cli_forcedxaupdates_id c (cs "-frameskip") _ _ _ (by decide),
    cli_display_flags_id (cs "-frameskip") _ (by decide), e]

theorem cli_body_spu_missing (c : Consts) (b : Build) (a : Bytes) (s : CliState)
    (hb : b.SPU_NULL = false ∧ b.SPU_PCSXREARMED = true)
    (ha : a = cs "-interpolation" ∨ a = cs "-volume") :
    cli_body c b ⟨a, [], 0, s⟩ = .error (.parseError s) := by
  rcases ha with rfl | rfl
  · have e : cli_spu b ⟨cs "-interpolation", [], 0, s⟩ = .error (.parseError s) := by
      simp only [cli_spu, hb, and_self, if_true]; rfl
    simp only [cli_body, cli_pcsx_flags_id (cs "-interpolation") _ (by decide),
      cli_iso_id (cs "-interpolation") _ _ (by decide),
      cli_file_id (cs "-interpolation") _ _ _ (by decide),
      cli_syncaudio_id (cs "-interpolation") _ (by decide),
      cli_spuupdatefreq_id c (cs "-interpolation") _ _ _ (by decide),
      cli_forcedxaupdates_id c (cs "-interpolation") _ _ _ (by decide),
      cli_display_flags_id (cs "-interpolation") _ (by decide),
      cli_frameskip_id (cs "-interpolation") _ _ _ (by decide),
      cli_gpu_unai_id b (cs "-interpolation") _ (by decide), e]
  · have e : cli_spu b ⟨cs "-volume", [], 0, s⟩ = .error (.parseError s) := by
      simp only [cli_spu, hb, and_self, if_true]; rfl
    simp only [cli_body, cli_pcsx_flags_id (cs "-volume") _ (by decide),
      cli_iso_id (cs "-volume") _ _ (by decide),
      cli_file_id (cs "-volume") _ _ _ (by decide),
      cli_syncaudio_id (cs "-volume") _ (by decide),
      cli_spuupdatefreq_id c (cs "-volume") _ _ _ (by decide),
      cli_forcedxaupdates_id c (cs "-volume") _ _ _ (by decide),
      cli_display_flags_id (cs "-volume") _ (by decide),
      cli_frameskip_id (cs "-volume") _ _ _ (by decide),
      cli_gpu_unai_id b (cs "-volume") _ (by decide), e]

/-- The loop body on a number-taking flag (or `-interpolation`) that is the last
argument: a parse error. -/
theorem cli_body_missing_value (c : Consts) (b : Build) (flag : Bytes) (s : CliState)
    (h : flag ∈ [cs "-spuupdatefreq", cs "-forcedxaupdates", cs "-frameskip"] ∨
      ((b.SPU_NULL = false ∧ b.SPU_PCSXREARMED = true) ∧
        flag ∈ [cs "-interpolation", cs "-volume"])) :
    cli_body c b ⟨flag, [], 0, s⟩ = .error (.parseError s) := by
  rcases h with h | ⟨hb, h⟩
  · simp only [List.mem_cons, List.mem_singleton, List.not_mem_nil, or_false] at h
    rcases h with rfl | rfl | rfl
    · exact cli_body_spuupdatefreq_error c b [] s (Or.inl rfl)
    · exact cli_body_forcedxaupdates_error c b [] s (Or.inl rfl)
    · exact cli_body_frameskip_missing c b s
  · simp only [List.mem_cons, List.mem_singleton, List.not_mem_nil, or_false] at h
    exact cli_body_spu_missing c b flag s hb h

end Pcsx4all

namespace Pcsx4all

theorem finish_trace_append (t : List Event) (st : Int) (x y : Bool) (g : Globals) :
    (finish t st x y g).trace = t ++ (finish [] st x y g).trace := by
  unfold finish
  split <;> simp

theorem finish_screen (t : List Event) (st : Int) (y : Bool) (g : Globals) :
    (finish t st true y g).trace
      = t ++ ([Event.SDL_Quit] ++ (if y then [Event.ReleasePlugins, Event.psxShutdown] else [])
          ++ [Event.config_save]) ∧
    (finish t st true y g).outcome = .exit st := by
  simp [finish, pcsx4all_exit]

/-- The shape of the calls of `run_content`: `pl_init`, `psxReset`, the disc
steps, the load of the executable, `Execute`, and the exit hook at the return
from `main`. -/
theorem run_content_shape (env : Env) (trace : List Event) (iso fn : Bytes) (g : Globals) :
    (run_content env trace iso fn g).outcome = .exit 0 ∧
    ∃ cd ld ex, (run_content env trace iso fn g).trace
        = trace ++ ([Event.pl_init, Event.psxReset] ++ cd ++ ld ++ ex ++
            [Event.SDL_Quit, Event.ReleasePlugins, Event.psxShutdown, Event.config_save]) ∧
      cd ∈ [[], [Event.CheckCdrom], [Event.CheckCdrom, Event.LoadCdrom]] ∧
      ld ∈ [[], [Event.Load]] ∧ ex ∈ [[], [Event.Execute]] := by
  unfold run_content
  simp only []
  refine ⟨(finish_screen _ _ _ _).2,
    if iso = [] then [] else if env.checkCdrom = -1 then [Event.CheckCdrom]
      else [Event.CheckCdrom, Event.LoadCdrom],
    if fn = [] then [] else [Event.Load],
    if (iso = [] ∨ env.checkCdrom = -1 ∨ env.loadCdrom = -1) ∧ (fn = [] ∨ env.load = -1) ∧
      g.Config.HLE ≠ 0 then [] else [Event.Execute], ?_, ?_, ?_, ?_⟩
  · rw [(finish_screen _ _ _ _).1]
    by_cases h1 : iso = [] <;> by_cases h2 : env.checkCdrom = -1 <;>
      by_cases h3 : env.loadCdrom = -1 <;> by_cases h4 : fn = [] <;>
      by_cases h5 : env.load = -1 <;> by_cases h6 : g.Config.HLE = 0 <;>
      simp [h1, h2, h3, h4, h5, h6]
  · split
    · simp
    · split <;> simp
  · split <;> simp
  · split <;> simp

theorem run_init_video_failure (env : Env) (argc : Nat) (trace : List Event) (s : CliState)
    (hv : env.videoMode = false) :
    (run_init env argc trace s).trace
      = trace ++ [Event.SDL_Init, Event.atexit, Event.SDL_SetVideoMode] ∧
    (run_init env argc trace s).outcome = .undefined ∧
    run_init env argc trace s
      = finish (trace ++ [Event.SDL_Init, Event.atexit, Event.SDL_SetVideoMode]) 0 false false
          s.g := by
  simp [run_init, hv, finish, pcsx4all_exit]

theorem run_init_select_failure (env : Env) (argc : Nat) (trace : List Event) (s : CliState)
    (hv : env.videoMode = true) (he : argc < 2 ∨ s.isoFile = [])
    (hs : env.selectGame = none) :
    (run_init env argc trace s).trace
      = trace ++ [Event.SDL_Init, Event.atexit, Event.SDL_SetVideoMode, Event.SelectGame,
          Event.SDL_Quit, Event.config_save] ∧
    (run_init env argc trace s).outcome = .exit 1 := by
  have he' : (decide (argc < 2) || decide (s.isoFile = [])) = true := by simpa using he
  simp [run_init, hv, he', hs, finish, pcsx4all_exit]

theorem run_init_psxInit_failure (env : Env) (argc : Nat) (trace : List Event) (s : CliState)
    (hv : env.videoMode = true) (hs : (argc < 2 ∨ s.isoFile = []) → env.selectGame ≠ none)
    (hp : env.psxInit = -1) :
    (run_init env argc trace s).trace
      = trace ++ ([Event.SDL_Init, Event.atexit, Event.SDL_SetVideoMode] ++
          (if argc < 2 ∨ s.isoFile = [] then [Event.SelectGame] else []) ++
          [Event.psxInit, Event.SDL_Quit, Event.config_save]) ∧
    (run_init env argc trace s).outcome = .exit 1 := by
  by_cases he : argc < 2 ∨ s.isoFile = []
  · have he' : (decide (argc < 2) || decide (s.isoFile = [])) = true := by simpa using he
    have hs' := hs he
    simp [run_init, hv, he', he, hs', hp, finish, pcsx4all_exit]
  · have he' : (decide (argc < 2) || decide (s.isoFile = [])) = false := by simpa using he
    simp [run_init, hv, he', he, hp, finish, pcsx4all_exit]

theorem run_init_plugins_failure (env : Env) (argc : Nat) (trace : List Event) (s : CliState)
    (hv : env.videoMode = true) (hs : (argc < 2 ∨ s.isoFile = []) → env.selectGame ≠ none)
    (hp : env.psxInit ≠ -1) (hl : env.loadPlugins = -1) :
    (run_init env argc trace s).trace
      = trace ++ ([Event.SDL_Init, Event.atexit, Event.SDL_SetVideoMode] ++
          (if argc < 2 ∨ s.isoFile = [] then [Event.SelectGame] else []) ++
          [Event.psxInit, Event.LoadPlugins, Event.SDL_Quit, Event.config_save]) ∧
    (run_init env argc trace s).outcome = .exit 1 := by
  by_cases he : argc < 2 ∨ s.isoFile = []
  · have he' : (decide (argc < 2) || decide (s.isoFile = [])) = true := by simpa using he
    have hs' := hs he
    simp [run_init, hv, he', he, hs', hp, hl, finish, pcsx4all_exit]
  · have he' : (decide (argc < 2) || decide (s.isoFile = [])) = false := by simpa using he
    simp [run_init, hv, he', he, hp, hl, finish, pcsx4all_exit]

theorem run_init_success (env : Env) (argc : Nat) (trace : List Event) (s : CliState)
    (hv : env.videoMode = true) (hs : (argc < 2 ∨ s.isoFile = []) → env.selectGame ≠ none)
    (hp : env.psxInit ≠ -1) (hl : env.loadPlugins ≠ -1) :
    (run_init env argc trace s).outcome = .exit 0 ∧
    ∃ cd ld ex, (run_init env argc trace s).trace
        = trace ++ ([Event.SDL_Init, Event.atexit, Event.SDL_SetVideoMode] ++
            (if argc < 2 ∨ s.isoFile = [] then [Event.SelectGame] else []) ++
            [Event.psxInit, Event.LoadPlugins, Event.pl_init, Event.psxReset] ++ cd ++ ld ++ ex ++
            [Event.SDL_Quit, Event.ReleasePlugins, Event.psxShutdown, Event.config_save]) ∧
      cd ∈ [[], [Event.CheckCdrom], [Event.CheckCdrom, Event.LoadCdrom]] ∧
      ld ∈ [[], [Event.Load]] ∧ ex ∈ [[], [Event.Execute]] := by
  by_cases he : argc < 2 ∨ s.isoFile = []
  · have he' : (decide (argc < 2) || decide (s.isoFile = [])) = true := by simpa using he
    obtain ⟨p, hsel⟩ : ∃ p, env.selectGame = some p := by
      cases hsel : env.selectGame with
      | none => exact absurd hsel (hs he)
      | some p => exact ⟨p, rfl⟩
    have e : run_init env argc trace s = run_content env
        (trace ++ [Event.SDL_Init, Event.atexit, Event.SDL_SetVideoMode] ++ [Event.SelectGame] ++
          [Event.psxInit] ++ [Event.LoadPlugins]) p s.filename s.g := by
      simp [run_init, hv, he', hsel, hp, hl]
    rw [e]
    obtain ⟨ho, cd, ld, ex, ht, h1, h2, h3⟩ := run_content_shape env
      (trace ++ [Event.SDL_Init, Event.atexit, Event.SDL_SetVideoMode] ++ [Event.SelectGame] ++
          [Event.psxInit] ++ [Event.LoadPlugins]) p s.filename s.g
    refine ⟨ho, cd, ld, ex, ?_, h1, h2, h3⟩
    rw [ht]
    simp [he]
  · have he' : (decide (argc < 2) || decide (s.isoFile = [])) = false := by simpa using he
    have e : run_init env argc trace s = run_content env
        (trace ++ [Event.SDL_Init, Event.atexit, Event.SDL_SetVideoMode] ++
          [Event.psxInit] ++ [Event.LoadPlugins]) s.isoFile s.filename s.g := by
      simp [run_init, hv, he', hp, hl]
    rw [e]
    obtain ⟨ho, cd, ld, ex, ht, h1, h2, h3⟩ := run_content_shape env
      (trace ++ [Event.SDL_Init, Event.atexit, Event.SDL_SetVideoMode] ++
          [Event.psxInit] ++ [Event.LoadPlugins]) s.isoFile s.filename s.g
    refine ⟨ho, cd, ld, ex, ?_, h1, h2, h3⟩
    rw [ht]
    simp [he]

end Pcsx4all

namespace Pcsx4all

theorem SDL_main_trace_of_done (c : Consts) (b : Build) (env : Env) (home : Bytes)
    (argv0 : Bytes) (args : List Bytes) (g0 : Globals) (s : CliState)
    (hhome : env.home = some home)
    (h : cli_loop c b args 0 (cli_start c b env home g0) = .done s) :
    SDL_main c b env (argv0 :: args) g0
      = run_init env (args.length + 1)
          [Event.setup_paths, Event.config_load, Event.probe_lastdir] s := by
  simp only [SDL_main, hhome, cli_parse, List.tail_cons, h, List.length_cons]

theorem run_init_reaches_display (env : Env) (argc : Nat) (trace : List Event)
    (s : CliState) :
    Event.SDL_Init ∈ (run_init env argc trace s).trace := by
  cases hv : env.videoMode with
  | false => rw [(run_init_video_failure env argc trace s hv).1]; simp
  | true =>
    by_cases hs : (argc < 2 ∨ s.isoFile = []) → env.selectGame ≠ none
    · by_cases hp : env.psxInit = -1
      · rw [(run_init_psxInit_failure env argc trace s hv hs hp).1]; simp
      · by_cases hl : env.loadPlugins = -1
        · rw [(run_init_plugins_failure env argc trace s hv hs hp hl).1]; simp
        · obtain ⟨-, cd, ld, ex, ht, -⟩ := run_init_success env argc trace s hv hs hp hl
          rw [ht]; simp
    · simp only [ne_eq, Classical.not_imp, Decidable.not_not] at hs
      rw [(run_init_select_failure env argc trace s hv hs.1 hs.2).1]; simp

theorem run_init_enters_select (env : Env) (argc : Nat) (trace : List Event) (s : CliState)
    (hv : env.videoMode = true) (he : argc < 2 ∨ s.isoFile = []) :
    Event.SelectGame ∈ (run_init env argc trace s).trace := by
  by_cases hs : (argc < 2 ∨ s.isoFile = []) → env.selectGame ≠ none
  · by_cases hp : env.psxInit = -1
    · rw [(run_init_psxInit_failure env argc trace s hv hs hp).1]; simp [he]
    · by_cases hl : env.loadPlugins = -1
      · rw [(run_init_plugins_failure env argc trace s hv hs hp hl).1]; simp [he]
      · obtain ⟨-, cd, ld, ex, ht, -⟩ := run_init_success env argc trace s hv hs hp hl
        rw [ht]; simp [he]
  · simp only [ne_eq, Classical.not_imp, Decidable.not_not] at hs
    rw [(run_init_select_failure env argc trace s hv hs.1 hs.2).1]; simp

/-- C12 (amended): after well-formed arguments, a last argument
`-spuupdatefreq`, `-forcedxaupdates` or `-frameskip` (and `-interpolation` or
`-volume` in a build with the SPU section) is a parse error: start-up ends with
status 1 and calls none of the later initialisation steps. A last argument
`-iso` is no parse error: the name of the disc image is cleared, start-up goes
on to `SDL_Init` and, with a display, to `SelectGame`. -/
theorem SDL_main_missing_value (c : Consts) (b : Build) (env : Env) (home argv0 : Bytes)
    (pre : List Bytes) (g0 : Globals) (hhome : env.home = some home)
    (hpre : argsOk c pre none = true) :
    (∀ flag, (flag ∈ [cs "-spuupdatefreq", cs "-forcedxaupdates", cs "-frameskip"] ∨
        ((b.SPU_NULL = false ∧ b.SPU_PCSXREARMED = true) ∧
          flag ∈ [cs "-interpolation", cs "-volume"])) →
      (SDL_main c b env (argv0 :: (pre ++ [flag])) g0).outcome = .exit 1 ∧
      ∀ e ∈ laterInit, e ∉ (SDL_main c b env (argv0 :: (pre ++ [flag])) g0).trace) ∧
    (Event.SDL_Init ∈ (SDL_main c b env (argv0 :: (pre ++ [cs "-iso"])) g0).trace ∧
      (env.videoMode = true →
        Event.SelectGame ∈ (SDL_main c b env (argv0 :: (pre ++ [cs "-iso"])) g0).trace)) := by
  refine ⟨?_, ?_⟩
  · intro flag hflag
    obtain ⟨s1, h1, -⟩ := cli_loop_wellformed_prefix c b pre [flag]
      (cli_start c b env home g0) hpre
    have h2 := cli_loop_cons_parseError c b flag [] s1 s1
      (cli_body_missing_value c b flag s1 hflag)
    obtain ⟨ho, ht⟩ := SDL_main_of_parseError c b env home argv0 _ g0 s1 hhome (h1.trans h2)
    rw [ho, ht]
    exact ⟨rfl, laterInit_not_mem⟩
  · obtain ⟨s1, h1, -⟩ := cli_loop_wellformed_prefix c b pre [cs "-iso"]
      (cli_start c b env home g0) hpre
    have h2 : cli_loop c b [cs "-iso"] 0 s1 = .done (cli_iso (cs "-iso") [] s1) := by
      rw [cli_loop_cons_ok c b _ [] s1 _ (cli_body_iso c b [] s1)]
      rfl
    rw [SDL_main_trace_of_done c b env home argv0 _ g0 _ hhome (h1.trans h2)]
    exact ⟨run_init_reaches_display _ _ _ _,
      fun hv => run_init_enters_select _ _ _ _ hv (Or.inr rfl)⟩

/-- Witness of C12: `pcsx4all -iso game.bin -frameskip` ends with status 1. -/
theorem SDL_main_missing_value_witness :
    (exampleEnv none).home = some (cs "/home/user") ∧
    argsOk exampleConsts [cs "-iso", cs "game.bin"] none = true ∧
    (SDL_main exampleConsts plainBuild (exampleEnv none)
      (cs "pcsx4all" :: ([cs "-iso", cs "game.bin"] ++ [cs "-frameskip"]))
      zeroGlobals).outcome = .exit 1 ∧
    ∀ e ∈ laterInit, e ∉ (SDL_main exampleConsts plainBuild (exampleEnv none)
      (cs "pcsx4all" :: ([cs "-iso", cs "game.bin"] ++ [cs "-frameskip"]))
      zeroGlobals).trace :=
  ⟨rfl, by decide,
   (SDL_main_missing_value exampleConsts plainBuild (exampleEnv none) (cs "/home/user")
      (cs "pcsx4all") [cs "-iso", cs "game.bin"] zeroGlobals rfl (by decide)).1
      (cs "-frameskip") (Or.inl (by decide))⟩

/-- C12 (counterexample): the argument list `pcsx4all -iso` ends with the
value-taking flag `-iso` without its value, and there is no parse error:
start-up goes on through `SDL_Init` and `SelectGame` and ends with
status 0. -/
theorem SDL_main_iso_without_value :
    (SDL_main exampleConsts plainBuild (exampleEnv none) [cs "pcsx4all", cs "-iso"]
      zeroGlobals).outcome = .exit 0 ∧
    Event.SDL_Init ∈ (SDL_main exampleConsts plainBuild (exampleEnv none)
      [cs "pcsx4all", cs "-iso"] zeroGlobals).trace ∧
    Event.SelectGame ∈ (SDL_main exampleConsts plainBuild (exampleEnv none)
      [cs "pcsx4all", cs "-iso"] zeroGlobals).trace := by
  decide

end Pcsx4all

namespace Pcsx4all

theorem SDL_main_of_done (c : Consts) (b : Build) (env : Env) (home : Bytes)
    (argv : List Bytes) (g0 : Globals) (s : CliState) (hhome : env.home = some home)
    (h : cli_parse c b argv (cli_start c b env home g0) = .done s) :
    SDL_main c b env argv g0
      = run_init env argv.length [Event.setup_paths, Event.config_load, Event.probe_lastdir]
          s := by
  simp only [SDL_main, hhome, h]

theorem SDL_main_not_done (c : Consts) (b : Build) (env : Env) (argv : List Bytes)
    (g0 : Globals)
    (h : ∀ home s, env.home = some home →
      cli_parse c b argv (cli_start c b env home g0) ≠ .done s) :
    (SDL_main c b env argv g0).trace = [Event.setup_paths] ∨
    (SDL_main c b env argv g0).trace
      = [Event.setup_paths, Event.config_load, Event.probe_lastdir] := by
  unfold SDL_main
  cases hh : env.home with
  | none => exact Or.inl rfl
  | some home =>
    simp only []
    cases hc : cli_parse c b argv (cli_start c b env home g0) with
    | done s => exact absurd hc (h home s hh)
    | parseError s => exact Or.inr rfl
    | undefined => exact Or.inr rfl

/-- C16 (evaluation at the failing input): when `SDL_SetVideoMode` returns the
null pointer, start-up does not end with status 1: `SDL_main` calls `exit(0)`,
and the exit hook registered before dereferences the null `screen`. -/
theorem SDL_main_display_failure :
    (SDL_main exampleConsts plainBuild { exampleEnv none with videoMode := false }
      [cs "pcsx4all", cs "-iso", cs "game.bin"] zeroGlobals).outcome ≠ .exit 1 ∧
    (SDL_main exampleConsts plainBuild { exampleEnv none with videoMode := false }
      [cs "pcsx4all", cs "-iso", cs "game.bin"] zeroGlobals).outcome = .undefined ∧
    (SDL_main exampleConsts plainBuild { exampleEnv none with videoMode := false }
      [cs "pcsx4all", cs "-iso", cs "game.bin"] zeroGlobals).trace
      = [Event.setup_paths, Event.config_load, Event.probe_lastdir, Event.SDL_Init,
         Event.atexit, Event.SDL_SetVideoMode] ∧
    SDL_main exampleConsts plainBuild { exampleEnv none with videoMode := false }
        [cs "pcsx4all", cs "-iso", cs "game.bin"] zeroGlobals
      = finish [Event.setup_paths, Event.config_load, Event.probe_lastdir, Event.SDL_Init,
          Event.atexit, Event.SDL_SetVideoMode] 0 false false
          (SDL_main exampleConsts plainBuild { exampleEnv none with videoMode := false }
            [cs "pcsx4all", cs "-iso", cs "game.bin"] zeroGlobals).g := by
  refine ⟨by decide, by decide, by decide, rfl⟩

end Pcsx4all

namespace Pcsx4all

/-- The runs of `SDL_main` by the first step that fails: the command line is
not parsed to its end, or the display, the content selection, `psxInit` or
`LoadPlugins` fails, or none does; each with its calls and its outcome. -/
theorem SDL_main_cases (c : Consts) (b : Build) (env : Env) (argv : List Bytes)
    (g0 : Globals) :
    ((∀ home s, env.home = some home →
        cli_parse c b argv (cli_start c b env home g0) ≠ .done s) ∧
      ((SDL_main c b env argv g0).trace = [Event.setup_paths] ∨
       (SDL_main c b env argv g0).trace
         = [Event.setup_paths, Event.config_load, Event.probe_lastdir])) ∨
    ∃ home s, env.home = some home ∧
      cli_parse c b argv (cli_start c b env home g0) = .done s ∧
      ((env.videoMode = false ∧
        (SDL_main c b env argv g0).outcome = .undefined ∧
        (SDL_main c b env argv g0).trace
          = [Event.setup_paths, Event.config_load, Event.probe_lastdir] ++
            [Event.SDL_Init, Event.atexit, Event.SDL_SetVideoMode]) ∨
       (env.videoMode = true ∧ (argv.length < 2 ∨ s.isoFile = []) ∧ env.selectGame = none ∧
        (SDL_main c b env argv g0).outcome = .exit 1 ∧
        (SDL_main c b env argv g0).trace
          = [Event.setup_paths, Event.config_load, Event.probe_lastdir] ++
            [Event.SDL_Init, Event.atexit, Event.SDL_SetVideoMode, Event.SelectGame,
             Event.SDL_Quit, Event.config_save]) ∨
       (env.videoMode = true ∧ ((argv.length < 2 ∨ s.isoFile = []) → env.selectGame ≠ none) ∧
        env.psxInit = -1 ∧
        (SDL_main c b env argv g0).outcome = .exit 1 ∧
        (SDL_main c b env argv g0).trace
          = [Event.setup_paths, Event.config_load, Event.probe_lastdir] ++
            ([Event.SDL_Init, Event.atexit, Event.SDL_SetVideoMode] ++
             (if argv.length < 2 ∨ s.isoFile = [] then [Event.SelectGame] else []) ++
             [Event.psxInit, Event.SDL_Quit, Event.config_save])) ∨
       (env.videoMode = true ∧ ((argv.length < 2 ∨ s.isoFile = []) → env.selectGame ≠ none) ∧
        env.psxInit ≠ -1 ∧ env.loadPlugins = -1 ∧
        (SDL_main c b env argv g0).outcome = .exit 1 ∧
        (SDL_main c b env argv g0).trace
          = [Event.setup_paths, Event.config_load, Event.probe_lastdir] ++
            ([Event.SDL_Init, Event.atexit, Event.SDL_SetVideoMode] ++
             (if argv.length < 2 ∨ s.isoFile = [] then [Event.SelectGame] else []) ++
             [Event.psxInit, Event.LoadPlugins, Event.SDL_Quit, Event.config_save])) ∨
       (env.videoMode = true ∧ ((argv.length < 2 ∨ s.isoFile = []) → env.selectGame ≠ none) ∧
        env.psxInit ≠ -1 ∧ env.loadPlugins ≠ -1 ∧
        (SDL_main c b env argv g0).outcome = .exit 0 ∧
        ∃ cd ld ex, (SDL_main c b env argv g0).trace
            = [Event.setup_paths, Event.config_load, Event.probe_lastdir] ++
              ([Event.SDL_Init, Event.atexit, Event.SDL_SetVideoMode] ++
               (if argv.length < 2 ∨ s.isoFile = [] then [Event.SelectGame] else []) ++
               [Event.psxInit, Event.LoadPlugins, Event.pl_init, Event.psxReset] ++ cd ++ ld ++
               ex ++
               [Event.SDL_Quit, Event.ReleasePlugins, Event.psxShutdown, Event.config_save]) ∧
          cd ∈ [[], [Event.CheckCdrom], [Event.CheckCdrom, Event.LoadCdrom]] ∧
          ld ∈ [[], [Event.Load]] ∧ ex ∈ [[], [Event.Execute]])) := by
  by_cases hd : ∃ home s, env.home = some home ∧
      cli_parse c b argv (cli_start c b env home g0) = .done s
  · obtain ⟨home, s, hhome, hcli⟩ := hd
    refine Or.inr ⟨home, s, hhome, hcli, ?_⟩
    rw [SDL_main_of_done c b env home argv g0 s hhome hcli]
    cases hv : env.videoMode with
    | false =>
      obtain ⟨h1, h2, -⟩ := run_init_video_failure env argv.length
        [Event.setup_paths, Event.config_load, Event.probe_lastdir] s hv
      exact Or.inl ⟨rfl, h2, h1⟩
    | true =>
      refine Or.inr ?_
      by_cases hs : (argv.length < 2 ∨ s.isoFile = []) → env.selectGame ≠ none
      · refine Or.inr ?_
        by_cases hp : env.psxInit = -1
        · obtain ⟨h1, h2⟩ := run_init_psxInit_failure env argv.length
            [Event.setup_paths, Event.config_load, Event.probe_lastdir] s hv hs hp
          exact Or.inl ⟨rfl, hs, hp, h2, h1⟩
        · refine Or.inr ?_
          by_cases hl : env.loadPlugins = -1
          · obtain ⟨h1, h2⟩ := run_init_plugins_failure env argv.length
              [Event.setup_paths, Event.config_load, Event.probe_lastdir] s hv hs hp hl
            exact Or.inl ⟨rfl, hs, hp, hl, h2, h1⟩
          · exact Or.inr ⟨rfl, hs, hp, hl, run_init_success env argv.length
              [Event.setup_paths, Event.config_load, Event.probe_lastdir] s hv hs hp hl⟩
      · simp only [ne_eq, Classical.not_imp, Decidable.not_not] at hs
        obtain ⟨h1, h2⟩ := run_init_select_failure env argv.length
          [Event.setup_paths, Event.config_load, Event.probe_lastdir] s hv hs.1 hs.2
        exact Or.inl ⟨rfl, hs.1, hs.2, h2, h1⟩
  · refine Or.inl ⟨?_, ?_⟩
    · intro home s hhome hcli
      exact hd ⟨home, s, hhome, hcli⟩
    · exact SDL_main_not_done c b env argv g0
        (fun home s hhome hcli => hd ⟨home, s, hhome, hcli⟩)

end Pcsx4all

namespace Pcsx4all

/-- C17: the calls of every run of `SDL_main` follow the order `setup_paths`,
`config_load`, `probe_lastdir`, `SDL_Init`, `atexit`, `SDL_SetVideoMode`,
`SelectGame`, `psxInit`, `LoadPlugins`, `pl_init`, `psxReset`, `CheckCdrom`,
`LoadCdrom`, `Load`, `Execute`, followed by the calls of the exit hook; the
command line is parsed between `probe_lastdir` and `SDL_Init`. After a parse
error, a failed `SDL_SetVideoMode`, a failed `SelectGame`, a failed `psxInit`
or a failed `LoadPlugins` no later step of the order is called, and when none
of them fails every step up to `psxReset` other than `SelectGame` is called. -/
theorem SDL_main_startup_order (c : Consts) (b : Build) (env : Env) (argv : List Bytes)
    (g0 : Globals) :
    List.Sublist (SDL_main c b env argv g0).trace (startupOrder ++ hookOrder) ∧
    (∀ home s, env.home = some home →
      cli_parse c b argv (cli_start c b env home g0) = .parseError s →
      ∀ e ∈ stepsAfter Event.probe_lastdir, e ∉ (SDL_main c b env argv g0).trace) ∧
    (env.videoMode = false →
      ∀ e ∈ stepsAfter Event.SDL_SetVideoMode, e ∉ (SDL_main c b env argv g0).trace) ∧
    (env.selectGame = none → Event.SelectGame ∈ (SDL_main c b env argv g0).trace →
      ∀ e ∈ stepsAfter Event.SelectGame, e ∉ (SDL_main c b env argv g0).trace) ∧
    (env.psxInit = -1 →
      ∀ e ∈ stepsAfter Event.psxInit, e ∉ (SDL_main c b env argv g0).trace) ∧
    (env.loadPlugins = -1 →
      ∀ e ∈ stepsAfter Event.LoadPlugins, e ∉ (SDL_main c b env argv g0).trace) ∧
    (∀ home s, env.home = some home →
      cli_parse c b argv (cli_start c b env home g0) = .done s → env.videoMode = true →
      ((argv.length < 2 ∨ s.isoFile = []) → env.selectGame ≠ none) →
      env.psxInit ≠ -1 → env.loadPlugins ≠ -1 →
      ∀ e ∈ [Event.setup_paths, Event.config_load, Event.probe_lastdir, Event.SDL_Init,
        Event.atexit, Event.SDL_SetVideoMode, Event.psxInit, Event.LoadPlugins, Event.pl_init,
        Event.psxReset], e ∈ (SDL_main c b env argv g0).trace) := by
  rcases SDL_main_cases c b env argv g0 with ⟨hnd, ht⟩ |
    ⟨home, s, hhome, hcli, hc⟩
  · have hsmall : List.Sublist (SDL_main c b env argv g0).trace (startupOrder ++ hookOrder) ∧
        ∀ e ∈ stepsAfter Event.probe_lastdir, e ∉ (SDL_main c b env argv g0).trace := by
      rcases ht with ht | ht <;> rw [ht] <;> exact ⟨by decide, by decide⟩
    have hsub : ∀ x : List Event, (∀ e ∈ x, e ∈ stepsAfter Event.probe_lastdir) →
        ∀ e ∈ x, e ∉ (SDL_main c b env argv g0).trace :=
      fun x hx e he => hsmall.2 e (hx e he)
    refine ⟨hsmall.1, fun _ _ _ _ => hsmall.2, fun _ => hsub _ (by decide),
      fun _ _ => hsub _ (by decide), fun _ => hsub _ (by decide), fun _ => hsub _ (by decide),
      ?_⟩
    intro home s hhome hcli
    exact absurd hcli (hnd home s hhome)
  · have hpe : ∀ home' s', env.home = some home' →
        cli_parse c b argv (cli_start c b env home' g0) ≠ .parseError s' := by
      intro home' s' hh hp
      rw [hhome] at hh
      cases hh
      rw [hcli] at hp
      cases hp
    have hs' : ∀ home' s', env.home = some home' →
        cli_parse c b argv (cli_start c b env home' g0) = .done s' → s' = s := by
      intro home' s' hh hp
      rw [hhome] at hh
      cases hh
      rw [hcli] at hp
      cases hp
      rfl
    rcases hc with ⟨hv, -, ht⟩ | ⟨hv, he, hsel, -, ht⟩ | ⟨hv, hsel, hp, -, ht⟩ |
      ⟨hv, hsel, hp, hl, -, ht⟩ | ⟨hv, hsel, hp, hl, -, cd, ld, ex, ht, hcd, hld, hex⟩
    · rw [ht]
      refine ⟨by decide, fun h' s' hh hp => absurd hp (hpe h' s' hh), fun _ => by decide,
        fun _ => by decide, fun _ => by decide, fun _ => by decide, ?_⟩
      intro h' s' _ _ hv'
      rw [hv] at hv'
      cases hv'
    · rw [ht]
      have hnv : ¬ env.videoMode = false := by rw [hv]; simp
      refine ⟨by decide, fun h' s' hh hp => absurd hp (hpe h' s' hh),
        fun hv' => absurd hv' hnv, fun _ _ => by decide, fun _ => by decide,
        fun _ => by decide, ?_⟩
      intro h' s' hh hp _ hsel'
      rw [hs' h' s' hh hp] at hsel'
      exact absurd hsel (hsel' he)
    · rw [ht]
      have hnv : ¬ env.videoMode = false := by rw [hv]; simp
      by_cases he : argv.length < 2 ∨ s.isoFile = []
      · simp only [he, if_true]
        refine ⟨by decide, fun h' s' hh hp => absurd hp (hpe h' s' hh),
          fun hv' => absurd hv' hnv, fun hn _ => absurd hn (hsel he),
          fun _ => by decide, fun _ => by decide, ?_⟩
        intro h' s' _ _ _ _ hp'
        exact absurd hp hp'
      · simp only [he, if_false]
        refine ⟨by decide, fun h' s' hh hp => absurd hp (hpe h' s' hh),
          fun hv' => absurd hv' hnv, fun _ hm => absurd hm (by decide),
          fun _ => by decide, fun _ => by decide, ?_⟩
        intro h' s' _ _ _ _ hp'
        exact absurd hp hp'
    · rw [ht]
      have hnv : ¬ env.videoMode = false := by rw [hv]; simp
      by_cases he : argv.length < 2 ∨ s.isoFile = []
      · simp only [he, if_true]
        refine ⟨by decide, fun h' s' hh hp => absurd hp (hpe h' s' hh),
          fun hv' => absurd hv' hnv, fun hn _ => absurd hn (hsel he),
          fun hp' => absurd hp' hp, fun _ => by decide, ?_⟩
        intro h' s' _ _ _ _ _ hl'
        exact absurd hl hl'
      · simp only [he, if_false]
        refine ⟨by decide, fun h' s' hh hp => absurd hp (hpe h' s' hh),
          fun hv' => absurd hv' hnv, fun _ hm => absurd hm (by decide),
          fun hp' => absurd hp' hp, fun _ => by decide, ?_⟩
        intro h' s' _ _ _ _ _ hl'
        exact absurd hl hl'
    · rw [ht]
      have hnv : ¬ env.videoMode = false := by rw [hv]; simp
      simp only [List.mem_cons, List.mem_singleton, List.not_mem_nil, or_false] at hcd hld hex
      by_cases he : argv.length < 2 ∨ s.isoFile = []
      · simp only [he, if_true]
        refine ⟨?_, fun h' s' hh hp => absurd hp (hpe h' s' hh),
          fun hv' => absurd hv' hnv, fun hn _ => absurd hn (hsel he),
          fun hp' => absurd hp' hp, fun hl' => absurd hl' hl, ?_⟩
        · rcases hcd with rfl | rfl | rfl <;> rcases hld with rfl | rfl <;>
            rcases hex with rfl | rfl <;> decide
        · intro _ _ _ _ _ _ _ _
          rcases hcd with rfl | rfl | rfl <;> rcases hld with rfl | rfl <;>
            rcases hex with rfl | rfl <;> decide
      · simp only [he, if_false]
        refine ⟨?_, fun h' s' hh hp => absurd hp (hpe h' s' hh),
          fun hv' => absurd hv' hnv, fun _ hm => ?_,
          fun hp' => absurd hp' hp, fun hl' => absurd hl' hl, ?_⟩
        · rcases hcd with rfl | rfl | rfl <;> rcases hld with rfl | rfl <;>
            rcases hex with rfl | rfl <;> decide
        · exfalso
          revert hm
          rcases hcd with rfl | rfl | rfl <;> rcases hld with rfl | rfl <;>
            rcases hex with rfl | rfl <;> decide
        · intro _ _ _ _ _ _ _ _
          rcases hcd with rfl | rfl | rfl <;> rcases hld with rfl | rfl <;>
            rcases hex with rfl | rfl <;> decide

end Pcsx4all

namespace Pcsx4all

/-- Witness of C17: when `psxInit` fails, `LoadPlugins` and the steps after it
are not called. -/
theorem SDL_main_startup_order_witness :
    ({ exampleEnv none with psxInit := -1 } : Env).psxInit = -1 ∧
    stepsAfter Event.psxInit
      = [Event.LoadPlugins, Event.pl_init, Event.psxReset, Event.CheckCdrom, Event.LoadCdrom,
         Event.Load, Event.Execute] ∧
    ∀ e ∈ stepsAfter Event.psxInit,
      e ∉ (SDL_main exampleConsts plainBuild { exampleEnv none with psxInit := -1 }
        [cs "pcsx4all", cs "-iso", cs "game.bin"] zeroGlobals).trace :=
  ⟨rfl, by decide,
   (SDL_main_startup_order exampleConsts plainBuild { exampleEnv none with psxInit := -1 }
      [cs "pcsx4all", cs "-iso", cs "game.bin"] zeroGlobals).2.2.2.2.1 rfl⟩

/-- C18 (amended): a parse error of the command line ends the process before
the exit hook is registered, so none of its calls is made. When the command
line is parsed and the display is acquired, each later fatal error (no content
selected, `psxInit` fails, `LoadPlugins` fails) ends the process with status 1
after the exit hook has run `SDL_Quit` and `config_save`, without
`ReleasePlugins` and `psxShutdown`, since `pcsx4all_initted` is still false;
and a start-up without fatal error ends with the whole hook, `ReleasePlugins`
and `psxShutdown` included. -/
theorem SDL_main_fatal_exit_hook (c : Consts) (b : Build) (env : Env) (argv : List Bytes)
    (g0 : Globals) (home : Bytes) (hhome : env.home = some home) :
    (∀ s, cli_parse c b argv (cli_start c b env home g0) = .parseError s →
      (SDL_main c b env argv g0).outcome = .exit 1 ∧
      ∀ e ∈ hookOrder, e ∉ (SDL_main c b env argv g0).trace) ∧
    (∀ s, cli_parse c b argv (cli_start c b env home g0) = .done s → env.videoMode = true →
      (((argv.length < 2 ∨ s.isoFile = []) ∧ env.selectGame = none) ∨ env.psxInit = -1 ∨
        env.loadPlugins = -1) →
      (SDL_main c b env argv g0).outcome = .exit 1 ∧
      (∃ t, (SDL_main c b env argv g0).trace = t ++ [Event.SDL_Quit, Event.config_save] ∧
        ∀ e ∈ hookOrder, e ∉ t)) ∧
    (∀ s, cli_parse c b argv (cli_start c b env home g0) = .done s → env.videoMode = true →
      ((argv.length < 2 ∨ s.isoFile = []) → env.selectGame ≠ none) →
      env.psxInit ≠ -1 → env.loadPlugins ≠ -1 →
      (SDL_main c b env argv g0).outcome = .exit 0 ∧
      ∃ t, (SDL_main c b env argv g0).trace
          = t ++ [Event.SDL_Quit, Event.ReleasePlugins, Event.psxShutdown, Event.config_save] ∧
        ∀ e ∈ hookOrder, e ∉ t) := by
  have hcases := SDL_main_cases c b env argv g0
  refine ⟨?_, ?_, ?_⟩
  · intro s hcli
    obtain ⟨ho, ht⟩ : (SDL_main c b env argv g0).outcome = .exit 1 ∧
        (SDL_main c b env argv g0).trace
          = [Event.setup_paths, Event.config_load, Event.probe_lastdir] := by
      simp only [SDL_main, hhome, hcli, and_self]
    rw [ht]
    exact ⟨ho, by decide⟩
  · intro s hcli hv hfatal
    rcases hcases with ⟨hnd, -⟩ | ⟨home', s', hhome', hcli', hc⟩
    · exact absurd hcli (hnd home s hhome)
    · rw [hhome] at hhome'
      cases hhome'
      rw [hcli] at hcli'
      cases hcli'
      have hnv : ¬ env.videoMode = false := by rw [hv]; simp
      rcases hc with ⟨hv', -⟩ | ⟨-, he, hsel, ho, ht⟩ | ⟨-, hsel, hp, ho, ht⟩ |
        ⟨-, hsel, hp, hl, ho, ht⟩ | ⟨-, hsel, hp, hl, -⟩
      · exact absurd hv' hnv
      · exact ⟨ho, [Event.setup_paths, Event.config_load, Event.probe_lastdir, Event.SDL_Init,
          Event.atexit, Event.SDL_SetVideoMode, Event.SelectGame], ht.trans (by simp), by decide⟩
      · refine ⟨ho, [Event.setup_paths, Event.config_load, Event.probe_lastdir] ++
          ([Event.SDL_Init, Event.atexit, Event.SDL_SetVideoMode] ++
            (if argv.length < 2 ∨ s.isoFile = [] then [Event.SelectGame] else []) ++
            [Event.psxInit]), ht.trans (by simp), ?_⟩
        split <;> decide
      · refine ⟨ho, [Event.setup_paths, Event.config_load, Event.probe_lastdir] ++
          ([Event.SDL_Init, Event.atexit, Event.SDL_SetVideoMode] ++
            (if argv.length < 2 ∨ s.isoFile = [] then [Event.SelectGame] else []) ++
            [Event.psxInit, Event.LoadPlugins]), ht.trans (by simp), ?_⟩
        split <;> decide
      · rcases hfatal with ⟨he, hn⟩ | hp' | hl'
        · exact absurd hn (hsel he)
        · exact absurd hp' hp
        · exact absurd hl' hl
  · intro s hcli hv hsel hp hl
    rcases hcases with ⟨hnd, -⟩ | ⟨home', s', hhome', hcli', hc⟩
    · exact absurd hcli (hnd home s hhome)
    · rw [hhome] at hhome'
      cases hhome'
      rw [hcli] at hcli'
      cases hcli'
      have hnv : ¬ env.videoMode = false := by rw [hv]; simp
      rcases hc with ⟨hv', -⟩ | ⟨-, he, hn, -⟩ | ⟨-, -, hp', -⟩ | ⟨-, -, -, hl', -⟩ |
        ⟨-, -, -, -, ho, cd, ld, ex, ht, hcd, hld, hex⟩
      · exact absurd hv' hnv
      · exact absurd hn (hsel he)
      · exact absurd hp' hp
      · exact absurd hl' hl
      · refine ⟨ho, [Event.setup_paths, Event.config_load, Event.probe_lastdir] ++
          ([Event.SDL_Init, Event.atexit, Event.SDL_SetVideoMode] ++
            (if argv.length < 2 ∨ s.isoFile = [] then [Event.SelectGame] else []) ++
            [Event.psxInit, Event.LoadPlugins, Event.pl_init, Event.psxReset] ++ cd ++ ld ++ ex),
          ht.trans (by simp), ?_⟩
        simp only [List.mem_cons, List.mem_singleton, List.not_mem_nil, or_false]
          at hcd hld hex
        rcases hcd with rfl | rfl | rfl <;> rcases hld with rfl | rfl <;>
          rcases hex with rfl | rfl <;> split <;> decide

/-- Witness of C18: `psxInit` fails after `-iso game.bin`; the process ends with
status 1 and the hook has run `SDL_Quit` and `config_save`. -/
theorem SDL_main_fatal_exit_hook_witness :
    ({ exampleEnv none with psxInit := -1 } : Env).home = some (cs "/home/user") ∧
    (SDL_main exampleConsts plainBuild { exampleEnv none with psxInit := -1 }
      [cs "pcsx4all", cs "-iso", cs "game.bin"] zeroGlobals).outcome = .exit 1 ∧
    ∃ t, (SDL_main exampleConsts plainBuild { exampleEnv none with psxInit := -1 }
        [cs "pcsx4all", cs "-iso", cs "game.bin"] zeroGlobals).trace
        = t ++ [Event.SDL_Quit, Event.config_save] ∧
      ∀ e ∈ hookOrder, e ∉ t :=
  ⟨rfl,
   (SDL_main_fatal_exit_hook exampleConsts plainBuild { exampleEnv none with psxInit := -1 }
      [cs "pcsx4all", cs "-iso", cs "game.bin"] zeroGlobals (cs "/home/user") rfl).2.1
      _ rfl rfl (Or.inr (Or.inl rfl))⟩

/-- C18 (counterexample): the parse error of `pcsx4all -spuupdatefreq 7` is a
fatal start-up error, and the process ends with status 1 without `config_save`
or any other call of the exit hook, which is not registered yet. And when
`LoadPlugins` fails after a successful `psxInit`, the hook runs `config_save`
but neither `ReleasePlugins` nor `psxShutdown`. -/
theorem SDL_main_parse_error_without_hook :
    ((SDL_main exampleConsts plainBuild (exampleEnv none)
        [cs "pcsx4all", cs "-spuupdatefreq", cs "7"] zeroGlobals).outcome = .exit 1 ∧
      Event.config_save ∉ (SDL_main exampleConsts plainBuild (exampleEnv none)
        [cs "pcsx4all", cs "-spuupdatefreq", cs "7"] zeroGlobals).trace ∧
      Event.atexit ∉ (SDL_main exampleConsts plainBuild (exampleEnv none)
        [cs "pcsx4all", cs "-spuupdatefreq", cs "7"] zeroGlobals).trace) ∧
    ((SDL_main exampleConsts plainBuild { exampleEnv none with loadPlugins := -1 }
        [cs "pcsx4all", cs "-iso", cs "game.bin"] zeroGlobals).outcome = .exit 1 ∧
      (SDL_main exampleConsts plainBuild { exampleEnv none with loadPlugins := -1 }
        [cs "pcsx4all", cs "-iso", cs "game.bin"] zeroGlobals).trace
        = [Event.setup_paths, Event.config_load, Event.probe_lastdir, Event.SDL_Init,
           Event.atexit, Event.SDL_SetVideoMode, Event.psxInit, Event.LoadPlugins,
           Event.SDL_Quit, Event.config_save]) := by
  decide

end Pcsx4all

namespace Pcsx4all

/-! ## Save states -/

theorem decimalNat_of_pos (n : Nat) (h : n ≠ 0) :
    decimalNat n = (Nat.digits 10 n).reverse.map (fun d => 48 + d) := by
  simp [decimalNat, h]

/-- The digits that `%u` prints are the decimal digits of the number. -/
theorem fmtNat_eq_decimalNat (n : Nat) : fmtNat n = decimalNat n := by
  induction n using Nat.strong_induction_on with
  | _ n ih =>
    by_cases h : n < 10
    · rw [fmtNat_lt n h]
      by_cases h0 : n = 0
      · subst h0; rfl
      · rw [decimalNat_of_pos n h0, Nat.digits_of_lt 10 n h0 h]; rfl
    · have h10 : 10 ≤ n := by omega
      have hq : n / 10 ≠ 0 := by
        have := Nat.div_pos h10 (by norm_num : 0 < 10)
        omega
      rw [fmtNat_ge n h10, ih (n / 10) (Nat.div_lt_self (by omega) (by omega)),
        decimalNat_of_pos n (by omega), decimalNat_of_pos (n / 10) hq,
        Nat.digits_def' (by norm_num : 1 < 10) (by omega : 0 < n)]
      simp

/-- The text that `%d` prints is the decimal numeral of the number. -/
theorem fmtD_eq_decimal (n : Int) : fmtD n = decimal n := by
  unfold fmtD decimal
  rw [fmtNat_eq_decimalNat]

theorem savename_eq_statePath (env : StateEnv) (n : Int)
    (hd : ∀ x ∈ env.sstatesdir, x ≠ 0) (hc : ∀ x ∈ env.CdromId, x ≠ 0)
    (hfit : (statePath env.sstatesdir env.CdromId n).length < 512) :
    savename env n = some (statePath env.sstatesdir env.CdromId n) := by
  unfold savename
  simp only [cstr_eq_self _ hd, cstr_eq_self _ hc, fmtD_eq_decimal]
  unfold statePath at hfit ⊢
  rw [if_pos hfit]

/-- The two functions once the name is formatted: what they call and what
they return. -/
theorem state_load_save_of_savename (env : StateEnv) (slot : Int) (p : Bytes)
    (hp : savename env slot = some p) :
    state_load env slot
      = some (if env.fileExists p then
          { calls := [StateCall.FileExists p, StateCall.LoadState p],
            result := env.loadState p }
        else { calls := [StateCall.FileExists p], result := -1 }) ∧
    state_save env slot
      = some { calls := [StateCall.SaveState p], result := env.saveState p } := by
  refine ⟨?_, ?_⟩
  · simp only [state_load, hp]
    split <;> rfl
  · simp only [state_save, hp]

/-- C14 (amended): with a name that fits the 512 bytes of `savename`,
`state_load` asks `FileExists` for the path of the slot; when the file does not
exist it returns -1 without a call of `LoadState`, and when it exists it calls
`LoadState` once on that path and returns its result; `state_save` calls
`SaveState` once on the path and returns its result. -/
theorem state_load_save_delegate (env : StateEnv) (slot : Int) (p : Bytes)
    (hp : savename env slot = some p) :
    (env.fileExists p = false →
      state_load env slot = some { calls := [StateCall.FileExists p], result := -1 }) ∧
    (env.fileExists p = true →
      state_load env slot
        = some { calls := [StateCall.FileExists p, StateCall.LoadState p],
                 result := env.loadState p }) ∧
    state_save env slot
      = some { calls := [StateCall.SaveState p], result := env.saveState p } := by
  obtain ⟨hl, hs⟩ := state_load_save_of_savename env slot p hp
  refine ⟨?_, ?_, hs⟩
  · intro h
    rw [hl, h]
    rfl
  · intro h
    rw [hl, h]
    rfl

/-- Witness of C14: slot 0, whose file exists, is loaded with the answer of the
core, slot 1, whose file does not exist, gives -1, and saving slot 1 returns
the answer of the core. -/
theorem state_load_save_delegate_witness :
    savename (exampleStateEnv 0 (-1)) 0
      = some (cs "/home/user/.pcsx4all/sstates/SLUS00594.0.sav") ∧
    state_load (exampleStateEnv 0 (-1)) 0
      = some { calls := [StateCall.FileExists (cs "/home/user/.pcsx4all/sstates/SLUS00594.0.sav"),
                         StateCall.LoadState (cs "/home/user/.pcsx4all/sstates/SLUS00594.0.sav")],
               result := 0 } ∧
    state_load (exampleStateEnv 0 (-1)) 1
      = some { calls := [StateCall.FileExists (cs "/home/user/.pcsx4all/sstates/SLUS00594.1.sav")],
               result := -1 } ∧
    state_save (exampleStateEnv 0 (-1)) 1
      = some { calls := [StateCall.SaveState (cs "/home/user/.pcsx4all/sstates/SLUS00594.1.sav")],
               result := -1 } :=
  ⟨by decide,
   (state_load_save_delegate (exampleStateEnv 0 (-1)) 0
      (cs "/home/user/.pcsx4all/sstates/SLUS00594.0.sav") (by decide)).2.1 (by decide),
   (state_load_save_delegate (exampleStateEnv 0 (-1)) 1
      (cs "/home/user/.pcsx4all/sstates/SLUS00594.1.sav") (by decide)).1 (by decide),
   (state_load_save_delegate (exampleStateEnv 0 (-1)) 1
      (cs "/home/user/.pcsx4all/sstates/SLUS00594.1.sav") (by decide)).2.2⟩

set_option maxRecDepth 100000 in
/-- C14 (counterexample): with a save-states directory of 600 bytes the text of
`sprintf` does not fit `char savename[512]`: the write runs past the buffer,
and neither `state_load` nor `state_save` has a defined result, whether or not
a file exists at the path. -/
theorem state_load_save_overlong_path :
    savename { exampleStateEnv 0 0 with sstatesdir := List.replicate 600 97 } 0 = none ∧
    state_load { exampleStateEnv 0 0 with sstatesdir := List.replicate 600 97 } 0 = none ∧
    state_save { exampleStateEnv 0 0 with sstatesdir := List.replicate 600 97 } 0 = none := by
  refine ⟨by decide, by decide, by decide⟩

/-- C15: for every save-states directory and content identifier (C strings) and
every slot whose path fits the 512 bytes of `savename`, `state_save` and
`state_load` both return, and every call they make carries the path
`<dir>/<id>.<slot>.sav` of the spec, with the slot in decimal. -/
theorem state_save_load_same_path (env : StateEnv) (n : Int)
    (hd : ∀ x ∈ env.sstatesdir, x ≠ 0) (hc : ∀ x ∈ env.CdromId, x ≠ 0)
    (hfit : (statePath env.sstatesdir env.CdromId n).length < 512) :
    ∃ rs rl, state_save env n = some rs ∧ state_load env n = some rl ∧
      rs.calls ≠ [] ∧ rl.calls ≠ [] ∧
      ∀ call ∈ rs.calls ++ rl.calls,
        call.path = statePath env.sstatesdir env.CdromId n := by
  have hp := savename_eq_statePath env n hd hc hfit
  obtain ⟨hl, h3⟩ := state_load_save_of_savename env n _ hp
  cases hf : env.fileExists (statePath env.sstatesdir env.CdromId n) with
  | false =>
    have hl' : state_load env n
        = some { calls := [StateCall.FileExists (statePath env.sstatesdir env.CdromId n)],
                 result := -1 } := by
      rw [hl, hf]; rfl
    refine ⟨_, _, h3, hl', by simp, by simp, ?_⟩
    intro call hcall
    simp only [List.singleton_append, List.mem_cons, List.mem_singleton, List.not_mem_nil,
      or_false] at hcall
    rcases hcall with rfl | rfl <;> rfl
  | true =>
    have hl' : state_load env n
        = some { calls := [StateCall.FileExists (statePath env.sstatesdir env.CdromId n),
                           StateCall.LoadState (statePath env.sstatesdir env.CdromId n)],
                 result := env.loadState (statePath env.sstatesdir env.CdromId n) } := by
      rw [hl, hf]; rfl
    refine ⟨_, _, h3, hl', by simp, by simp, ?_⟩
    intro call hcall
    simp only [List.singleton_append, List.mem_cons, List.mem_singleton, List.not_mem_nil,
      or_false] at hcall
    rcases hcall with rfl | rfl | rfl <;> rfl

theorem decimal_three : decimal 3 = cs "3" := by
  rw [← fmtD_eq_decimal]; decide

/-- Witness of C15: directory `/home/user/.pcsx4all/sstates`, disc `SLUS00594`,
slot 3. -/
theorem state_save_load_same_path_witness :
    statePath (exampleStateEnv 0 0).sstatesdir (exampleStateEnv 0 0).CdromId 3
      = cs "/home/user/.pcsx4all/sstates/SLUS00594.3.sav" ∧
    ∃ rs rl, state_save (exampleStateEnv 0 0) 3 = some rs ∧
      state_load (exampleStateEnv 0 0) 3 = some rl ∧ rs.calls ≠ [] ∧ rl.calls ≠ [] ∧
      ∀ call ∈ rs.calls ++ rl.calls,
        call.path = statePath (exampleStateEnv 0 0).sstatesdir (exampleStateEnv 0 0).CdromId 3 :=
  have e : statePath (exampleStateEnv 0 0).sstatesdir (exampleStateEnv 0 0).CdromId 3
      = cs "/home/user/.pcsx4all/sstates/SLUS00594.3.sav" := by
    unfold statePath
    rw [decimal_three]
    decide
  ⟨e, state_save_load_same_path (exampleStateEnv 0 0) 3 (by decide) (by decide)
    (by rw [e]; decide)⟩

end Pcsx4all

namespace Pcsx4all

/-! ## The pad -/

theorem testBit_setBit (pad bit i : Nat) (hi : i < 16) :
    (setBit pad bit).testBit i = (pad.testBit i || decide (bit = i)) := by
  have e : (65536 : Nat) = 2 ^ 16 := by norm_num
  unfold setBit
  rw [e, Nat.testBit_mod_two_pow, Nat.testBit_or, Nat.one_shiftLeft, Nat.testBit_two_pow]
  simp [hi]

theorem testBit_clearBit (pad bit i : Nat) (hi : i < 16) :
    (clearBit pad bit).testBit i = (pad.testBit i && !decide (bit = i)) := by
  have e : (65536 : Nat) = 2 ^ 16 := by norm_num
  have e2 : (0xFFFFFFFF : Nat) = 2 ^ 32 - 1 := by norm_num
  unfold clearBit
  rw [e, Nat.testBit_mod_two_pow, Nat.testBit_and, Nat.testBit_xor, Nat.one_shiftLeft,
    Nat.testBit_two_pow, e2, Nat.testBit_two_pow_sub_one]
  have h32 : i < 32 := by omega
  simp [hi, h32]

/-- One pass of the body of the key loop. -/
theorem pad_keys_cons (keys : Nat → Bool) (key bit : Nat) (rest : List (Nat × Nat))
    (pad1 : Nat) (h : key ≠ 0) :
    pad_keys keys ((key, bit) :: rest) pad1
      = pad_keys keys rest (if keys key then clearBit pad1 bit else setBit pad1 bit) := by
  simp only [pad_keys, h, if_false]

/-- The key loop stops at the terminating entry: it is a fold over the entries
in front of it. -/
theorem pad_keys_eq_foldl (keys : Nat → Bool) (entries : List (Nat × Nat))
    (h : ∀ e ∈ entries, e.1 ≠ 0) : ∀ pad1,
    pad_keys keys (entries ++ [(0, 0)]) pad1
      = entries.foldl (fun p e => if keys e.1 then clearBit p e.2 else setBit p e.2) pad1 := by
  induction entries with
  | nil => intro pad1; rfl
  | cons e rest ih =>
    intro pad1
    obtain ⟨key, bit⟩ := e
    have hk : key ≠ 0 := h (key, bit) (List.mem_cons_self _ _)
    rw [List.cons_append, pad_keys_cons keys key bit _ pad1 hk,
      ih (fun e he => h e (List.mem_cons_of_mem _ he)), List.foldl_cons]

theorem foldl_keys_testBit_other (keys : Nat → Bool) (i : Nat) (hi : i < 16)
    (entries : List (Nat × Nat)) (h : ∀ e ∈ entries, e.2 ≠ i) : ∀ pad1,
    (entries.foldl (fun p e => if keys e.1 then clearBit p e.2 else setBit p e.2)
      pad1).testBit i = pad1.testBit i := by
  induction entries with
  | nil => intro pad1; rfl
  | cons e rest ih =>
    intro pad1
    have hne : e.2 ≠ i := h e (List.mem_cons_self _ _)
    rw [List.foldl_cons, ih (fun e he => h e (List.mem_cons_of_mem _ he))]
    split
    · rw [testBit_clearBit _ _ _ hi]; simp [hne]
    · rw [testBit_setBit _ _ _ hi]; simp [hne]

/-- After the key loop over entries with pairwise different buttons, the bit of
every entry is clear when its key is down and set when it is up. -/
theorem foldl_keys_testBit (keys : Nat → Bool) (entries : List (Nat × Nat))
    (hnd : (entries.map Prod.snd).Nodup) (hb : ∀ e ∈ entries, e.2 < 16) :
    ∀ pad1, ∀ e ∈ entries,
      (entries.foldl (fun p e => if keys e.1 then clearBit p e.2 else setBit p e.2)
        pad1).testBit e.2 = !keys e.1 := by
  induction entries with
  | nil => intro pad1 e he; simp at he
  | cons e0 rest ih =>
    intro pad1 e he
    rw [List.map_cons, List.nodup_cons] at hnd
    rw [List.foldl_cons]
    rcases List.mem_cons.1 he with rfl | he'
    · have hi : e.2 < 16 := hb e (List.mem_cons_self _ _)
      rw [foldl_keys_testBit_other keys e.2 hi rest
        (fun x hx hxe => hnd.1 (List.mem_map.2 ⟨x, hx, hxe⟩))]
      cases hk : keys e.1
      · simp [testBit_setBit _ _ _ hi]
      · simp [testBit_clearBit _ _ _ hi]
    · exact ih hnd.2 (fun x hx => hb x (List.mem_cons_of_mem _ hx)) _ e he'

theorem foldl_keys_congr (keys1 keys2 : Nat → Bool) (entries : List (Nat × Nat))
    (h : ∀ e ∈ entries, keys1 e.1 = keys2 e.1) : ∀ pad1,
    entries.foldl (fun p e => if keys1 e.1 then clearBit p e.2 else setBit p e.2) pad1
      = entries.foldl (fun p e => if keys2 e.1 then clearBit p e.2 else setBit p e.2) pad1 := by
  induction entries with
  | nil => intro pad1; rfl
  | cons e rest ih =>
    intro pad1
    rw [List.foldl_cons, List.foldl_cons, h e (List.mem_cons_self _ _),
      ih (fun x hx => h x (List.mem_cons_of_mem _ hx))]

theorem poll_events_noQuit (k : Keysyms) (b : Build) (events : List SdlEvent)
    (h : noQuit k b events) : ∀ fps, (poll_events k b events false fps).quit = false := by
  induction events with
  | nil => intro fps; rfl
  | cons e rest ih =>
    intro fps
    have he := h e (List.mem_cons_self _ _)
    have hrest : noQuit k b rest := fun x hx => h x (List.mem_cons_of_mem _ hx)
    cases e with
    | quit => exact absurd rfl he.1
    | other => exact ih hrest fps
    | keydown sym =>
      have hesc : ¬ (b.GCW_ZERO = false ∧ sym = k.SDLK_ESCAPE) := by
        rintro ⟨hg, rfl⟩
        exact he.2 hg rfl
      simp only [poll_events, hesc, if_false]
      split
      · exact ih hrest _
      · exact ih hrest _

/-- The table of the default build: its entries and the terminating entry. -/
theorem keymap_default (k : Keysyms) (b : Build) (hb : b.GCW_ZERO = false) :
    keymap k b = keymapEntries k b ++ [(0, 0)] ∧
    keymapEntries k b =
      [(k.SDLK_UP, DKEY_UP), (k.SDLK_DOWN, DKEY_DOWN), (k.SDLK_LEFT, DKEY_LEFT),
       (k.SDLK_RIGHT, DKEY_RIGHT), (k.SDLK_a, DKEY_SQUARE), (k.SDLK_x, DKEY_CIRCLE),
       (k.SDLK_s, DKEY_TRIANGLE), (k.SDLK_z, DKEY_CROSS), (k.SDLK_q, DKEY_L1),
       (k.SDLK_w, DKEY_R1), (k.SDLK_e, DKEY_L2), (k.SDLK_r, DKEY_R2),
       (k.SDLK_BACKSPACE, DKEY_SELECT), (k.SDLK_RETURN, DKEY_START)] := by
  simp [keymap, keymapEntries, hb]

theorem keymap_default_nonzero (k : Keysyms) (b : Build) (hb : b.GCW_ZERO = false)
    (hk : k.NonZero) : ∀ e ∈ keymapEntries k b, e.1 ≠ 0 := by
  intro e he
  rw [(keymap_default k b hb).2] at he
  apply hk
  simp only [List.mem_cons, List.mem_singleton, List.not_mem_nil, or_false] at he ⊢
  rcases he with rfl | rfl | rfl | rfl | rfl | rfl | rfl | rfl | rfl | rfl | rfl | rfl |
    rfl | rfl <;> simp

theorem keymap_default_bits (k : Keysyms) (b : Build) (hb : b.GCW_ZERO = false) :
    ((keymapEntries k b).map Prod.snd).Nodup ∧ ∀ e ∈ keymapEntries k b, e.2 < 16 := by
  rw [(keymap_default k b hb).2]
  refine ⟨by simp only [List.map_cons, List.map_nil]; decide, ?_⟩
  intro e he
  simp only [List.mem_cons, List.mem_singleton, List.not_mem_nil, or_false] at he
  rcases he with rfl | rfl | rfl | rfl | rfl | rfl | rfl | rfl | rfl | rfl | rfl | rfl |
    rfl | rfl <;> dsimp only <;> decide

/-- In the default build a call of `pad_update` that meets no quit event
returns with `pad1` after the key loop. -/
theorem pad_update_default (k : Keysyms) (b : Build) (env : PadEnv) (s : Port)
    (hb : b.GCW_ZERO = false) (hk : k.NonZero) (hq : noQuit k b env.events) :
    (pad_update k b env s).outcome = .returned ∧
    (pad_update k b env s).s.pad1
      = (keymapEntries k b).foldl
          (fun p e => if env.keys e.1 then clearBit p e.2 else setBit p e.2) s.pad1 ∧
    (pad_update k b env s).s.pad2 = s.pad2 := by
  have hp := poll_events_noQuit k b env.events hq s.g.Config.ShowFps
  have hf := pad_keys_eq_foldl env.keys (keymapEntries k b)
    (keymap_default_nonzero k b hb hk) s.pad1
  rw [← (keymap_default k b hb).1] at hf
  simp only [pad_update, hp, hb, Bool.false_eq_true, if_false, hf, and_self]

/-- C13: in the default build (without `GCW_ZERO`), whatever `pad1` held
before and whatever keys are down, a call of `pad_update` that meets no quit
event returns with the bit of every entry `(key, button)` of `keymap` clear in
`pad_read(0)` when the key is down and set when it is up; and two key states
that agree on the keys of the table give the same `pad_read(0)` from the same
state before. -/
theorem pad_update_default_table (k : Keysyms) (b : Build) (env env2 : PadEnv) (s : Port)
    (hb : b.GCW_ZERO = false) (hk : k.NonZero) (hq : noQuit k b env.events)
    (hq2 : noQuit k b env2.events) :
    (pad_update k b env s).outcome = .returned ∧
    (∀ key bit, (key, bit) ∈ keymapEntries k b →
      (pad_read (pad_update k b env s).s 0).testBit bit = !env.keys key) ∧
    ((∀ key bit, (key, bit) ∈ keymapEntries k b → env2.keys key = env.keys key) →
      pad_read (pad_update k b env2 s).s 0 = pad_read (pad_update k b env s).s 0) := by
  obtain ⟨ho, hp, -⟩ := pad_update_default k b env s hb hk hq
  obtain ⟨-, hp2, -⟩ := pad_update_default k b env2 s hb hk hq2
  obtain ⟨hnd, hbits⟩ := keymap_default_bits k b hb
  refine ⟨ho, ?_, ?_⟩
  · intro key bit hm
    simp only [pad_read, if_true, hp]
    exact foldl_keys_testBit env.keys (keymapEntries k b) hnd hbits s.pad1 (key, bit) hm
  · intro hagree
    simp only [pad_read, if_true, hp, hp2]
    exact foldl_keys_congr env2.keys env.keys (keymapEntries k b)
      (fun e he => hagree e.1 e.2 he) s.pad1

/-- Witness of C13 with the key codes of SDL 1.2: Up and `z` are down, so the
bits of UP and CROSS are clear and every other bit of the table is set. -/
theorem pad_update_default_table_witness :
    plainBuild.GCW_ZERO = false ∧ sdl12.NonZero ∧
    noQuit sdl12 plainBuild (examplePadEnv [273, 122]).events ∧
    noQuit sdl12 plainBuild (examplePadEnv [273, 122, 27]).events ∧
    (pad_update sdl12 plainBuild (examplePadEnv [273, 122])
      (initialPort zeroGlobals)).outcome = .returned ∧
    pad_read (pad_update sdl12 plainBuild (examplePadEnv [273, 122])
      (initialPort zeroGlobals)).s 0 = 0xBFEF ∧
    (∀ key bit, (key, bit) ∈ keymapEntries sdl12 plainBuild →
      (pad_read (pad_update sdl12 plainBuild (examplePadEnv [273, 122])
        (initialPort zeroGlobals)).s 0).testBit bit = !(examplePadEnv [273, 122]).keys key) ∧
    ((∀ key bit, (key, bit) ∈ keymapEntries sdl12 plainBuild →
        (examplePadEnv [273, 122, 27]).keys key = (examplePadEnv [273, 122]).keys key) →
      pad_read (pad_update sdl12 plainBuild (examplePadEnv [273, 122, 27])
        (initialPort zeroGlobals)).s 0
      = pad_read (pad_update sdl12 plainBuild (examplePadEnv [273, 122])
        (initialPort zeroGlobals)).s 0) :=
  have hk : sdl12.NonZero := by unfold Keysyms.NonZero; decide
  have hq : noQuit sdl12 plainBuild (examplePadEnv [273, 122]).events := by
    unfold noQuit; decide
  have hq2 : noQuit sdl12 plainBuild (examplePadEnv [273, 122, 27]).events := by
    unfold noQuit; decide
  ⟨rfl, hk, hq, hq2, by decide, by decide,
   (pad_update_default_table sdl12 plainBuild (examplePadEnv [273, 122])
      (examplePadEnv [273, 122, 27]) (initialPort zeroGlobals) rfl hk hq hq2).2⟩

end Pcsx4all

namespace Pcsx4all

/-- The menu branch when `GameMenu` returns: `emu_running` is true again, the
bits of START and CROSS are set, and the call returns. -/
theorem pad_menu_returns (b : Build) (env : PadEnv) (s : Port)
    (hmenu : ∀ g, env.gameMenu g ≠ none) :
    (pad_menu b env s).outcome = .returned ∧
    (pad_menu b env s).s.emu_running = true ∧
    (pad_menu b env s).s.pad1 = setBit (setBit s.pad1 DKEY_START) DKEY_CROSS ∧
    (pad_menu b env s).s.pad2 = s.pad2 := by
  unfold pad_menu
  simp only []
  cases hg : env.gameMenu s.g with
  | none => exact absurd hg (hmenu _)
  | some g => exact ⟨rfl, rfl, rfl, rfl⟩

/-- C19: in the build with `GCW_ZERO`, whatever the state and the settings
before, a call of `pad_update` that meets no quit event, finds the keys of the
menu combination held and whose `GameMenu` returns (with or without a change of
the settings) returns with `emu_running` true and with the bits of START and
CROSS set in `pad_read(0)`. -/
theorem pad_update_menu_returns (k : Keysyms) (b : Build) (env : PadEnv) (s : Port)
    (hb : b.GCW_ZERO = true) (hq : noQuit k b env.events)
    (hcombo : menuCombo k env.keys = true) (hmenu : ∀ g, env.gameMenu g ≠ none) :
    (pad_update k b env s).outcome = .returned ∧
    (pad_update k b env s).s.emu_running = true ∧
    (pad_read (pad_update k b env s).s 0).testBit DKEY_START = true ∧
    (pad_read (pad_update k b env s).s 0).testBit DKEY_CROSS = true := by
  have hp := poll_events_noQuit k b env.events hq s.g.Config.ShowFps
  have e : pad_update k b env s
      = pad_menu b env
          { g := { s.g with Config.ShowFps :=
                (poll_events k b env.events false s.g.Config.ShowFps).ShowFps }
            pad1 := pad_combos k env.keys (pad_keys env.keys (keymap k b) s.pad1)
            pad2 := s.pad2
            emu_running := s.emu_running } := by
    simp only [pad_update, hp, hb, hcombo, Bool.false_eq_true, if_false, if_true]
  rw [e]
  obtain ⟨h1, h2, h3, -⟩ := pad_menu_returns b env
    { g := { s.g with Config.ShowFps :=
          (poll_events k b env.events false s.g.Config.ShowFps).ShowFps }
      pad1 := pad_combos k env.keys (pad_keys env.keys (keymap k b) s.pad1)
      pad2 := s.pad2
      emu_running := s.emu_running } hmenu
  refine ⟨h1, h2, ?_, ?_⟩
  · simp only [pad_read, if_true, h3]
    rw [testBit_setBit _ _ _ (by decide), testBit_setBit _ _ _ (by decide)]
    simp
  · simp only [pad_read, if_true, h3]
    rw [testBit_setBit _ _ _ (by decide)]
    simp

/-- Witness of C19 with the key codes of SDL 1.2: Escape and Return are held,
the menu changes nothing. -/
theorem pad_update_menu_returns_witness :
    ({ plainBuild with GCW_ZERO := true } : Build).GCW_ZERO = true ∧
    noQuit sdl12 { plainBuild with GCW_ZERO := true } (examplePadEnv [27, 13]).events ∧
    menuCombo sdl12 (examplePadEnv [27, 13]).keys = true ∧
    (∀ g, (examplePadEnv [27, 13]).gameMenu g ≠ none) ∧
    (pad_update sdl12 { plainBuild with GCW_ZERO := true } (examplePadEnv [27, 13])
      (initialPort zeroGlobals)).outcome = .returned ∧
    (pad_update sdl12 { plainBuild with GCW_ZERO := true } (examplePadEnv [27, 13])
      (initialPort zeroGlobals)).s.emu_running = true ∧
    (pad_read (pad_update sdl12 { plainBuild with GCW_ZERO := true } (examplePadEnv [27, 13])
      (initialPort zeroGlobals)).s 0).testBit DKEY_START = true ∧
    (pad_read (pad_update sdl12 { plainBuild with GCW_ZERO := true } (examplePadEnv [27, 13])
      (initialPort zeroGlobals)).s 0).testBit DKEY_CROSS = true :=
  have hq : noQuit sdl12 { plainBuild with GCW_ZERO := true } (examplePadEnv [27, 13]).events := by
    unfold noQuit; decide
  have hm : ∀ g, (examplePadEnv [27, 13]).gameMenu g ≠ none := fun g h => by cases h
  ⟨rfl, hq, by decide, hm,
   pad_update_menu_returns sdl12 { plainBuild with GCW_ZERO := true } (examplePadEnv [27, 13])
     (initialPort zeroGlobals) rfl hq (by decide) hm⟩

end Pcsx4all

namespace Pcsx4all

/-! ## The overlay text -/

set_option maxRecDepth 100000 in
theorem fontdata8x8_length : fontdata8x8.length = 1024 := by decide

/-- C20 (amended): the table `fontdata8x8` has 128 entries of 8 bytes, and for
every character byte below 128 and every row `l` in `0..7` the index
`c * 8 + l` lies inside the table, so the read of `port_printf` returns the
byte of the table at that index, whether plain `char` is signed or not. -/
theorem fontByte_in_table (signedChar : Bool) (ch l : Nat) (hc : ch < 128) (hl : l < 8) :
    fontdata8x8.length = 128 * 8 ∧ ch * 8 + l < fontdata8x8.length ∧
    ∃ v, fontByte signedChar ch l = some v ∧ fontdata8x8.get? (ch * 8 + l) = some v := by
  have hlen := fontdata8x8_length
  have hidx : ch * 8 + l < fontdata8x8.length := by rw [hlen]; omega
  refine ⟨hlen, hidx, fontdata8x8.get ⟨ch * 8 + l, hidx⟩, ?_, List.get?_eq_get hidx⟩
  have hcv : charValue signedChar ch = (ch : Int) := by
    have : ¬ 128 ≤ ch := by omega
    simp [charValue, this]
  have hi : (0 : Int) ≤ (ch : Int) * 8 + (l : Int) ∧
      (ch : Int) * 8 + (l : Int) < (fontdata8x8.length : Int) := by
    rw [hlen]; constructor <;> omega
  have ht : ((ch : Int) * 8 + (l : Int)).toNat = ch * 8 + l := by omega
  simp only [fontByte, hcv, hi, and_self, if_true, ht]
  exact List.get?_eq_get hidx

set_option maxRecDepth 100000 in
/-- Witness of C20: the letter `A` (65), row 0, is the byte `0x38` at index
520. -/
theorem fontByte_in_table_witness :
    (65 : Nat) < 128 ∧ (0 : Nat) < 8 ∧ fontByte true 65 0 = some 0x38 ∧
    fontdata8x8.length = 128 * 8 ∧ 65 * 8 + 0 < fontdata8x8.length ∧
    ∃ v, fontByte true 65 0 = some v ∧ fontdata8x8.get? (65 * 8 + 0) = some v :=
  ⟨by decide, by decide, by decide, fontByte_in_table true 65 0 (by decide) (by decide)⟩

set_option maxRecDepth 100000 in
/-- C20 (counterexample): the table has 1024 bytes, so for the character byte
128 and row 0 the index `128 * 8 + 0` is not inside it; the read of
`port_printf` leaves the table (at index 1024 with an unsigned `char`, at index
-1024 with a signed one), and `port_printf` on a text with that byte has no
defined result. -/
theorem fontByte_outside_table :
    fontdata8x8.length = 1024 ∧ ¬ (128 * 8 + 0 < fontdata8x8.length) ∧
    fontByte false 128 0 = none ∧ fontByte true 128 0 = none ∧
    (port_printf false 0 0 [128, 0] (fun _ => 0)).isNone = true ∧
    (port_printf true 0 0 [128, 0] (fun _ => 0)).isNone = true := by
  refine ⟨by decide, by decide, by decide, by decide, by rfl, by rfl⟩

end Pcsx4all

namespace Pcsx4all

/-! ## The menu branch of `pad_update` -/

/-- The calls of `video_flip` with a non-null `screen`: `SDL_Flip`, after
`port_printf` when the frame rate is shown, and between unlock and lock when
the surface must be locked. -/
theorem video_flip_cases (mustLock : Bool) (s : Port) :
    video_flip mustLock s ∈
      [[PadCall.SDL_Flip], [PadCall.port_printf, PadCall.SDL_Flip],
       [PadCall.SDL_UnlockSurface, PadCall.SDL_Flip, PadCall.SDL_LockSurface],
       [PadCall.port_printf, PadCall.SDL_UnlockSurface, PadCall.SDL_Flip,
        PadCall.SDL_LockSurface]] := by
  unfold video_flip
  cases mustLock <;> by_cases h : s.emu_running = true ∧ s.g.Config.ShowFps ≠ 0 <;> simp [h]

/-- The calls of the menu branch when `GameMenu` returns. -/
theorem pad_menu_calls (b : Build) (env : PadEnv) (s : Port)
    (hmenu : ∀ g, env.gameMenu g ≠ none) :
    ∃ F, (pad_menu b env s).calls
        = [PadCall.sioSyncMcds, PadCall.set_emu_running false, PadCall.pl_pause,
           PadCall.GameMenu, PadCall.set_emu_running true, PadCall.set_pad1_bit DKEY_START,
           PadCall.set_pad1_bit DKEY_CROSS, PadCall.memset_pixels] ++ F ++
          [PadCall.memset_pixels] ++
          (if b.SDL_TRIPLEBUF = true then F ++ [PadCall.memset_pixels] else []) ++
          [PadCall.pl_resume] ∧
      F ∈ [[PadCall.SDL_Flip], [PadCall.port_printf, PadCall.SDL_Flip],
           [PadCall.SDL_UnlockSurface, PadCall.SDL_Flip, PadCall.SDL_LockSurface],
           [PadCall.port_printf, PadCall.SDL_UnlockSurface, PadCall.SDL_Flip,
            PadCall.SDL_LockSurface]] := by
  cases hg : env.gameMenu s.g with
  | none => exact absurd hg (hmenu _)
  | some g =>
    refine ⟨video_flip env.mustLock
      { g := g, pad1 := setBit (setBit s.pad1 DKEY_START) DKEY_CROSS, pad2 := s.pad2,
        emu_running := true }, ?_, video_flip_cases _ _⟩
    unfold pad_menu
    simp only [hg, video_clear]
    cases b.SDL_TRIPLEBUF <;> simp

/-- In the GCW build, a call of `pad_update` that meets no quit event while the
menu combination is held is the menu branch. -/
theorem pad_update_is_menu (k : Keysyms) (b : Build) (env : PadEnv) (s : Port)
    (hb : b.GCW_ZERO = true) (hq : noQuit k b env.events)
    (hcombo : menuCombo k env.keys = true) :
    ∃ s2, pad_update k b env s = pad_menu b env s2 := by
  have hp := poll_events_noQuit k b env.events hq s.g.Config.ShowFps
  refine ⟨{ g := { s.g with Config.ShowFps :=
                (poll_events k b env.events false s.g.Config.ShowFps).ShowFps }
            pad1 := pad_combos k env.keys (pad_keys env.keys (keymap k b) s.pad1)
            pad2 := s.pad2
            emu_running := s.emu_running }, ?_⟩
  simp only [pad_update, hp, hb, hcombo, Bool.false_eq_true, if_false, if_true]

/-- C21 (amended): in the GCW build, when `pad_update` finds the menu
combination held and `GameMenu` returns, its calls and assignments are, in this
order: `sioSyncMcds`, `emu_running = false`, `pl_pause`, `GameMenu`,
`emu_running = true`, the START bit and the CROSS bit of `pad1` set, clear,
flip, clear (and once more flip, clear with `SDL_TRIPLEBUF`), and `pl_resume`
last. -/
theorem pad_update_menu_order (k : Keysyms) (b : Build) (env : PadEnv) (s : Port)
    (hb : b.GCW_ZERO = true) (hq : noQuit k b env.events)
    (hcombo : menuCombo k env.keys = true) (hmenu : ∀ g, env.gameMenu g ≠ none) :
    ∃ F, (pad_update k b env s).calls
        = [PadCall.sioSyncMcds, PadCall.set_emu_running false, PadCall.pl_pause,
           PadCall.GameMenu, PadCall.set_emu_running true, PadCall.set_pad1_bit DKEY_START,
           PadCall.set_pad1_bit DKEY_CROSS, PadCall.memset_pixels] ++ F ++
          [PadCall.memset_pixels] ++
          (if b.SDL_TRIPLEBUF = true then F ++ [PadCall.memset_pixels] else []) ++
          [PadCall.pl_resume] ∧
      F ∈ [[PadCall.SDL_Flip], [PadCall.port_printf, PadCall.SDL_Flip],
           [PadCall.SDL_UnlockSurface, PadCall.SDL_Flip, PadCall.SDL_LockSurface],
           [PadCall.port_printf, PadCall.SDL_UnlockSurface, PadCall.SDL_Flip,
            PadCall.SDL_LockSurface]] := by
  obtain ⟨s2, e⟩ := pad_update_is_menu k b env s hb hq hcombo
  rw [e]
  exact pad_menu_calls b env s2 hmenu

/-- Witness of C21 with the key codes of SDL 1.2: Escape and Return are held,
the frame rate is shown, double buffering. -/
theorem pad_update_menu_order_witness :
    ({ plainBuild with GCW_ZERO := true } : Build).GCW_ZERO = true ∧
    noQuit sdl12 { plainBuild with GCW_ZERO := true } (examplePadEnv [27, 13]).events ∧
    menuCombo sdl12 (examplePadEnv [27, 13]).keys = true ∧
    (∀ g, (examplePadEnv [27, 13]).gameMenu g ≠ none) ∧
    ∃ F, (pad_update sdl12 { plainBuild with GCW_ZERO := true } (examplePadEnv [27, 13])
          (initialPort zeroGlobals)).calls
        = [PadCall.sioSyncMcds, PadCall.set_emu_running false, PadCall.pl_pause,
           PadCall.GameMenu, PadCall.set_emu_running true, PadCall.set_pad1_bit DKEY_START,
           PadCall.set_pad1_bit DKEY_CROSS, PadCall.memset_pixels] ++ F ++
          [PadCall.memset_pixels] ++
          (if ({ plainBuild with GCW_ZERO := true } : Build).SDL_TRIPLEBUF = true then
            F ++ [PadCall.memset_pixels] else []) ++
          [PadCall.pl_resume] ∧
      F ∈ [[PadCall.SDL_Flip], [PadCall.port_printf, PadCall.SDL_Flip],
           [PadCall.SDL_UnlockSurface, PadCall.SDL_Flip, PadCall.SDL_LockSurface],
           [PadCall.port_printf, PadCall.SDL_UnlockSurface, PadCall.SDL_Flip,
            PadCall.SDL_LockSurface]] :=
  have hq : noQuit sdl12 { plainBuild with GCW_ZERO := true } (examplePadEnv [27, 13]).events := by
    unfold noQuit; decide
  have hm : ∀ g, (examplePadEnv [27, 13]).gameMenu g ≠ none := fun g h => by cases h
  ⟨rfl, hq, by decide, hm,
   pad_update_menu_order sdl12 { plainBuild with GCW_ZERO := true } (examplePadEnv [27, 13])
     (initialPort zeroGlobals) rfl hq (by decide) hm⟩

/-- C21 (counterexample): with Escape and Return held in the GCW build, the
mode is set back to running (`emu_running = true`) directly after `GameMenu`,
before the buttons are released and before the buffers are cleared and
flipped, and `pl_resume` is the last call, behind all of them. -/
theorem pad_update_menu_order_differs :
    (pad_update sdl12 { plainBuild with GCW_ZERO := true } (examplePadEnv [27, 13])
        (initialPort zeroGlobals)).calls
      = [PadCall.sioSyncMcds, PadCall.set_emu_running false, PadCall.pl_pause,
         PadCall.GameMenu, PadCall.set_emu_running true, PadCall.set_pad1_bit DKEY_START,
         PadCall.set_pad1_bit DKEY_CROSS, PadCall.memset_pixels, PadCall.port_printf,
         PadCall.SDL_Flip, PadCall.memset_pixels, PadCall.pl_resume] ∧
    ¬ ((pad_update sdl12 { plainBuild with GCW_ZERO := true } (examplePadEnv [27, 13])
          (initialPort zeroGlobals)).calls.indexOf PadCall.pl_resume
        < (pad_update sdl12 { plainBuild with GCW_ZERO := true } (examplePadEnv [27, 13])
          (initialPort zeroGlobals)).calls.indexOf (PadCall.set_pad1_bit DKEY_START)) ∧
    ¬ ((pad_update sdl12 { plainBuild with GCW_ZERO := true } (examplePadEnv [27, 13])
          (initialPort zeroGlobals)).calls.indexOf PadCall.SDL_Flip
        < (pad_update sdl12 { plainBuild with GCW_ZERO := true } (examplePadEnv [27, 13])
          (initialPort zeroGlobals)).calls.indexOf (PadCall.set_emu_running true)) := by
  decide

/-- C22: in the GCW build, when `pad_update` finds the menu combination held
and `GameMenu` returns, the calls after `GameMenu` flip once with double
buffering and twice with `SDL_TRIPLEBUF`; and with `SDL_Flip` as a rotation
over the 2 or 3 buffers, whichever buffer is current and whatever the buffers
hold when the menu returns, no buffer holds a frame of the menu when
`pad_update` returns: each has been cleared. -/
theorem pad_update_menu_flips (k : Keysyms) (b : Build) (env : PadEnv) (s : Port)
    (cur : Nat) (hb : b.GCW_ZERO = true) (hq : noQuit k b env.events)
    (hcombo : menuCombo k env.keys = true) (hmenu : ∀ g, env.gameMenu g ≠ none)
    (hcur : cur < swapChainSize b) :
    (afterMenu (pad_update k b env s).calls).count PadCall.SDL_Flip
      = (if b.SDL_TRIPLEBUF = true then 2 else 1) ∧
    ((SwapChain.afterGameMenu (swapChainSize b) cur).run
      (afterMenu (pad_update k b env s).calls)).menuFrame
      = List.replicate (swapChainSize b) false := by
  obtain ⟨s2, e⟩ := pad_update_is_menu k b env s hb hq hcombo
  obtain ⟨F, hF, hmem⟩ := pad_menu_calls b env s2 hmenu
  rw [e, hF]
  simp only [List.mem_cons, List.mem_singleton, List.not_mem_nil, or_false] at hmem
  unfold swapChainSize at hcur ⊢
  cases hT : b.SDL_TRIPLEBUF
  · simp only [hT, Bool.false_eq_true, if_false] at hcur ⊢
    have hc : cur = 0 ∨ cur = 1 := by omega
    rcases hc with rfl | rfl <;> rcases hmem with rfl | rfl | rfl | rfl <;> decide
  · simp only [hT, if_true] at hcur ⊢
    have hc : cur = 0 ∨ cur = 1 ∨ cur = 2 := by omega
    rcases hc with rfl | rfl | rfl <;> rcases hmem with rfl | rfl | rfl | rfl <;> decide

/-- Witness of C22 with the key codes of SDL 1.2, triple buffering and the
second buffer current. -/
theorem pad_update_menu_flips_witness :
    ({ plainBuild with GCW_ZERO := true, SDL_TRIPLEBUF := true } : Build).GCW_ZERO = true ∧
    noQuit sdl12 { plainBuild with GCW_ZERO := true, SDL_TRIPLEBUF := true }
      (examplePadEnv [27, 13]).events ∧
    menuCombo sdl12 (examplePadEnv [27, 13]).keys = true ∧
    (∀ g, (examplePadEnv [27, 13]).gameMenu g ≠ none) ∧
    1 < swapChainSize { plainBuild with GCW_ZERO := true, SDL_TRIPLEBUF := true } ∧
    (afterMenu (pad_update sdl12 { plainBuild with GCW_ZERO := true, SDL_TRIPLEBUF := true }
      (examplePadEnv [27, 13]) (initialPort zeroGlobals)).calls).count PadCall.SDL_Flip
      = (if ({ plainBuild with GCW_ZERO := true, SDL_TRIPLEBUF := true } : Build).SDL_TRIPLEBUF
          = true then 2 else 1) ∧
    ((SwapChain.afterGameMenu
        (swapChainSize { plainBuild with GCW_ZERO := true, SDL_TRIPLEBUF := true }) 1).run
      (afterMenu (pad_update sdl12 { plainBuild with GCW_ZERO := true, SDL_TRIPLEBUF := true }
        (examplePadEnv [27, 13]) (initialPort zeroGlobals)).calls)).menuFrame
      = List.replicate
          (swapChainSize { plainBuild with GCW_ZERO := true, SDL_TRIPLEBUF := true }) false :=
  have hq : noQuit sdl12 { plainBuild with GCW_ZERO := true, SDL_TRIPLEBUF := true }
      (examplePadEnv [27, 13]).events := by
    unfold noQuit; decide
  have hm : ∀ g, (examplePadEnv [27, 13]).gameMenu g ≠ none := fun g h => by cases h
  ⟨rfl, hq, by decide, hm, by decide,
   pad_update_menu_flips sdl12 { plainBuild with GCW_ZERO := true, SDL_TRIPLEBUF := true }
     (examplePadEnv [27, 13]) (initialPort zeroGlobals) 1 rfl hq (by decide) hm (by decide)⟩

end Pcsx4all

namespace Pcsx4all

/-! ## Content load and execution -/

/-- The calls of `run_content` spelled out: the disc steps, the load of the
executable and `Execute` with the conditions under which they are made. -/
theorem run_content_explicit (env : Env) (trace : List Event) (iso fn : Bytes) (g : Globals) :
    (run_content env trace iso fn g).outcome = .exit 0 ∧
    (run_content env trace iso fn g).trace
      = trace ++ ([Event.pl_init, Event.psxReset] ++
          (if iso = [] then [] else if env.checkCdrom = -1 then [Event.CheckCdrom]
            else [Event.CheckCdrom, Event.LoadCdrom]) ++
          (if fn = [] then [] else [Event.Load]) ++
          (if (iso ≠ [] ∧ env.checkCdrom ≠ -1 ∧ env.loadCdrom ≠ -1) ∨
              (fn ≠ [] ∧ env.load ≠ -1) ∨ g.Config.HLE = 0 then [Event.Execute] else []) ++
          [Event.SDL_Quit, Event.ReleasePlugins, Event.psxShutdown, Event.config_save]) := by
  unfold run_content
  simp only []
  refine ⟨(finish_screen _ _ _ _).2, ?_⟩
  rw [(finish_screen _ _ _ _).1]
  by_cases h1 : iso = [] <;> by_cases h2 : env.checkCdrom = -1 <;>
    by_cases h3 : env.loadCdrom = -1 <;> by_cases h4 : fn = [] <;>
    by_cases h5 : env.load = -1 <;> by_cases h6 : g.Config.HLE = 0 <;>
    simp [h1, h2, h3, h4, h5, h6]

/-- After a successful initialisation `run_init` goes on with `run_content` on
the name of the disc image that is selected then. -/
theorem run_init_to_content (env : Env) (argc : Nat) (trace : List Event) (s : CliState)
    (hv : env.videoMode = true) (hs : (argc < 2 ∨ s.isoFile = []) → env.selectGame ≠ none)
    (hp : env.psxInit ≠ -1) (hl : env.loadPlugins ≠ -1) :
    run_init env argc trace s
      = run_content env
          (trace ++ ([Event.SDL_Init, Event.atexit, Event.SDL_SetVideoMode] ++
            (if argc < 2 ∨ s.isoFile = [] then [Event.SelectGame] else []) ++
            [Event.psxInit, Event.LoadPlugins]))
          (if argc < 2 ∨ s.isoFile = [] then env.selectGame.getD s.isoFile else s.isoFile)
          s.filename s.g := by
  by_cases he : argc < 2 ∨ s.isoFile = []
  · have he' : (decide (argc < 2) || decide (s.isoFile = [])) = true := by simpa using he
    obtain ⟨p, hsel⟩ : ∃ p, env.selectGame = some p := by
      cases hsel : env.selectGame with
      | none => exact absurd hsel (hs he)
      | some p => exact ⟨p, rfl⟩
    simp [run_init, hv, he', he, hsel, hp, hl]
  · have he' : (decide (argc < 2) || decide (s.isoFile = [])) = false := by simpa using he
    simp [run_init, hv, he', he, hp, hl]

set_option maxHeartbeats 2000000 in
/-- C23: after a successful initialisation (command line parsed, display
acquired, content selected where needed, `psxInit` and `LoadPlugins`
succeeded), `Execute` is called, and then once, exactly when the disc image is
still selected after `CheckCdrom` and `LoadCdrom`, or the executable was
loaded, or `Config.HLE` is 0. A failing `CheckCdrom`, `LoadCdrom` or `Load`
does not end start-up: `Load` is still called for a given executable, and in
every case `SDL_main` returns 0. -/
theorem SDL_main_execute (c : Consts) (b : Build) (env : Env) (argv : List Bytes)
    (g0 : Globals) (home : Bytes) (s : CliState) (hhome : env.home = some home)
    (hcli : cli_parse c b argv (cli_start c b env home g0) = .done s)
    (hv : env.videoMode = true)
    (hs : (argv.length < 2 ∨ s.isoFile = []) → env.selectGame ≠ none)
    (hp : env.psxInit ≠ -1) (hl : env.loadPlugins ≠ -1) :
    (SDL_main c b env argv g0).outcome = .exit 0 ∧
    (Event.Execute ∈ (SDL_main c b env argv g0).trace ↔
      (((if argv.length < 2 ∨ s.isoFile = [] then env.selectGame.getD s.isoFile
          else s.isoFile) ≠ [] ∧ env.checkCdrom ≠ -1 ∧ env.loadCdrom ≠ -1) ∨
        (s.filename ≠ [] ∧ env.load ≠ -1) ∨ s.g.Config.HLE = 0)) ∧
    (SDL_main c b env argv g0).trace.count Event.Execute ≤ 1 ∧
    (Event.CheckCdrom ∈ (SDL_main c b env argv g0).trace ↔
      (if argv.length < 2 ∨ s.isoFile = [] then env.selectGame.getD s.isoFile
        else s.isoFile) ≠ []) ∧
    (Event.LoadCdrom ∈ (SDL_main c b env argv g0).trace ↔
      ((if argv.length < 2 ∨ s.isoFile = [] then env.selectGame.getD s.isoFile
        else s.isoFile) ≠ [] ∧ env.checkCdrom ≠ -1)) ∧
    (Event.Load ∈ (SDL_main c b env argv g0).trace ↔ s.filename ≠ []) := by
  rw [SDL_main_of_done c b env home argv g0 s hhome hcli,
    run_init_to_content env argv.length _ s hv hs hp hl]
  obtain ⟨ho, ht⟩ := run_content_explicit env
    ([Event.setup_paths, Event.config_load, Event.probe_lastdir] ++
      ([Event.SDL_Init, Event.atexit, Event.SDL_SetVideoMode] ++
        (if argv.length < 2 ∨ s.isoFile = [] then [Event.SelectGame] else []) ++
        [Event.psxInit, Event.LoadPlugins]))
    (if argv.length < 2 ∨ s.isoFile = [] then env.selectGame.getD s.isoFile else s.isoFile)
    s.filename s.g
  rw [ht]
  refine ⟨ho, ?_⟩
  generalize (if argv.length < 2 ∨ s.isoFile = [] then env.selectGame.getD s.isoFile
    else s.isoFile) = iso
  by_cases he : argv.length < 2 ∨ s.isoFile = [] <;> by_cases h1 : iso = [] <;>
    by_cases h2 : env.checkCdrom = -1 <;> by_cases h3 : env.loadCdrom = -1 <;>
    by_cases h4 : s.filename = [] <;> by_cases h5 : env.load = -1 <;>
    by_cases h6 : s.g.Config.HLE = 0 <;>
    simp only [he, h1, h2, h3, h4, h5, h6, if_true, if_false, ne_eq, not_true_eq_false,
      not_false_eq_true, and_true, true_and, and_false, false_and, or_true, true_or, or_false,
      false_or, and_self, or_self] <;>
    decide

/-- Witness of C23: `-iso game.bin -file game.exe` where the disc fails the
check and the executable loads: `Execute` is called and start-up returns 0. -/
theorem SDL_main_execute_witness :
    ({ exampleEnv none with checkCdrom := -1 } : Env).home = some (cs "/home/user") ∧
    (SDL_main exampleConsts plainBuild { exampleEnv none with checkCdrom := -1 }
      [cs "pcsx4all", cs "-iso", cs "game.bin", cs "-file", cs "game.exe"]
      zeroGlobals).outcome = .exit 0 ∧
    (SDL_main exampleConsts plainBuild { exampleEnv none with checkCdrom := -1 }
      [cs "pcsx4all", cs "-iso", cs "game.bin", cs "-file", cs "game.exe"] zeroGlobals).trace
      = [Event.setup_paths, Event.config_load, Event.probe_lastdir, Event.SDL_Init,
         Event.atexit, Event.SDL_SetVideoMode, Event.psxInit, Event.LoadPlugins, Event.pl_init,
         Event.psxReset, Event.CheckCdrom, Event.Load, Event.Execute, Event.SDL_Quit,
         Event.ReleasePlugins, Event.psxShutdown, Event.config_save] ∧
    (Event.Execute ∈ (SDL_main exampleConsts plainBuild { exampleEnv none with checkCdrom := -1 }
      [cs "pcsx4all", cs "-iso", cs "game.bin", cs "-file", cs "game.exe"]
      zeroGlobals).trace ↔
      (((if [cs "pcsx4all", cs "-iso", cs "game.bin", cs "-file", cs "game.exe"].length < 2 ∨
            cs "game.bin" = []
          then ({ exampleEnv none with checkCdrom := -1 } : Env).selectGame.getD (cs "game.bin")
          else cs "game.bin") ≠ [] ∧
          ({ exampleEnv none with checkCdrom := -1 } : Env).checkCdrom ≠ -1 ∧
          ({ exampleEnv none with checkCdrom := -1 } : Env).loadCdrom ≠ -1) ∨
        (cs "game.exe" ≠ [] ∧ ({ exampleEnv none with checkCdrom := -1 } : Env).load ≠ -1) ∨
        (1 : Int) = 0)) :=
  ⟨rfl, by decide, by decide,
   (SDL_main_execute exampleConsts plainBuild { exampleEnv none with checkCdrom := -1 }
      [cs "pcsx4all", cs "-iso", cs "game.bin", cs "-file", cs "game.exe"] zeroGlobals
      (cs "/home/user")
      { g := { exampleDefaults with Config.LastDir := cs "/home/user" }
        isoFile := cs "game.bin", filename := cs "game.exe" }
      rfl rfl rfl (by decide) (by decide) (by decide)).2.1⟩

end Pcsx4all

namespace Pcsx4all

/-! ## What the stages of the loop body leave alone -/

theorem cli_pcsx_flags_keeps (a : Bytes) (s : CliState) :
    (cli_pcsx_flags a s).g.Config.SyncAudio = s.g.Config.SyncAudio ∧
    (cli_pcsx_flags a s).isoFile = s.isoFile := by
  by_cases h : a ∈ [cs "-noxa", cs "-bwmdec", cs "-pal", cs "-ntsc", cs "-nocdda", cs "-bios",
      cs "-interpreter", cs "-slowboot", cs "-rcntfix", cs "-vsyncwa", cs "-spuirq"]
  · simp only [List.mem_cons, List.mem_singleton, List.not_mem_nil, or_false] at h
    casesm* _ ∨ _ <;> subst_vars <;> exact ⟨rfl, rfl⟩
  · rw [cli_pcsx_flags_id a s h]
    exact ⟨rfl, rfl⟩

theorem cli_iso_keeps (a : Bytes) (rest : List Bytes) (s : CliState) :
    (cli_iso a rest s).g = s.g ∧
    (cli_iso a rest s).isoFile
      = (if a = cs "-iso" then (match rest with | [] => [] | p :: _ => cstr p)
          else s.isoFile) := by
  unfold cli_iso
  split
  · cases rest <;> exact ⟨rfl, rfl⟩
  · exact ⟨rfl, rfl⟩

theorem cli_file_keeps (x x' : Cursor) (h : cli_file x = .ok x') :
    x'.arg = x.arg ∧ x'.rest = x.rest ∧ x'.skipped = x.skipped ∧ x'.s.g = x.s.g ∧
    x'.s.isoFile = x.s.isoFile := by
  unfold cli_file at h
  split at h
  · split at h
    · cases h
    · split at h
      · cases h; exact ⟨rfl, rfl, rfl, rfl, rfl⟩
      · cases h
  · cases h; exact ⟨rfl, rfl, rfl, rfl, rfl⟩

theorem cli_syncaudio_keeps (a : Bytes) (s : CliState) :
    (cli_syncaudio a s).g.Config.SyncAudio
      = (if a = cs "-syncaudio" then 0 else s.g.Config.SyncAudio) ∧
    (cli_syncaudio a s).isoFile = s.isoFile := by
  unfold cli_syncaudio
  split <;> exact ⟨rfl, rfl⟩

theorem cli_spuupdatefreq_keeps (c : Consts) (x x' : Cursor)
    (h : cli_spuupdatefreq c x = .ok x') :
    x'.s.g.Config.SyncAudio = x.s.g.Config.SyncAudio ∧ x'.s.isoFile = x.s.isoFile := by
  unfold cli_spuupdatefreq at h
  split at h
  · split at h
    · cases h
    · simp only [] at h
      split at h
      · split at h
        · cases h
        · cases h; exact ⟨rfl, rfl⟩
      · cases h
  · cases h; exact ⟨rfl, rfl⟩

theorem cli_forcedxaupdates_keeps (c : Consts) (x x' : Cursor)
    (h : cli_forcedxaupdates c x = .ok x') :
    x'.s.g.Config.SyncAudio = x.s.g.Config.SyncAudio ∧ x'.s.isoFile = x.s.isoFile := by
  unfold cli_forcedxaupdates at h
  split at h
  · split at h
    · cases h
    · simp only [] at h
      split at h
      · split at h
        · cases h
        · cases h; exact ⟨rfl, rfl⟩
      · cases h
  · cases h; exact ⟨rfl, rfl⟩

theorem cli_display_flags_keeps (a : Bytes) (s : CliState) :
    (cli_display_flags a s).g.Config.SyncAudio = s.g.Config.SyncAudio ∧
    (cli_display_flags a s).isoFile = s.isoFile := by
  by_cases h : a ∈ [cs "-perfmon", cs "-showfps", cs "-noframelimit"]
  · simp only [List.mem_cons, List.mem_singleton, List.not_mem_nil, or_false] at h
    casesm* _ ∨ _ <;> subst_vars <;> exact ⟨rfl, rfl⟩
  · rw [cli_display_flags_id a s h]
    exact ⟨rfl, rfl⟩

theorem cli_frameskip_keeps (x x' : Cursor) (h : cli_frameskip x = .ok x') :
    x'.s.g.Config.SyncAudio = x.s.g.Config.SyncAudio ∧ x'.s.isoFile = x.s.isoFile := by
  unfold cli_frameskip at h
  split at h
  · split at h
    · cases h
    · simp only [] at h
      split at h
      · cases h
      · cases h
        dsimp only
        split <;> exact ⟨rfl, rfl⟩
  · cases h; exact ⟨rfl, rfl⟩

theorem cli_gpu_unai_keeps (b : Build) (a : Bytes) (s : CliState) :
    (cli_gpu_unai b a s).g.Config.SyncAudio = s.g.Config.SyncAudio ∧
    (cli_gpu_unai b a s).isoFile = s.isoFile := by
  by_cases h : a ∈ [cs "-interlace", cs "-dither", cs "-nolight", cs "-noblend",
      cs "-nofastlight", cs "-nopixelskip", cs "-progressive"]
  · obtain ⟨x1, x2, unai, gpulib, x3, x4, x5⟩ := b
    simp only [List.mem_cons, List.mem_singleton, List.not_mem_nil, or_false] at h
    casesm* _ ∨ _ <;> subst_vars <;> cases unai <;> cases gpulib <;> exact ⟨rfl, rfl⟩
  · rw [cli_gpu_unai_id b a s h]
    exact ⟨rfl, rfl⟩

theorem cli_spu_flags_keeps (a : Bytes) (s : CliState) :
    (cli_spu_flags a s).g.Config = s.g.Config ∧ (cli_spu_flags a s).isoFile = s.isoFile := by
  by_cases h : a ∈ [cs "-silent", cs "-reverb", cs "-xapitch", cs "-threaded_spu",
      cs "-nofixedupdates"]
  · simp only [List.mem_cons, List.mem_singleton, List.not_mem_nil, or_false] at h
    casesm* _ ∨ _ <;> subst_vars <;> exact ⟨rfl, rfl⟩
  · simp only [List.mem_cons, List.mem_singleton, List.not_mem_nil, or_false, not_or] at h
    simp only [cli_spu_flags, h, if_false, and_self]

theorem cli_interpolation_keeps (x x' : Cursor) (h : cli_interpolation x = .ok x') :
    x'.s.g.Config = x.s.g.Config ∧ x'.s.isoFile = x.s.isoFile := by
  unfold cli_interpolation at h
  split at h
  · split at h
    · cases h
    · simp only [] at h
      split_ifs at h <;> cases h <;> exact ⟨rfl, rfl⟩
  · cases h; exact ⟨rfl, rfl⟩

theorem cli_volume_keeps (x x' : Cursor) (h : cli_volume x = .ok x') :
    x'.s.g.Config = x.s.g.Config ∧ x'.s.isoFile = x.s.isoFile := by
  unfold cli_volume at h
  split at h
  · split at h
    · cases h
    · simp only [] at h
      split at h
      · cases h
      · cases h; exact ⟨rfl, rfl⟩
  · cases h; exact ⟨rfl, rfl⟩

theorem cli_notempo_keeps (a : Bytes) (s : CliState) :
    (cli_notempo a s).g.Config = s.g.Config ∧ (cli_notempo a s).isoFile = s.isoFile := by
  unfold cli_notempo
  split <;> exact ⟨rfl, rfl⟩

theorem cli_spu_keeps (b : Build) (x x' : Cursor) (h : cli_spu b x = .ok x') :
    x'.s.g.Config.SyncAudio = x.s.g.Config.SyncAudio ∧ x'.s.isoFile = x.s.isoFile := by
  unfold cli_spu at h
  split at h
  · split at h
    · cases h
    · rename_i x1 h1
      split at h
      · cases h
      · rename_i x2 h2
        cases h
        have k1 := cli_interpolation_keeps _ _ h1
        have k2 := cli_volume_keeps _ _ h2
        have k0 := cli_spu_flags_keeps x.arg x.s
        have k3 := cli_notempo_keeps x2.arg x2.s
        dsimp only at k1 k2 ⊢
        refine ⟨?_, ?_⟩
        · rw [k3.1, k2.1, k1.1, k0.1]
        · rw [k3.2, k2.2, k1.2, k0.2]
  · cases h; exact ⟨rfl, rfl⟩

theorem cli_iso_isoFile (a : Bytes) (rest : List Bytes) (s1 s2 : CliState)
    (h : s1.isoFile = s2.isoFile) :
    (cli_iso a rest s1).isoFile = (cli_iso a rest s2).isoFile := by
  rw [(cli_iso_keeps a rest s1).2, (cli_iso_keeps a rest s2).2, h]

/-- One iteration of the loop that ends normally: `Config.SyncAudio` is 0
when the iteration started with `-syncaudio` and as before otherwise, and the
name of the disc image is the one that the test for `-iso` left. -/
theorem cli_body_keeps (c : Consts) (b : Build) (a : Bytes) (rest : List Bytes) (s : CliState)
    (x : Cursor) (h : cli_body c b ⟨a, rest, 0, s⟩ = .ok x) :
    x.s.g.Config.SyncAudio = (if a = cs "-syncaudio" then 0 else s.g.Config.SyncAudio) ∧
    x.s.isoFile = (cli_iso a rest s).isoFile := by
  unfold cli_body at h
  dsimp only at h
  split at h
  · cases h
  · rename_i x1 h1
    split at h
    · cases h
    · rename_i x2 h2
      split at h
      · cases h
      · rename_i x3 h3
        split at h
        · cases h
        · rename_i x4 h4
          have k1 := cli_file_keeps _ _ h1
          have k2 := cli_spuupdatefreq_keeps c _ _ h2
          have k3 := cli_forcedxaupdates_keeps c _ _ h3
          have k4 := cli_frameskip_keeps _ _ h4
          have k5 := cli_spu_keeps b _ _ h
          have p1 := cli_pcsx_flags_keeps a s
          have p2 := cli_iso_keeps a rest (cli_pcsx_flags a s)
          have p3 := cli_syncaudio_keeps x1.arg x1.s
          have p4 := cli_display_flags_keeps x3.arg x3.s
          have p5 := cli_gpu_unai_keeps b x4.arg x4.s
          dsimp only at k1 k2 k3 k4 k5
          obtain ⟨ka, -, -, kg, ki⟩ := k1
          refine ⟨?_, ?_⟩
          · rw [k5.1, p5.1, k4.1, p4.1, k3.1, k2.1, p3.1, ka, kg, p2.1, p1.1]
          · rw [k5.2, p5.2, k4.2, p4.2, k3.2, k2.2, p3.2, ki]
            exact cli_iso_isoFile a rest _ _ p1.2

end Pcsx4all

namespace Pcsx4all

/-! ## The name of the disc image after the command line -/

end Pcsx4all

namespace Pcsx4all

end Pcsx4all

namespace Pcsx4all

/-! ## The pixels that `port_printf` writes -/

theorem fontByte_ascii (signedChar : Bool) (ch l : Nat) (hc : ch < 128) (hl : l < 8) :
    fontByte signedChar ch l = some (fontdata8x8.getD (ch * 8 + l) 0) := by
  have hlen := fontdata8x8_length
  have hidx : ch * 8 + l < fontdata8x8.length := by rw [hlen]; omega
  have hcv : charValue signedChar ch = (ch : Int) := by
    have : ¬ 128 ≤ ch := by omega
    simp [charValue, this]
  have hi : (0 : Int) ≤ (ch : Int) * 8 + (l : Int) ∧
      (ch : Int) * 8 + (l : Int) < (fontdata8x8.length : Int) := by
    rw [hlen]; constructor <;> omega
  have ht : ((ch : Int) * 8 + (l : Int)).toNat = ch * 8 + l := by omega
  simp only [fontByte, hcv, hi, and_self, if_true, ht]
  rw [List.get?_eq_get hidx, List.getD_eq_getElem _ _ hidx]
  rfl

theorem pixelOf_two_pow (byte j : Nat) :
    pixelOf byte (2 ^ j) = if byte.testBit j then 0xFFFF else 0x0000 := by
  unfold pixelOf
  cases hb : byte.testBit j with
  | true =>
    have hne : byte &&& 2 ^ j ≠ 0 := by
      intro h0
      have ht : (byte &&& 2 ^ j).testBit j = true := by
        rw [Nat.testBit_and, hb, Nat.testBit_two_pow_self]; rfl
      rw [h0, Nat.zero_testBit] at ht
      cases ht
    simp only [hne, ne_eq, not_false_eq_true, if_true]
  | false =>
    have h0 : byte &&& 2 ^ j = 0 := by
      apply Nat.eq_of_testBit_eq
      intro i
      rw [Nat.testBit_and, Nat.testBit_two_pow, Nat.zero_testBit]
      by_cases hji : j = i
      · subst hji; simp [hb]
      · simp [hji]
    simp only [h0, ne_eq, not_true_eq_false, if_false, Bool.false_eq_true]

theorem pixelOf_glyph (ch l c : Nat) :
    pixelOf (fontdata8x8.getD (ch * 8 + l) 0) (2 ^ (7 - c)) = glyphPixel ch l c := by
  rw [pixelOf_two_pow]
  rfl

theorem writePixel_nat (f : Frame) (p : Int) (q v : Nat) (hp : p = (q : Int))
    (hq : q < 76800) :
    writePixel f p v = some (fun r => if r = q then v else f r) := by
  subst hp
  have h : (0 : Int) ≤ (q : Int) ∧ (q : Int) < 320 * 240 := by constructor <;> omega
  simp only [writePixel, h, and_self, if_true, Int.toNat_ofNat]

/-- One row of a glyph: the eight pixels from `P + l * 320` on hold the bits
of the glyph byte, most significant first, and every other pixel is as before. -/
theorem putGlyphRow_spec (signedChar : Bool) (f : Frame) (P ch l : Nat) (hc : ch < 128)
    (hl : l < 8) (hP : P + l * 320 + 8 ≤ 76800) :
    ∃ f', putGlyphRow signedChar f (P : Int) ch l = some f' ∧
      (∀ c, c < 8 → f' (P + l * 320 + c) = glyphPixel ch l c) ∧
      (∀ q, (∀ c, c < 8 → q ≠ P + l * 320 + c) → f' q = f q) := by
  have e0 := pixelOf_glyph ch l 0
  have e1 := pixelOf_glyph ch l 1
  have e2 := pixelOf_glyph ch l 2
  have e3 := pixelOf_glyph ch l 3
  have e4 := pixelOf_glyph ch l 4
  have e5 := pixelOf_glyph ch l 5
  have e6 := pixelOf_glyph ch l 6
  have e7 := pixelOf_glyph ch l 7
  simp only [Nat.sub_zero, Nat.reducePow, Nat.reduceSub] at e0 e1 e2 e3 e4 e5 e6 e7
  have w : ∀ (g : Frame) (c v : Nat), c < 8 →
      writePixel g ((P : Int) + (l : Int) * 320 + (c : Int)) v
        = some (fun r => if r = P + l * 320 + c then v else g r) := by
    intro g c v hc8
    exact writePixel_nat g _ (P + l * 320 + c) v (by push_cast; ring) (by omega)
  have w0 := fun g v => w g 0 v (by decide)
  have w1 := fun g v => w g 1 v (by decide)
  have w2 := fun g v => w g 2 v (by decide)
  have w3 := fun g v => w g 3 v (by decide)
  have w4 := fun g v => w g 4 v (by decide)
  have w5 := fun g v => w g 5 v (by decide)
  have w6 := fun g v => w g 6 v (by decide)
  have w7 := fun g v => w g 7 v (by decide)
  simp only [Nat.cast_ofNat, Nat.cast_zero, Nat.cast_one] at w0 w1 w2 w3 w4 w5 w6 w7
  have hrun : putGlyphRow signedChar f (P : Int) ch l
      = some (fun r =>
          if r = P + l * 320 + 7 then glyphPixel ch l 7
          else if r = P + l * 320 + 6 then glyphPixel ch l 6
          else if r = P + l * 320 + 5 then glyphPixel ch l 5
          else if r = P + l * 320 + 4 then glyphPixel ch l 4
          else if r = P + l * 320 + 3 then glyphPixel ch l 3
          else if r = P + l * 320 + 2 then glyphPixel ch l 2
          else if r = P + l * 320 + 1 then glyphPixel ch l 1
          else if r = P + l * 320 + 0 then glyphPixel ch l 0
          else f r) := by
    simp only [putGlyphRow, fontByte_ascii signedChar ch l hc hl, Option.bind_eq_bind,
      Option.some_bind, w0, w1, w2, w3, w4, w5, w6, w7, e0, e1, e2, e3, e4, e5, e6, e7]
  refine ⟨_, hrun, ?_, ?_⟩
  · intro c hc8
    have hcases : c = 0 ∨ c = 1 ∨ c = 2 ∨ c = 3 ∨ c = 4 ∨ c = 5 ∨ c = 6 ∨ c = 7 := by omega
    casesm* _ ∨ _ <;> subst_vars <;> simp
  · intro q hq
    have h0 := hq 0 (by decide)
    have h1 := hq 1 (by decide)
    have h2 := hq 2 (by decide)
    have h3 := hq 3 (by decide)
    have h4 := hq 4 (by decide)
    have h5 := hq 5 (by decide)
    have h6 := hq 6 (by decide)
    have h7 := hq 7 (by decide)
    simp only [h0, h1, h2, h3, h4, h5, h6, h7, if_false]

/-- The rows `l` to `l + n - 1` of a glyph. -/
theorem putGlyph_spec (signedChar : Bool) (P ch : Nat) (hc : ch < 128) (hP : P + 2248 ≤ 76800) :
    ∀ (n l : Nat) (f : Frame), l + n ≤ 8 →
      ∃ f', putGlyph signedChar (P : Int) ch n l f = some f' ∧
        (∀ r c, l ≤ r → r < l + n → c < 8 → f' (P + r * 320 + c) = glyphPixel ch r c) ∧
        (∀ q, (∀ r c, l ≤ r → r < l + n → c < 8 → q ≠ P + r * 320 + c) → f' q = f q) := by
  intro n
  induction n with
  | zero =>
    intro l f _
    refine ⟨f, rfl, ?_, fun _ _ => rfl⟩
    intro r c h1 h2
    omega
  | succ n ih =>
    intro l f hl
    obtain ⟨f1, hrow, hin1, hout1⟩ := putGlyphRow_spec signedChar f P ch l hc (by omega)
      (by omega)
    obtain ⟨f2, hrest, hin2, hout2⟩ := ih (l + 1) f1 (by omega)
    refine ⟨f2, ?_, ?_, ?_⟩
    · simp only [putGlyph, hrow, hrest]
    · intro r c h1 h2 h3
      by_cases hr : r = l
      · subst hr
        rw [hout2 _ (fun r2 c2 k1 k2 k3 => by omega)]
        exact hin1 c h3
      · exact hin2 r c (by omega) (by omega) h3
    · intro q hq
      rw [hout2 q (fun r c k1 k2 k3 => hq r c (by omega) (by omega) k3)]
      exact hout1 q (fun c k3 => hq l c (le_refl l) (by omega) k3)

/-- The loop over the characters: glyph `i` of the text fills the eight rows
from row `y` on and the eight columns from column `x + 8 * i` on. -/
theorem port_printf_loop_spec (signedChar : Bool) (y : Nat) (hy : y + 8 ≤ 240) :
    ∀ (t : Bytes) (x : Nat) (f : Frame), (∀ ch ∈ t, ch < 128) → x + 8 * t.length ≤ 320 →
      ∃ f', port_printf_loop signedChar t ((x : Int) + (y : Int) * 320) f = some f' ∧
        (∀ i r c, i < t.length → r < 8 → c < 8 →
          f' ((y + r) * 320 + (x + 8 * i + c)) = glyphPixel (t.getD i 0) r c) ∧
        (∀ q, (∀ i r c, i < t.length → r < 8 → c < 8 → q ≠ (y + r) * 320 + (x + 8 * i + c)) →
          f' q = f q) := by
  intro t
  induction t with
  | nil =>
    intro x f _ _
    refine ⟨f, rfl, ?_, fun _ _ => rfl⟩
    intro i r c h1
    simp at h1
  | cons ch rest ih =>
    intro x f hch hx
    rw [List.length_cons] at hx
    have hc : ch < 128 := hch ch (List.mem_cons_self _ _)
    have hp : ((x : Int) + (y : Int) * 320) = ((x + y * 320 : Nat) : Int) := by push_cast; ring
    obtain ⟨f1, hg, hin1, hout1⟩ := putGlyph_spec signedChar (x + y * 320) ch hc (by omega)
      8 0 f (by omega)
    have hp2 : ((x : Int) + (y : Int) * 320) + 8 = (((x + 8 : Nat) : Int) + (y : Int) * 320) := by
      push_cast; ring
    obtain ⟨f2, hrest, hin2, hout2⟩ := ih (x + 8) f1
      (fun c hc' => hch c (List.mem_cons_of_mem _ hc')) (by omega)
    refine ⟨f2, ?_, ?_, ?_⟩
    · simp only [port_printf_loop]
      rw [hp, hg]
      simp only []
      rw [← hp, hp2]
      exact hrest
    · intro i r c h1 h2 h3
      cases i with
      | zero =>
        rw [hout2 _ (fun i2 r2 c2 k1 k2 k3 => by omega)]
        have e : (y + r) * 320 + (x + 8 * 0 + c) = x + y * 320 + r * 320 + c := by ring
        rw [e, List.getD_cons_zero]
        exact hin1 r c (Nat.zero_le r) (by omega) h3
      | succ j =>
        rw [List.length_cons] at h1
        have e : (y + r) * 320 + (x + 8 * (j + 1) + c) = (y + r) * 320 + (x + 8 + 8 * j + c) := by
          ring
        rw [e, List.getD_cons_succ]
        exact hin2 j r c (by omega) h2 h3
    · intro q hq
      rw [hout2 q (fun i r c k1 k2 k3 => by
        have := hq (i + 1) r c (by rw [List.length_cons]; omega) k2 k3
        omega)]
      refine hout1 q (fun r c k1 k2 k3 => ?_)
      have := hq 0 r c (by rw [List.length_cons]; omega) (by omega) k3
      omega

end Pcsx4all

namespace Pcsx4all

set_option maxRecDepth 100000 in
/-- C25 (counterexample): `x = -8`, `y = 1` and the text `A` meet
`x + 8n <= 320` and `y + 8 <= 240`; `port_printf` writes the glyph at the end of
the rows 0 to 7, so the pixel at column 312 of row 0, which is outside the
rectangle of the columns `x .. x + 8n - 1` and the rows `y .. y + 7`, changes
from `0x1234` to 0; with `y = -1` the first write is in front of the buffer. -/
theorem port_printf_negative_column :
    (-8 : Int) + 8 * 1 ≤ 320 ∧ (1 : Int) + 8 ≤ 240 ∧
    ¬ ((-8 : Int) ≤ 312 ∧ (312 : Int) < -8 + 8 * 1 ∧ (1 : Int) ≤ 0 ∧ (0 : Int) < 1 + 8) ∧
    exampleFrame (0 * 320 + 312) = 0x1234 ∧
    (port_printf false (-8) 1 (cs "A") exampleFrame).map (fun f => f (0 * 320 + 312))
      = some 0x0000 ∧
    (port_printf false 0 (-1) (cs "A") exampleFrame).isNone = true := by
  refine ⟨by decide, by decide, by decide, rfl, by rfl, by rfl⟩

/-- C25 (amended): for coordinates `x >= 0` and `y >= 0`, every text whose `n`
characters (the bytes in front of the first NUL) are below 128, and
`x + 8n <= 320`, `y + 8 <= 240`, the call `port_printf(x, y, text)` writes every
pixel inside the 320x240 pixels, and afterwards the pixel at column
`x + 8i + c` of row `y + l` (`i < n`, `c, l < 8`) is 0xFFFF when bit `7 - c` of
the byte `fontdata8x8[text[i] * 8 + l]` is set and 0x0000 otherwise
(`glyphPixel`), and every pixel outside the rectangle of the columns
`x .. x + 8n - 1` and the rows `y .. y + 7` is as before. -/
theorem port_printf_pixels (signedChar : Bool) (x y : Nat) (text : Bytes) (SCREEN : Frame)
    (hch : ∀ ch ∈ cstr text, ch < 128) (hx : x + 8 * (cstr text).length ≤ 320)
    (hy : y + 8 ≤ 240) :
    ∃ f', port_printf signedChar (x : Int) (y : Int) text SCREEN = some f' ∧
      (∀ i c l, i < (cstr text).length → c < 8 → l < 8 →
        f' ((y + l) * 320 + (x + 8 * i + c)) = glyphPixel ((cstr text).getD i 0) l c) ∧
      (∀ col row, col < 320 → row < 240 →
        ¬ (x ≤ col ∧ col < x + 8 * (cstr text).length ∧ y ≤ row ∧ row < y + 8) →
        f' (row * 320 + col) = SCREEN (row * 320 + col)) := by
  obtain ⟨f', hrun, hin, hout⟩ := port_printf_loop_spec signedChar y hy (cstr text) x SCREEN
    hch hx
  refine ⟨f', hrun, fun i c l h1 h2 h3 => hin i l c h1 h3 h2, ?_⟩
  intro col row hcol hrow hrect
  apply hout
  intro i r c h1 h2 h3 heq
  apply hrect
  omega

set_option maxRecDepth 100000 in
/-- Witness of C25: the text `A` at column 16 of row 8 on a buffer filled with
`0x1234`: row 0 of the glyph is the byte `0x38`, so the pixels at the columns 18
to 20 of row 8 are 0xFFFF, the pixel at column 16 is 0, and the pixel at column
24 is as before. -/
theorem port_printf_pixels_witness :
    (∀ ch ∈ cstr (cs "A"), ch < 128) ∧ 16 + 8 * (cstr (cs "A")).length ≤ 320 ∧
    glyphPixel 65 0 0 = 0x0000 ∧ glyphPixel 65 0 2 = 0xFFFF ∧
    (port_printf false 16 8 (cs "A") exampleFrame).map
      (fun f => [f (8 * 320 + 16), f (8 * 320 + 18), f (8 * 320 + 24)])
      = some [0x0000, 0xFFFF, 0x1234] ∧
    ∃ f', port_printf false ((16 : Nat) : Int) ((8 : Nat) : Int) (cs "A") exampleFrame
        = some f' ∧
      (∀ i c l, i < (cstr (cs "A")).length → c < 8 → l < 8 →
        f' ((8 + l) * 320 + (16 + 8 * i + c)) = glyphPixel ((cstr (cs "A")).getD i 0) l c) ∧
      (∀ col row, col < 320 → row < 240 →
        ¬ (16 ≤ col ∧ col < 16 + 8 * (cstr (cs "A")).length ∧ 8 ≤ row ∧ row < 8 + 8) →
        f' (row * 320 + col) = exampleFrame (row * 320 + col)) :=
  ⟨by decide, by decide, by decide, by decide, by rfl,
   port_printf_pixels false 16 8 (cs "A") exampleFrame (by decide) (by decide) (by decide)⟩

end Pcsx4all

namespace Pcsx4all

/-! ## The states of the pad that can be reached -/

theorem setBit_lt (pad bit : Nat) : setBit pad bit < 65536 :=
  Nat.mod_lt _ (by norm_num)

theorem clearBit_lt (pad bit : Nat) : clearBit pad bit < 65536 :=
  Nat.mod_lt _ (by norm_num)

theorem foldl_keys_lt (keys : Nat → Bool) (entries : List (Nat × Nat)) : ∀ pad1, pad1 < 65536 →
    entries.foldl (fun p e => if keys e.1 then clearBit p e.2 else setBit p e.2) pad1
      < 65536 := by
  induction entries with
  | nil => intro pad1 h; exact h
  | cons e rest ih =>
    intro pad1 _
    rw [List.foldl_cons]
    apply ih
    split
    · exact clearBit_lt _ _
    · exact setBit_lt _ _

/-- In the default build a call of `pad_update` that returns leaves `pad1`
after the key loop and `pad2` as it was. -/
theorem pad_update_default_returned (k : Keysyms) (b : Build) (env : PadEnv) (s : Port)
    (hb : b.GCW_ZERO = false) (hk : k.NonZero)
    (ho : (pad_update k b env s).outcome = .returned) :
    (pad_update k b env s).s.pad1
      = (keymapEntries k b).foldl
          (fun p e => if env.keys e.1 then clearBit p e.2 else setBit p e.2) s.pad1 ∧
    (pad_update k b env s).s.pad2 = s.pad2 := by
  have hf := pad_keys_eq_foldl env.keys (keymapEntries k b)
    (keymap_default_nonzero k b hb hk) s.pad1
  rw [← (keymap_default k b hb).1] at hf
  cases hp : (poll_events k b env.events false s.g.Config.ShowFps).quit with
  | true =>
    simp only [pad_update, hp, if_true] at ho
    cases ho
  | false =>
    simp only [pad_update, hp, hb, Bool.false_eq_true, if_false, hf, and_self]

/-- The buttons of the default table: every bit of `pad1` but those of L3 and
R3 belongs to an entry. -/
theorem keymap_default_covers (k : Keysyms) (b : Build) (hb : b.GCW_ZERO = false) (i : Nat)
    (hi : i < 16) (h1 : i ≠ DKEY_L3) (h2 : i ≠ DKEY_R3) :
    ∃ e ∈ keymapEntries k b, e.2 = i := by
  rw [(keymap_default k b hb).2]
  simp only [DKEY_L3, DKEY_R3] at h1 h2
  simp only [List.mem_cons, List.mem_singleton, List.not_mem_nil, or_false, exists_eq_or_imp,
    exists_eq_left, DKEY_UP, DKEY_DOWN, DKEY_LEFT, DKEY_RIGHT, DKEY_SQUARE, DKEY_CIRCLE,
    DKEY_TRIANGLE, DKEY_CROSS, DKEY_L1, DKEY_R1, DKEY_L2, DKEY_R2, DKEY_SELECT, DKEY_START]
  omega

/-- What holds in every state that can be reached in the default build. -/
theorem reachable_default (k : Keysyms) (b : Build) (hb : b.GCW_ZERO = false) (hk : k.NonZero)
    (s : Port) (hr : Reachable k b s) :
    s.pad1.testBit DKEY_L3 = true ∧ s.pad1.testBit DKEY_R3 = true ∧ s.pad1 < 65536 ∧
    s.pad2 = 0xffff := by
  induction hr with
  | initial g =>
    have e : (initialPort g).pad1 = 0xffff := rfl
    rw [e]
    exact ⟨by decide, by decide, by decide, rfl⟩
  | settings s g _ ih => exact ih
  | step env s _ ho ih =>
    obtain ⟨e1, e2⟩ := pad_update_default_returned k b env s hb hk ho
    obtain ⟨-, hbits⟩ := keymap_default_bits k b hb
    have hother : ∀ i, i = DKEY_L3 ∨ i = DKEY_R3 → ∀ e ∈ keymapEntries k b, e.2 ≠ i := by
      intro i hi e he
      rw [(keymap_default k b hb).2] at he
      simp only [List.mem_cons, List.mem_singleton, List.not_mem_nil, or_false] at he
      rcases hi with rfl | rfl <;> casesm* _ ∨ _ <;> subst_vars <;> dsimp only <;> decide
    refine ⟨?_, ?_, ?_, ?_⟩
    · rw [e1, foldl_keys_testBit_other env.keys DKEY_L3 (by decide) _
        (hother _ (Or.inl rfl))]
      exact ih.1
    · rw [e1, foldl_keys_testBit_other env.keys DKEY_R3 (by decide) _
        (hother _ (Or.inr rfl))]
      exact ih.2.1
    · rw [e1]
      exact foldl_keys_lt _ _ _ ih.2.2.1
    · rw [e2]
      exact ih.2.2.2

end Pcsx4all

namespace Pcsx4all

/-- C26: in the default build (without `GCW_ZERO`, no key code of the table
being 0), in every state reached from the initial state by calls of
`pad_update` that return, with arbitrary keys and events (and arbitrary changes
of the settings between the calls), the bits of L3 and R3 of `pad1` are set and
`pad_read(n)` returns 0xFFFF for every `n` other than 0. Hence `pad_read(0)`
after a call of `pad_update` that returns is the same from any two such states
when the same keys are down. -/
theorem pad_read_reachable (k : Keysyms) (b : Build) (hb : b.GCW_ZERO = false)
    (hk : k.NonZero) (s s2 : Port) (hr : Reachable k b s) (hr2 : Reachable k b s2) :
    (pad_read s 0).testBit DKEY_L3 = true ∧ (pad_read s 0).testBit DKEY_R3 = true ∧
    (∀ n : Int, n ≠ 0 → pad_read s n = 0xFFFF) ∧
    (∀ env env2 : PadEnv, (∀ key, env.keys key = env2.keys key) →
      (pad_update k b env s).outcome = .returned →
      (pad_update k b env2 s2).outcome = .returned →
      pad_read (pad_update k b env s).s 0 = pad_read (pad_update k b env2 s2).s 0) := by
  obtain ⟨i1, i2, -, i4⟩ := reachable_default k b hb hk s hr
  refine ⟨by simpa only [pad_read, if_true] using i1, by simpa only [pad_read, if_true] using i2,
    ?_, ?_⟩
  · intro n hn
    simp only [pad_read, hn, if_false]
    exact i4
  · intro env env2 hkeys ho ho2
    have r1 := reachable_default k b hb hk _ (Reachable.step env s hr ho)
    have r2 := reachable_default k b hb hk _ (Reachable.step env2 s2 hr2 ho2)
    obtain ⟨e1, -⟩ := pad_update_default_returned k b env s hb hk ho
    obtain ⟨e2, -⟩ := pad_update_default_returned k b env2 s2 hb hk ho2
    obtain ⟨hnd, hbits⟩ := keymap_default_bits k b hb
    simp only [pad_read, if_true]
    apply Nat.eq_of_testBit_eq
    intro i
    by_cases hi : i < 16
    · by_cases h1 : i = DKEY_L3
      · rw [h1, r1.1, r2.1]
      · by_cases h2 : i = DKEY_R3
        · rw [h2, r1.2.1, r2.2.1]
        · obtain ⟨e, he, hei⟩ := keymap_default_covers k b hb i hi h1 h2
          rw [e1, e2, ← hei, foldl_keys_testBit env.keys _ hnd hbits s.pad1 e he,
            foldl_keys_testBit env2.keys _ hnd hbits s2.pad1 e he, hkeys]
    · have hp : (65536 : Nat) ≤ 2 ^ i :=
        le_trans (by norm_num) (Nat.pow_le_pow_right (by norm_num) (Nat.le_of_not_lt hi))
      rw [Nat.testBit_eq_false_of_lt (lt_of_lt_of_le r1.2.2.1 hp),
        Nat.testBit_eq_false_of_lt (lt_of_lt_of_le r2.2.2.1 hp)]

/-- Witness of C26 with the key codes of SDL 1.2: from the initial state and
from the state after a call with Up and `z` down, a call with `x` down gives
the same `pad_read(0)`, 0xDFFF. -/
theorem pad_read_reachable_witness :
    plainBuild.GCW_ZERO = false ∧ sdl12.NonZero ∧
    pad_read (pad_update sdl12 plainBuild (examplePadEnv [273, 122])
      (initialPort zeroGlobals)).s 0 = 0xBFEF ∧
    pad_read (pad_update sdl12 plainBuild (examplePadEnv [120])
      (pad_update sdl12 plainBuild (examplePadEnv [273, 122]) (initialPort zeroGlobals)).s).s 0
      = 0xDFFF ∧
    pad_read (pad_update sdl12 plainBuild (examplePadEnv [120])
      (pad_update sdl12 plainBuild (examplePadEnv [273, 122]) (initialPort zeroGlobals)).s).s 0
      = pad_read (pad_update sdl12 plainBuild (examplePadEnv [120])
          (initialPort zeroGlobals)).s 0 :=
  have hk : sdl12.NonZero := by unfold Keysyms.NonZero; decide
  ⟨rfl, hk, by decide, by decide,
   (pad_read_reachable sdl12 plainBuild rfl hk
      (pad_update sdl12 plainBuild (examplePadEnv [273, 122]) (initialPort zeroGlobals)).s
      (initialPort zeroGlobals)
      (Reachable.step (examplePadEnv [273, 122]) (initialPort zeroGlobals)
        (Reachable.initial zeroGlobals) (by decide))
      (Reachable.initial zeroGlobals)).2.2.2 (examplePadEnv [120]) (examplePadEnv [120])
      (fun _ => rfl) (by decide) (by decide)⟩

end Pcsx4all

namespace Pcsx4all

/-! ## Save-state paths are told apart -/

theorem fmtD_injective (n1 n2 : Int) (h : fmtD n1 = fmtD n2) : n1 = n2 := by
  have e1 := scanDec_fmtD n1 [] (by simp)
  have e2 := scanDec_fmtD n2 [] (by simp)
  rw [List.append_nil] at e1 e2
  rw [h, e2] at e1
  exact (Option.some.inj e1).symm

theorem fmtD_no_dot (v : Int) : 46 ∉ fmtD v := by
  intro hx
  unfold fmtD at hx
  split at hx
  · rcases List.mem_cons.1 hx with h | hx
    · exact absurd h (by decide)
    · have := fmtNat_digits _ 46 hx; omega
  · have := fmtNat_digits _ 46 hx; omega

/-- Two texts cut at their last separator: when the parts behind the
separator do not contain it, equal texts have equal parts. -/
theorem split_at_last (d : Nat) (a : Bytes) :
    ∀ (a' f f' : Bytes), d ∉ f → d ∉ f' → a ++ d :: f = a' ++ d :: f' → a = a' ∧ f = f' := by
  induction a with
  | nil =>
    intro a' f f' hf hf' h
    cases a' with
    | nil =>
      simp only [List.nil_append, List.cons.injEq, true_and] at h
      exact ⟨rfl, h⟩
    | cons x r =>
      simp only [List.nil_append, List.cons_append, List.cons.injEq] at h
      exact absurd (by rw [h.2]; simp) hf
  | cons y a ih =>
    intro a' f f' hf hf' h
    cases a' with
    | nil =>
      simp only [List.nil_append, List.cons_append, List.cons.injEq] at h
      exact absurd (by rw [← h.2]; simp) hf'
    | cons x r =>
      simp only [List.cons_append, List.cons.injEq] at h
      obtain ⟨e1, e2⟩ := ih r f f' hf hf' h.2
      exact ⟨by rw [h.1, e1], e2⟩

end Pcsx4all

namespace Pcsx4all

/-- C27: for a fixed save-states directory the path of a save state tells the
content and the slot. When two pairs of a content identifier (the C string in
`CdromId`) and a slot differ in the identifier or in the slot, and both paths
fit `savename`, the two paths differ, and so does every path that `state_save`
or `state_load` hands to the core for the one pair from every path handed over
for the other. -/
theorem savename_injective (env1 env2 : StateEnv) (n1 n2 : Int) (p1 p2 : Bytes)
    (hdir : env1.sstatesdir = env2.sstatesdir)
    (h1 : savename env1 n1 = some p1) (h2 : savename env2 n2 = some p2)
    (hne : cstr env1.CdromId ≠ cstr env2.CdromId ∨ n1 ≠ n2) :
    p1 ≠ p2 ∧
    ∀ r1 r2, (state_save env1 n1 = some r1 ∨ state_load env1 n1 = some r1) →
      (state_save env2 n2 = some r2 ∨ state_load env2 n2 = some r2) →
      ∀ c1 ∈ r1.calls, ∀ c2 ∈ r2.calls, c1.path ≠ c2.path := by
  have hp : p1 ≠ p2 := by
    intro e
    subst e
    unfold savename at h1 h2
    simp only [] at h1 h2
    split at h1
    · split at h2
      · rw [← h2] at h1
        simp only [Option.some.injEq, hdir, List.append_assoc, List.append_cancel_left_eq] at h1
        have h3 : cstr env1.CdromId ++ 46 :: (fmtD n1 ++ cs ".sav")
            = cstr env2.CdromId ++ 46 :: (fmtD n2 ++ cs ".sav") := h1
        rw [← List.cons_append, ← List.cons_append, ← List.append_assoc,
          ← List.append_assoc] at h3
        have h4 := List.append_cancel_right h3
        obtain ⟨e1, e2⟩ := split_at_last 46 _ _ _ _ (fmtD_no_dot n1) (fmtD_no_dot n2) h4
        rcases hne with hne | hne
        · exact hne e1
        · exact hne (fmtD_injective n1 n2 e2)
      · cases h2
    · cases h1
  refine ⟨hp, ?_⟩
  intro r1 r2 hr1 hr2 c1 hc1 c2 hc2
  have k1 := state_load_save_of_savename env1 n1 p1 h1
  have k2 := state_load_save_of_savename env2 n2 p2 h2
  have e1 : c1.path = p1 := by
    rcases hr1 with hr | hr
    · rw [k1.2] at hr
      cases hr
      simp only [List.mem_singleton] at hc1
      rw [hc1]; rfl
    · rw [k1.1] at hr
      cases hr
      split at hc1
      · simp only [List.mem_cons, List.mem_singleton, List.not_mem_nil, or_false] at hc1
        rcases hc1 with rfl | rfl <;> rfl
      · simp only [List.mem_singleton] at hc1
        rw [hc1]; rfl
  have e2 : c2.path = p2 := by
    rcases hr2 with hr | hr
    · rw [k2.2] at hr
      cases hr
      simp only [List.mem_singleton] at hc2
      rw [hc2]; rfl
    · rw [k2.1] at hr
      cases hr
      split at hc2
      · simp only [List.mem_cons, List.mem_singleton, List.not_mem_nil, or_false] at hc2
        rcases hc2 with rfl | rfl <;> rfl
      · simp only [List.mem_singleton] at hc2
        rw [hc2]; rfl
  rw [e1, e2]
  exact hp

/-- Witness of C27: the discs `SLUS00594` and `SLUS0059` with the slots 0 and
40: the paths `SLUS00594.0.sav` and `SLUS0059.40.sav` differ. -/
theorem savename_injective_witness :
    savename (exampleStateEnv 0 0) 0 = some (cs "/home/user/.pcsx4all/sstates/SLUS00594.0.sav") ∧
    savename { exampleStateEnv 0 0 with CdromId := cs "SLUS0059" } 40
      = some (cs "/home/user/.pcsx4all/sstates/SLUS0059.40.sav") ∧
    cs "/home/user/.pcsx4all/sstates/SLUS00594.0.sav"
      ≠ cs "/home/user/.pcsx4all/sstates/SLUS0059.40.sav" :=
  ⟨by decide, by decide,
   (savename_injective (exampleStateEnv 0 0)
      { exampleStateEnv 0 0 with CdromId := cs "SLUS0059" } 0 40 _ _ rfl
      (by decide) (by decide) (Or.inr (by decide))).1⟩

end Pcsx4all

namespace Pcsx4all

/-- Along a loop that ends normally, `Config.SyncAudio` is 0 at the end when
it was 0 at the start or when the loop took `-syncaudio` as a flag. -/
theorem cli_loop_syncaudio (c : Consts) (b : Build) (args : List Bytes) :
    ∀ (skip : Nat) (s s' : CliState), cli_loop c b args skip s = .done s' →
      (s.g.Config.SyncAudio = 0 ∨ parsedAsFlag c b (cs "-syncaudio") args skip s = true) →
      s'.g.Config.SyncAudio = 0 := by
  induction args with
  | nil =>
    intro skip s s' h hs
    simp only [cli_loop, CliResult.done.injEq] at h
    subst h
    rcases hs with hs | hs
    · exact hs
    · simp [parsedAsFlag] at hs
  | cons a rest ih =>
    intro skip s s' h hs
    cases skip with
    | succ n =>
      simp only [cli_loop] at h
      simp only [parsedAsFlag] at hs
      exact ih n s s' h hs
    | zero =>
      simp only [cli_loop] at h
      simp only [parsedAsFlag] at hs
      cases hb : cli_body c b { arg := a, rest := rest, skipped := 0, s := s } with
      | error e =>
        rw [hb] at h
        cases e <;> simp at h
      | ok x =>
        rw [hb] at h hs
        simp only [] at h hs
        have hk := (cli_body_keeps c b a rest s x hb).1
        refine ih x.skipped x.s s' h ?_
        by_cases ha : a = cs "-syncaudio"
        · left
          rw [hk, if_pos ha]
        · rw [if_neg ha] at hk
          rcases hs with hs | hs
          · left
            rw [hk, hs]
          · simp only [Bool.or_eq_true, beq_iff_eq] at hs
            rcases hs with hs | hs
            · exact absurd hs ha
            · right
              exact hs

end Pcsx4all

namespace Pcsx4all

/-- C28: taking `-syncaudio` as a flag sets `Config.SyncAudio` to 0. For every
configuration file (and every value the settings had before) and every
argument list that the loop works through without a parse error and in which
it takes `-syncaudio` as a flag (`parsedAsFlag`: an argument the loop reads as
a flag, not as the value of the flag before it), `SDL_main` is left with
`Config.SyncAudio = 0`. -/
theorem SDL_main_syncaudio (c : Consts) (b : Build) (env : Env) (home argv0 : Bytes)
    (args : List Bytes) (g0 : Globals) (s : CliState) (hhome : env.home = some home)
    (hdone : cli_loop c b args 0 (cli_start c b env home g0) = .done s)
    (hflag : parsedAsFlag c b (cs "-syncaudio") args 0 (cli_start c b env home g0) = true) :
    (SDL_main c b env (argv0 :: args) g0).g.Config.SyncAudio = 0 := by
  rw [SDL_main_g_of_done c b env home argv0 args g0 s hhome hdone]
  exact cli_loop_syncaudio c b args 0 _ s hdone (Or.inr hflag)

/-- Witness of C28: the file sets `SyncAudio 1` (the value before the loop), the
command line is
`-iso game.bin -syncaudio -frameskip 1`, and `SyncAudio` is 0 at the end. -/
theorem SDL_main_syncaudio_witness :
    (cli_start exampleConsts plainBuild
      (exampleEnv (some (cs "CONFIG_VERSION 1\nSyncAudio 1\n"))) (cs "/home/user")
      zeroGlobals).g.Config.SyncAudio = 1 ∧
    parsedAsFlag exampleConsts plainBuild (cs "-syncaudio")
      [cs "-iso", cs "game.bin", cs "-syncaudio", cs "-frameskip", cs "1"] 0
      (cli_start exampleConsts plainBuild
        (exampleEnv (some (cs "CONFIG_VERSION 1\nSyncAudio 1\n"))) (cs "/home/user")
        zeroGlobals) = true ∧
    (SDL_main exampleConsts plainBuild
      (exampleEnv (some (cs "CONFIG_VERSION 1\nSyncAudio 1\n")))
      [cs "pcsx4all", cs "-iso", cs "game.bin", cs "-syncaudio", cs "-frameskip", cs "1"]
      zeroGlobals).g.Config.SyncAudio = 0 :=
  ⟨by decide, by decide,
   SDL_main_syncaudio exampleConsts plainBuild
     (exampleEnv (some (cs "CONFIG_VERSION 1\nSyncAudio 1\n"))) (cs "/home/user")
     (cs "pcsx4all") [cs "-iso", cs "game.bin", cs "-syncaudio", cs "-frameskip", cs "1"]
     zeroGlobals _ rfl rfl (by decide)⟩

end Pcsx4all
